import Mathlib

/-!
# CH9120 driver: command transport and public interface

A shallow embedding of `src/driver_ch9120.c`.

* The platform functions linked into the handle are function pointers in C.  Here each is an
  optional state transformer over an arbitrary platform state `W`; `none` is a NULL pointer.
* Every call through a linked function is recorded, with its arguments, in a chronological
  trace, so that the order and number of side effects can be stated.
* A call through a NULL function pointer has no defined behaviour in C; the embedding
  returns `none` for it.  `some _` therefore means that the C function returned.
* Memory reached through a `uint8_t *` is a function from the byte offset to the byte stored
  there.  Integers are natural numbers; `uint16_t` arithmetic that can wrap is reduced
  modulo `65536` explicitly.
-/

namespace CH9120

/-- One call through a linked platform function, with the arguments it was given.
A pointer argument of `uart_read` is recorded as its offset into the destination buffer,
a pointer argument of `uart_write` as the `len` bytes found behind it. -/
inductive Event where
  | uart_init
  | uart_deinit
  | uart_read (off : Nat) (len : Nat)
  | uart_flush
  | uart_write (bytes : List Nat) (len : Nat)
  | reset_gpio_init
  | reset_gpio_deinit
  | reset_gpio_write (level : Nat)
  | cfg_gpio_init
  | cfg_gpio_deinit
  | cfg_gpio_write (level : Nat)
  | delay_ms (ms : Nat)
  | debug_print (msg : String)
  deriving DecidableEq, Repr

/-- Platform state together with the calls made so far, oldest first. -/
structure St (W : Type) where
  world : W
  trace : List Event

/-- The handle `ch9120_handle_t`: thirteen linked functions, the `inited` flag and the
128-byte inner buffer `buf`.  `uart_read` yields the bytes it stored behind its pointer
argument; the `uint16_t` it returns is their number. -/
structure Handle (W : Type) where
  uart_init : Option (W → Nat × W)
  uart_deinit : Option (W → Nat × W)
  uart_read : Option (Nat → W → List Nat × W)
  uart_flush : Option (W → Nat × W)
  uart_write : Option (List Nat → Nat → W → Nat × W)
  reset_gpio_init : Option (W → Nat × W)
  reset_gpio_deinit : Option (W → Nat × W)
  reset_gpio_write : Option (Nat → W → Nat × W)
  cfg_gpio_init : Option (W → Nat × W)
  cfg_gpio_deinit : Option (W → Nat × W)
  cfg_gpio_write : Option (Nat → W → Nat × W)
  delay_ms : Option (Nat → W → W)
  debug_print : Option (String → W → W)
  inited : Nat
  buf : Nat → Nat

/-- Default of the overridable header constant `CH9120_UART_PRE_DELAY`. -/
def CH9120_UART_PRE_DELAY : Nat := 50

def CH9120_CMD_CHIP_VERSION : Nat := 0x01
def CH9120_CMD_RESET : Nat := 0x02
def CH9120_CMD_GET_STATUS : Nat := 0x03
def CH9120_CMD_SAVE_TO_EEPROM : Nat := 0x0D
def CH9120_CMD_RUN_AND_RESET : Nat := 0x0E
def CH9120_CMD_EXIT : Nat := 0x5E
def CH9120_CMD_SET_MODE : Nat := 0x10
def CH9120_CMD_SET_IP : Nat := 0x11
def CH9120_CMD_SET_NETMASK : Nat := 0x12
def CH9120_CMD_SET_GATEWAY : Nat := 0x13
def CH9120_CMD_SET_PORT : Nat := 0x14
def CH9120_CMD_SET_DST_IP : Nat := 0x15
def CH9120_CMD_SET_DST_PORT : Nat := 0x16
def CH9120_CMD_RANDOM_PORT : Nat := 0x17
def CH9120_CMD_SET_BAUD : Nat := 0x21
def CH9120_CMD_SET_CONFIG : Nat := 0x22
def CH9120_CMD_SET_TIMEOUT : Nat := 0x23
def CH9120_CMD_SET_DISCONNECT : Nat := 0x24
def CH9120_CMD_SET_LEN : Nat := 0x25
def CH9120_CMD_SET_FLUSH : Nat := 0x26
def CH9120_CMD_DHCP : Nat := 0x33
def CH9120_CMD_GET_MODE : Nat := 0x60
def CH9120_CMD_GET_IP : Nat := 0x61
def CH9120_CMD_GET_NETMASK : Nat := 0x62
def CH9120_CMD_GET_GATEWAY : Nat := 0x63
def CH9120_CMD_GET_PORT : Nat := 0x64
def CH9120_CMD_GET_DST_IP : Nat := 0x65
def CH9120_CMD_GET_DST_PORT : Nat := 0x66
def CH9120_CMD_GET_BAUD : Nat := 0x71
def CH9120_CMD_GET_CONFIG : Nat := 0x72
def CH9120_CMD_GET_TIMEOUT : Nat := 0x73
def CH9120_CMD_GET_DISCONNECT : Nat := 0x74
def CH9120_CMD_GET_LEN : Nat := 0x75
def CH9120_CMD_GET_FLUSH : Nat := 0x76

/-! ## Memory helpers -/

/-- The assignment `m[i] = v`. -/
def store (m : Nat → Nat) (i v : Nat) : Nat → Nat :=
  fun j => if j = i then v else m j

/-- The call `memcpy(&dst[off], src, n)`. -/
def memcpy (dst : Nat → Nat) (off : Nat) (src : Nat → Nat) (n : Nat) : Nat → Nat :=
  fun j => if off ≤ j ∧ j < off + n then src (j - off) else dst j

/-- The `n` bytes found behind a pointer. -/
def bytes (m : Nat → Nat) (n : Nat) : List Nat :=
  (List.range n).map m

/-- A local array holding the listed bytes, seen through a pointer. -/
def ofList (l : List Nat) : Nat → Nat :=
  fun i => l.getD i 0

/-- The `uint16_t` value of `a - b` for `uint16_t` operands. -/
def sub16 (a b : Nat) : Nat :=
  (a % 65536 + 65536 - b % 65536) % 65536

/-! ## Calls through the linked functions -/

variable {W : Type}

def call_uart_init (h : Handle W) (s : St W) : Option (Nat × St W) :=
  match h.uart_init with
  | none => none
  | some f => some ((f s.world).1, ⟨(f s.world).2, s.trace ++ [Event.uart_init]⟩)

def call_uart_deinit (h : Handle W) (s : St W) : Option (Nat × St W) :=
  match h.uart_deinit with
  | none => none
  | some f => some ((f s.world).1, ⟨(f s.world).2, s.trace ++ [Event.uart_deinit]⟩)

def call_uart_read (h : Handle W) (off len : Nat) (s : St W) : Option (List Nat × St W) :=
  match h.uart_read with
  | none => none
  | some f =>
    some ((f len s.world).1, ⟨(f len s.world).2, s.trace ++ [Event.uart_read off len]⟩)

def call_uart_flush (h : Handle W) (s : St W) : Option (Nat × St W) :=
  match h.uart_flush with
  | none => none
  | some f => some ((f s.world).1, ⟨(f s.world).2, s.trace ++ [Event.uart_flush]⟩)

def call_uart_write (h : Handle W) (buf : Nat → Nat) (len : Nat) (s : St W) :
    Option (Nat × St W) :=
  match h.uart_write with
  | none => none
  | some f =>
    some ((f (bytes buf len) len s.world).1,
      ⟨(f (bytes buf len) len s.world).2, s.trace ++ [Event.uart_write (bytes buf len) len]⟩)

def call_reset_gpio_init (h : Handle W) (s : St W) : Option (Nat × St W) :=
  match h.reset_gpio_init with
  | none => none
  | some f => some ((f s.world).1, ⟨(f s.world).2, s.trace ++ [Event.reset_gpio_init]⟩)

def call_reset_gpio_deinit (h : Handle W) (s : St W) : Option (Nat × St W) :=
  match h.reset_gpio_deinit with
  | none => none
  | some f => some ((f s.world).1, ⟨(f s.world).2, s.trace ++ [Event.reset_gpio_deinit]⟩)

def call_reset_gpio_write (h : Handle W) (level : Nat) (s : St W) : Option (Nat × St W) :=
  match h.reset_gpio_write with
  | none => none
  | some f =>
    some ((f level s.world).1, ⟨(f level s.world).2, s.trace ++ [Event.reset_gpio_write level]⟩)

def call_cfg_gpio_init (h : Handle W) (s : St W) : Option (Nat × St W) :=
  match h.cfg_gpio_init with
  | none => none
  | some f => some ((f s.world).1, ⟨(f s.world).2, s.trace ++ [Event.cfg_gpio_init]⟩)

def call_cfg_gpio_deinit (h : Handle W) (s : St W) : Option (Nat × St W) :=
  match h.cfg_gpio_deinit with
  | none => none
  | some f => some ((f s.world).1, ⟨(f s.world).2, s.trace ++ [Event.cfg_gpio_deinit]⟩)

def call_cfg_gpio_write (h : Handle W) (level : Nat) (s : St W) : Option (Nat × St W) :=
  match h.cfg_gpio_write with
  | none => none
  | some f =>
    some ((f level s.world).1, ⟨(f level s.world).2, s.trace ++ [Event.cfg_gpio_write level]⟩)

def call_delay_ms (h : Handle W) (ms : Nat) (s : St W) : Option (St W) :=
  match h.delay_ms with
  | none => none
  | some f => some ⟨f ms s.world, s.trace ++ [Event.delay_ms ms]⟩

def call_debug_print (h : Handle W) (msg : String) (s : St W) : Option (St W) :=
  match h.debug_print with
  | none => none
  | some f => some ⟨f msg s.world, s.trace ++ [Event.debug_print msg]⟩

/-! ## Command transport -/

/-- The poll loop of `a_ch9120_write_check` (`while (t != 0) { ... t--; }`) followed by
the timeout exit after it.  The first argument is the loop counter `t`. -/
def write_check_poll (h : Handle W) : Nat → St W → Option (Nat × St W)
  | 0, s =>
    match call_debug_print h "ch9120: timeout.\n" s with
    | none => none
    | some s1 =>
      match call_cfg_gpio_write h 1 s1 with
      | none => none
      | some r => some (4, r.2)
  | t + 1, s =>
    match call_uart_read h 0 1 s with
    | none => none
    | some rd =>
      match rd.1 with
      | [res] =>
        if res = 0xAA then
          match call_cfg_gpio_write h 1 rd.2 with
          | none => none
          | some r => some (0, r.2)
        else
          match call_debug_print h "ch9120: error.\n" rd.2 with
          | none => none
          | some s1 =>
            match call_cfg_gpio_write h 1 s1 with
            | none => none
            | some r => some (3, r.2)
      | _ =>
        match call_delay_ms h 10 rd.2 with
        | none => none
        | some s1 => write_check_poll h t s1

/-- The function `a_ch9120_write_check`: status, handle and state on return. -/
def a_ch9120_write_check (h : Handle W) (param : Nat → Nat) (len pre_delay timeout : Nat)
    (s : St W) : Option (Nat × Handle W × St W) :=
  if len > 126 then
    match call_debug_print h "ch9120: len is invalid.\n" s with
    | none => none
    | some s1 => some (2, h, s1)
  else
    let h1 : Handle W := { h with buf := memcpy (store (store h.buf 0 0x57) 1 0xAB) 2 param len }
    match call_cfg_gpio_write h1 0 s with
    | none => none
    | some r1 =>
      match call_uart_flush h1 r1.2 with
      | none => none
      | some r2 =>
        match call_uart_write h1 h1.buf (2 + len) r2.2 with
        | none => none
        | some r3 =>
          if r3.1 ≠ 0 then
            match call_debug_print h1 "ch9120: write failed.\n" r3.2 with
            | none => none
            | some s4 =>
              match call_cfg_gpio_write h1 1 s4 with
              | none => none
              | some r5 => some (1, h1, r5.2)
          else
            match (if pre_delay ≠ 0 then call_delay_ms h1 pre_delay r3.2 else some r3.2) with
            | none => none
            | some s4 =>
              match write_check_poll h1 (timeout / 10) s4 with
              | none => none
              | some r => some (r.1, h1, r.2)

/-- The poll loop of `a_ch9120_write_read` followed by the timeout exit after it.  The
arguments after `out_len` are the loop counter `t`, the write position `point` and the
destination memory `out`. -/
def write_read_poll (h : Handle W) (out_len : Nat) :
    Nat → Nat → (Nat → Nat) → St W → Option (Nat × (Nat → Nat) × St W)
  | 0, _, out, s =>
    match call_debug_print h "ch9120: timeout.\n" s with
    | none => none
    | some s1 =>
      match call_cfg_gpio_write h 1 s1 with
      | none => none
      | some r => some (3, out, r.2)
  | t + 1, point, out, s =>
    match call_uart_read h point (sub16 out_len point) s with
    | none => none
    | some rd =>
      let l := rd.1.length
      let out1 := memcpy out point (ofList rd.1) l
      let point1 := if l ≠ 0 then (point + l) % 65536 else point
      if l ≠ 0 ∧ point1 ≥ out_len then
        match call_cfg_gpio_write h 1 rd.2 with
        | none => none
        | some r => some (0, out1, r.2)
      else
        match call_delay_ms h 10 rd.2 with
        | none => none
        | some s1 => write_read_poll h out_len t point1 out1 s1

/-- The function `a_ch9120_write_read`: status, handle, destination memory and state on
return. -/
def a_ch9120_write_read (h : Handle W) (param : Nat → Nat) (len : Nat) (out : Nat → Nat)
    (out_len pre_delay timeout : Nat) (s : St W) :
    Option (Nat × Handle W × (Nat → Nat) × St W) :=
  if len > 126 then
    match call_debug_print h "ch9120: len is invalid.\n" s with
    | none => none
    | some s1 => some (2, h, out, s1)
  else
    let h1 : Handle W := { h with buf := memcpy (store (store h.buf 0 0x57) 1 0xAB) 2 param len }
    match call_cfg_gpio_write h1 0 s with
    | none => none
    | some r1 =>
      match call_uart_flush h1 r1.2 with
      | none => none
      | some r2 =>
        match call_uart_write h1 h1.buf (2 + len) r2.2 with
        | none => none
        | some r3 =>
          if r3.1 ≠ 0 then
            match call_debug_print h1 "ch9120: write failed.\n" r3.2 with
            | none => none
            | some s4 =>
              match call_cfg_gpio_write h1 1 s4 with
              | none => none
              | some r5 => some (1, h1, out, r5.2)
          else
            match (if pre_delay ≠ 0 then call_delay_ms h1 pre_delay r3.2 else some r3.2) with
            | none => none
            | some s4 =>
              match write_read_poll h1 out_len (timeout / 10) 0 out s4 with
              | none => none
              | some r => some (r.1, h1, r.2.1, r.2.2)

/-! ## Public interface

A `handle` argument is `none` for a NULL pointer.  Every function returns its status, the
handle, the caller's output variables and the state.  Local variables handed to the transport
before being assigned (`param`, `buf`) start as zero bytes. -/

/-- The function `ch9120_get_version`; `version` is the memory behind the output pointer. -/
def ch9120_get_version (handle : Option (Handle W)) (version : Nat → Nat) (s : St W) :
    Option (Nat × Option (Handle W) × (Nat → Nat) × St W) :=
  match handle with
  | none => some (2, none, version, s)
  | some h =>
    if h.inited ≠ 1 then some (3, some h, version, s)
    else
      match a_ch9120_write_read h (ofList [CH9120_CMD_CHIP_VERSION]) 1 version 1
          CH9120_UART_PRE_DELAY 1000 s with
      | none => none
      | some r =>
        if r.1 ≠ 0 then some (1, some r.2.1, r.2.2.1, r.2.2.2)
        else some (0, some r.2.1, r.2.2.1, r.2.2.2)

/-- The function `ch9120_reset`. -/
def ch9120_reset (handle : Option (Handle W)) (s : St W) :
    Option (Nat × Option (Handle W) × St W) :=
  match handle with
  | none => some (2, none, s)
  | some h =>
    if h.inited ≠ 1 then some (3, some h, s)
    else
      match a_ch9120_write_check h (ofList [CH9120_CMD_RESET]) 1
          CH9120_UART_PRE_DELAY 1000 s with
      | none => none
      | some r =>
        if r.1 ≠ 0 then some (1, some r.2.1, r.2.2)
        else
          match call_delay_ms r.2.1 1000 r.2.2 with
          | none => none
          | some s1 => some (0, some r.2.1, s1)

/-- The function `ch9120_get_status`; `status` is the caller's variable before the call. -/
def ch9120_get_status (handle : Option (Handle W)) (status : Nat) (s : St W) :
    Option (Nat × Option (Handle W) × Nat × St W) :=
  match handle with
  | none => some (2, none, status, s)
  | some h =>
    if h.inited ≠ 1 then some (3, some h, status, s)
    else
      match a_ch9120_write_read h (ofList [CH9120_CMD_GET_STATUS]) 1 (fun _ => 0) 1
          CH9120_UART_PRE_DELAY 1000 s with
      | none => none
      | some r =>
        if r.1 ≠ 0 then some (1, some r.2.1, status, r.2.2.2)
        else some (0, some r.2.1, r.2.2.1 0, r.2.2.2)

/-- The function `ch9120_save_to_eeprom`. -/
def ch9120_save_to_eeprom (handle : Option (Handle W)) (s : St W) :
    Option (Nat × Option (Handle W) × St W) :=
  match handle with
  | none => some (2, none, s)
  | some h =>
    if h.inited ≠ 1 then some (3, some h, s)
    else
      match a_ch9120_write_check h (ofList [CH9120_CMD_SAVE_TO_EEPROM]) 1
          CH9120_UART_PRE_DELAY 1000 s with
      | none => none
      | some r =>
        if r.1 ≠ 0 then some (1, some r.2.1, r.2.2)
        else some (0, some r.2.1, r.2.2)

/-- The function `ch9120_config_and_reset`. -/
def ch9120_config_and_reset (handle : Option (Handle W)) (s : St W) :
    Option (Nat × Option (Handle W) × St W) :=
  match handle with
  | none => some (2, none, s)
  | some h =>
    if h.inited ≠ 1 then some (3, some h, s)
    else
      match a_ch9120_write_check h (ofList [CH9120_CMD_RUN_AND_RESET]) 1
          CH9120_UART_PRE_DELAY 1000 s with
      | none => none
      | some r =>
        if r.1 ≠ 0 then some (1, some r.2.1, r.2.2)
        else
          match call_delay_ms r.2.1 1000 r.2.2 with
          | none => none
          | some s1 => some (0, some r.2.1, s1)

/-- The function `ch9120_exit`. -/
def ch9120_exit (handle : Option (Handle W)) (s : St W) :
    Option (Nat × Option (Handle W) × St W) :=
  match handle with
  | none => some (2, none, s)
  | some h =>
    if h.inited ≠ 1 then some (3, some h, s)
    else
      match a_ch9120_write_check h (ofList [CH9120_CMD_EXIT]) 1
          CH9120_UART_PRE_DELAY 1000 s with
      | none => none
      | some r =>
        if r.1 ≠ 0 then some (1, some r.2.1, r.2.2)
        else some (0, some r.2.1, r.2.2)

/-- The function `ch9120_set_mode`; the enum value is stored into a `uint8_t`. -/
def ch9120_set_mode (handle : Option (Handle W)) (mode : Nat) (s : St W) :
    Option (Nat × Option (Handle W) × St W) :=
  match handle with
  | none => some (2, none, s)
  | some h =>
    if h.inited ≠ 1 then some (3, some h, s)
    else
      match a_ch9120_write_check h (ofList [CH9120_CMD_SET_MODE, mode % 256]) 2
          CH9120_UART_PRE_DELAY 1000 s with
      | none => none
      | some r =>
        if r.1 ≠ 0 then some (1, some r.2.1, r.2.2)
        else some (0, some r.2.1, r.2.2)

/-- The function `ch9120_get_mode`. -/
def ch9120_get_mode (handle : Option (Handle W)) (mode : Nat) (s : St W) :
    Option (Nat × Option (Handle W) × Nat × St W) :=
  match handle with
  | none => some (2, none, mode, s)
  | some h =>
    if h.inited ≠ 1 then some (3, some h, mode, s)
    else
      match a_ch9120_write_read h (ofList [CH9120_CMD_GET_MODE]) 1 (fun _ => 0) 1
          CH9120_UART_PRE_DELAY 1000 s with
      | none => none
      | some r =>
        if r.1 ≠ 0 then some (1, some r.2.1, mode, r.2.2.2)
        else some (0, some r.2.1, r.2.2.1 0, r.2.2.2)

/-- The function `ch9120_set_ip`; `ip` is the memory behind the `uint8_t[4]` argument. -/
def ch9120_set_ip (handle : Option (Handle W)) (ip : Nat → Nat) (s : St W) :
    Option (Nat × Option (Handle W) × St W) :=
  match handle with
  | none => some (2, none, s)
  | some h =>
    if h.inited ≠ 1 then some (3, some h, s)
    else
      match a_ch9120_write_check h (ofList [CH9120_CMD_SET_IP, ip 0, ip 1, ip 2, ip 3]) 5
          CH9120_UART_PRE_DELAY 1000 s with
      | none => none
      | some r =>
        if r.1 ≠ 0 then some (1, some r.2.1, r.2.2)
        else some (0, some r.2.1, r.2.2)

/-- The function `ch9120_get_ip`. -/
def ch9120_get_ip (handle : Option (Handle W)) (ip : Nat → Nat) (s : St W) :
    Option (Nat × Option (Handle W) × (Nat → Nat) × St W) :=
  match handle with
  | none => some (2, none, ip, s)
  | some h =>
    if h.inited ≠ 1 then some (3, some h, ip, s)
    else
      match a_ch9120_write_read h (ofList [CH9120_CMD_GET_IP]) 1 ip 4
          CH9120_UART_PRE_DELAY 1000 s with
      | none => none
      | some r =>
        if r.1 ≠ 0 then some (1, some r.2.1, r.2.2.1, r.2.2.2)
        else some (0, some r.2.1, r.2.2.1, r.2.2.2)

/-- The function `ch9120_set_subnet_mask`. -/
def ch9120_set_subnet_mask (handle : Option (Handle W)) (mask : Nat → Nat) (s : St W) :
    Option (Nat × Option (Handle W) × St W) :=
  match handle with
  | none => some (2, none, s)
  | some h =>
    if h.inited ≠ 1 then some (3, some h, s)
    else
      match a_ch9120_write_check h
          (ofList [CH9120_CMD_SET_NETMASK, mask 0, mask 1, mask 2, mask 3]) 5
          CH9120_UART_PRE_DELAY 1000 s with
      | none => none
      | some r =>
        if r.1 ≠ 0 then some (1, some r.2.1, r.2.2)
        else some (0, some r.2.1, r.2.2)

/-- The function `ch9120_get_subnet_mask`. -/
def ch9120_get_subnet_mask (handle : Option (Handle W)) (mask : Nat → Nat) (s : St W) :
    Option (Nat × Option (Handle W) × (Nat → Nat) × St W) :=
  match handle with
  | none => some (2, none, mask, s)
  | some h =>
    if h.inited ≠ 1 then some (3, some h, mask, s)
    else
      match a_ch9120_write_read h (ofList [CH9120_CMD_GET_NETMASK]) 1 mask 4
          CH9120_UART_PRE_DELAY 1000 s with
      | none => none
      | some r =>
        if r.1 ≠ 0 then some (1, some r.2.1, r.2.2.1, r.2.2.2)
        else some (0, some r.2.1, r.2.2.1, r.2.2.2)

/-- The function `ch9120_set_gateway`. -/
def ch9120_set_gateway (handle : Option (Handle W)) (ip : Nat → Nat) (s : St W) :
    Option (Nat × Option (Handle W) × St W) :=
  match handle with
  | none => some (2, none, s)
  | some h =>
    if h.inited ≠ 1 then some (3, some h, s)
    else
      match a_ch9120_write_check h (ofList [CH9120_CMD_SET_GATEWAY, ip 0, ip 1, ip 2, ip 3]) 5
          CH9120_UART_PRE_DELAY 1000 s with
      | none => none
      | some r =>
        if r.1 ≠ 0 then some (1, some r.2.1, r.2.2)
        else some (0, some r.2.1, r.2.2)

/-- The function `ch9120_get_gateway`. -/
def ch9120_get_gateway (handle : Option (Handle W)) (ip : Nat → Nat) (s : St W) :
    Option (Nat × Option (Handle W) × (Nat → Nat) × St W) :=
  match handle with
  | none => some (2, none, ip, s)
  | some h =>
    if h.inited ≠ 1 then some (3, some h, ip, s)
    else
      match a_ch9120_write_read h (ofList [CH9120_CMD_GET_GATEWAY]) 1 ip 4
          CH9120_UART_PRE_DELAY 1000 s with
      | none => none
      | some r =>
        if r.1 ≠ 0 then some (1, some r.2.1, r.2.2.1, r.2.2.2)
        else some (0, some r.2.1, r.2.2.1, r.2.2.2)

/-- The function `ch9120_set_source_port`. -/
def ch9120_set_source_port (handle : Option (Handle W)) (num : Nat) (s : St W) :
    Option (Nat × Option (Handle W) × St W) :=
  match handle with
  | none => some (2, none, s)
  | some h =>
    if h.inited ≠ 1 then some (3, some h, s)
    else
      match a_ch9120_write_check h
          (ofList [CH9120_CMD_SET_PORT, (num >>> 0) &&& 0xFF, (num >>> 8) &&& 0xFF]) 3
          CH9120_UART_PRE_DELAY 1000 s with
      | none => none
      | some r =>
        if r.1 ≠ 0 then some (1, some r.2.1, r.2.2)
        else some (0, some r.2.1, r.2.2)

/-- The function `ch9120_get_source_port`. -/
def ch9120_get_source_port (handle : Option (Handle W)) (num : Nat) (s : St W) :
    Option (Nat × Option (Handle W) × Nat × St W) :=
  match handle with
  | none => some (2, none, num, s)
  | some h =>
    if h.inited ≠ 1 then some (3, some h, num, s)
    else
      match a_ch9120_write_read h (ofList [CH9120_CMD_GET_PORT]) 1 (fun _ => 0) 2
          CH9120_UART_PRE_DELAY 1000 s with
      | none => none
      | some r =>
        if r.1 ≠ 0 then some (1, some r.2.1, num, r.2.2.2)
        else some (0, some r.2.1, ((r.2.2.1 1 <<< 8) ||| r.2.2.1 0) % 65536, r.2.2.2)

/-- The function `ch9120_set_dest_ip`. -/
def ch9120_set_dest_ip (handle : Option (Handle W)) (ip : Nat → Nat) (s : St W) :
    Option (Nat × Option (Handle W) × St W) :=
  match handle with
  | none => some (2, none, s)
  | some h =>
    if h.inited ≠ 1 then some (3, some h, s)
    else
      match a_ch9120_write_check h (ofList [CH9120_CMD_SET_DST_IP, ip 0, ip 1, ip 2, ip 3]) 5
          CH9120_UART_PRE_DELAY 1000 s with
      | none => none
      | some r =>
        if r.1 ≠ 0 then some (1, some r.2.1, r.2.2)
        else some (0, some r.2.1, r.2.2)

/-- The function `ch9120_get_dest_ip`. -/
def ch9120_get_dest_ip (handle : Option (Handle W)) (ip : Nat → Nat) (s : St W) :
    Option (Nat × Option (Handle W) × (Nat → Nat) × St W) :=
  match handle with
  | none => some (2, none, ip, s)
  | some h =>
    if h.inited ≠ 1 then some (3, some h, ip, s)
    else
      match a_ch9120_write_read h (ofList [CH9120_CMD_GET_DST_IP]) 1 ip 4
          CH9120_UART_PRE_DELAY 1000 s with
      | none => none
      | some r =>
        if r.1 ≠ 0 then some (1, some r.2.1, r.2.2.1, r.2.2.2)
        else some (0, some r.2.1, r.2.2.1, r.2.2.2)

/-- The function `ch9120_set_dest_port`. -/
def ch9120_set_dest_port (handle : Option (Handle W)) (num : Nat) (s : St W) :
    Option (Nat × Option (Handle W) × St W) :=
  match handle with
  | none => some (2, none, s)
  | some h =>
    if h.inited ≠ 1 then some (3, some h, s)
    else
      match a_ch9120_write_check h
          (ofList [CH9120_CMD_SET_DST_PORT, (num >>> 0) &&& 0xFF, (num >>> 8) &&& 0xFF]) 3
          CH9120_UART_PRE_DELAY 1000 s with
      | none => none
      | some r =>
        if r.1 ≠ 0 then some (1, some r.2.1, r.2.2)
        else some (0, some r.2.1, r.2.2)

/-- The function `ch9120_get_dest_port`. -/
def ch9120_get_dest_port (handle : Option (Handle W)) (num : Nat) (s : St W) :
    Option (Nat × Option (Handle W) × Nat × St W) :=
  match handle with
  | none => some (2, none, num, s)
  | some h =>
    if h.inited ≠ 1 then some (3, some h, num, s)
    else
      match a_ch9120_write_read h (ofList [CH9120_CMD_GET_DST_PORT]) 1 (fun _ => 0) 2
          CH9120_UART_PRE_DELAY 1000 s with
      | none => none
      | some r =>
        if r.1 ≠ 0 then some (1, some r.2.1, num, r.2.2.2)
        else some (0, some r.2.1, ((r.2.2.1 1 <<< 8) ||| r.2.2.1 0) % 65536, r.2.2.2)

/-- The function `ch9120_set_uart_baud`. -/
def ch9120_set_uart_baud (handle : Option (Handle W)) (baud : Nat) (s : St W) :
    Option (Nat × Option (Handle W) × St W) :=
  match handle with
  | none => some (2, none, s)
  | some h =>
    if h.inited ≠ 1 then some (3, some h, s)
    else
      match a_ch9120_write_check h
          (ofList [CH9120_CMD_SET_BAUD, (baud >>> 0) &&& 0xFF, (baud >>> 8) &&& 0xFF,
            (baud >>> 16) &&& 0xFF, (baud >>> 24) &&& 0xFF]) 5
          CH9120_UART_PRE_DELAY 1000 s with
      | none => none
      | some r =>
        if r.1 ≠ 0 then some (1, some r.2.1, r.2.2)
        else some (0, some r.2.1, r.2.2)

/-- The function `ch9120_get_uart_baud`. -/
def ch9120_get_uart_baud (handle : Option (Handle W)) (baud : Nat) (s : St W) :
    Option (Nat × Option (Handle W) × Nat × St W) :=
  match handle with
  | none => some (2, none, baud, s)
  | some h =>
    if h.inited ≠ 1 then some (3, some h, baud, s)
    else
      match a_ch9120_write_read h (ofList [CH9120_CMD_GET_BAUD]) 1 (fun _ => 0) 4
          CH9120_UART_PRE_DELAY 1000 s with
      | none => none
      | some r =>
        if r.1 ≠ 0 then some (1, some r.2.1, baud, r.2.2.2)
        else
          some (0, some r.2.1,
            ((r.2.2.1 0 <<< 0) % 4294967296 ||| (r.2.2.1 1 <<< 8) % 4294967296 |||
              (r.2.2.1 2 <<< 16) % 4294967296 ||| (r.2.2.1 3 <<< 24) % 4294967296) % 4294967296,
            r.2.2.2)

/-- The function `ch9120_set_uart_config`. -/
def ch9120_set_uart_config (handle : Option (Handle W)) (data_bit : Nat) (parity : Nat)
    (stop_bit : Nat) (s : St W) :
    Option (Nat × Option (Handle W) × St W) :=
  match handle with
  | none => some (2, none, s)
  | some h =>
    if h.inited ≠ 1 then some (3, some h, s)
    else
      match a_ch9120_write_check h
          (ofList [CH9120_CMD_SET_CONFIG, stop_bit, parity % 256, data_bit]) 4
          CH9120_UART_PRE_DELAY 1000 s with
      | none => none
      | some r =>
        if r.1 ≠ 0 then some (1, some r.2.1, r.2.2)
        else some (0, some r.2.1, r.2.2)

/-- The function `ch9120_get_uart_config`. -/
def ch9120_get_uart_config (handle : Option (Handle W)) (data_bit parity stop_bit : Nat)
    (s : St W) : Option (Nat × Option (Handle W) × Nat × Nat × Nat × St W) :=
  match handle with
  | none => some (2, none, data_bit, parity, stop_bit, s)
  | some h =>
    if h.inited ≠ 1 then some (3, some h, data_bit, parity, stop_bit, s)
    else
      match a_ch9120_write_read h (ofList [CH9120_CMD_GET_CONFIG]) 1 (fun _ => 0) 3
          CH9120_UART_PRE_DELAY 1000 s with
      | none => none
      | some r =>
        if r.1 ≠ 0 then some (1, some r.2.1, data_bit, parity, stop_bit, r.2.2.2)
        else some (0, some r.2.1, r.2.2.1 2, r.2.2.1 1, r.2.2.1 0, r.2.2.2)

/-- The function `ch9120_set_uart_timeout`. -/
def ch9120_set_uart_timeout (handle : Option (Handle W)) (timeout : Nat) (s : St W) :
    Option (Nat × Option (Handle W) × St W) :=
  match handle with
  | none => some (2, none, s)
  | some h =>
    if h.inited ≠ 1 then some (3, some h, s)
    else
      match a_ch9120_write_check h (ofList [CH9120_CMD_SET_TIMEOUT, timeout, 0x00, 0x00, 0x00]) 5
          CH9120_UART_PRE_DELAY 1000 s with
      | none => none
      | some r =>
        if r.1 ≠ 0 then some (1, some r.2.1, r.2.2)
        else some (0, some r.2.1, r.2.2)

/-- The function `ch9120_get_uart_timeout`. -/
def ch9120_get_uart_timeout (handle : Option (Handle W)) (timeout : Nat → Nat) (s : St W) :
    Option (Nat × Option (Handle W) × (Nat → Nat) × St W) :=
  match handle with
  | none => some (2, none, timeout, s)
  | some h =>
    if h.inited ≠ 1 then some (3, some h, timeout, s)
    else
      match a_ch9120_write_read h (ofList [CH9120_CMD_GET_TIMEOUT]) 1 timeout 1
          CH9120_UART_PRE_DELAY 1000 s with
      | none => none
      | some r =>
        if r.1 ≠ 0 then some (1, some r.2.1, r.2.2.1, r.2.2.2)
        else some (0, some r.2.1, r.2.2.1, r.2.2.2)

/-- The function `ch9120_uart_timeout_convert_to_register`; `reg` is a `uint8_t`. -/
def ch9120_uart_timeout_convert_to_register (handle : Option (Handle W)) (ms : Nat) (reg : Nat)
    (s : St W) : Option (Nat × Option (Handle W) × Nat × St W) :=
  match handle with
  | none => some (2, none, reg, s)
  | some h =>
    if h.inited ≠ 1 then some (3, some h, reg, s)
    else some (0, some h, (ms / 5) % 256, s)

/-- The function `ch9120_uart_timeout_convert_to_data`; `ms` is a `uint16_t`. -/
def ch9120_uart_timeout_convert_to_data (handle : Option (Handle W)) (reg : Nat) (ms : Nat)
    (s : St W) : Option (Nat × Option (Handle W) × Nat × St W) :=
  match handle with
  | none => some (2, none, ms, s)
  | some h =>
    if h.inited ≠ 1 then some (3, some h, ms, s)
    else some (0, some h, (reg * 5) % 65536, s)

/-- The function `ch9120_set_source_port_random`. -/
def ch9120_set_source_port_random (handle : Option (Handle W)) (enable : Nat) (s : St W) :
    Option (Nat × Option (Handle W) × St W) :=
  match handle with
  | none => some (2, none, s)
  | some h =>
    if h.inited ≠ 1 then some (3, some h, s)
    else
      match a_ch9120_write_check h (ofList [CH9120_CMD_RANDOM_PORT, enable % 256]) 2
          CH9120_UART_PRE_DELAY 1000 s with
      | none => none
      | some r =>
        if r.1 ≠ 0 then some (1, some r.2.1, r.2.2)
        else some (0, some r.2.1, r.2.2)

/-- The function `ch9120_set_uart_buffer_length`. -/
def ch9120_set_uart_buffer_length (handle : Option (Handle W)) (len : Nat) (s : St W) :
    Option (Nat × Option (Handle W) × St W) :=
  match handle with
  | none => some (2, none, s)
  | some h =>
    if h.inited ≠ 1 then some (3, some h, s)
    else
      match a_ch9120_write_check h
          (ofList [CH9120_CMD_SET_LEN, (len >>> 0) &&& 0xFF, (len >>> 8) &&& 0xFF,
            (len >>> 16) &&& 0xFF, (len >>> 24) &&& 0xFF]) 5
          CH9120_UART_PRE_DELAY 1000 s with
      | none => none
      | some r =>
        if r.1 ≠ 0 then some (1, some r.2.1, r.2.2)
        else some (0, some r.2.1, r.2.2)

/-- The function `ch9120_get_uart_buffer_length`. -/
def ch9120_get_uart_buffer_length (handle : Option (Handle W)) (len : Nat) (s : St W) :
    Option (Nat × Option (Handle W) × Nat × St W) :=
  match handle with
  | none => some (2, none, len, s)
  | some h =>
    if h.inited ≠ 1 then some (3, some h, len, s)
    else
      match a_ch9120_write_read h (ofList [CH9120_CMD_GET_LEN]) 1 (fun _ => 0) 4
          CH9120_UART_PRE_DELAY 1000 s with
      | none => none
      | some r =>
        if r.1 ≠ 0 then some (1, some r.2.1, len, r.2.2.2)
        else
          some (0, some r.2.1,
            ((r.2.2.1 0 <<< 0) % 4294967296 ||| (r.2.2.1 1 <<< 8) % 4294967296 |||
              (r.2.2.1 2 <<< 16) % 4294967296 ||| (r.2.2.1 3 <<< 24) % 4294967296) % 4294967296,
            r.2.2.2)

/-- The function `ch9120_set_uart_flush`. -/
def ch9120_set_uart_flush (handle : Option (Handle W)) (enable : Nat) (s : St W) :
    Option (Nat × Option (Handle W) × St W) :=
  match handle with
  | none => some (2, none, s)
  | some h =>
    if h.inited ≠ 1 then some (3, some h, s)
    else
      match a_ch9120_write_check h (ofList [CH9120_CMD_SET_FLUSH, enable % 256]) 2
          CH9120_UART_PRE_DELAY 1000 s with
      | none => none
      | some r =>
        if r.1 ≠ 0 then some (1, some r.2.1, r.2.2)
        else some (0, some r.2.1, r.2.2)

/-- The function `ch9120_get_uart_flush`. -/
def ch9120_get_uart_flush (handle : Option (Handle W)) (enable : Nat) (s : St W) :
    Option (Nat × Option (Handle W) × Nat × St W) :=
  match handle with
  | none => some (2, none, enable, s)
  | some h =>
    if h.inited ≠ 1 then some (3, some h, enable, s)
    else
      match a_ch9120_write_read h (ofList [CH9120_CMD_GET_FLUSH]) 1 (fun _ => 0) 1
          CH9120_UART_PRE_DELAY 1000 s with
      | none => none
      | some r =>
        if r.1 ≠ 0 then some (1, some r.2.1, enable, r.2.2.2)
        else some (0, some r.2.1, r.2.2.1 0, r.2.2.2)

/-- The function `ch9120_set_disconnect_with_no_rj45`. -/
def ch9120_set_disconnect_with_no_rj45 (handle : Option (Handle W)) (enable : Nat) (s : St W) :
    Option (Nat × Option (Handle W) × St W) :=
  match handle with
  | none => some (2, none, s)
  | some h =>
    if h.inited ≠ 1 then some (3, some h, s)
    else
      match a_ch9120_write_check h (ofList [CH9120_CMD_SET_DISCONNECT, enable % 256]) 2
          CH9120_UART_PRE_DELAY 1000 s with
      | none => none
      | some r =>
        if r.1 ≠ 0 then some (1, some r.2.1, r.2.2)
        else some (0, some r.2.1, r.2.2)

/-- The function `ch9120_get_disconnect_with_no_rj45`. -/
def ch9120_get_disconnect_with_no_rj45 (handle : Option (Handle W)) (enable : Nat) (s : St W) :
    Option (Nat × Option (Handle W) × Nat × St W) :=
  match handle with
  | none => some (2, none, enable, s)
  | some h =>
    if h.inited ≠ 1 then some (3, some h, enable, s)
    else
      match a_ch9120_write_read h (ofList [CH9120_CMD_GET_DISCONNECT]) 1 (fun _ => 0) 1
          CH9120_UART_PRE_DELAY 1000 s with
      | none => none
      | some r =>
        if r.1 ≠ 0 then some (1, some r.2.1, enable, r.2.2.2)
        else some (0, some r.2.1, r.2.2.1 0, r.2.2.2)

/-- The function `ch9120_set_dhcp`. -/
def ch9120_set_dhcp (handle : Option (Handle W)) (enable : Nat) (s : St W) :
    Option (Nat × Option (Handle W) × St W) :=
  match handle with
  | none => some (2, none, s)
  | some h =>
    if h.inited ≠ 1 then some (3, some h, s)
    else
      match a_ch9120_write_check h (ofList [CH9120_CMD_DHCP, enable % 256]) 2
          CH9120_UART_PRE_DELAY 1000 s with
      | none => none
      | some r =>
        if r.1 ≠ 0 then some (1, some r.2.1, r.2.2)
        else some (0, some r.2.1, r.2.2)

/-- The three roll-back calls of `ch9120_init` after a failed reset-line write; their
return values are discarded. -/
def init_rollback (h : Handle W) (s : St W) : Option (St W) :=
  match call_uart_deinit h s with
  | none => none
  | some r1 =>
    match call_reset_gpio_deinit h r1.2 with
    | none => none
    | some r2 =>
      match call_cfg_gpio_deinit h r2.2 with
      | none => none
      | some r3 => some r3.2

/-- The part of `ch9120_init` after the thirteen NULL checks. -/
def init_sequence (h : Handle W) (s : St W) : Option (Nat × Option (Handle W) × St W) :=
  match call_uart_init h s with
  | none => none
  | some r1 =>
    if r1.1 ≠ 0 then
      match call_debug_print h "ch9120: uart init failed.\n" r1.2 with
      | none => none
      | some s2 => some (1, some h, s2)
    else
      match call_reset_gpio_init h r1.2 with
      | none => none
      | some r2 =>
        if r2.1 ≠ 0 then
          match call_debug_print h "ch9120: reset gpio init failed.\n" r2.2 with
          | none => none
          | some s3 =>
            match call_uart_deinit h s3 with
            | none => none
            | some r4 => some (4, some h, r4.2)
        else
          match call_cfg_gpio_init h r2.2 with
          | none => none
          | some r3 =>
            if r3.1 ≠ 0 then
              match call_debug_print h "ch9120: cfg gpio init failed.\n" r3.2 with
              | none => none
              | some s4 =>
                match call_uart_deinit h s4 with
                | none => none
                | some r5 =>
                  match call_reset_gpio_deinit h r5.2 with
                  | none => none
                  | some r6 => some (5, some h, r6.2)
            else
              match call_reset_gpio_write h 0 r3.2 with
              | none => none
              | some r4 =>
                if r4.1 ≠ 0 then
                  match call_debug_print h "ch9120: cfg gpio write failed.\n" r4.2 with
                  | none => none
                  | some s5 =>
                    match init_rollback h s5 with
                    | none => none
                    | some s6 => some (6, some h, s6)
                else
                  match call_delay_ms h 10 r4.2 with
                  | none => none
                  | some s5 =>
                    match call_reset_gpio_write h 1 s5 with
                    | none => none
                    | some r6 =>
                      if r6.1 ≠ 0 then
                        match call_debug_print h "ch9120: cfg gpio write failed.\n" r6.2 with
                        | none => none
                        | some s7 =>
                          match init_rollback h s7 with
                          | none => none
                          | some s8 => some (6, some h, s8)
                      else
                        match call_delay_ms h 500 r6.2 with
                        | none => none
                        | some s7 => some (0, some { h with inited := 1 }, s7)

/-- The function `ch9120_init`. -/
def ch9120_init (handle : Option (Handle W)) (s : St W) :
    Option (Nat × Option (Handle W) × St W) :=
  match handle with
  | none => some (2, none, s)
  | some h =>
    if h.debug_print.isNone then some (3, some h, s)
    else if h.uart_init.isNone then
      match call_debug_print h "ch9120: uart_init is null.\n" s with
      | none => none
      | some s1 => some (3, some h, s1)
    else if h.uart_deinit.isNone then
      match call_debug_print h "ch9120: uart_deinit is null.\n" s with
      | none => none
      | some s1 => some (3, some h, s1)
    else if h.uart_read.isNone then
      match call_debug_print h "ch9120: uart_read is null.\n" s with
      | none => none
      | some s1 => some (3, some h, s1)
    else if h.uart_write.isNone then
      match call_debug_print h "ch9120: uart_write is null.\n" s with
      | none => none
      | some s1 => some (3, some h, s1)
    else if h.uart_flush.isNone then
      match call_debug_print h "ch9120: uart_flush is null.\n" s with
      | none => none
      | some s1 => some (3, some h, s1)
    else if h.delay_ms.isNone then
      match call_debug_print h "ch9120: delay_ms is null.\n" s with
      | none => none
      | some s1 => some (3, some h, s1)
    else if h.reset_gpio_init.isNone then
      match call_debug_print h "ch9120: reset_gpio_init is null.\n" s with
      | none => none
      | some s1 => some (3, some h, s1)
    else if h.reset_gpio_deinit.isNone then
      match call_debug_print h "ch9120: reset_gpio_deinit is null.\n" s with
      | none => none
      | some s1 => some (3, some h, s1)
    else if h.reset_gpio_write.isNone then
      match call_debug_print h "ch9120: reset_gpio_write is null.\n" s with
      | none => none
      | some s1 => some (3, some h, s1)
    else if h.cfg_gpio_init.isNone then
      match call_debug_print h "ch9120: cfg_gpio_init is null.\n" s with
      | none => none
      | some s1 => some (3, some h, s1)
    else if h.cfg_gpio_deinit.isNone then
      match call_debug_print h "ch9120: cfg_gpio_deinit is null.\n" s with
      | none => none
      | some s1 => some (3, some h, s1)
    else if h.cfg_gpio_write.isNone then
      match call_debug_print h "ch9120: cfg_gpio_write is null.\n" s with
      | none => none
      | some s1 => some (3, some h, s1)
    else init_sequence h s

/-- The function `ch9120_deinit`. -/
def ch9120_deinit (handle : Option (Handle W)) (s : St W) :
    Option (Nat × Option (Handle W) × St W) :=
  match handle with
  | none => some (2, none, s)
  | some h =>
    if h.inited ≠ 1 then some (3, some h, s)
    else
      match a_ch9120_write_check h (ofList [CH9120_CMD_RESET]) 1 CH9120_UART_PRE_DELAY 1000 s with
      | none => none
      | some r =>
        if r.1 ≠ 0 then some (4, some r.2.1, r.2.2)
        else
          match call_delay_ms r.2.1 10 r.2.2 with
          | none => none
          | some s1 =>
            match call_uart_deinit r.2.1 s1 with
            | none => none
            | some r2 =>
              if r2.1 ≠ 0 then
                match call_debug_print r.2.1 "ch9120: uart deinit failed.\n" r2.2 with
                | none => none
                | some s3 => some (1, some r.2.1, s3)
              else
                match call_reset_gpio_deinit r.2.1 r2.2 with
                | none => none
                | some r3 =>
                  if r3.1 ≠ 0 then
                    match call_debug_print r.2.1 "ch9120: reset gpio deinit failed.\n" r3.2 with
                    | none => none
                    | some s4 => some (5, some r.2.1, s4)
                  else
                    match call_cfg_gpio_deinit r.2.1 r3.2 with
                    | none => none
                    | some r4 =>
                      if r4.1 ≠ 0 then
                        match call_debug_print r.2.1 "ch9120: cfg gpio deinit failed.\n" r4.2 with
                        | none => none
                        | some s5 => some (6, some r.2.1, s5)
                      else some (0, some r.2.1, r4.2)

/-- The function `ch9120_write`; `buf` is the memory behind the data pointer. -/
def ch9120_write (handle : Option (Handle W)) (buf : Nat → Nat) (len : Nat) (s : St W) :
    Option (Nat × Option (Handle W) × St W) :=
  match handle with
  | none => some (2, none, s)
  | some h =>
    if h.inited ≠ 1 then some (3, some h, s)
    else
      match call_cfg_gpio_write h 1 s with
      | none => none
      | some r1 =>
        if r1.1 ≠ 0 then
          match call_debug_print h "ch9120: cfg gpio write failed.\n" r1.2 with
          | none => none
          | some s2 => some (1, some h, s2)
        else
          match call_uart_write h buf len r1.2 with
          | none => none
          | some r2 =>
            if r2.1 ≠ 0 then
              match call_debug_print h "ch9120:uart write failed.\n" r2.2 with
              | none => none
              | some s3 => some (1, some h, s3)
            else some (0, some h, r2.2)

/-- The function `ch9120_read`; `buf` is the memory behind the data pointer and `len` the
value of `*len` before the call.  Returns the status, the handle, `buf`, `*len` and the
state. -/
def ch9120_read (handle : Option (Handle W)) (buf : Nat → Nat) (len : Nat) (s : St W) :
    Option (Nat × Option (Handle W) × (Nat → Nat) × Nat × St W) :=
  match handle with
  | none => some (2, none, buf, len, s)
  | some h =>
    if h.inited ≠ 1 then some (3, some h, buf, len, s)
    else
      match call_cfg_gpio_write h 1 s with
      | none => none
      | some r1 =>
        if r1.1 ≠ 0 then
          match call_debug_print h "ch9120: cfg gpio write failed.\n" r1.2 with
          | none => none
          | some s2 => some (1, some h, buf, len, s2)
        else
          match call_uart_read h 0 len r1.2 with
          | none => none
          | some r2 =>
            some (0, some h, memcpy buf 0 (ofList r2.1) r2.1.length, r2.1.length, r2.2)

/-- The function `ch9120_set_command`. -/
def ch9120_set_command (handle : Option (Handle W)) (param : Nat → Nat) (len : Nat)
    (out : Nat → Nat) (out_len pre_delay timeout : Nat) (s : St W) :
    Option (Nat × Option (Handle W) × (Nat → Nat) × St W) :=
  match handle with
  | none => some (2, none, out, s)
  | some h =>
    if h.inited ≠ 1 then some (3, some h, out, s)
    else
      match a_ch9120_write_read h param len out out_len pre_delay timeout s with
      | none => none
      | some r =>
        if r.1 ≠ 0 then some (1, some r.2.1, r.2.2.1, r.2.2.2)
        else some (0, some r.2.1, r.2.2.1, r.2.2.2)

/-! ## Auxiliary notions for the statements -/

/-- All thirteen functions are linked: what `ch9120_init` checks before doing anything. -/
def Handle.linked (h : Handle W) : Bool :=
  h.uart_init.isSome && h.uart_deinit.isSome && h.uart_read.isSome && h.uart_flush.isSome &&
  h.uart_write.isSome && h.reset_gpio_init.isSome && h.reset_gpio_deinit.isSome &&
  h.reset_gpio_write.isSome && h.cfg_gpio_init.isSome && h.cfg_gpio_deinit.isSome &&
  h.cfg_gpio_write.isSome && h.delay_ms.isSome && h.debug_print.isSome

/-- The levels of the `cfg_gpio_write` calls in a trace, in order. -/
def cfgWrites (evs : List Event) : List Nat :=
  evs.filterMap fun e =>
    match e with
    | Event.cfg_gpio_write level => some level
    | _ => none

/-- The `(offset, length)` arguments of the `uart_read` calls in a trace, in order. -/
def uartReads (evs : List Event) : List (Nat × Nat) :=
  evs.filterMap fun e =>
    match e with
    | Event.uart_read off len => some (off, len)
    | _ => none

/-- The arguments of the `delay_ms` calls in a trace, in order. -/
def delays (evs : List Event) : List Nat :=
  evs.filterMap fun e =>
    match e with
    | Event.delay_ms ms => some ms
    | _ => none

/-- The `uart_write` calls in a trace, in order. -/
def uartWrites (evs : List Event) : List (List Nat × Nat) :=
  evs.filterMap fun e =>
    match e with
    | Event.uart_write b len => some (b, len)
    | _ => none

/-- A test double.  Its state is the script of chunks that successive `uart_read` calls
deliver, each cut to the length asked for (nothing once the script is exhausted).
`uart_write` reports `wr`, `cfg_gpio_write` reports `cfg`, every other function reports
success. -/
def scripted (wr cfg inited : Nat) : Handle (List (List Nat)) where
  uart_init := some fun w => (0, w)
  uart_deinit := some fun w => (0, w)
  uart_read := some fun n w => ((w.headD []).take n, w.tail)
  uart_flush := some fun w => (0, w)
  uart_write := some fun _ _ w => (wr, w)
  reset_gpio_init := some fun w => (0, w)
  reset_gpio_deinit := some fun w => (0, w)
  reset_gpio_write := some fun _ w => (0, w)
  cfg_gpio_init := some fun w => (0, w)
  cfg_gpio_deinit := some fun w => (0, w)
  cfg_gpio_write := some fun _ w => (cfg, w)
  delay_ms := some fun _ w => w
  debug_print := some fun _ w => w
  inited := inited
  buf := fun _ => 0

/-- The inner buffer once the header and the payload are in place. -/
def frame_buf (buf param : Nat → Nat) (len : Nat) : Nat → Nat :=
  memcpy (store (store buf 0 0x57) 1 0xAB) 2 param len

/-- The handle once the header and the payload are in its inner buffer. -/
def framed (h : Handle W) (param : Nat → Nat) (len : Nat) : Handle W :=
  { h with buf := frame_buf h.buf param len }

/-- The status of `uart_write` and the state right after it, when `cfg_gpio_write`,
`uart_flush` and `uart_write` are linked to `fc`, `ff` and `fw`. -/
def sent (fc : Nat → W → Nat × W) (ff : W → Nat × W) (fw : List Nat → Nat → W → Nat × W)
    (h : Handle W) (param : Nat → Nat) (len : Nat) (s : St W) : Nat × St W :=
  ((fw (bytes (frame_buf h.buf param len) (2 + len)) (2 + len) (ff (fc 0 s.world).2).2).1,
    ⟨(fw (bytes (frame_buf h.buf param len) (2 + len)) (2 + len) (ff (fc 0 s.world).2).2).2,
      s.trace ++ [Event.cfg_gpio_write 0, Event.uart_flush,
        Event.uart_write (bytes (frame_buf h.buf param len) (2 + len)) (2 + len)]⟩)

/-- The state in which the poll loop is entered: after the optional `delay_ms(pre_delay)`. -/
def settled (fd : Nat → W → W) (pre_delay : Nat) (s : St W) : St W :=
  if pre_delay ≠ 0 then ⟨fd pre_delay s.world, s.trace ++ [Event.delay_ms pre_delay]⟩ else s

/-- The platform state after `n` polls of write-check that each found no byte:
`uart_read(&res, 1)` followed by `delay_ms(10)`, `n` times. -/
def idle_check (fr : Nat → W → List Nat × W) (fd : Nat → W → W) : Nat → W → W
  | 0, w => w
  | n + 1, w => idle_check fr fd n (fd 10 (fr 1 w).2)

/-- The chunks that the first `t` polls of write-read receive when the loop is entered with
write position `point` in platform state `w` and no poll ends it: each poll asks for
`out_len - point` bytes, the position advances by what arrived, and `delay_ms(10)` follows. -/
def arrivals (fr : Nat → W → List Nat × W) (fd : Nat → W → W) (out_len : Nat) :
    Nat → Nat → W → List (List Nat)
  | 0, _, _ => []
  | t + 1, point, w =>
    (fr (sub16 out_len point) w).1 ::
      arrivals fr fd out_len t
        (if (fr (sub16 out_len point) w).1.length ≠ 0
          then (point + (fr (sub16 out_len point) w).1.length) % 65536 else point)
        (fd 10 (fr (sub16 out_len point) w).2)

/-- The calls of `n` polls that each end in the 10 ms sleep: the given `uart_read` call
followed by `delay_ms(10)`, `n` times. -/
def idle_polls (e : Event) : Nat → List Event
  | 0 => []
  | n + 1 => e :: Event.delay_ms 10 :: idle_polls e n

/-- The `(offset, length)` arguments that write-read is to give `uart_read` poll by poll
when `received` bytes have arrived before and the polls receive the listed chunks: each poll
asks for `out_len` minus what has arrived, at the offset equal to what has arrived. -/
def requests (out_len : Nat) : Nat → List (List Nat) → List (Nat × Nat)
  | _, [] => []
  | received, d :: ds => (received, out_len - received) :: requests out_len (received + d.length) ds

/-- The `n` bytes found at offset `off` behind a pointer. -/
def segment (m : Nat → Nat) (off n : Nat) : List Nat :=
  (List.range n).map fun j => m (off + j)

/-- A test double for the life cycle, built on `scripted`: `uart_init`, `reset_gpio_init`,
`cfg_gpio_init`, `reset_gpio_write(0)`, `reset_gpio_write(1)`, `uart_deinit`,
`reset_gpio_deinit` and `cfg_gpio_deinit` report `ui`, `ri`, `ci`, `rw0`, `rw1`, `ud`, `rd`
and `cd`. -/
def staged (ui ri ci rw0 rw1 ud rd cd inited : Nat) : Handle (List (List Nat)) :=
  { scripted 0 0 inited with
    uart_init := some fun w => (ui, w)
    reset_gpio_init := some fun w => (ri, w)
    cfg_gpio_init := some fun w => (ci, w)
    reset_gpio_write := some fun level w => (if level = 0 then rw0 else rw1, w)
    uart_deinit := some fun w => (ud, w)
    reset_gpio_deinit := some fun w => (rd, w)
    cfg_gpio_deinit := some fun w => (cd, w) }

/-- The calls that a poll loop of the transport and the exit after it can make:
`uart_read`, `delay_ms`, `debug_print` and `cfg_gpio_write`. -/
def Event.polling : Event → Bool
  | Event.uart_read _ _ => true
  | Event.delay_ms _ => true
  | Event.debug_print _ => true
  | Event.cfg_gpio_write _ => true
  | _ => false

/-- The calls of a trace that go to one of the three deinit functions, in order. -/
def deinitCalls (evs : List Event) : List Event :=
  evs.filter fun e =>
    match e with
    | Event.uart_deinit => true
    | Event.reset_gpio_deinit => true
    | Event.cfg_gpio_deinit => true
    | _ => false

/-- The bytes of a 16-bit value, least significant first. -/
def le16 (v : Nat) : List Nat :=
  [v % 256, v / 256 % 256]

/-- The bytes of a 32-bit value, least significant first. -/
def le32 (v : Nat) : List Nat :=
  [v % 256, v / 256 % 256, v / 65536 % 256, v / 16777216 % 256]

/-- The platform takes the command `param[0..len)` and answers it with the bytes `resp`:
the `uart_write` of the frame succeeds and, of the polls that write-read then makes for a
response of `out_len` bytes, the first `k` leave the response incomplete and poll `k + 1`,
still within `timeout`, completes it, the chunks received being `resp` in all. -/
def answers (fr : Nat → W → List Nat × W) (fc : Nat → W → Nat × W) (ff : W → Nat × W)
    (fw : List Nat → Nat → W → Nat × W) (fd : Nat → W → W) (h : Handle W)
    (param : Nat → Nat) (len out_len pre_delay timeout : Nat) (s : St W)
    (resp : List Nat) : Prop :=
  (fw (0x57 :: 0xAB :: bytes param len) (2 + len) (ff (fc 0 s.world).2).2).1 = 0 ∧
  resp.length = out_len ∧
  ∃ k, k < timeout / 10 ∧
    ((arrivals fr fd out_len k 0
      (settled fd pre_delay (sent fc ff fw h param len s).2).world).map List.length).sum
        < out_len ∧
    (arrivals fr fd out_len (k + 1) 0
      (settled fd pre_delay (sent fc ff fw h param len s).2).world).flatten = resp

/-- The state of a simulated chip: the address it has stored and the bytes it has sent
that the host has not read yet. -/
structure Chip where
  ip : List Nat
  rx : List Nat

/-- What the simulated chip does with a frame it receives.  With opcode `0x11` it stores the
four bytes that follow and acknowledges with `0xAA`; opcode `0x61` it answers with the
stored address; every other set command, save (`0x0D`) and apply (`0x0E`) it acknowledges
with `0xAA`; anything else it leaves unanswered. -/
def chip_command (frame : List Nat) (c : Chip) : Chip :=
  if frame.take 2 ≠ [0x57, 0xAB] then c
  else if frame.getD 2 0 = 0x11 then ⟨(frame.drop 3).take 4, [0xAA]⟩
  else if frame.getD 2 0 = 0x61 then ⟨c.ip, c.ip⟩
  else if frame.getD 2 0 = 0x0D ∨ frame.getD 2 0 = 0x0E ∨
      (0x10 ≤ frame.getD 2 0 ∧ frame.getD 2 0 ≤ 0x17) ∨
      (0x21 ≤ frame.getD 2 0 ∧ frame.getD 2 0 ≤ 0x26) ∨ frame.getD 2 0 = 0x33 then
    ⟨c.ip, [0xAA]⟩
  else c

/-- A handle linked to the simulated chip: `uart_write` hands the frame to the chip,
`uart_read` takes at most the bytes asked for from what the chip has sent, `uart_flush`
drops what the chip has sent; every function reports success. -/
def sim_chip (inited : Nat) : Handle Chip where
  uart_init := some fun c => (0, c)
  uart_deinit := some fun c => (0, c)
  uart_read := some fun n c => (c.rx.take n, ⟨c.ip, c.rx.drop n⟩)
  uart_flush := some fun c => (0, ⟨c.ip, []⟩)
  uart_write := some fun frame _ c => (0, chip_command frame c)
  reset_gpio_init := some fun c => (0, c)
  reset_gpio_deinit := some fun c => (0, c)
  reset_gpio_write := some fun _ c => (0, c)
  cfg_gpio_init := some fun c => (0, c)
  cfg_gpio_deinit := some fun c => (0, c)
  cfg_gpio_write := some fun _ c => (0, c)
  delay_ms := some fun _ c => c
  debug_print := some fun _ c => c
  inited := inited
  buf := fun _ => 0

/-- The platform takes the command `param[0..len)` and replies with the single byte `b`:
the `uart_write` of the frame succeeds and, of the one-byte polls that write-check then
makes, the first `k` find no single byte and poll `k + 1`, still within `timeout`,
delivers `b`. -/
def replies (fr : Nat → W → List Nat × W) (fc : Nat → W → Nat × W) (ff : W → Nat × W)
    (fw : List Nat → Nat → W → Nat × W) (fd : Nat → W → W) (h : Handle W)
    (param : Nat → Nat) (len pre_delay timeout : Nat) (s : St W) (b : Nat) : Prop :=
  (fw (0x57 :: 0xAB :: bytes param len) (2 + len) (ff (fc 0 s.world).2).2).1 = 0 ∧
  ∃ k, k < timeout / 10 ∧
    (∀ i, i < k → (fr 1 (idle_check fr fd i
      (settled fd pre_delay (sent fc ff fw h param len s).2).world)).1.length ≠ 1) ∧
    (fr 1 (idle_check fr fd k
      (settled fd pre_delay (sent fc ff fw h param len s).2).world)).1 = [b]

/-- A test double for a chip that never answers: `uart_write` succeeds, `uart_read` never
delivers a byte, every other function reports success. -/
def mute (inited : Nat) : Handle Unit where
  uart_init := some fun w => (0, w)
  uart_deinit := some fun w => (0, w)
  uart_read := some fun _ w => ([], w)
  uart_flush := some fun w => (0, w)
  uart_write := some fun _ _ w => (0, w)
  reset_gpio_init := some fun w => (0, w)
  reset_gpio_deinit := some fun w => (0, w)
  reset_gpio_write := some fun _ w => (0, w)
  cfg_gpio_init := some fun w => (0, w)
  cfg_gpio_deinit := some fun w => (0, w)
  cfg_gpio_write := some fun _ w => (0, w)
  delay_ms := some fun _ w => w
  debug_print := some fun _ w => w
  inited := inited
  buf := fun _ => 0

/-- The handle `h` with `cfg_gpio_write` and `uart_flush` replaced by functions that act on
the platform as the linked ones do but report the statuses `rc level w` and `rf w`. -/
def reporting (rc : Nat → W → Nat) (rf : W → Nat) (h : Handle W) : Handle W :=
  { h with
    cfg_gpio_write := h.cfg_gpio_write.map fun f level w => (rc level w, (f level w).2)
    uart_flush := h.uart_flush.map fun f w => (rf w, (f w).2) }

/-! ## Lemmas on the poll loops -/

/-- The poll loop of write-check returns with status 0, 3 or 4, and what it emits is a run
of events without any `cfg_gpio_write` or `uart_write`, closed by one `cfg_gpio_write(1)`. -/
theorem write_check_poll_shape (h : Handle W) {fr fc fd fp}
    (hr : h.uart_read = some fr) (hc : h.cfg_gpio_write = some fc)
    (hd : h.delay_ms = some fd) (hp : h.debug_print = some fp) (t : Nat) (s : St W) :
    ∃ r s1 evs, write_check_poll h t s = some (r, s1) ∧
      s1.trace = s.trace ++ evs ++ [Event.cfg_gpio_write 1] ∧ cfgWrites evs = [] ∧
      uartWrites evs = [] ∧ (r = 0 ∨ r = 3 ∨ r = 4) := by
  induction t generalizing s with
  | zero =>
    simp only [write_check_poll, call_debug_print, call_cfg_gpio_write, hc, hp]
    exact ⟨_, _, [Event.debug_print "ch9120: timeout.\n"], rfl, by simp, by simp [cfgWrites],
      by simp [uartWrites], by simp⟩
  | succ t ih =>
    simp only [write_check_poll, call_uart_read, hr]
    split
    · split
      · simp only [call_cfg_gpio_write, hc]
        exact ⟨_, _, [Event.uart_read 0 1], rfl, by simp, by simp [cfgWrites],
          by simp [uartWrites], by simp⟩
      · simp only [call_debug_print, call_cfg_gpio_write, hc, hp]
        exact ⟨_, _, [Event.uart_read 0 1, Event.debug_print "ch9120: error.\n"], rfl,
          by simp, by simp [cfgWrites], by simp [uartWrites], by simp⟩
    · simp only [call_delay_ms, hd]
      obtain ⟨r, s1, evs, h1, h2, h3, h4, h5⟩ := ih ⟨fd 10 (fr 1 s.world).2,
        s.trace ++ [Event.uart_read 0 1] ++ [Event.delay_ms 10]⟩
      refine ⟨r, s1, [Event.uart_read 0 1, Event.delay_ms 10] ++ evs, h1, ?_, ?_, ?_, h5⟩
      · simp [h2]
      · simp only [cfgWrites] at h3 ⊢
        simp [h3]
      · simp only [uartWrites] at h4 ⊢
        simp [h4]

/-- The poll loop of write-read returns with status 0 or 3, and what it emits is a run of
events without any `cfg_gpio_write` or `uart_write`, closed by one `cfg_gpio_write(1)`. -/
theorem write_read_poll_shape (h : Handle W) {fr fc fd fp}
    (hr : h.uart_read = some fr) (hc : h.cfg_gpio_write = some fc)
    (hd : h.delay_ms = some fd) (hp : h.debug_print = some fp) (out_len t point : Nat)
    (out : Nat → Nat) (s : St W) :
    ∃ r o s1 evs, write_read_poll h out_len t point out s = some (r, o, s1) ∧
      s1.trace = s.trace ++ evs ++ [Event.cfg_gpio_write 1] ∧ cfgWrites evs = [] ∧
      uartWrites evs = [] ∧ (r = 0 ∨ r = 3) := by
  induction t generalizing s point out with
  | zero =>
    simp only [write_read_poll, call_debug_print, call_cfg_gpio_write, hc, hp]
    exact ⟨_, _, _, [Event.debug_print "ch9120: timeout.\n"], rfl, by simp,
      by simp [cfgWrites], by simp [uartWrites], by simp⟩
  | succ t ih =>
    simp only [write_read_poll, call_uart_read, hr]
    by_cases hdone : (fr (sub16 out_len point) s.world).1.length ≠ 0 ∧
        (if (fr (sub16 out_len point) s.world).1.length ≠ 0 then
          (point + (fr (sub16 out_len point) s.world).1.length) % 65536 else point) ≥ out_len
    · rw [if_pos hdone]
      simp only [call_cfg_gpio_write, hc]
      exact ⟨_, _, _, [Event.uart_read point (sub16 out_len point)], rfl, by simp,
        by simp [cfgWrites], by simp [uartWrites], by simp⟩
    · rw [if_neg hdone]
      simp only [call_delay_ms, hd]
      obtain ⟨r, o, s1, evs, h1, h2, h3, h4, h5⟩ := ih _ _
        ⟨fd 10 (fr (sub16 out_len point) s.world).2,
          s.trace ++ [Event.uart_read point (sub16 out_len point)] ++ [Event.delay_ms 10]⟩
      refine ⟨r, o, s1, [Event.uart_read point (sub16 out_len point), Event.delay_ms 10] ++ evs,
        h1, ?_, ?_, ?_, h5⟩
      · simp [h2]
      · simp only [cfgWrites] at h3 ⊢
        simp [h3]
      · simp only [uartWrites] at h4 ⊢
        simp [h4]

/-- The poll loop of write-check when `k` polls report no single byte and the next one
delivers the byte `b`. -/
theorem write_check_poll_ack (h : Handle W) {fr fc fd fp}
    (hr : h.uart_read = some fr) (hc : h.cfg_gpio_write = some fc)
    (hd : h.delay_ms = some fd) (hp : h.debug_print = some fp) (b k t : Nat) (s : St W)
    (hk : k < t)
    (hidle : ∀ i, i < k → (fr 1 (idle_check fr fd i s.world)).1.length ≠ 1)
    (hbyte : (fr 1 (idle_check fr fd k s.world)).1 = [b]) :
    ∃ s1, write_check_poll h t s = some (if b = 0xAA then 0 else 3, s1) ∧
      s1.trace = s.trace ++ idle_polls (Event.uart_read 0 1) k ++ [Event.uart_read 0 1] ++
        (if b = 0xAA then [] else [Event.debug_print "ch9120: error.\n"]) ++
        [Event.cfg_gpio_write 1] := by
  induction k generalizing t s with
  | zero =>
    obtain ⟨t, rfl⟩ : ∃ u, t = u + 1 := ⟨t - 1, by omega⟩
    simp only [idle_check] at hbyte
    simp only [write_check_poll, call_uart_read, hr, hbyte]
    by_cases hb : b = 0xAA
    · simp only [if_pos hb, call_cfg_gpio_write, hc]
      exact ⟨_, rfl, by simp [idle_polls]⟩
    · simp only [if_neg hb, call_debug_print, call_cfg_gpio_write, hc, hp]
      exact ⟨_, rfl, by simp [idle_polls]⟩
  | succ k ih =>
    obtain ⟨t, rfl⟩ : ∃ u, t = u + 1 := ⟨t - 1, by omega⟩
    have h0 := hidle 0 (by omega)
    simp only [idle_check] at h0
    simp only [write_check_poll, call_uart_read, hr]
    split
    · rename_i res heq
      rw [heq] at h0
      simp at h0
    · simp only [call_delay_ms, hd]
      obtain ⟨s1, h1, h2⟩ := ih t ⟨fd 10 (fr 1 s.world).2,
        s.trace ++ [Event.uart_read 0 1] ++ [Event.delay_ms 10]⟩ (by omega)
        (fun i hi => by
          have := hidle (i + 1) (by omega)
          simpa only [idle_check] using this)
        (by simpa only [idle_check] using hbyte)
      exact ⟨s1, h1, by simp [h2, idle_polls]⟩

/-- The poll loop of write-check when none of its `t` polls finds a byte. -/
theorem write_check_poll_idle (h : Handle W) {fr fc fd fp}
    (hr : h.uart_read = some fr) (hc : h.cfg_gpio_write = some fc)
    (hd : h.delay_ms = some fd) (hp : h.debug_print = some fp) (t : Nat) (s : St W)
    (hidle : ∀ i, i < t → (fr 1 (idle_check fr fd i s.world)).1 = []) :
    ∃ s1, write_check_poll h t s = some (4, s1) ∧
      s1.trace = s.trace ++ idle_polls (Event.uart_read 0 1) t ++
        [Event.debug_print "ch9120: timeout.\n", Event.cfg_gpio_write 1] := by
  induction t generalizing s with
  | zero =>
    simp only [write_check_poll, call_debug_print, call_cfg_gpio_write, hc, hp]
    exact ⟨_, rfl, by simp [idle_polls]⟩
  | succ t ih =>
    have h0 := hidle 0 (by omega)
    simp only [idle_check] at h0
    simp only [write_check_poll, call_uart_read, hr, h0, call_delay_ms, hd]
    obtain ⟨s1, h1, h2⟩ := ih ⟨fd 10 (fr 1 s.world).2,
      s.trace ++ [Event.uart_read 0 1] ++ [Event.delay_ms 10]⟩
      (fun i hi => by
        have := hidle (i + 1) (by omega)
        simpa only [idle_check] using this)
    exact ⟨s1, h1, by simp [h2, idle_polls]⟩

theorem memcpy_zero (dst : Nat → Nat) (off : Nat) (src : Nat → Nat) :
    memcpy dst off src 0 = dst := by
  funext j
  have hno : ¬ (off ≤ j ∧ j < off + 0) := by omega
  simp only [memcpy, if_neg hno]

/-- The poll loop of write-read when none of its `t` polls receives anything. -/
theorem write_read_poll_idle (h : Handle W) {fr fc fd fp}
    (hr : h.uart_read = some fr) (hc : h.cfg_gpio_write = some fc)
    (hd : h.delay_ms = some fd) (hp : h.debug_print = some fp) (out_len t point : Nat)
    (out : Nat → Nat) (s : St W)
    (hidle : ∀ d, d ∈ arrivals fr fd out_len t point s.world → d = []) :
    ∃ s1, write_read_poll h out_len t point out s = some (3, out, s1) ∧
      s1.trace = s.trace ++ idle_polls (Event.uart_read point (sub16 out_len point)) t ++
        [Event.debug_print "ch9120: timeout.\n", Event.cfg_gpio_write 1] := by
  induction t generalizing s with
  | zero =>
    simp only [write_read_poll, call_debug_print, call_cfg_gpio_write, hc, hp]
    exact ⟨_, rfl, by simp [idle_polls]⟩
  | succ t ih =>
    have h0 : (fr (sub16 out_len point) s.world).1 = [] :=
      hidle _ (by simp [arrivals])
    simp only [arrivals, h0, List.length_nil, ne_eq, not_true_eq_false, if_false] at hidle
    simp only [write_read_poll, call_uart_read, hr, h0, List.length_nil, ne_eq,
      not_true_eq_false, false_and, if_false, call_delay_ms, hd, memcpy_zero]
    obtain ⟨s1, h1, h2⟩ := ih ⟨fd 10 (fr (sub16 out_len point) s.world).2,
      s.trace ++ [Event.uart_read point (sub16 out_len point)] ++ [Event.delay_ms 10]⟩
      (fun d hd2 => hidle d (List.mem_cons_of_mem _ hd2))
    exact ⟨s1, h1, by simp [h2, idle_polls]⟩

theorem sub16_of_le (a b : Nat) (hab : b ≤ a) (ha : a < 65536) : sub16 a b = a - b := by
  simp only [sub16]
  omega

/-- The poll loop of write-read when what its `t` polls receive stays short of `out_len`:
it times out after exactly `t` reads, and for a `uint16_t` `out_len` each read asks for
`out_len` minus what has arrived, at the offset equal to what has arrived. -/
theorem write_read_poll_short (h : Handle W) {fr fc fd fp}
    (hr : h.uart_read = some fr) (hc : h.cfg_gpio_write = some fc)
    (hd : h.delay_ms = some fd) (hp : h.debug_print = some fp) (out_len t point : Nat)
    (out : Nat → Nat) (s : St W)
    (hshort : point + ((arrivals fr fd out_len t point s.world).map List.length).sum
      < out_len) :
    ∃ o s1 evs, write_read_poll h out_len t point out s = some (3, o, s1) ∧
      s1.trace = s.trace ++ evs ∧ (uartReads evs).length = t ∧
      (out_len < 65536 →
        uartReads evs = requests out_len point (arrivals fr fd out_len t point s.world)) := by
  induction t generalizing s point out with
  | zero =>
    simp only [write_read_poll, call_debug_print, call_cfg_gpio_write, hc, hp]
    exact ⟨_, _, [Event.debug_print "ch9120: timeout.\n", Event.cfg_gpio_write 1], rfl,
      by simp, by simp [uartReads], fun _ => by simp [uartReads, arrivals, requests]⟩
  | succ t ih =>
    rw [arrivals] at hshort
    simp only [List.map_cons, List.sum_cons] at hshort
    have hmod : (point + (fr (sub16 out_len point) s.world).1.length) % 65536 ≤
        point + (fr (sub16 out_len point) s.world).1.length := Nat.mod_le _ _
    have hnot : ¬ ((fr (sub16 out_len point) s.world).1.length ≠ 0 ∧
        (if (fr (sub16 out_len point) s.world).1.length ≠ 0 then
          (point + (fr (sub16 out_len point) s.world).1.length) % 65536 else point)
            ≥ out_len) := by
      intro hcon
      rw [if_pos hcon.1] at hcon
      omega
    rw [write_read_poll]
    simp only [call_uart_read, hr]
    rw [if_neg hnot]
    simp only [call_delay_ms, hd]
    obtain ⟨o, s1, evs, h1, h2, h3, h4⟩ := ih
      (if (fr (sub16 out_len point) s.world).1.length ≠ 0 then
        (point + (fr (sub16 out_len point) s.world).1.length) % 65536 else point)
      (memcpy out point (ofList (fr (sub16 out_len point) s.world).1)
        (fr (sub16 out_len point) s.world).1.length)
      ⟨fd 10 (fr (sub16 out_len point) s.world).2,
        s.trace ++ [Event.uart_read point (sub16 out_len point)] ++ [Event.delay_ms 10]⟩
      (by
        by_cases hl : (fr (sub16 out_len point) s.world).1.length ≠ 0
        · simp only [if_pos hl] at hshort ⊢
          omega
        · simp only [if_neg hl] at hshort ⊢
          omega)
    have hu : uartReads ([Event.uart_read point (sub16 out_len point), Event.delay_ms 10] ++
        evs) = (point, sub16 out_len point) :: uartReads evs := by
      simp [uartReads]
    refine ⟨o, s1, [Event.uart_read point (sub16 out_len point), Event.delay_ms 10] ++ evs,
      h1, by simp [h2], ?_, ?_⟩
    · rw [hu, List.length_cons, h3]
    · intro hol
      have hsub : sub16 out_len point = out_len - point := sub16_of_le _ _ (by omega) hol
      have hp1 : (if (fr (sub16 out_len point) s.world).1.length ≠ 0 then
            (point + (fr (sub16 out_len point) s.world).1.length) % 65536 else point)
          = point + (fr (sub16 out_len point) s.world).1.length := by
        by_cases hl : (fr (sub16 out_len point) s.world).1.length ≠ 0
        · rw [if_pos hl]
          apply Nat.mod_eq_of_lt
          omega
        · rw [if_neg hl]
          omega
      rw [hu, h4 hol, arrivals, requests, hp1, hsub]

theorem segment_add (m : Nat → Nat) (off a b : Nat) :
    segment m off (a + b) = segment m off a ++ segment m (off + a) b := by
  simp only [segment, List.range_add, List.map_append, List.map_map]
  congr 1
  apply List.map_congr_left
  intro j _
  simp [Nat.add_assoc]

theorem segment_congr (m1 m2 : Nat → Nat) (off n : Nat)
    (hsame : ∀ j, j < off + n → m1 j = m2 j) : segment m1 off n = segment m2 off n := by
  simp only [segment]
  apply List.map_congr_left
  intro j hj
  exact hsame _ (by have := List.mem_range.mp hj; omega)

theorem segment_memcpy (dst : Nat → Nat) (off : Nat) (d : List Nat) :
    segment (memcpy dst off (ofList d) d.length) off d.length = d := by
  apply List.ext_getElem
  · simp [segment]
  · intro i h1 h2
    have hin : off ≤ off + i ∧ off + i < off + d.length := by omega
    simp only [segment, List.getElem_map, List.getElem_range, memcpy, if_pos hin, ofList,
      Nat.add_sub_cancel_left]
    exact List.getD_eq_getElem _ _ h2

theorem memcpy_below (dst : Nat → Nat) (off : Nat) (src : Nat → Nat) (n j : Nat)
    (hj : j < off) : memcpy dst off src n j = dst j := by
  have hno : ¬ (off ≤ j ∧ j < off + n) := by omega
  simp only [memcpy, if_neg hno]

theorem bytes_eq_segment (m : Nat → Nat) (n : Nat) : bytes m n = segment m 0 n := by
  simp [bytes, segment]

/-- The poll loop of write-read when `uart_read` never delivers more than it is asked for,
the first `k` polls leave the response incomplete and poll `k + 1` completes it. -/
theorem write_read_poll_fill (h : Handle W) {fr fc fd}
    (hr : h.uart_read = some fr) (hc : h.cfg_gpio_write = some fc)
    (hd : h.delay_ms = some fd) (out_len : Nat) (hol : out_len < 65536)
    (hwb : ∀ n w, (fr n w).1.length ≤ n) (k t point : Nat) (out : Nat → Nat) (s : St W)
    (hk : k < t)
    (hbefore : point + ((arrivals fr fd out_len k point s.world).map List.length).sum
      < out_len)
    (hreach : out_len ≤
      point + ((arrivals fr fd out_len (k + 1) point s.world).map List.length).sum) :
    ∃ o s1 evs, write_read_poll h out_len t point out s = some (0, o, s1) ∧
      s1.trace = s.trace ++ evs ∧
      uartReads evs = requests out_len point (arrivals fr fd out_len (k + 1) point s.world) ∧
      (∀ j, j < point → o j = out j) ∧
      segment o point (out_len - point) =
        (arrivals fr fd out_len (k + 1) point s.world).flatten := by
  induction k generalizing t point out s with
  | zero =>
    obtain ⟨t, rfl⟩ : ∃ u, t = u + 1 := ⟨t - 1, by omega⟩
    simp only [arrivals, List.map_nil, List.sum_nil, List.map_cons, List.sum_cons,
      Nat.add_zero] at hbefore hreach
    have hsub : sub16 out_len point = out_len - point := sub16_of_le _ _ (by omega) hol
    have hle := hwb (sub16 out_len point) s.world
    rw [hsub] at hle hreach
    have hlen : (fr (out_len - point) s.world).1.length = out_len - point := by omega
    have hdone : (fr (out_len - point) s.world).1.length ≠ 0 ∧
        (if (fr (out_len - point) s.world).1.length ≠ 0 then
          (point + (fr (out_len - point) s.world).1.length) % 65536 else point) ≥ out_len := by
      have hl0 : (fr (out_len - point) s.world).1.length ≠ 0 := by omega
      refine ⟨hl0, ?_⟩
      rw [if_pos hl0]
      omega
    simp only [write_read_poll, call_uart_read, hr, hsub, arrivals]
    rw [if_pos hdone]
    simp only [call_cfg_gpio_write, hc]
    refine ⟨_, _, [Event.uart_read point (out_len - point), Event.cfg_gpio_write 1], rfl,
      by simp, by simp [uartReads, requests], ?_, ?_⟩
    · intro j hj
      exact memcpy_below _ _ _ _ _ hj
    · simp only [List.flatten_cons, List.flatten_nil, List.append_nil]
      have hseg := segment_memcpy out point (fr (out_len - point) s.world).1
      rw [hlen] at hseg
      rw [hlen]
      exact hseg
  | succ k ih =>
    obtain ⟨t, rfl⟩ : ∃ u, t = u + 1 := ⟨t - 1, by omega⟩
    have hsub : sub16 out_len point = out_len - point := by
      apply sub16_of_le _ _ _ hol
      omega
    have harr : ∀ n, arrivals fr fd out_len (n + 1) point s.world =
        (fr (out_len - point) s.world).1 :: arrivals fr fd out_len n
          (if (fr (out_len - point) s.world).1.length ≠ 0 then
            (point + (fr (out_len - point) s.world).1.length) % 65536 else point)
          (fd 10 (fr (out_len - point) s.world).2) := by
      intro n
      rw [arrivals, hsub]
    rw [write_read_poll]
    simp only [call_uart_read, hr, hsub, call_delay_ms, hd]
    rw [harr] at hbefore hreach
    rw [harr]
    generalize fr (out_len - point) s.world = rd at *
    obtain ⟨d, w1⟩ := rd
    simp only [List.map_cons, List.sum_cons] at hbefore hreach
    simp only
    have hp1 : (if d.length ≠ 0 then (point + d.length) % 65536 else point)
        = point + d.length := by
      by_cases hl : d.length ≠ 0
      · rw [if_pos hl]
        apply Nat.mod_eq_of_lt
        omega
      · rw [if_neg hl]
        omega
    rw [hp1] at hbefore hreach
    have hnot : ¬ (d.length ≠ 0 ∧ point + d.length ≥ out_len) := by omega
    simp only [hp1]
    rw [if_neg hnot]
    obtain ⟨o, s1, evs, h1, h2, h3, h4, h5⟩ := ih t (point + d.length)
      (memcpy out point (ofList d) d.length)
      ⟨fd 10 w1, s.trace ++ [Event.uart_read point (out_len - point)] ++ [Event.delay_ms 10]⟩
      (by omega) (by simpa [Nat.add_assoc] using hbefore)
      (by simpa [Nat.add_assoc] using hreach)
    refine ⟨o, s1, [Event.uart_read point (out_len - point), Event.delay_ms 10] ++ evs, h1,
      by simp [h2], ?_, ?_, ?_⟩
    · have hu : uartReads ([Event.uart_read point (out_len - point), Event.delay_ms 10] ++ evs)
          = (point, out_len - point) :: uartReads evs := by
        simp [uartReads]
      rw [hu, h3]
      rfl
    · intro j hj
      rw [h4 j (by omega)]
      exact memcpy_below _ _ _ _ _ hj
    · simp only [List.flatten_cons]
      rw [← h5]
      have hsplit : out_len - point = d.length + (out_len - (point + d.length)) := by omega
      rw [hsplit, segment_add]
      congr 1
      · rw [segment_congr o (memcpy out point (ofList d) d.length) point _
          (fun j hj => h4 j hj)]
        exact segment_memcpy _ _ _

/-! ## The transport up to the poll loop -/

theorem write_check_write_failed (h : Handle W) {fc ff fw fp}
    (hc : h.cfg_gpio_write = some fc) (hf : h.uart_flush = some ff)
    (hw : h.uart_write = some fw) (hp : h.debug_print = some fp)
    (param : Nat → Nat) (len pre_delay timeout : Nat) (s : St W) (hlen : len ≤ 126)
    (hfail : (sent fc ff fw h param len s).1 ≠ 0) :
    a_ch9120_write_check h param len pre_delay timeout s =
      some (1, framed h param len,
        ⟨(fc 1 (fp "ch9120: write failed.\n" (sent fc ff fw h param len s).2.world)).2,
          (sent fc ff fw h param len s).2.trace ++
            [Event.debug_print "ch9120: write failed.\n", Event.cfg_gpio_write 1]⟩) := by
  have hlen2 : ¬ len > 126 := by omega
  simp only [sent, frame_buf] at hfail
  simp only [a_ch9120_write_check, hlen2, if_false, call_cfg_gpio_write, call_uart_flush,
    call_uart_write, call_debug_print, hc, hf, hw, hp, if_pos hfail, sent, framed, frame_buf,
    List.append_assoc, List.singleton_append, List.cons_append, List.nil_append]

theorem write_check_write_ok (h : Handle W) {fc ff fw fd}
    (hc : h.cfg_gpio_write = some fc) (hf : h.uart_flush = some ff)
    (hw : h.uart_write = some fw) (hd : h.delay_ms = some fd)
    (param : Nat → Nat) (len pre_delay timeout : Nat) (s : St W) (hlen : len ≤ 126)
    (hok : (sent fc ff fw h param len s).1 = 0) :
    a_ch9120_write_check h param len pre_delay timeout s =
      match write_check_poll (framed h param len) (timeout / 10)
          (settled fd pre_delay (sent fc ff fw h param len s).2) with
      | none => none
      | some r => some (r.1, framed h param len, r.2) := by
  have hlen2 : ¬ len > 126 := by omega
  simp only [sent, frame_buf] at hok
  have hok2 : ¬ (fw (bytes (memcpy (store (store h.buf 0 87) 1 171) 2 param len) (2 + len))
      (2 + len) (ff (fc 0 s.world).2).2).1 ≠ 0 := by simp [hok]
  simp only [a_ch9120_write_check, hlen2, if_false, call_cfg_gpio_write, call_uart_flush,
    call_uart_write, call_delay_ms, hc, hf, hw, hd, if_neg hok2, sent, framed, frame_buf,
    settled, List.append_assoc, List.singleton_append, List.cons_append, List.nil_append]
  by_cases hpd : pre_delay ≠ 0
  · simp only [if_pos hpd, List.append_assoc, List.singleton_append, List.cons_append,
      List.nil_append]
  · simp only [if_neg hpd]

theorem write_read_write_failed (h : Handle W) {fc ff fw fp}
    (hc : h.cfg_gpio_write = some fc) (hf : h.uart_flush = some ff)
    (hw : h.uart_write = some fw) (hp : h.debug_print = some fp)
    (param : Nat → Nat) (len : Nat) (out : Nat → Nat) (out_len pre_delay timeout : Nat)
    (s : St W) (hlen : len ≤ 126) (hfail : (sent fc ff fw h param len s).1 ≠ 0) :
    a_ch9120_write_read h param len out out_len pre_delay timeout s =
      some (1, framed h param len, out,
        ⟨(fc 1 (fp "ch9120: write failed.\n" (sent fc ff fw h param len s).2.world)).2,
          (sent fc ff fw h param len s).2.trace ++
            [Event.debug_print "ch9120: write failed.\n", Event.cfg_gpio_write 1]⟩) := by
  have hlen2 : ¬ len > 126 := by omega
  simp only [sent, frame_buf] at hfail
  simp only [a_ch9120_write_read, hlen2, if_false, call_cfg_gpio_write, call_uart_flush,
    call_uart_write, call_debug_print, hc, hf, hw, hp, if_pos hfail, sent, framed, frame_buf,
    List.append_assoc, List.singleton_append, List.cons_append, List.nil_append]

theorem write_read_write_ok (h : Handle W) {fc ff fw fd}
    (hc : h.cfg_gpio_write = some fc) (hf : h.uart_flush = some ff)
    (hw : h.uart_write = some fw) (hd : h.delay_ms = some fd)
    (param : Nat → Nat) (len : Nat) (out : Nat → Nat) (out_len pre_delay timeout : Nat)
    (s : St W) (hlen : len ≤ 126) (hok : (sent fc ff fw h param len s).1 = 0) :
    a_ch9120_write_read h param len out out_len pre_delay timeout s =
      match write_read_poll (framed h param len) out_len (timeout / 10) 0 out
          (settled fd pre_delay (sent fc ff fw h param len s).2) with
      | none => none
      | some r => some (r.1, framed h param len, r.2.1, r.2.2) := by
  have hlen2 : ¬ len > 126 := by omega
  simp only [sent, frame_buf] at hok
  have hok2 : ¬ (fw (bytes (memcpy (store (store h.buf 0 87) 1 171) 2 param len) (2 + len))
      (2 + len) (ff (fc 0 s.world).2).2).1 ≠ 0 := by simp [hok]
  simp only [a_ch9120_write_read, hlen2, if_false, call_cfg_gpio_write, call_uart_flush,
    call_uart_write, call_delay_ms, hc, hf, hw, hd, if_neg hok2, sent, framed, frame_buf,
    settled, List.append_assoc, List.singleton_append, List.cons_append, List.nil_append]
  by_cases hpd : pre_delay ≠ 0
  · simp only [if_pos hpd, List.append_assoc, List.singleton_append, List.cons_append,
      List.nil_append]
  · simp only [if_neg hpd]

/-- The frame behind the inner buffer is the two header bytes followed by the payload. -/
theorem bytes_frame_buf (buf param : Nat → Nat) (len : Nat) :
    bytes (frame_buf buf param len) (2 + len) = 0x57 :: 0xAB :: bytes param len := by
  apply List.ext_getElem
  · simp [bytes]
    omega
  · intro i h1 h2
    simp only [bytes, List.length_map, List.length_range] at h1
    match i with
    | 0 => simp [bytes, frame_buf, memcpy, store]
    | 1 => simp [bytes, frame_buf, memcpy, store]
    | j + 2 =>
      have hj : j < len := by omega
      simp only [bytes, frame_buf, memcpy, store, List.getElem_map, List.getElem_range,
        List.getElem_cons_succ]
      have hin : 2 ≤ j + 2 ∧ j + 2 < 2 + len := by omega
      simp [hin]

theorem sent_trace (fc : Nat → W → Nat × W) (ff : W → Nat × W)
    (fw : List Nat → Nat → W → Nat × W) (h : Handle W) (param : Nat → Nat) (len : Nat)
    (s : St W) :
    (sent fc ff fw h param len s).2.trace = s.trace ++ [Event.cfg_gpio_write 0,
      Event.uart_flush, Event.uart_write (0x57 :: 0xAB :: bytes param len) (2 + len)] := by
  simp [sent, bytes_frame_buf]

theorem settled_trace (fd : Nat → W → W) (pre_delay : Nat) (s : St W) :
    (settled fd pre_delay s).trace =
      s.trace ++ (if pre_delay ≠ 0 then [Event.delay_ms pre_delay] else []) := by
  by_cases hpd : pre_delay ≠ 0
  · simp [settled, hpd]
  · simp [settled, hpd]

theorem sent_status (fc : Nat → W → Nat × W) (ff : W → Nat × W)
    (fw : List Nat → Nat → W → Nat × W) (h : Handle W) (param : Nat → Nat) (len : Nat)
    (s : St W) :
    (sent fc ff fw h param len s).1 =
      (fw (0x57 :: 0xAB :: bytes param len) (2 + len) (ff (fc 0 s.world).2).2).1 := by
  simp [sent, bytes_frame_buf]

theorem bytes_length (m : Nat → Nat) (n : Nat) : (bytes m n).length = n := by
  simp [bytes]

theorem sub16_zero (a : Nat) : sub16 a 0 = a % 65536 := by
  simp only [sub16]
  omega

theorem arrivals_length (fr : Nat → W → List Nat × W) (fd : Nat → W → W) (out_len t point : Nat)
    (w : W) : (arrivals fr fd out_len t point w).length = t := by
  induction t generalizing point w with
  | zero => rfl
  | succ t ih =>
    rw [arrivals, List.length_cons, ih]

theorem requests_length (out_len received : Nat) (l : List (List Nat)) :
    (requests out_len received l).length = l.length := by
  induction l generalizing received with
  | nil => rfl
  | cons d ds ih =>
    rw [requests, List.length_cons, List.length_cons, ih]

/-! ## The claims -/

/-- C1 (config-enable restoration).  Whenever the length check passes (`len ≤ 126`),
write-check and write-read return, whatever the linked functions do, and among the calls
they made there are exactly two `cfg_gpio_write` calls: the first with level 0, the second
with level 1, and that second one is the last call made before returning. -/
theorem cfg_enable_restored (h : Handle W) {fr fc ff fw fd fp}
    (hr : h.uart_read = some fr) (hc : h.cfg_gpio_write = some fc)
    (hf : h.uart_flush = some ff) (hw : h.uart_write = some fw)
    (hd : h.delay_ms = some fd) (hp : h.debug_print = some fp)
    (param : Nat → Nat) (len : Nat) (out : Nat → Nat) (out_len pre_delay timeout : Nat)
    (s : St W) (hlen : len ≤ 126) :
    (∃ r h1 s1 evs, a_ch9120_write_check h param len pre_delay timeout s = some (r, h1, s1) ∧
      s1.trace = s.trace ++ evs ∧ cfgWrites evs = [0, 1] ∧
      evs.getLast? = some (Event.cfg_gpio_write 1)) ∧
    (∃ r h1 o s1 evs,
      a_ch9120_write_read h param len out out_len pre_delay timeout s = some (r, h1, o, s1) ∧
      s1.trace = s.trace ++ evs ∧ cfgWrites evs = [0, 1] ∧
      evs.getLast? = some (Event.cfg_gpio_write 1)) := by
  constructor
  · by_cases hst : (sent fc ff fw h param len s).1 ≠ 0
    · rw [write_check_write_failed h hc hf hw hp param len pre_delay timeout s hlen hst]
      refine ⟨_, _, _, [Event.cfg_gpio_write 0, Event.uart_flush,
        Event.uart_write (0x57 :: 0xAB :: bytes param len) (2 + len),
        Event.debug_print "ch9120: write failed.\n", Event.cfg_gpio_write 1], rfl, ?_, ?_, ?_⟩
      · simp only [sent_trace, List.append_assoc, List.cons_append, List.nil_append]
      · simp [cfgWrites]
      · simp
    · have hok : (sent fc ff fw h param len s).1 = 0 := by omega
      rw [write_check_write_ok h hc hf hw hd param len pre_delay timeout s hlen hok]
      obtain ⟨r, s1, evs, h1, h2, h3, _, _⟩ :=
        write_check_poll_shape (framed h param len)
          hr hc hd hp (timeout / 10) (settled fd pre_delay (sent fc ff fw h param len s).2)
      rw [h1]
      refine ⟨_, _, _, [Event.cfg_gpio_write 0, Event.uart_flush,
        Event.uart_write (0x57 :: 0xAB :: bytes param len) (2 + len)] ++
        (if pre_delay ≠ 0 then [Event.delay_ms pre_delay] else []) ++ evs ++
        [Event.cfg_gpio_write 1], rfl, ?_, ?_, ?_⟩
      · simp only [h2, settled_trace, sent_trace, List.append_assoc]
      · simp only [cfgWrites] at h3 ⊢
        by_cases hpd : pre_delay ≠ 0 <;> simp [hpd, h3]
      · exact List.getLast?_concat _
  · by_cases hst : (sent fc ff fw h param len s).1 ≠ 0
    · rw [write_read_write_failed h hc hf hw hp param len out out_len pre_delay timeout s hlen
        hst]
      refine ⟨_, _, _, _, [Event.cfg_gpio_write 0, Event.uart_flush,
        Event.uart_write (0x57 :: 0xAB :: bytes param len) (2 + len),
        Event.debug_print "ch9120: write failed.\n", Event.cfg_gpio_write 1], rfl, ?_, ?_, ?_⟩
      · simp only [sent_trace, List.append_assoc, List.cons_append, List.nil_append]
      · simp [cfgWrites]
      · simp
    · have hok : (sent fc ff fw h param len s).1 = 0 := by omega
      rw [write_read_write_ok h hc hf hw hd param len out out_len pre_delay timeout s hlen hok]
      obtain ⟨r, o, s1, evs, h1, h2, h3, _, _⟩ :=
        write_read_poll_shape (framed h param len)
          hr hc hd hp out_len (timeout / 10) 0 out
          (settled fd pre_delay (sent fc ff fw h param len s).2)
      rw [h1]
      refine ⟨_, _, _, _, [Event.cfg_gpio_write 0, Event.uart_flush,
        Event.uart_write (0x57 :: 0xAB :: bytes param len) (2 + len)] ++
        (if pre_delay ≠ 0 then [Event.delay_ms pre_delay] else []) ++ evs ++
        [Event.cfg_gpio_write 1], rfl, ?_, ?_, ?_⟩
      · simp only [h2, settled_trace, sent_trace, List.append_assoc]
      · simp only [cfgWrites] at h3 ⊢
        by_cases hpd : pre_delay ≠ 0 <;> simp [hpd, h3]
      · exact List.getLast?_concat _

/-- Witness of C1: a platform whose first poll finds nothing and whose second poll
delivers the acknowledgement. -/
theorem cfg_enable_restored_witness :
    (1 : Nat) ≤ 126 ∧
    ((∃ r h1 s1 evs, a_ch9120_write_check (scripted 0 0 1) (ofList [0x02]) 1 50 30
        ⟨[[], [0xAA]], []⟩ = some (r, h1, s1) ∧
      s1.trace = [] ++ evs ∧ cfgWrites evs = [0, 1] ∧
      evs.getLast? = some (Event.cfg_gpio_write 1)) ∧
    (∃ r h1 o s1 evs, a_ch9120_write_read (scripted 0 0 1) (ofList [0x02]) 1 (fun _ => 0) 1 50 30
        ⟨[[], [0xAA]], []⟩ = some (r, h1, o, s1) ∧
      s1.trace = [] ++ evs ∧ cfgWrites evs = [0, 1] ∧
      evs.getLast? = some (Event.cfg_gpio_write 1))) :=
  ⟨by decide, cfg_enable_restored (scripted 0 0 1) rfl rfl rfl rfl rfl rfl (ofList [0x02]) 1
    (fun _ => 0) 1 50 30 ⟨[[], [0xAA]], []⟩ (by decide)⟩

/-- C2 (frame-length boundary).  With a payload length of exactly 126 both primitives pass
the length check (the status is not 2) and hand `uart_write` a frame of 128 bytes, the
header followed by the 126 payload bytes.  With any length above 126 both return status 2
having called nothing but `debug_print`: no `cfg_gpio_write`, `uart_flush`, `uart_write`,
`uart_read` or `delay_ms`; the handle, its inner buffer included, and the destination
memory are unchanged. -/
theorem frame_length_boundary (h : Handle W) {fr fc ff fw fd fp}
    (hr : h.uart_read = some fr) (hc : h.cfg_gpio_write = some fc)
    (hf : h.uart_flush = some ff) (hw : h.uart_write = some fw)
    (hd : h.delay_ms = some fd) (hp : h.debug_print = some fp)
    (param : Nat → Nat) (out : Nat → Nat) (out_len pre_delay timeout : Nat) (s : St W) :
    (∃ r h1 s1 rest, a_ch9120_write_check h param 126 pre_delay timeout s = some (r, h1, s1) ∧
      r ≠ 2 ∧ (0x57 :: 0xAB :: bytes param 126).length = 128 ∧
      s1.trace = s.trace ++ [Event.cfg_gpio_write 0, Event.uart_flush,
        Event.uart_write (0x57 :: 0xAB :: bytes param 126) 128] ++ rest) ∧
    (∃ r h1 o s1 rest,
      a_ch9120_write_read h param 126 out out_len pre_delay timeout s = some (r, h1, o, s1) ∧
      r ≠ 2 ∧ (0x57 :: 0xAB :: bytes param 126).length = 128 ∧
      s1.trace = s.trace ++ [Event.cfg_gpio_write 0, Event.uart_flush,
        Event.uart_write (0x57 :: 0xAB :: bytes param 126) 128] ++ rest) ∧
    (∀ len, 126 < len →
      a_ch9120_write_check h param len pre_delay timeout s =
        some (2, h, ⟨fp "ch9120: len is invalid.\n" s.world,
          s.trace ++ [Event.debug_print "ch9120: len is invalid.\n"]⟩)) ∧
    (∀ len, 126 < len →
      a_ch9120_write_read h param len out out_len pre_delay timeout s =
        some (2, h, out, ⟨fp "ch9120: len is invalid.\n" s.world,
          s.trace ++ [Event.debug_print "ch9120: len is invalid.\n"]⟩)) := by
  have h126 : (126 : Nat) ≤ 126 := le_refl _
  refine ⟨?_, ?_, ?_, ?_⟩
  · by_cases hst : (sent fc ff fw h param 126 s).1 ≠ 0
    · rw [write_check_write_failed h hc hf hw hp param 126 pre_delay timeout s h126 hst]
      refine ⟨_, _, _, [Event.debug_print "ch9120: write failed.\n", Event.cfg_gpio_write 1],
        rfl, by decide, by simp [bytes_length], ?_⟩
      simp only [sent_trace, List.append_assoc, List.cons_append, List.nil_append]
    · have hok : (sent fc ff fw h param 126 s).1 = 0 := by omega
      rw [write_check_write_ok h hc hf hw hd param 126 pre_delay timeout s h126 hok]
      obtain ⟨r, s1, evs, h1, h2, _, _, h5⟩ :=
        write_check_poll_shape (framed h param 126)
          hr hc hd hp (timeout / 10) (settled fd pre_delay (sent fc ff fw h param 126 s).2)
      rw [h1]
      refine ⟨_, _, _, (if pre_delay ≠ 0 then [Event.delay_ms pre_delay] else []) ++ evs ++
        [Event.cfg_gpio_write 1], rfl, by omega, by simp [bytes_length], ?_⟩
      simp only [h2, settled_trace, sent_trace, List.append_assoc]
  · by_cases hst : (sent fc ff fw h param 126 s).1 ≠ 0
    · rw [write_read_write_failed h hc hf hw hp param 126 out out_len pre_delay timeout s h126
        hst]
      refine ⟨_, _, _, _, [Event.debug_print "ch9120: write failed.\n",
        Event.cfg_gpio_write 1], rfl, by decide, by simp [bytes_length], ?_⟩
      simp only [sent_trace, List.append_assoc, List.cons_append, List.nil_append]
    · have hok : (sent fc ff fw h param 126 s).1 = 0 := by omega
      rw [write_read_write_ok h hc hf hw hd param 126 out out_len pre_delay timeout s h126 hok]
      obtain ⟨r, o, s1, evs, h1, h2, _, _, h5⟩ :=
        write_read_poll_shape (framed h param 126)
          hr hc hd hp out_len (timeout / 10) 0 out
          (settled fd pre_delay (sent fc ff fw h param 126 s).2)
      rw [h1]
      refine ⟨_, _, _, _, (if pre_delay ≠ 0 then [Event.delay_ms pre_delay] else []) ++ evs ++
        [Event.cfg_gpio_write 1], rfl, by omega, by simp [bytes_length], ?_⟩
      simp only [h2, settled_trace, sent_trace, List.append_assoc]
  · intro len hlen
    have hgt : len > 126 := hlen
    simp only [a_ch9120_write_check, if_pos hgt, call_debug_print, hp]
  · intro len hlen
    have hgt : len > 126 := hlen
    simp only [a_ch9120_write_read, if_pos hgt, call_debug_print, hp]

/-- Witness of C2 on the test double, with a payload of 126 bytes `7`. -/
theorem frame_length_boundary_witness :
    (∃ r h1 s1 rest, a_ch9120_write_check (scripted 0 0 1) (fun _ => 7) 126 50 1000
        ⟨[[0xAA]], []⟩ = some (r, h1, s1) ∧
      r ≠ 2 ∧ (0x57 :: 0xAB :: bytes (fun _ => 7) 126).length = 128 ∧
      s1.trace = [] ++ [Event.cfg_gpio_write 0, Event.uart_flush,
        Event.uart_write (0x57 :: 0xAB :: bytes (fun _ => 7) 126) 128] ++ rest) ∧
    (∃ r h1 o s1 rest, a_ch9120_write_read (scripted 0 0 1) (fun _ => 7) 126 (fun _ => 0) 4 50
        1000 ⟨[[0xAA]], []⟩ = some (r, h1, o, s1) ∧
      r ≠ 2 ∧ (0x57 :: 0xAB :: bytes (fun _ => 7) 126).length = 128 ∧
      s1.trace = [] ++ [Event.cfg_gpio_write 0, Event.uart_flush,
        Event.uart_write (0x57 :: 0xAB :: bytes (fun _ => 7) 126) 128] ++ rest) ∧
    (∀ len, 126 < len →
      a_ch9120_write_check (scripted 0 0 1) (fun _ => 7) len 50 1000 ⟨[[0xAA]], []⟩ =
        some (2, scripted 0 0 1, ⟨[[0xAA]], [] ++ [Event.debug_print "ch9120: len is invalid.\n"]⟩)) ∧
    (∀ len, 126 < len →
      a_ch9120_write_read (scripted 0 0 1) (fun _ => 7) len (fun _ => 0) 4 50 1000
          ⟨[[0xAA]], []⟩ =
        some (2, scripted 0 0 1, fun _ => 0,
          ⟨[[0xAA]], [] ++ [Event.debug_print "ch9120: len is invalid.\n"]⟩)) :=
  frame_length_boundary (scripted 0 0 1) rfl rfl rfl rfl rfl rfl (fun _ => 7) (fun _ => 0) 4 50
    1000 ⟨[[0xAA]], []⟩

/-- C7 (command framing and order of side effects).  For every payload and every
`len ≤ 126`, the calls made by write-check and by write-read begin with `cfg_gpio_write(0)`,
`uart_flush()` and one `uart_write` whose buffer is `0x57`, `0xAB` and then the `len` payload
bytes, with length argument `len + 2`; nothing precedes them (so no `uart_read` or `delay_ms`
comes before the write) and no other `uart_write` follows. -/
theorem command_framing (h : Handle W) {fr fc ff fw fd fp}
    (hr : h.uart_read = some fr) (hc : h.cfg_gpio_write = some fc)
    (hf : h.uart_flush = some ff) (hw : h.uart_write = some fw)
    (hd : h.delay_ms = some fd) (hp : h.debug_print = some fp)
    (param : Nat → Nat) (len : Nat) (out : Nat → Nat) (out_len pre_delay timeout : Nat)
    (s : St W) (hlen : len ≤ 126) :
    (∃ r h1 s1 rest, a_ch9120_write_check h param len pre_delay timeout s = some (r, h1, s1) ∧
      s1.trace = s.trace ++ [Event.cfg_gpio_write 0, Event.uart_flush,
        Event.uart_write (0x57 :: 0xAB :: bytes param len) (len + 2)] ++ rest ∧
      uartWrites rest = []) ∧
    (∃ r h1 o s1 rest,
      a_ch9120_write_read h param len out out_len pre_delay timeout s = some (r, h1, o, s1) ∧
      s1.trace = s.trace ++ [Event.cfg_gpio_write 0, Event.uart_flush,
        Event.uart_write (0x57 :: 0xAB :: bytes param len) (len + 2)] ++ rest ∧
      uartWrites rest = []) := by
  have hcomm : len + 2 = 2 + len := by omega
  rw [hcomm]
  constructor
  · by_cases hst : (sent fc ff fw h param len s).1 ≠ 0
    · rw [write_check_write_failed h hc hf hw hp param len pre_delay timeout s hlen hst]
      refine ⟨_, _, _, [Event.debug_print "ch9120: write failed.\n", Event.cfg_gpio_write 1],
        rfl, ?_, by simp [uartWrites]⟩
      simp only [sent_trace, List.append_assoc, List.cons_append, List.nil_append]
    · have hok : (sent fc ff fw h param len s).1 = 0 := by omega
      rw [write_check_write_ok h hc hf hw hd param len pre_delay timeout s hlen hok]
      obtain ⟨r, s1, evs, h1, h2, _, h4, _⟩ :=
        write_check_poll_shape (framed h param len) hr hc hd hp (timeout / 10)
          (settled fd pre_delay (sent fc ff fw h param len s).2)
      rw [h1]
      refine ⟨_, _, _, (if pre_delay ≠ 0 then [Event.delay_ms pre_delay] else []) ++ evs ++
        [Event.cfg_gpio_write 1], rfl, ?_, ?_⟩
      · simp only [h2, settled_trace, sent_trace, List.append_assoc]
      · simp only [uartWrites] at h4 ⊢
        by_cases hpd : pre_delay ≠ 0 <;> simp [hpd, h4]
  · by_cases hst : (sent fc ff fw h param len s).1 ≠ 0
    · rw [write_read_write_failed h hc hf hw hp param len out out_len pre_delay timeout s hlen
        hst]
      refine ⟨_, _, _, _, [Event.debug_print "ch9120: write failed.\n",
        Event.cfg_gpio_write 1], rfl, ?_, by simp [uartWrites]⟩
      simp only [sent_trace, List.append_assoc, List.cons_append, List.nil_append]
    · have hok : (sent fc ff fw h param len s).1 = 0 := by omega
      rw [write_read_write_ok h hc hf hw hd param len out out_len pre_delay timeout s hlen hok]
      obtain ⟨r, o, s1, evs, h1, h2, _, h4, _⟩ :=
        write_read_poll_shape (framed h param len) hr hc hd hp out_len (timeout / 10) 0 out
          (settled fd pre_delay (sent fc ff fw h param len s).2)
      rw [h1]
      refine ⟨_, _, _, _, (if pre_delay ≠ 0 then [Event.delay_ms pre_delay] else []) ++ evs ++
        [Event.cfg_gpio_write 1], rfl, ?_, ?_⟩
      · simp only [h2, settled_trace, sent_trace, List.append_assoc]
      · simp only [uartWrites] at h4 ⊢
        by_cases hpd : pre_delay ≠ 0 <;> simp [hpd, h4]

/-- Witness of C7: the set-IP payload for 10.0.0.5 on the test double. -/
theorem command_framing_witness :
    (5 : Nat) ≤ 126 ∧
    ((∃ r h1 s1 rest, a_ch9120_write_check (scripted 0 0 1) (ofList [0x11, 10, 0, 0, 5]) 5 50
        1000 ⟨[[0xAA]], []⟩ = some (r, h1, s1) ∧
      s1.trace = [] ++ [Event.cfg_gpio_write 0, Event.uart_flush,
        Event.uart_write (0x57 :: 0xAB :: bytes (ofList [0x11, 10, 0, 0, 5]) 5) (5 + 2)] ++
          rest ∧
      uartWrites rest = []) ∧
    (∃ r h1 o s1 rest, a_ch9120_write_read (scripted 0 0 1) (ofList [0x11, 10, 0, 0, 5]) 5
        (fun _ => 0) 1 50 1000 ⟨[[0xAA]], []⟩ = some (r, h1, o, s1) ∧
      s1.trace = [] ++ [Event.cfg_gpio_write 0, Event.uart_flush,
        Event.uart_write (0x57 :: 0xAB :: bytes (ofList [0x11, 10, 0, 0, 5]) 5) (5 + 2)] ++
          rest ∧
      uartWrites rest = [])) :=
  ⟨by decide, command_framing (scripted 0 0 1) rfl rfl rfl rfl rfl rfl
    (ofList [0x11, 10, 0, 0, 5]) 5 (fun _ => 0) 1 50 1000 ⟨[[0xAA]], []⟩ (by decide)⟩

/-- C10 (UART write failure).  With `len ≤ 126`, if the `uart_write` call returns a
non-zero status, write-check and write-read return 1, and the calls they made are exactly
`cfg_gpio_write(0)`, `uart_flush`, `uart_write`, `debug_print`, `cfg_gpio_write(1)`: no
`delay_ms` (not even the pre-delay) and no `uart_read`. -/
theorem uart_write_failure (h : Handle W) {fc ff fw fp}
    (hc : h.cfg_gpio_write = some fc) (hf : h.uart_flush = some ff)
    (hw : h.uart_write = some fw) (hp : h.debug_print = some fp)
    (param : Nat → Nat) (len : Nat) (out : Nat → Nat) (out_len pre_delay timeout : Nat)
    (s : St W) (hlen : len ≤ 126)
    (hfail : (fw (0x57 :: 0xAB :: bytes param len) (2 + len) (ff (fc 0 s.world).2).2).1 ≠ 0) :
    (∃ h1 s1, a_ch9120_write_check h param len pre_delay timeout s = some (1, h1, s1) ∧
      s1.trace = s.trace ++ [Event.cfg_gpio_write 0, Event.uart_flush,
        Event.uart_write (0x57 :: 0xAB :: bytes param len) (2 + len),
        Event.debug_print "ch9120: write failed.\n", Event.cfg_gpio_write 1]) ∧
    (∃ h1 s1,
      a_ch9120_write_read h param len out out_len pre_delay timeout s = some (1, h1, out, s1) ∧
      s1.trace = s.trace ++ [Event.cfg_gpio_write 0, Event.uart_flush,
        Event.uart_write (0x57 :: 0xAB :: bytes param len) (2 + len),
        Event.debug_print "ch9120: write failed.\n", Event.cfg_gpio_write 1]) := by
  have hst : (sent fc ff fw h param len s).1 ≠ 0 := by rw [sent_status]; exact hfail
  constructor
  · rw [write_check_write_failed h hc hf hw hp param len pre_delay timeout s hlen hst]
    refine ⟨_, _, rfl, ?_⟩
    simp only [sent_trace, List.append_assoc, List.cons_append, List.nil_append]
  · rw [write_read_write_failed h hc hf hw hp param len out out_len pre_delay timeout s hlen hst]
    refine ⟨_, _, rfl, ?_⟩
    simp only [sent_trace, List.append_assoc, List.cons_append, List.nil_append]

/-- Witness of C10: the test double whose `uart_write` reports status 1. -/
theorem uart_write_failure_witness :
    (1 : Nat) ≤ 126 ∧
    ((∃ h1 s1, a_ch9120_write_check (scripted 1 0 1) (ofList [0x02]) 1 50 1000 ⟨[[0xAA]], []⟩ =
        some (1, h1, s1) ∧
      s1.trace = [] ++ [Event.cfg_gpio_write 0, Event.uart_flush,
        Event.uart_write (0x57 :: 0xAB :: bytes (ofList [0x02]) 1) (2 + 1),
        Event.debug_print "ch9120: write failed.\n", Event.cfg_gpio_write 1]) ∧
    (∃ h1 s1, a_ch9120_write_read (scripted 1 0 1) (ofList [0x02]) 1 (fun _ => 0) 1 50 1000
        ⟨[[0xAA]], []⟩ = some (1, h1, fun _ => 0, s1) ∧
      s1.trace = [] ++ [Event.cfg_gpio_write 0, Event.uart_flush,
        Event.uart_write (0x57 :: 0xAB :: bytes (ofList [0x02]) 1) (2 + 1),
        Event.debug_print "ch9120: write failed.\n", Event.cfg_gpio_write 1])) :=
  ⟨by decide, uart_write_failure (scripted 1 0 1) rfl rfl rfl rfl (ofList [0x02]) 1 (fun _ => 0)
    1 50 1000 ⟨[[0xAA]], []⟩ (by decide) (by decide)⟩

/-- C3 (ack discrimination).  Let write-check be called with `len ≤ 126` and let
`uart_write` succeed.  If the first `k` polls report no single byte and poll `k + 1`, one of
the `timeout / 10` polls allowed (so `timeout ≥ 10`), delivers the byte `b`, then the result
is 0 when `b = 0xAA` and 3 otherwise, and in both cases that poll is the last `uart_read`:
the calls made are the frame write, the optional pre-delay, the `k` idle polls, that one
read, and the release of config-enable (preceded by `debug_print` in the error case). -/
theorem ack_discrimination (h : Handle W) {fr fc ff fw fd fp}
    (hr : h.uart_read = some fr) (hc : h.cfg_gpio_write = some fc)
    (hf : h.uart_flush = some ff) (hw : h.uart_write = some fw)
    (hd : h.delay_ms = some fd) (hp : h.debug_print = some fp)
    (param : Nat → Nat) (len pre_delay timeout : Nat) (s : St W) (hlen : len ≤ 126)
    (hok : (fw (0x57 :: 0xAB :: bytes param len) (2 + len) (ff (fc 0 s.world).2).2).1 = 0)
    (b k : Nat) (hk : k < timeout / 10)
    (hidle : ∀ i, i < k → (fr 1 (idle_check fr fd i
      (settled fd pre_delay (sent fc ff fw h param len s).2).world)).1.length ≠ 1)
    (hbyte : (fr 1 (idle_check fr fd k
      (settled fd pre_delay (sent fc ff fw h param len s).2).world)).1 = [b]) :
    10 ≤ timeout ∧
    ∃ h1 s1, a_ch9120_write_check h param len pre_delay timeout s =
        some (if b = 0xAA then 0 else 3, h1, s1) ∧
      s1.trace = s.trace ++ [Event.cfg_gpio_write 0, Event.uart_flush,
          Event.uart_write (0x57 :: 0xAB :: bytes param len) (2 + len)] ++
        (if pre_delay ≠ 0 then [Event.delay_ms pre_delay] else []) ++
        idle_polls (Event.uart_read 0 1) k ++ [Event.uart_read 0 1] ++
        (if b = 0xAA then [] else [Event.debug_print "ch9120: error.\n"]) ++
        [Event.cfg_gpio_write 1] := by
  refine ⟨by omega, ?_⟩
  have hst : (sent fc ff fw h param len s).1 = 0 := by rw [sent_status]; exact hok
  rw [write_check_write_ok h hc hf hw hd param len pre_delay timeout s hlen hst]
  obtain ⟨s1, h1, h2⟩ := write_check_poll_ack (framed h param len) hr hc hd hp b k
    (timeout / 10) (settled fd pre_delay (sent fc ff fw h param len s).2) hk hidle hbyte
  rw [h1]
  refine ⟨_, _, rfl, ?_⟩
  simp only [h2, settled_trace, sent_trace, List.append_assoc]

/-- Witness of C3: the second poll delivers the stray byte `0x01`, the script holds an
acknowledgement after it that is never read. -/
theorem ack_discrimination_witness :
    10 ≤ 1000 ∧
    ∃ h1 s1, a_ch9120_write_check (scripted 0 0 1) (ofList [0x02]) 1 50 1000
        ⟨[[], [0x01], [0xAA]], []⟩ = some (if 0x01 = 0xAA then 0 else 3, h1, s1) ∧
      s1.trace = [] ++ [Event.cfg_gpio_write 0, Event.uart_flush,
          Event.uart_write (0x57 :: 0xAB :: bytes (ofList [0x02]) 1) (2 + 1)] ++
        (if 50 ≠ 0 then [Event.delay_ms 50] else []) ++
        idle_polls (Event.uart_read 0 1) 1 ++ [Event.uart_read 0 1] ++
        (if 0x01 = 0xAA then [] else [Event.debug_print "ch9120: error.\n"]) ++
        [Event.cfg_gpio_write 1] :=
  ack_discrimination (scripted 0 0 1) rfl rfl rfl rfl rfl rfl (ofList [0x02]) 1 50 1000
    ⟨[[], [0x01], [0xAA]], []⟩ (by decide) (by decide) 0x01 1 (by decide)
    (fun i hi => by
      have hi0 : i = 0 := by omega
      subst hi0
      decide)
    (by decide)

/-- C9 (bounded polling and timeout).  Let `len ≤ 126` and let `uart_write` succeed.
If every poll of write-check finds nothing, write-check makes exactly `timeout / 10`
one-byte `uart_read` calls, each followed by `delay_ms(10)`, then releases config-enable and
returns 4.  If every poll of write-read receives nothing, write-read makes exactly
`timeout / 10` `uart_read` calls, each followed by `delay_ms(10)`, and returns 3.  And
write-read returns 3, after exactly `timeout / 10` reads, whenever the bytes received by its
`timeout / 10` polls are fewer than `out_len`. -/
theorem bounded_polling (h : Handle W) {fr fc ff fw fd fp}
    (hr : h.uart_read = some fr) (hc : h.cfg_gpio_write = some fc)
    (hf : h.uart_flush = some ff) (hw : h.uart_write = some fw)
    (hd : h.delay_ms = some fd) (hp : h.debug_print = some fp)
    (param : Nat → Nat) (len : Nat) (out : Nat → Nat) (out_len pre_delay timeout : Nat)
    (s : St W) (hlen : len ≤ 126)
    (hok : (fw (0x57 :: 0xAB :: bytes param len) (2 + len) (ff (fc 0 s.world).2).2).1 = 0) :
    ((∀ i, i < timeout / 10 → (fr 1 (idle_check fr fd i
        (settled fd pre_delay (sent fc ff fw h param len s).2).world)).1 = []) →
      ∃ h1 s1, a_ch9120_write_check h param len pre_delay timeout s = some (4, h1, s1) ∧
        s1.trace = s.trace ++ [Event.cfg_gpio_write 0, Event.uart_flush,
            Event.uart_write (0x57 :: 0xAB :: bytes param len) (2 + len)] ++
          (if pre_delay ≠ 0 then [Event.delay_ms pre_delay] else []) ++
          idle_polls (Event.uart_read 0 1) (timeout / 10) ++
          [Event.debug_print "ch9120: timeout.\n", Event.cfg_gpio_write 1]) ∧
    ((∀ d, d ∈ arrivals fr fd out_len (timeout / 10) 0
        (settled fd pre_delay (sent fc ff fw h param len s).2).world → d = []) →
      ∃ h1 s1, a_ch9120_write_read h param len out out_len pre_delay timeout s =
          some (3, h1, out, s1) ∧
        s1.trace = s.trace ++ [Event.cfg_gpio_write 0, Event.uart_flush,
            Event.uart_write (0x57 :: 0xAB :: bytes param len) (2 + len)] ++
          (if pre_delay ≠ 0 then [Event.delay_ms pre_delay] else []) ++
          idle_polls (Event.uart_read 0 (out_len % 65536)) (timeout / 10) ++
          [Event.debug_print "ch9120: timeout.\n", Event.cfg_gpio_write 1]) ∧
    (((arrivals fr fd out_len (timeout / 10) 0
        (settled fd pre_delay (sent fc ff fw h param len s).2).world).map List.length).sum
          < out_len →
      ∃ h1 o s1 evs, a_ch9120_write_read h param len out out_len pre_delay timeout s =
          some (3, h1, o, s1) ∧
        s1.trace = s.trace ++ evs ∧ (uartReads evs).length = timeout / 10) := by
  have hst : (sent fc ff fw h param len s).1 = 0 := by rw [sent_status]; exact hok
  refine ⟨?_, ?_, ?_⟩
  · intro hidle
    rw [write_check_write_ok h hc hf hw hd param len pre_delay timeout s hlen hst]
    obtain ⟨s1, h1, h2⟩ := write_check_poll_idle (framed h param len) hr hc hd hp
      (timeout / 10) (settled fd pre_delay (sent fc ff fw h param len s).2) hidle
    rw [h1]
    refine ⟨_, _, rfl, ?_⟩
    simp only [h2, settled_trace, sent_trace, List.append_assoc]
  · intro hidle
    rw [write_read_write_ok h hc hf hw hd param len out out_len pre_delay timeout s hlen hst]
    obtain ⟨s1, h1, h2⟩ := write_read_poll_idle (framed h param len) hr hc hd hp out_len
      (timeout / 10) 0 out (settled fd pre_delay (sent fc ff fw h param len s).2) hidle
    rw [h1]
    refine ⟨_, _, rfl, ?_⟩
    simp only [h2, settled_trace, sent_trace, sub16_zero, List.append_assoc]
  · intro hshort
    rw [write_read_write_ok h hc hf hw hd param len out out_len pre_delay timeout s hlen hst]
    obtain ⟨o, s1, evs, h1, h2, h3, _⟩ := write_read_poll_short (framed h param len) hr hc hd
      hp out_len (timeout / 10) 0 out (settled fd pre_delay (sent fc ff fw h param len s).2)
      (by simpa using hshort)
    rw [h1]
    refine ⟨_, _, _, [Event.cfg_gpio_write 0, Event.uart_flush,
      Event.uart_write (0x57 :: 0xAB :: bytes param len) (2 + len)] ++
      (if pre_delay ≠ 0 then [Event.delay_ms pre_delay] else []) ++ evs, rfl, ?_, ?_⟩
    · simp only [h2, settled_trace, sent_trace, List.append_assoc]
    · simp only [uartReads] at h3 ⊢
      by_cases hpd : pre_delay ≠ 0 <;> simp [hpd, h3]

/-- Witness of C9 with a 30 ms timeout (three polls): a platform that never answers, and
for the last part a platform that delivers three of the four bytes asked for. -/
theorem bounded_polling_witness :
    (∃ h1 s1, a_ch9120_write_check (scripted 0 0 1) (ofList [0x02]) 1 0 30 ⟨[], []⟩ =
        some (4, h1, s1) ∧
      s1.trace = [] ++ [Event.cfg_gpio_write 0, Event.uart_flush,
          Event.uart_write (0x57 :: 0xAB :: bytes (ofList [0x02]) 1) (2 + 1)] ++
        (if 0 ≠ 0 then [Event.delay_ms 0] else []) ++
        idle_polls (Event.uart_read 0 1) (30 / 10) ++
        [Event.debug_print "ch9120: timeout.\n", Event.cfg_gpio_write 1]) ∧
    (∃ h1 s1, a_ch9120_write_read (scripted 0 0 1) (ofList [0x61]) 1 (fun _ => 0) 4 0 30
        ⟨[], []⟩ = some (3, h1, fun _ => 0, s1) ∧
      s1.trace = [] ++ [Event.cfg_gpio_write 0, Event.uart_flush,
          Event.uart_write (0x57 :: 0xAB :: bytes (ofList [0x61]) 1) (2 + 1)] ++
        (if 0 ≠ 0 then [Event.delay_ms 0] else []) ++
        idle_polls (Event.uart_read 0 (4 % 65536)) (30 / 10) ++
        [Event.debug_print "ch9120: timeout.\n", Event.cfg_gpio_write 1]) ∧
    (∃ h1 o s1 evs, a_ch9120_write_read (scripted 0 0 1) (ofList [0x61]) 1 (fun _ => 0) 4 0 30
        ⟨[[10], [], [0, 0]], []⟩ = some (3, h1, o, s1) ∧
      s1.trace = [] ++ evs ∧ (uartReads evs).length = 30 / 10) :=
  ⟨(bounded_polling (scripted 0 0 1) rfl rfl rfl rfl rfl rfl (ofList [0x02]) 1 (fun _ => 0) 4 0
      30 ⟨[], []⟩ (by decide) (by decide)).1
      (fun i hi => by
        have hi3 : i < 3 := hi
        interval_cases i <;> rfl),
    (bounded_polling (scripted 0 0 1) rfl rfl rfl rfl rfl rfl (ofList [0x61]) 1 (fun _ => 0) 4 0
      30 ⟨[], []⟩ (by decide) (by decide)).2.1
      (fun d hd => by
        have hd2 : d ∈ [[], [], []] := hd
        simpa using hd2),
    (bounded_polling (scripted 0 0 1) rfl rfl rfl rfl rfl rfl (ofList [0x61]) 1 (fun _ => 0) 4 0
      30 ⟨[[10], [], [0, 0]], []⟩ (by decide) (by decide)).2.2 (by decide)⟩

/-- C8 (write-read accumulation).  Let `len ≤ 126`, let `uart_write` succeed, let `out_len`
be a `uint16_t` and let `uart_read` never deliver more bytes than it is asked for.
First part: if the bytes received by the first `k` polls are fewer than `out_len` (so
`out_len ≥ 1`) and poll `k + 1`, one of the `timeout / 10` polls allowed, brings the running
total to `out_len`, then write-read returns 0; the `uart_read` calls are exactly those
`k + 1` polls (none follows), each asking for `out_len` minus the bytes already received at
the offset equal to the bytes already received; and `out[0..out_len)` holds the received
chunks concatenated in arrival order.  Second part: when the total stays below `out_len`
the polls ask for the same lengths at the same offsets. -/
theorem write_read_accumulation (h : Handle W) {fr fc ff fw fd fp}
    (hr : h.uart_read = some fr) (hc : h.cfg_gpio_write = some fc)
    (hf : h.uart_flush = some ff) (hw : h.uart_write = some fw)
    (hd : h.delay_ms = some fd) (hp : h.debug_print = some fp)
    (param : Nat → Nat) (len : Nat) (out : Nat → Nat) (out_len pre_delay timeout : Nat)
    (s : St W) (hlen : len ≤ 126)
    (hok : (fw (0x57 :: 0xAB :: bytes param len) (2 + len) (ff (fc 0 s.world).2).2).1 = 0)
    (hol : out_len < 65536) (hwb : ∀ n w, (fr n w).1.length ≤ n) :
    (∀ k, k < timeout / 10 →
      ((arrivals fr fd out_len k 0
        (settled fd pre_delay (sent fc ff fw h param len s).2).world).map List.length).sum
          < out_len →
      out_len ≤ ((arrivals fr fd out_len (k + 1) 0
        (settled fd pre_delay (sent fc ff fw h param len s).2).world).map List.length).sum →
      ∃ h1 o s1 evs,
        a_ch9120_write_read h param len out out_len pre_delay timeout s =
          some (0, h1, o, s1) ∧
        s1.trace = s.trace ++ evs ∧
        uartReads evs = requests out_len 0 (arrivals fr fd out_len (k + 1) 0
          (settled fd pre_delay (sent fc ff fw h param len s).2).world) ∧
        (uartReads evs).length = k + 1 ∧
        bytes o out_len = (arrivals fr fd out_len (k + 1) 0
          (settled fd pre_delay (sent fc ff fw h param len s).2).world).flatten) ∧
    (((arrivals fr fd out_len (timeout / 10) 0
        (settled fd pre_delay (sent fc ff fw h param len s).2).world).map List.length).sum
          < out_len →
      ∃ h1 o s1 evs,
        a_ch9120_write_read h param len out out_len pre_delay timeout s =
          some (3, h1, o, s1) ∧
        s1.trace = s.trace ++ evs ∧
        uartReads evs = requests out_len 0 (arrivals fr fd out_len (timeout / 10) 0
          (settled fd pre_delay (sent fc ff fw h param len s).2).world)) := by
  have hst : (sent fc ff fw h param len s).1 = 0 := by rw [sent_status]; exact hok
  have hreads : ∀ evs, uartReads ([Event.cfg_gpio_write 0, Event.uart_flush,
      Event.uart_write (0x57 :: 0xAB :: bytes param len) (2 + len)] ++
      (if pre_delay ≠ 0 then [Event.delay_ms pre_delay] else []) ++ evs) = uartReads evs := by
    intro evs
    by_cases hpd : pre_delay ≠ 0 <;> simp [uartReads, hpd]
  rw [write_read_write_ok h hc hf hw hd param len out out_len pre_delay timeout s hlen hst]
  constructor
  · intro k hk hbefore hreach
    obtain ⟨o, s1, evs, h1, h2, h3, _, h5⟩ := write_read_poll_fill (framed h param len) hr hc
      hd out_len hol hwb k (timeout / 10) 0 out
      (settled fd pre_delay (sent fc ff fw h param len s).2) hk
      (by simpa using hbefore) (by simpa using hreach)
    rw [h1]
    refine ⟨_, _, _, [Event.cfg_gpio_write 0, Event.uart_flush,
      Event.uart_write (0x57 :: 0xAB :: bytes param len) (2 + len)] ++
      (if pre_delay ≠ 0 then [Event.delay_ms pre_delay] else []) ++ evs, rfl, ?_, ?_, ?_, ?_⟩
    · simp only [h2, settled_trace, sent_trace, List.append_assoc]
    · rw [hreads, h3]
    · rw [hreads, h3, requests_length, arrivals_length]
    · rw [bytes_eq_segment, ← h5, Nat.sub_zero]
  · intro hshort
    obtain ⟨o, s1, evs, h1, h2, _, h4⟩ := write_read_poll_short (framed h param len) hr hc hd
      hp out_len (timeout / 10) 0 out (settled fd pre_delay (sent fc ff fw h param len s).2)
      (by simpa using hshort)
    rw [h1]
    refine ⟨_, _, _, [Event.cfg_gpio_write 0, Event.uart_flush,
      Event.uart_write (0x57 :: 0xAB :: bytes param len) (2 + len)] ++
      (if pre_delay ≠ 0 then [Event.delay_ms pre_delay] else []) ++ evs, rfl, ?_, ?_⟩
    · simp only [h2, settled_trace, sent_trace, List.append_assoc]
    · rw [hreads, h4 hol]

/-- Witness of C8: a four-byte response arriving as one byte, nothing, then three bytes;
and, with a 30 ms timeout, the same response missing its last byte. -/
theorem write_read_accumulation_witness :
    (∃ h1 o s1 evs,
      a_ch9120_write_read (scripted 0 0 1) (ofList [0x61]) 1 (fun _ => 0) 4 50 1000
        ⟨[[10], [], [0, 0, 5]], []⟩ = some (0, h1, o, s1) ∧
      s1.trace = [] ++ evs ∧
      uartReads evs = requests 4 0 [[10], [], [0, 0, 5]] ∧
      (uartReads evs).length = 2 + 1 ∧
      bytes o 4 = [[10], [], [0, 0, 5]].flatten) ∧
    (∃ h1 o s1 evs,
      a_ch9120_write_read (scripted 0 0 1) (ofList [0x61]) 1 (fun _ => 0) 4 50 30
        ⟨[[10], [], [0, 0]], []⟩ = some (3, h1, o, s1) ∧
      s1.trace = [] ++ evs ∧
      uartReads evs = requests 4 0 [[10], [], [0, 0]]) :=
  ⟨(write_read_accumulation (scripted 0 0 1) rfl rfl rfl rfl rfl rfl (ofList [0x61]) 1
      (fun _ => 0) 4 50 1000 ⟨[[10], [], [0, 0, 5]], []⟩ (by decide) (by decide) (by decide)
      (fun n w => by simp)).1 2 (by decide) (by decide) (by decide),
    (write_read_accumulation (scripted 0 0 1) rfl rfl rfl rfl rfl rfl (ofList [0x61]) 1
      (fun _ => 0) 4 50 30 ⟨[[10], [], [0, 0]], []⟩ (by decide) (by decide) (by decide)
      (fun n w => by simp)).2 (by decide)⟩

/-- C4 (precondition enforcement).  Every public function other than `ch9120_init` and
`ch9120_info` returns 2 for a NULL handle and 3 for a handle whose `inited` flag is not 1.
In the second case the state is returned as it was, so no linked function has been called,
and the handle and every output variable are returned unchanged. -/
theorem precondition_enforcement (h : Handle W) (s : St W) (m o : Nat → Nat) (a b c d : Nat) :
    (ch9120_get_version (none : Option (Handle W)) m s = some (2, none, m, s) ∧
      ch9120_reset (none : Option (Handle W)) s = some (2, none, s) ∧
      ch9120_get_status (none : Option (Handle W)) a s = some (2, none, a, s) ∧
      ch9120_save_to_eeprom (none : Option (Handle W)) s = some (2, none, s) ∧
      ch9120_config_and_reset (none : Option (Handle W)) s = some (2, none, s) ∧
      ch9120_exit (none : Option (Handle W)) s = some (2, none, s) ∧
      ch9120_set_mode (none : Option (Handle W)) a s = some (2, none, s) ∧
      ch9120_get_mode (none : Option (Handle W)) a s = some (2, none, a, s) ∧
      ch9120_set_ip (none : Option (Handle W)) m s = some (2, none, s) ∧
      ch9120_get_ip (none : Option (Handle W)) m s = some (2, none, m, s) ∧
      ch9120_set_subnet_mask (none : Option (Handle W)) m s = some (2, none, s) ∧
      ch9120_get_subnet_mask (none : Option (Handle W)) m s = some (2, none, m, s) ∧
      ch9120_set_gateway (none : Option (Handle W)) m s = some (2, none, s) ∧
      ch9120_get_gateway (none : Option (Handle W)) m s = some (2, none, m, s) ∧
      ch9120_set_source_port (none : Option (Handle W)) a s = some (2, none, s) ∧
      ch9120_get_source_port (none : Option (Handle W)) a s = some (2, none, a, s) ∧
      ch9120_set_dest_ip (none : Option (Handle W)) m s = some (2, none, s) ∧
      ch9120_get_dest_ip (none : Option (Handle W)) m s = some (2, none, m, s) ∧
      ch9120_set_dest_port (none : Option (Handle W)) a s = some (2, none, s) ∧
      ch9120_get_dest_port (none : Option (Handle W)) a s = some (2, none, a, s) ∧
      ch9120_set_uart_baud (none : Option (Handle W)) a s = some (2, none, s) ∧
      ch9120_get_uart_baud (none : Option (Handle W)) a s = some (2, none, a, s) ∧
      ch9120_set_uart_config (none : Option (Handle W)) a b c s = some (2, none, s) ∧
      ch9120_get_uart_config (none : Option (Handle W)) a b c s = some (2, none, a, b, c, s) ∧
      ch9120_set_uart_timeout (none : Option (Handle W)) a s = some (2, none, s) ∧
      ch9120_get_uart_timeout (none : Option (Handle W)) m s = some (2, none, m, s) ∧
      ch9120_uart_timeout_convert_to_register (none : Option (Handle W)) a b s = some (2, none, b, s) ∧
      ch9120_uart_timeout_convert_to_data (none : Option (Handle W)) a b s = some (2, none, b, s) ∧
      ch9120_set_source_port_random (none : Option (Handle W)) a s = some (2, none, s) ∧
      ch9120_set_uart_buffer_length (none : Option (Handle W)) a s = some (2, none, s) ∧
      ch9120_get_uart_buffer_length (none : Option (Handle W)) a s = some (2, none, a, s) ∧
      ch9120_set_uart_flush (none : Option (Handle W)) a s = some (2, none, s) ∧
      ch9120_get_uart_flush (none : Option (Handle W)) a s = some (2, none, a, s) ∧
      ch9120_set_disconnect_with_no_rj45 (none : Option (Handle W)) a s = some (2, none, s) ∧
      ch9120_get_disconnect_with_no_rj45 (none : Option (Handle W)) a s = some (2, none, a, s) ∧
      ch9120_set_dhcp (none : Option (Handle W)) a s = some (2, none, s) ∧
      ch9120_deinit (none : Option (Handle W)) s = some (2, none, s) ∧
      ch9120_write (none : Option (Handle W)) m a s = some (2, none, s) ∧
      ch9120_read (none : Option (Handle W)) m a s = some (2, none, m, a, s) ∧
      ch9120_set_command (none : Option (Handle W)) m a o b c d s = some (2, none, o, s)) ∧
    (h.inited ≠ 1 →
      ch9120_get_version (some h) m s = some (3, some h, m, s) ∧
      ch9120_reset (some h) s = some (3, some h, s) ∧
      ch9120_get_status (some h) a s = some (3, some h, a, s) ∧
      ch9120_save_to_eeprom (some h) s = some (3, some h, s) ∧
      ch9120_config_and_reset (some h) s = some (3, some h, s) ∧
      ch9120_exit (some h) s = some (3, some h, s) ∧
      ch9120_set_mode (some h) a s = some (3, some h, s) ∧
      ch9120_get_mode (some h) a s = some (3, some h, a, s) ∧
      ch9120_set_ip (some h) m s = some (3, some h, s) ∧
      ch9120_get_ip (some h) m s = some (3, some h, m, s) ∧
      ch9120_set_subnet_mask (some h) m s = some (3, some h, s) ∧
      ch9120_get_subnet_mask (some h) m s = some (3, some h, m, s) ∧
      ch9120_set_gateway (some h) m s = some (3, some h, s) ∧
      ch9120_get_gateway (some h) m s = some (3, some h, m, s) ∧
      ch9120_set_source_port (some h) a s = some (3, some h, s) ∧
      ch9120_get_source_port (some h) a s = some (3, some h, a, s) ∧
      ch9120_set_dest_ip (some h) m s = some (3, some h, s) ∧
      ch9120_get_dest_ip (some h) m s = some (3, some h, m, s) ∧
      ch9120_set_dest_port (some h) a s = some (3, some h, s) ∧
      ch9120_get_dest_port (some h) a s = some (3, some h, a, s) ∧
      ch9120_set_uart_baud (some h) a s = some (3, some h, s) ∧
      ch9120_get_uart_baud (some h) a s = some (3, some h, a, s) ∧
      ch9120_set_uart_config (some h) a b c s = some (3, some h, s) ∧
      ch9120_get_uart_config (some h) a b c s = some (3, some h, a, b, c, s) ∧
      ch9120_set_uart_timeout (some h) a s = some (3, some h, s) ∧
      ch9120_get_uart_timeout (some h) m s = some (3, some h, m, s) ∧
      ch9120_uart_timeout_convert_to_register (some h) a b s = some (3, some h, b, s) ∧
      ch9120_uart_timeout_convert_to_data (some h) a b s = some (3, some h, b, s) ∧
      ch9120_set_source_port_random (some h) a s = some (3, some h, s) ∧
      ch9120_set_uart_buffer_length (some h) a s = some (3, some h, s) ∧
      ch9120_get_uart_buffer_length (some h) a s = some (3, some h, a, s) ∧
      ch9120_set_uart_flush (some h) a s = some (3, some h, s) ∧
      ch9120_get_uart_flush (some h) a s = some (3, some h, a, s) ∧
      ch9120_set_disconnect_with_no_rj45 (some h) a s = some (3, some h, s) ∧
      ch9120_get_disconnect_with_no_rj45 (some h) a s = some (3, some h, a, s) ∧
      ch9120_set_dhcp (some h) a s = some (3, some h, s) ∧
      ch9120_deinit (some h) s = some (3, some h, s) ∧
      ch9120_write (some h) m a s = some (3, some h, s) ∧
      ch9120_read (some h) m a s = some (3, some h, m, a, s) ∧
      ch9120_set_command (some h) m a o b c d s = some (3, some h, o, s)) := by
  refine ⟨⟨rfl, rfl, rfl, rfl, rfl, rfl, rfl, rfl, rfl, rfl,
    rfl, rfl, rfl, rfl, rfl, rfl, rfl, rfl, rfl, rfl,
    rfl, rfl, rfl, rfl, rfl, rfl, rfl, rfl, rfl, rfl,
    rfl, rfl, rfl, rfl, rfl, rfl, rfl, rfl, rfl, rfl⟩,
    fun hne => ⟨by simp only [ch9120_get_version, hne, ne_eq, not_false_eq_true, if_true],
    by simp only [ch9120_reset, hne, ne_eq, not_false_eq_true, if_true],
    by simp only [ch9120_get_status, hne, ne_eq, not_false_eq_true, if_true],
    by simp only [ch9120_save_to_eeprom, hne, ne_eq, not_false_eq_true, if_true],
    by simp only [ch9120_config_and_reset, hne, ne_eq, not_false_eq_true, if_true],
    by simp only [ch9120_exit, hne, ne_eq, not_false_eq_true, if_true],
    by simp only [ch9120_set_mode, hne, ne_eq, not_false_eq_true, if_true],
    by simp only [ch9120_get_mode, hne, ne_eq, not_false_eq_true, if_true],
    by simp only [ch9120_set_ip, hne, ne_eq, not_false_eq_true, if_true],
    by simp only [ch9120_get_ip, hne, ne_eq, not_false_eq_true, if_true],
    by simp only [ch9120_set_subnet_mask, hne, ne_eq, not_false_eq_true, if_true],
    by simp only [ch9120_get_subnet_mask, hne, ne_eq, not_false_eq_true, if_true],
    by simp only [ch9120_set_gateway, hne, ne_eq, not_false_eq_true, if_true],
    by simp only [ch9120_get_gateway, hne, ne_eq, not_false_eq_true, if_true],
    by simp only [ch9120_set_source_port, hne, ne_eq, not_false_eq_true, if_true],
    by simp only [ch9120_get_source_port, hne, ne_eq, not_false_eq_true, if_true],
    by simp only [ch9120_set_dest_ip, hne, ne_eq, not_false_eq_true, if_true],
    by simp only [ch9120_get_dest_ip, hne, ne_eq, not_false_eq_true, if_true],
    by simp only [ch9120_set_dest_port, hne, ne_eq, not_false_eq_true, if_true],
    by simp only [ch9120_get_dest_port, hne, ne_eq, not_false_eq_true, if_true],
    by simp only [ch9120_set_uart_baud, hne, ne_eq, not_false_eq_true, if_true],
    by simp only [ch9120_get_uart_baud, hne, ne_eq, not_false_eq_true, if_true],
    by simp only [ch9120_set_uart_config, hne, ne_eq, not_false_eq_true, if_true],
    by simp only [ch9120_get_uart_config, hne, ne_eq, not_false_eq_true, if_true],
    by simp only [ch9120_set_uart_timeout, hne, ne_eq, not_false_eq_true, if_true],
    by simp only [ch9120_get_uart_timeout, hne, ne_eq, not_false_eq_true, if_true],
    by simp only [ch9120_uart_timeout_convert_to_register, hne, ne_eq, not_false_eq_true, if_true],
    by simp only [ch9120_uart_timeout_convert_to_data, hne, ne_eq, not_false_eq_true, if_true],
    by simp only [ch9120_set_source_port_random, hne, ne_eq, not_false_eq_true, if_true],
    by simp only [ch9120_set_uart_buffer_length, hne, ne_eq, not_false_eq_true, if_true],
    by simp only [ch9120_get_uart_buffer_length, hne, ne_eq, not_false_eq_true, if_true],
    by simp only [ch9120_set_uart_flush, hne, ne_eq, not_false_eq_true, if_true],
    by simp only [ch9120_get_uart_flush, hne, ne_eq, not_false_eq_true, if_true],
    by simp only [ch9120_set_disconnect_with_no_rj45, hne, ne_eq, not_false_eq_true, if_true],
    by simp only [ch9120_get_disconnect_with_no_rj45, hne, ne_eq, not_false_eq_true, if_true],
    by simp only [ch9120_set_dhcp, hne, ne_eq, not_false_eq_true, if_true],
    by simp only [ch9120_deinit, hne, ne_eq, not_false_eq_true, if_true],
    by simp only [ch9120_write, hne, ne_eq, not_false_eq_true, if_true],
    by simp only [ch9120_read, hne, ne_eq, not_false_eq_true, if_true],
    by simp only [ch9120_set_command, hne, ne_eq, not_false_eq_true, if_true]⟩⟩

/-- Witness of C4: a linked handle on which `ch9120_init` has not run, with an
acknowledgement waiting that no function reads. -/
theorem precondition_enforcement_witness :
    ch9120_get_version (some (scripted 0 0 0)) (fun _ => 7) ⟨[[0xAA]], []⟩ =
      some (3, some (scripted 0 0 0), fun _ => 7, ⟨[[0xAA]], []⟩) ∧
    ch9120_reset (some (scripted 0 0 0)) ⟨[[0xAA]], []⟩ =
      some (3, some (scripted 0 0 0), ⟨[[0xAA]], []⟩) ∧
    ch9120_get_status (some (scripted 0 0 0)) 1 ⟨[[0xAA]], []⟩ =
      some (3, some (scripted 0 0 0), 1, ⟨[[0xAA]], []⟩) ∧
    ch9120_save_to_eeprom (some (scripted 0 0 0)) ⟨[[0xAA]], []⟩ =
      some (3, some (scripted 0 0 0), ⟨[[0xAA]], []⟩) ∧
    ch9120_config_and_reset (some (scripted 0 0 0)) ⟨[[0xAA]], []⟩ =
      some (3, some (scripted 0 0 0), ⟨[[0xAA]], []⟩) ∧
    ch9120_exit (some (scripted 0 0 0)) ⟨[[0xAA]], []⟩ =
      some (3, some (scripted 0 0 0), ⟨[[0xAA]], []⟩) ∧
    ch9120_set_mode (some (scripted 0 0 0)) 1 ⟨[[0xAA]], []⟩ =
      some (3, some (scripted 0 0 0), ⟨[[0xAA]], []⟩) ∧
    ch9120_get_mode (some (scripted 0 0 0)) 1 ⟨[[0xAA]], []⟩ =
      some (3, some (scripted 0 0 0), 1, ⟨[[0xAA]], []⟩) ∧
    ch9120_set_ip (some (scripted 0 0 0)) (fun _ => 7) ⟨[[0xAA]], []⟩ =
      some (3, some (scripted 0 0 0), ⟨[[0xAA]], []⟩) ∧
    ch9120_get_ip (some (scripted 0 0 0)) (fun _ => 7) ⟨[[0xAA]], []⟩ =
      some (3, some (scripted 0 0 0), fun _ => 7, ⟨[[0xAA]], []⟩) ∧
    ch9120_set_subnet_mask (some (scripted 0 0 0)) (fun _ => 7) ⟨[[0xAA]], []⟩ =
      some (3, some (scripted 0 0 0), ⟨[[0xAA]], []⟩) ∧
    ch9120_get_subnet_mask (some (scripted 0 0 0)) (fun _ => 7) ⟨[[0xAA]], []⟩ =
      some (3, some (scripted 0 0 0), fun _ => 7, ⟨[[0xAA]], []⟩) ∧
    ch9120_set_gateway (some (scripted 0 0 0)) (fun _ => 7) ⟨[[0xAA]], []⟩ =
      some (3, some (scripted 0 0 0), ⟨[[0xAA]], []⟩) ∧
    ch9120_get_gateway (some (scripted 0 0 0)) (fun _ => 7) ⟨[[0xAA]], []⟩ =
      some (3, some (scripted 0 0 0), fun _ => 7, ⟨[[0xAA]], []⟩) ∧
    ch9120_set_source_port (some (scripted 0 0 0)) 1 ⟨[[0xAA]], []⟩ =
      some (3, some (scripted 0 0 0), ⟨[[0xAA]], []⟩) ∧
    ch9120_get_source_port (some (scripted 0 0 0)) 1 ⟨[[0xAA]], []⟩ =
      some (3, some (scripted 0 0 0), 1, ⟨[[0xAA]], []⟩) ∧
    ch9120_set_dest_ip (some (scripted 0 0 0)) (fun _ => 7) ⟨[[0xAA]], []⟩ =
      some (3, some (scripted 0 0 0), ⟨[[0xAA]], []⟩) ∧
    ch9120_get_dest_ip (some (scripted 0 0 0)) (fun _ => 7) ⟨[[0xAA]], []⟩ =
      some (3, some (scripted 0 0 0), fun _ => 7, ⟨[[0xAA]], []⟩) ∧
    ch9120_set_dest_port (some (scripted 0 0 0)) 1 ⟨[[0xAA]], []⟩ =
      some (3, some (scripted 0 0 0), ⟨[[0xAA]], []⟩) ∧
    ch9120_get_dest_port (some (scripted 0 0 0)) 1 ⟨[[0xAA]], []⟩ =
      some (3, some (scripted 0 0 0), 1, ⟨[[0xAA]], []⟩) ∧
    ch9120_set_uart_baud (some (scripted 0 0 0)) 1 ⟨[[0xAA]], []⟩ =
      some (3, some (scripted 0 0 0), ⟨[[0xAA]], []⟩) ∧
    ch9120_get_uart_baud (some (scripted 0 0 0)) 1 ⟨[[0xAA]], []⟩ =
      some (3, some (scripted 0 0 0), 1, ⟨[[0xAA]], []⟩) ∧
    ch9120_set_uart_config (some (scripted 0 0 0)) 1 2 3 ⟨[[0xAA]], []⟩ =
      some (3, some (scripted 0 0 0), ⟨[[0xAA]], []⟩) ∧
    ch9120_get_uart_config (some (scripted 0 0 0)) 1 2 3 ⟨[[0xAA]], []⟩ =
      some (3, some (scripted 0 0 0), 1, 2, 3, ⟨[[0xAA]], []⟩) ∧
    ch9120_set_uart_timeout (some (scripted 0 0 0)) 1 ⟨[[0xAA]], []⟩ =
      some (3, some (scripted 0 0 0), ⟨[[0xAA]], []⟩) ∧
    ch9120_get_uart_timeout (some (scripted 0 0 0)) (fun _ => 7) ⟨[[0xAA]], []⟩ =
      some (3, some (scripted 0 0 0), fun _ => 7, ⟨[[0xAA]], []⟩) ∧
    ch9120_uart_timeout_convert_to_register (some (scripted 0 0 0)) 1 2 ⟨[[0xAA]], []⟩ =
      some (3, some (scripted 0 0 0), 2, ⟨[[0xAA]], []⟩) ∧
    ch9120_uart_timeout_convert_to_data (some (scripted 0 0 0)) 1 2 ⟨[[0xAA]], []⟩ =
      some (3, some (scripted 0 0 0), 2, ⟨[[0xAA]], []⟩) ∧
    ch9120_set_source_port_random (some (scripted 0 0 0)) 1 ⟨[[0xAA]], []⟩ =
      some (3, some (scripted 0 0 0), ⟨[[0xAA]], []⟩) ∧
    ch9120_set_uart_buffer_length (some (scripted 0 0 0)) 1 ⟨[[0xAA]], []⟩ =
      some (3, some (scripted 0 0 0), ⟨[[0xAA]], []⟩) ∧
    ch9120_get_uart_buffer_length (some (scripted 0 0 0)) 1 ⟨[[0xAA]], []⟩ =
      some (3, some (scripted 0 0 0), 1, ⟨[[0xAA]], []⟩) ∧
    ch9120_set_uart_flush (some (scripted 0 0 0)) 1 ⟨[[0xAA]], []⟩ =
      some (3, some (scripted 0 0 0), ⟨[[0xAA]], []⟩) ∧
    ch9120_get_uart_flush (some (scripted 0 0 0)) 1 ⟨[[0xAA]], []⟩ =
      some (3, some (scripted 0 0 0), 1, ⟨[[0xAA]], []⟩) ∧
    ch9120_set_disconnect_with_no_rj45 (some (scripted 0 0 0)) 1 ⟨[[0xAA]], []⟩ =
      some (3, some (scripted 0 0 0), ⟨[[0xAA]], []⟩) ∧
    ch9120_get_disconnect_with_no_rj45 (some (scripted 0 0 0)) 1 ⟨[[0xAA]], []⟩ =
      some (3, some (scripted 0 0 0), 1, ⟨[[0xAA]], []⟩) ∧
    ch9120_set_dhcp (some (scripted 0 0 0)) 1 ⟨[[0xAA]], []⟩ =
      some (3, some (scripted 0 0 0), ⟨[[0xAA]], []⟩) ∧
    ch9120_deinit (some (scripted 0 0 0)) ⟨[[0xAA]], []⟩ =
      some (3, some (scripted 0 0 0), ⟨[[0xAA]], []⟩) ∧
    ch9120_write (some (scripted 0 0 0)) (fun _ => 7) 1 ⟨[[0xAA]], []⟩ =
      some (3, some (scripted 0 0 0), ⟨[[0xAA]], []⟩) ∧
    ch9120_read (some (scripted 0 0 0)) (fun _ => 7) 1 ⟨[[0xAA]], []⟩ =
      some (3, some (scripted 0 0 0), fun _ => 7, 1, ⟨[[0xAA]], []⟩) ∧
    ch9120_set_command (some (scripted 0 0 0)) (fun _ => 7) 1 (fun _ => 9) 2 3 4 ⟨[[0xAA]], []⟩ =
      some (3, some (scripted 0 0 0), fun _ => 9, ⟨[[0xAA]], []⟩) :=
  (precondition_enforcement (scripted 0 0 0) ⟨[[0xAA]], []⟩ (fun _ => 7) (fun _ => 9) 1 2 3 4).2
    (by decide)

/-- C5 (timeout-conversion inverse law).  On an initialized handle, for every `ms` that is
a multiple of 5 with `ms ≤ 1275`, `ch9120_uart_timeout_convert_to_register` returns status
0 with some register value, and `ch9120_uart_timeout_convert_to_data` of that value returns
status 0 and exactly `ms`. -/
theorem timeout_conversion_inverse (h : Handle W) (s : St W) (ms reg0 ms0 : Nat)
    (hin : h.inited = 1) (hmul : ms % 5 = 0) (hle : ms ≤ 1275) :
    ∃ reg, ch9120_uart_timeout_convert_to_register (some h) ms reg0 s =
        some (0, some h, reg, s) ∧
      ch9120_uart_timeout_convert_to_data (some h) reg ms0 s = some (0, some h, ms, s) := by
  refine ⟨ms / 5 % 256, ?_, ?_⟩
  · simp [ch9120_uart_timeout_convert_to_register, hin]
  · have hreg : ms / 5 % 256 = ms / 5 := by omega
    have hback : ms / 5 * 5 = ms := Nat.div_mul_cancel (Nat.dvd_of_mod_eq_zero hmul)
    have hval : ms / 5 % 256 * 5 % 65536 = ms := by
      rw [hreg, hback]
      omega
    simp [ch9120_uart_timeout_convert_to_data, hin, hval]

/-- Witness of C5 at the largest value, 1275 ms. -/
theorem timeout_conversion_inverse_witness :
    ∃ reg, ch9120_uart_timeout_convert_to_register (some (scripted 0 0 1)) 1275 0 ⟨[], []⟩ =
        some (0, some (scripted 0 0 1), reg, ⟨[], []⟩) ∧
      ch9120_uart_timeout_convert_to_data (some (scripted 0 0 1)) reg 0 ⟨[], []⟩ =
        some (0, some (scripted 0 0 1), 1275, ⟨[], []⟩) :=
  timeout_conversion_inverse (scripted 0 0 1) ⟨[], []⟩ 1275 0 0 rfl (by decide) (by decide)

/-- C6 (lossy timeout rounding).  On an initialized handle, for every `ms ≤ 1279`,
`ch9120_uart_timeout_convert_to_register` yields the register value `ms / 5` and
`ch9120_uart_timeout_convert_to_data` of that register yields `5 * (ms / 5)`, which is
`ms - ms % 5`. -/
theorem lossy_timeout_rounding (h : Handle W) (s : St W) (ms reg0 ms0 : Nat)
    (hin : h.inited = 1) (hle : ms ≤ 1279) :
    ch9120_uart_timeout_convert_to_register (some h) ms reg0 s =
        some (0, some h, ms / 5, s) ∧
      ch9120_uart_timeout_convert_to_data (some h) (ms / 5) ms0 s =
        some (0, some h, 5 * (ms / 5), s) ∧
      5 * (ms / 5) = ms - ms % 5 := by
  refine ⟨?_, ?_, by omega⟩
  · have hval : ms / 5 % 256 = ms / 5 := by omega
    simp [ch9120_uart_timeout_convert_to_register, hin, hval]
  · have hval : ms / 5 * 5 % 65536 = 5 * (ms / 5) := by omega
    simp [ch9120_uart_timeout_convert_to_data, hin, hval]

/-- Witness of C6: 37 ms gives register 7, and register 7 converts back to 35 ms. -/
theorem lossy_timeout_rounding_witness :
    ch9120_uart_timeout_convert_to_register (some (scripted 0 0 1)) 37 0 ⟨[], []⟩ =
        some (0, some (scripted 0 0 1), 7, ⟨[], []⟩) ∧
      ch9120_uart_timeout_convert_to_data (some (scripted 0 0 1)) 7 0 ⟨[], []⟩ =
        some (0, some (scripted 0 0 1), 35, ⟨[], []⟩) ∧
      35 = 37 - 37 % 5 :=
  lossy_timeout_rounding (scripted 0 0 1) ⟨[], []⟩ 37 0 0 rfl (by decide)

/-! ## Lemmas on the transport as a whole -/

/-- The poll loop of write-check returns with status 0, 3 or 4 and calls nothing but
`uart_read`, `delay_ms`, `debug_print` and `cfg_gpio_write`. -/
theorem write_check_poll_calls (h : Handle W) {fr fc fd fp}
    (hr : h.uart_read = some fr) (hc : h.cfg_gpio_write = some fc)
    (hd : h.delay_ms = some fd) (hp : h.debug_print = some fp) (t : Nat) (s : St W) :
    ∃ r s1 evs, write_check_poll h t s = some (r, s1) ∧ s1.trace = s.trace ++ evs ∧
      (∀ e, e ∈ evs → e.polling = true) ∧ (r = 0 ∨ r = 3 ∨ r = 4) := by
  induction t generalizing s with
  | zero =>
    simp only [write_check_poll, call_debug_print, call_cfg_gpio_write, hc, hp]
    exact ⟨_, _, [Event.debug_print "ch9120: timeout.\n", Event.cfg_gpio_write 1], rfl,
      by simp, by simp [Event.polling], by simp⟩
  | succ t ih =>
    simp only [write_check_poll, call_uart_read, hr]
    split
    · split
      · simp only [call_cfg_gpio_write, hc]
        exact ⟨_, _, [Event.uart_read 0 1, Event.cfg_gpio_write 1], rfl, by simp,
          by simp [Event.polling], by simp⟩
      · simp only [call_debug_print, call_cfg_gpio_write, hc, hp]
        exact ⟨_, _, [Event.uart_read 0 1, Event.debug_print "ch9120: error.\n",
          Event.cfg_gpio_write 1], rfl, by simp, by simp [Event.polling], by simp⟩
    · simp only [call_delay_ms, hd]
      obtain ⟨r, s1, evs, h1, h2, h3, h4⟩ := ih ⟨fd 10 (fr 1 s.world).2,
        s.trace ++ [Event.uart_read 0 1] ++ [Event.delay_ms 10]⟩
      refine ⟨r, s1, [Event.uart_read 0 1, Event.delay_ms 10] ++ evs, h1, by simp [h2], ?_,
        h4⟩
      intro e he
      simp only [List.cons_append, List.nil_append, List.mem_cons] at he
      rcases he with rfl | rfl | he
      · rfl
      · rfl
      · exact h3 e he

/-- For `len ≤ 126` write-check returns, with status 0, 1, 3 or 4 and the frame in the
inner buffer; its calls are `cfg_gpio_write(0)`, `uart_flush`, the `uart_write` of the
frame, and after them nothing but `uart_read`, `delay_ms`, `debug_print` and
`cfg_gpio_write`. -/
theorem write_check_returns (h : Handle W) {fr fc ff fw fd fp}
    (hr : h.uart_read = some fr) (hc : h.cfg_gpio_write = some fc)
    (hf : h.uart_flush = some ff) (hw : h.uart_write = some fw)
    (hd : h.delay_ms = some fd) (hp : h.debug_print = some fp)
    (param : Nat → Nat) (len pre_delay timeout : Nat) (s : St W) (hlen : len ≤ 126) :
    ∃ r s1 evs, a_ch9120_write_check h param len pre_delay timeout s =
        some (r, framed h param len, s1) ∧
      s1.trace = s.trace ++ [Event.cfg_gpio_write 0, Event.uart_flush,
        Event.uart_write (0x57 :: 0xAB :: bytes param len) (2 + len)] ++ evs ∧
      (∀ e, e ∈ evs → e.polling = true) ∧ (r = 0 ∨ r = 1 ∨ r = 3 ∨ r = 4) := by
  by_cases hst : (sent fc ff fw h param len s).1 ≠ 0
  · rw [write_check_write_failed h hc hf hw hp param len pre_delay timeout s hlen hst]
    refine ⟨_, _, [Event.debug_print "ch9120: write failed.\n", Event.cfg_gpio_write 1],
      rfl, ?_, by simp [Event.polling], by simp⟩
    simp only [sent_trace, List.append_assoc, List.cons_append, List.nil_append]
  · have hok : (sent fc ff fw h param len s).1 = 0 := by omega
    rw [write_check_write_ok h hc hf hw hd param len pre_delay timeout s hlen hok]
    obtain ⟨r, s1, evs, h1, h2, h3, h4⟩ :=
      write_check_poll_calls (framed h param len) hr hc hd hp (timeout / 10)
        (settled fd pre_delay (sent fc ff fw h param len s).2)
    rw [h1]
    refine ⟨_, _, (if pre_delay ≠ 0 then [Event.delay_ms pre_delay] else []) ++ evs, rfl,
      ?_, ?_, by omega⟩
    · simp only [h2, settled_trace, sent_trace, List.append_assoc]
    · intro e he
      rw [List.mem_append] at he
      rcases he with he | he
      · by_cases hpd : pre_delay ≠ 0
        · rw [if_pos hpd, List.mem_singleton] at he
          rw [he]
          rfl
        · rw [if_neg hpd] at he
          cases he
      · exact h3 e he

theorem deinitCalls_polling (evs : List Event) (hpoll : ∀ e, e ∈ evs → e.polling = true) :
    deinitCalls evs = [] := by
  simp only [deinitCalls, List.filter_eq_nil_iff]
  intro e he
  have hp := hpoll e he
  cases e <;> simp_all [Event.polling]

/-- The poll loop of write-read when the first `k` polls leave the response incomplete and
poll `k + 1` brings the bytes received to exactly `out_len`. -/
theorem write_read_poll_exact (h : Handle W) {fr fc fd}
    (hr : h.uart_read = some fr) (hc : h.cfg_gpio_write = some fc)
    (hd : h.delay_ms = some fd) (out_len : Nat) (hol : out_len < 65536)
    (k t point : Nat) (out : Nat → Nat) (s : St W) (hk : k < t)
    (hbefore : point + ((arrivals fr fd out_len k point s.world).map List.length).sum
      < out_len)
    (hexact : point + ((arrivals fr fd out_len (k + 1) point s.world).map List.length).sum
      = out_len) :
    ∃ o s1, write_read_poll h out_len t point out s = some (0, o, s1) ∧
      (∀ j, j < point → o j = out j) ∧
      segment o point (out_len - point) =
        (arrivals fr fd out_len (k + 1) point s.world).flatten := by
  induction k generalizing t point out s with
  | zero =>
    obtain ⟨t, rfl⟩ : ∃ u, t = u + 1 := ⟨t - 1, by omega⟩
    simp only [arrivals, List.map_nil, List.sum_nil, List.map_cons, List.sum_cons,
      Nat.add_zero] at hbefore hexact
    have hsub : sub16 out_len point = out_len - point := sub16_of_le _ _ (by omega) hol
    rw [hsub] at hexact
    have hlen : (fr (out_len - point) s.world).1.length = out_len - point := by omega
    have hdone : (fr (out_len - point) s.world).1.length ≠ 0 ∧
        (if (fr (out_len - point) s.world).1.length ≠ 0 then
          (point + (fr (out_len - point) s.world).1.length) % 65536 else point) ≥ out_len := by
      have hl0 : (fr (out_len - point) s.world).1.length ≠ 0 := by omega
      refine ⟨hl0, ?_⟩
      rw [if_pos hl0]
      omega
    simp only [write_read_poll, call_uart_read, hr, hsub, arrivals]
    rw [if_pos hdone]
    simp only [call_cfg_gpio_write, hc]
    refine ⟨_, _, rfl, ?_, ?_⟩
    · intro j hj
      exact memcpy_below _ _ _ _ _ hj
    · simp only [List.flatten_cons, List.flatten_nil, List.append_nil]
      have hseg := segment_memcpy out point (fr (out_len - point) s.world).1
      rw [hlen] at hseg
      rw [hlen]
      exact hseg
  | succ k ih =>
    obtain ⟨t, rfl⟩ : ∃ u, t = u + 1 := ⟨t - 1, by omega⟩
    have hsub : sub16 out_len point = out_len - point := by
      apply sub16_of_le _ _ _ hol
      omega
    have harr : ∀ n, arrivals fr fd out_len (n + 1) point s.world =
        (fr (out_len - point) s.world).1 :: arrivals fr fd out_len n
          (if (fr (out_len - point) s.world).1.length ≠ 0 then
            (point + (fr (out_len - point) s.world).1.length) % 65536 else point)
          (fd 10 (fr (out_len - point) s.world).2) := by
      intro n
      rw [arrivals, hsub]
    rw [write_read_poll]
    simp only [call_uart_read, hr, hsub, call_delay_ms, hd]
    rw [harr] at hbefore hexact
    rw [harr]
    generalize fr (out_len - point) s.world = rd at *
    obtain ⟨d, w1⟩ := rd
    simp only [List.map_cons, List.sum_cons] at hbefore hexact
    simp only
    have hp1 : (if d.length ≠ 0 then (point + d.length) % 65536 else point)
        = point + d.length := by
      by_cases hl : d.length ≠ 0
      · rw [if_pos hl]
        apply Nat.mod_eq_of_lt
        omega
      · rw [if_neg hl]
        omega
    rw [hp1] at hbefore hexact
    have hnot : ¬ (d.length ≠ 0 ∧ point + d.length ≥ out_len) := by omega
    simp only [hp1]
    rw [if_neg hnot]
    obtain ⟨o, s1, h1, h4, h5⟩ := ih t (point + d.length)
      (memcpy out point (ofList d) d.length)
      ⟨fd 10 w1, s.trace ++ [Event.uart_read point (out_len - point)] ++ [Event.delay_ms 10]⟩
      (by omega) (by simpa [Nat.add_assoc] using hbefore)
      (by simpa [Nat.add_assoc] using hexact)
    refine ⟨o, s1, h1, ?_, ?_⟩
    · intro j hj
      rw [h4 j (by omega)]
      exact memcpy_below _ _ _ _ _ hj
    · simp only [List.flatten_cons]
      rw [← h5]
      have hsplit : out_len - point = d.length + (out_len - (point + d.length)) := by omega
      rw [hsplit, segment_add]
      congr 1
      rw [segment_congr o (memcpy out point (ofList d) d.length) point _
        (fun j hj => h4 j hj)]
      exact segment_memcpy _ _ _

/-- Write-read on a platform that answers the command with `resp`: status 0, the frame in
the inner buffer, and `resp` in `out[0..out_len)`. -/
theorem write_read_answer (h : Handle W) {fr fc ff fw fd}
    (hr : h.uart_read = some fr) (hc : h.cfg_gpio_write = some fc)
    (hf : h.uart_flush = some ff) (hw : h.uart_write = some fw)
    (hd : h.delay_ms = some fd)
    (param : Nat → Nat) (len : Nat) (out : Nat → Nat) (out_len pre_delay timeout : Nat)
    (s : St W) (resp : List Nat) (hlen : len ≤ 126) (hol : out_len < 65536)
    (hans : answers fr fc ff fw fd h param len out_len pre_delay timeout s resp) :
    ∃ o s1, a_ch9120_write_read h param len out out_len pre_delay timeout s =
        some (0, framed h param len, o, s1) ∧ bytes o out_len = resp := by
  obtain ⟨hok, hrl, k, hk, hbefore, hflat⟩ := hans
  have hst : (sent fc ff fw h param len s).1 = 0 := by rw [sent_status]; exact hok
  have hsum : ((arrivals fr fd out_len (k + 1) 0
      (settled fd pre_delay (sent fc ff fw h param len s).2).world).map List.length).sum
        = out_len := by
    rw [← List.length_flatten, hflat, hrl]
  rw [write_read_write_ok h hc hf hw hd param len out out_len pre_delay timeout s hlen hst]
  obtain ⟨o, s1, h1, _, h5⟩ := write_read_poll_exact (framed h param len) hr hc hd out_len hol
    k (timeout / 10) 0 out (settled fd pre_delay (sent fc ff fw h param len s).2) hk
    (by simpa using hbefore) (by simpa using hsum)
  rw [h1]
  refine ⟨_, _, rfl, ?_⟩
  rw [bytes_eq_segment, ← hflat, ← h5, Nat.sub_zero]

theorem byte_at (v k : Nat) : (v >>> k) &&& 0xFF = v / 2 ^ k % 256 := by
  rw [Nat.shiftRight_eq_div_pow]
  exact Nat.and_pow_two_sub_one_eq_mod _ 8

theorem or_shift (a b i : Nat) (hb : b < 2 ^ i) : b ||| a * 2 ^ i = a * 2 ^ i + b := by
  rw [Nat.lor_comm, Nat.mul_comm a, ← Nat.mul_add_lt_is_or hb]

theorem decode16 (b0 b1 : Nat) (h0 : b0 < 256) (h1 : b1 < 256) :
    ((b1 <<< 8) ||| b0) % 65536 = b1 * 256 + b0 := by
  rw [Nat.shiftLeft_eq, Nat.lor_comm, or_shift b1 b0 8 (by omega)]
  omega

theorem decode32 (b0 b1 b2 b3 : Nat) (h0 : b0 < 256) (h1 : b1 < 256) (h2 : b2 < 256)
    (h3 : b3 < 256) :
    ((b0 <<< 0) % 4294967296 ||| (b1 <<< 8) % 4294967296 ||| (b2 <<< 16) % 4294967296 |||
      (b3 <<< 24) % 4294967296) % 4294967296 =
      b0 + b1 * 256 + b2 * 65536 + b3 * 16777216 := by
  simp only [Nat.shiftLeft_eq]
  have e0 : b0 * 2 ^ 0 % 4294967296 = b0 := by omega
  have e1 : b1 * 2 ^ 8 % 4294967296 = b1 * 2 ^ 8 := by omega
  have e2 : b2 * 2 ^ 16 % 4294967296 = b2 * 2 ^ 16 := by omega
  have e3 : b3 * 2 ^ 24 % 4294967296 = b3 * 2 ^ 24 := by omega
  rw [e0, e1, e2, e3, or_shift b1 b0 8 (by omega), or_shift b2 _ 16 (by omega),
    or_shift b3 _ 24 (by omega)]
  omega

/-! ## Lemmas on the life cycle -/

theorem linked_isSome (h : Handle W) (hl : h.linked = true) :
    h.uart_init.isSome = true ∧ h.uart_deinit.isSome = true ∧ h.uart_read.isSome = true ∧
    h.uart_flush.isSome = true ∧ h.uart_write.isSome = true ∧
    h.reset_gpio_init.isSome = true ∧ h.reset_gpio_deinit.isSome = true ∧
    h.reset_gpio_write.isSome = true ∧ h.cfg_gpio_init.isSome = true ∧
    h.cfg_gpio_deinit.isSome = true ∧ h.cfg_gpio_write.isSome = true ∧
    h.delay_ms.isSome = true ∧ h.debug_print.isSome = true := by
  simp only [Handle.linked, Bool.and_eq_true] at hl
  obtain ⟨⟨⟨⟨⟨⟨⟨⟨⟨⟨⟨⟨h1, h2⟩, h3⟩, h4⟩, h5⟩, h6⟩, h7⟩, h8⟩, h9⟩, h10⟩, h11⟩, h12⟩, h13⟩ := hl
  exact ⟨h1, h2, h3, h4, h5, h6, h7, h8, h9, h10, h11, h12, h13⟩

/-- With all thirteen functions linked `ch9120_init` passes its NULL checks. -/
theorem init_linked (h : Handle W) (s : St W) (hl : h.linked = true) :
    ch9120_init (some h) s = init_sequence h s := by
  obtain ⟨h1, h2, h3, h4, h5, h6, h7, h8, h9, h10, h11, h12, h13⟩ := linked_isSome h hl
  have hn : ∀ {α : Type} (o : Option α), o.isSome = true → o.isNone = false := by
    intro α o ho
    cases o with
    | none => simp at ho
    | some v => rfl
  simp only [ch9120_init, hn _ h1, hn _ h2, hn _ h3, hn _ h4, hn _ h5, hn _ h6, hn _ h7,
    hn _ h8, hn _ h9, hn _ h10, hn _ h11, hn _ h12, hn _ h13, Bool.false_eq_true, if_false]

/-- The part of `ch9120_init` after the NULL checks returns either 0 with the flag set or a
non-zero status with the handle as it was. -/
theorem init_sequence_result (h : Handle W) (s : St W) (r : Nat) (hopt : Option (Handle W))
    (s1 : St W) (hres : init_sequence h s = some (r, hopt, s1)) :
    (r = 0 ∧ hopt = some { h with inited := 1 }) ∨ (r ≠ 0 ∧ hopt = some h) := by
  unfold init_sequence init_rollback at hres
  repeat' split at hres
  all_goals (cases hres <;> simp)

/-- With some function not linked `ch9120_init` returns 3; it calls nothing when
`debug_print` is the one missing and otherwise makes one `debug_print` call. -/
theorem init_unlinked (h : Handle W) (s : St W) (hl : h.linked = false) :
    (h.debug_print = none → ch9120_init (some h) s = some (3, some h, s)) ∧
    (∀ fp, h.debug_print = some fp →
      ∃ msg, ch9120_init (some h) s =
        some (3, some h, ⟨fp msg s.world, s.trace ++ [Event.debug_print msg]⟩)) := by
  obtain ⟨o0, o1, o2, o3, o4, o5, o6, o7, o8, o9, o10, o11, o12, inited, buf⟩ := h
  cases o12 with
  | none =>
    exact ⟨fun _ => by simp [ch9120_init], fun fp hfp => by simp at hfp⟩
  | some gp =>
    refine ⟨fun hn => by simp at hn, fun fp hfp => ?_⟩
    simp only [Option.some.injEq] at hfp
    subst hfp
    cases o0 with
    | none =>
      exact ⟨"ch9120: uart_init is null.\n", by simp [ch9120_init, call_debug_print]⟩
    | some g0 =>
      cases o1 with
      | none =>
        exact ⟨"ch9120: uart_deinit is null.\n", by simp [ch9120_init, call_debug_print]⟩
      | some g1 =>
        cases o2 with
        | none =>
          exact ⟨"ch9120: uart_read is null.\n", by simp [ch9120_init, call_debug_print]⟩
        | some g2 =>
          cases o4 with
          | none =>
            exact ⟨"ch9120: uart_write is null.\n", by simp [ch9120_init, call_debug_print]⟩
          | some g4 =>
            cases o3 with
            | none =>
              exact ⟨"ch9120: uart_flush is null.\n", by simp [ch9120_init, call_debug_print]⟩
            | some g3 =>
              cases o11 with
              | none =>
                exact ⟨"ch9120: delay_ms is null.\n", by simp [ch9120_init, call_debug_print]⟩
              | some g11 =>
                cases o5 with
                | none =>
                  exact ⟨"ch9120: reset_gpio_init is null.\n", by simp [ch9120_init, call_debug_print]⟩
                | some g5 =>
                  cases o6 with
                  | none =>
                    exact ⟨"ch9120: reset_gpio_deinit is null.\n", by simp [ch9120_init, call_debug_print]⟩
                  | some g6 =>
                    cases o7 with
                    | none =>
                      exact ⟨"ch9120: reset_gpio_write is null.\n", by simp [ch9120_init, call_debug_print]⟩
                    | some g7 =>
                      cases o8 with
                      | none =>
                        exact ⟨"ch9120: cfg_gpio_init is null.\n", by simp [ch9120_init, call_debug_print]⟩
                      | some g8 =>
                        cases o9 with
                        | none =>
                          exact ⟨"ch9120: cfg_gpio_deinit is null.\n", by simp [ch9120_init, call_debug_print]⟩
                        | some g9 =>
                          cases o10 with
                          | none =>
                            exact ⟨"ch9120: cfg_gpio_write is null.\n", by simp [ch9120_init, call_debug_print]⟩
                          | some g10 =>
                            simp [Handle.linked] at hl

/-- The function `ch9120_init` returns either 0 with the flag set or a non-zero status with
the handle as it was. -/
theorem init_result (h : Handle W) (s : St W) (r : Nat) (hopt : Option (Handle W))
    (s1 : St W) (hres : ch9120_init (some h) s = some (r, hopt, s1)) :
    (r = 0 ∧ hopt = some { h with inited := 1 }) ∨ (r ≠ 0 ∧ hopt = some h) := by
  by_cases hl : h.linked = true
  · rw [init_linked h s hl] at hres
    exact init_sequence_result h s r hopt s1 hres
  · have hl2 : h.linked = false := by simpa using hl
    obtain ⟨hnone, hsome⟩ := init_unlinked h s hl2
    cases hdp : h.debug_print with
    | none =>
      rw [hnone hdp] at hres
      cases hres
      exact Or.inr ⟨by decide, rfl⟩
    | some fp =>
      obtain ⟨msg, hmsg⟩ := hsome fp hdp
      rw [hmsg] at hres
      cases hres
      exact Or.inr ⟨by decide, rfl⟩

/-- Write-check hands back the handle with its flag and its linked functions as they
were. -/
theorem write_check_links (h : Handle W) (param : Nat → Nat) (len pre_delay timeout : Nat)
    (s : St W) (x : Nat × Handle W × St W)
    (hres : a_ch9120_write_check h param len pre_delay timeout s = some x) :
    x.2.1 = { h with buf := x.2.1.buf } ∧
    x.2.1.inited = h.inited ∧ x.2.1.delay_ms = h.delay_ms ∧
    x.2.1.debug_print = h.debug_print ∧ x.2.1.uart_deinit = h.uart_deinit ∧
    x.2.1.reset_gpio_deinit = h.reset_gpio_deinit ∧
    x.2.1.cfg_gpio_deinit = h.cfg_gpio_deinit := by
  unfold a_ch9120_write_check at hres
  simp only at hres
  repeat' split at hres
  all_goals (cases hres <;> exact ⟨rfl, rfl, rfl, rfl, rfl, rfl, rfl⟩)

theorem linked_fields (h : Handle W) (hl : h.linked = true) :
    (∃ f, h.uart_init = some f) ∧ (∃ f, h.uart_deinit = some f) ∧
    (∃ f, h.uart_read = some f) ∧ (∃ f, h.uart_flush = some f) ∧
    (∃ f, h.uart_write = some f) ∧ (∃ f, h.reset_gpio_init = some f) ∧
    (∃ f, h.reset_gpio_deinit = some f) ∧ (∃ f, h.reset_gpio_write = some f) ∧
    (∃ f, h.cfg_gpio_init = some f) ∧ (∃ f, h.cfg_gpio_deinit = some f) ∧
    (∃ f, h.cfg_gpio_write = some f) ∧ (∃ f, h.delay_ms = some f) ∧
    (∃ f, h.debug_print = some f) := by
  obtain ⟨h1, h2, h3, h4, h5, h6, h7, h8, h9, h10, h11, h12, h13⟩ := linked_isSome h hl
  simp only [Option.isSome_iff_exists] at h1 h2 h3 h4 h5 h6 h7 h8 h9 h10 h11 h12 h13
  exact ⟨h1, h2, h3, h4, h5, h6, h7, h8, h9, h10, h11, h12, h13⟩

theorem write_check_ne_none (h : Handle W) (hl : h.linked = true)
    (param : Nat → Nat) (len pre_delay timeout : Nat) (s : St W) (hlen : len ≤ 126) :
    a_ch9120_write_check h param len pre_delay timeout s ≠ none := by
  obtain ⟨_, _, ⟨fr, hr⟩, ⟨ff, hf⟩, ⟨fw, hw⟩, _, _, _, _, _, ⟨fc, hc⟩, ⟨fd, hd⟩, ⟨fp, hp⟩⟩ :=
    linked_fields h hl
  obtain ⟨r, s1, evs, hwc, _⟩ := write_check_returns h hr hc hf hw hd hp param len pre_delay
    timeout s hlen
  rw [hwc]
  exact Option.some_ne_none _

theorem write_read_ne_none (h : Handle W) (hl : h.linked = true)
    (param : Nat → Nat) (len : Nat) (out : Nat → Nat) (out_len pre_delay timeout : Nat)
    (s : St W) :
    a_ch9120_write_read h param len out out_len pre_delay timeout s ≠ none := by
  obtain ⟨_, _, ⟨fr, hr⟩, ⟨ff, hf⟩, ⟨fw, hw⟩, _, _, _, _, _, ⟨fc, hc⟩, ⟨fd, hd⟩, ⟨fp, hp⟩⟩ :=
    linked_fields h hl
  by_cases hlen : len ≤ 126
  · by_cases hst : (sent fc ff fw h param len s).1 ≠ 0
    · rw [write_read_write_failed h hc hf hw hp param len out out_len pre_delay timeout s hlen
        hst]
      exact Option.some_ne_none _
    · have hok : (sent fc ff fw h param len s).1 = 0 := by omega
      rw [write_read_write_ok h hc hf hw hd param len out out_len pre_delay timeout s hlen hok]
      obtain ⟨r, o, s1, evs, h1, _⟩ :=
        write_read_poll_shape (framed h param len) hr hc hd hp out_len (timeout / 10) 0 out
          (settled fd pre_delay (sent fc ff fw h param len s).2)
      rw [h1]
      exact Option.some_ne_none _
  · have hgt : len > 126 := by omega
    simp only [a_ch9120_write_read, if_pos hgt, call_debug_print, hp]
    exact Option.some_ne_none _

/-- On a handle with `inited = 1` and all functions linked, every public function other
than `ch9120_init` and `ch9120_info` returns, and not with status 3. -/
theorem ready_accessors_pass (h : Handle W) (hl : h.linked = true) (hin : h.inited = 1)
    (s : St W) (m o : Nat → Nat) (a b c d : Nat) :
    (∃ x, ch9120_get_version (some h) m s = some x ∧ x.1 ≠ 3) ∧
    (∃ x, ch9120_reset (some h) s = some x ∧ x.1 ≠ 3) ∧
    (∃ x, ch9120_get_status (some h) a s = some x ∧ x.1 ≠ 3) ∧
    (∃ x, ch9120_save_to_eeprom (some h) s = some x ∧ x.1 ≠ 3) ∧
    (∃ x, ch9120_config_and_reset (some h) s = some x ∧ x.1 ≠ 3) ∧
    (∃ x, ch9120_exit (some h) s = some x ∧ x.1 ≠ 3) ∧
    (∃ x, ch9120_set_mode (some h) a s = some x ∧ x.1 ≠ 3) ∧
    (∃ x, ch9120_get_mode (some h) a s = some x ∧ x.1 ≠ 3) ∧
    (∃ x, ch9120_set_ip (some h) m s = some x ∧ x.1 ≠ 3) ∧
    (∃ x, ch9120_get_ip (some h) m s = some x ∧ x.1 ≠ 3) ∧
    (∃ x, ch9120_set_subnet_mask (some h) m s = some x ∧ x.1 ≠ 3) ∧
    (∃ x, ch9120_get_subnet_mask (some h) m s = some x ∧ x.1 ≠ 3) ∧
    (∃ x, ch9120_set_gateway (some h) m s = some x ∧ x.1 ≠ 3) ∧
    (∃ x, ch9120_get_gateway (some h) m s = some x ∧ x.1 ≠ 3) ∧
    (∃ x, ch9120_set_source_port (some h) a s = some x ∧ x.1 ≠ 3) ∧
    (∃ x, ch9120_get_source_port (some h) a s = some x ∧ x.1 ≠ 3) ∧
    (∃ x, ch9120_set_dest_ip (some h) m s = some x ∧ x.1 ≠ 3) ∧
    (∃ x, ch9120_get_dest_ip (some h) m s = some x ∧ x.1 ≠ 3) ∧
    (∃ x, ch9120_set_dest_port (some h) a s = some x ∧ x.1 ≠ 3) ∧
    (∃ x, ch9120_get_dest_port (some h) a s = some x ∧ x.1 ≠ 3) ∧
    (∃ x, ch9120_set_uart_baud (some h) a s = some x ∧ x.1 ≠ 3) ∧
    (∃ x, ch9120_get_uart_baud (some h) a s = some x ∧ x.1 ≠ 3) ∧
    (∃ x, ch9120_set_uart_config (some h) a b c s = some x ∧ x.1 ≠ 3) ∧
    (∃ x, ch9120_get_uart_config (some h) a b c s = some x ∧ x.1 ≠ 3) ∧
    (∃ x, ch9120_set_uart_timeout (some h) a s = some x ∧ x.1 ≠ 3) ∧
    (∃ x, ch9120_get_uart_timeout (some h) m s = some x ∧ x.1 ≠ 3) ∧
    (∃ x, ch9120_uart_timeout_convert_to_register (some h) a b s = some x ∧ x.1 ≠ 3) ∧
    (∃ x, ch9120_uart_timeout_convert_to_data (some h) a b s = some x ∧ x.1 ≠ 3) ∧
    (∃ x, ch9120_set_source_port_random (some h) a s = some x ∧ x.1 ≠ 3) ∧
    (∃ x, ch9120_set_uart_buffer_length (some h) a s = some x ∧ x.1 ≠ 3) ∧
    (∃ x, ch9120_get_uart_buffer_length (some h) a s = some x ∧ x.1 ≠ 3) ∧
    (∃ x, ch9120_set_uart_flush (some h) a s = some x ∧ x.1 ≠ 3) ∧
    (∃ x, ch9120_get_uart_flush (some h) a s = some x ∧ x.1 ≠ 3) ∧
    (∃ x, ch9120_set_disconnect_with_no_rj45 (some h) a s = some x ∧ x.1 ≠ 3) ∧
    (∃ x, ch9120_get_disconnect_with_no_rj45 (some h) a s = some x ∧ x.1 ≠ 3) ∧
    (∃ x, ch9120_set_dhcp (some h) a s = some x ∧ x.1 ≠ 3) ∧
    (∃ x, ch9120_deinit (some h) s = some x ∧ x.1 ≠ 3) ∧
    (∃ x, ch9120_write (some h) m a s = some x ∧ x.1 ≠ 3) ∧
    (∃ x, ch9120_read (some h) m a s = some x ∧ x.1 ≠ 3) ∧
    (∃ x, ch9120_set_command (some h) m a o b c d s = some x ∧ x.1 ≠ 3) := by
  have hin2 : ¬ h.inited ≠ 1 := by omega
  obtain ⟨_, ⟨fud, hud⟩, ⟨fr, hr⟩, ⟨ff, hf⟩, ⟨fw, hw⟩, _, ⟨frd, hrd⟩, _, _, ⟨fcd, hcd⟩,
    ⟨fc, hc⟩, ⟨fd, hd⟩, ⟨fp, hp⟩⟩ := linked_fields h hl
  refine ⟨?_, ?_, ?_, ?_, ?_, ?_, ?_, ?_, ?_, ?_,
    ?_, ?_, ?_, ?_, ?_, ?_, ?_, ?_, ?_, ?_,
    ?_, ?_, ?_, ?_, ?_, ?_, ?_, ?_, ?_, ?_,
    ?_, ?_, ?_, ?_, ?_, ?_, ?_, ?_, ?_, ?_⟩
  · simp only [ch9120_get_version, if_neg hin2]
    split
    · rename_i heq
      exact absurd heq (write_read_ne_none h hl _ _ _ _ _ _ _)
    · split <;> exact ⟨_, rfl, by simp⟩
  · simp only [ch9120_reset, if_neg hin2, call_delay_ms]
    split
    · rename_i heq
      exact absurd heq (write_check_ne_none h hl _ _ _ _ _ (by decide))
    · rename_i x heq
      have hdx : x.2.1.delay_ms = some fd := by
        rw [(write_check_links h _ _ _ _ _ x heq).2.2.1, hd]
      simp only [hdx]
      split <;> exact ⟨_, rfl, by simp⟩
  · simp only [ch9120_get_status, if_neg hin2]
    split
    · rename_i heq
      exact absurd heq (write_read_ne_none h hl _ _ _ _ _ _ _)
    · split <;> exact ⟨_, rfl, by simp⟩
  · simp only [ch9120_save_to_eeprom, if_neg hin2]
    split
    · rename_i heq
      exact absurd heq (write_check_ne_none h hl _ _ _ _ _ (by decide))
    · split <;> exact ⟨_, rfl, by simp⟩
  · simp only [ch9120_config_and_reset, if_neg hin2, call_delay_ms]
    split
    · rename_i heq
      exact absurd heq (write_check_ne_none h hl _ _ _ _ _ (by decide))
    · rename_i x heq
      have hdx : x.2.1.delay_ms = some fd := by
        rw [(write_check_links h _ _ _ _ _ x heq).2.2.1, hd]
      simp only [hdx]
      split <;> exact ⟨_, rfl, by simp⟩
  · simp only [ch9120_exit, if_neg hin2]
    split
    · rename_i heq
      exact absurd heq (write_check_ne_none h hl _ _ _ _ _ (by decide))
    · split <;> exact ⟨_, rfl, by simp⟩
  · simp only [ch9120_set_mode, if_neg hin2]
    split
    · rename_i heq
      exact absurd heq (write_check_ne_none h hl _ _ _ _ _ (by decide))
    · split <;> exact ⟨_, rfl, by simp⟩
  · simp only [ch9120_get_mode, if_neg hin2]
    split
    · rename_i heq
      exact absurd heq (write_read_ne_none h hl _ _ _ _ _ _ _)
    · split <;> exact ⟨_, rfl, by simp⟩
  · simp only [ch9120_set_ip, if_neg hin2]
    split
    · rename_i heq
      exact absurd heq (write_check_ne_none h hl _ _ _ _ _ (by decide))
    · split <;> exact ⟨_, rfl, by simp⟩
  · simp only [ch9120_get_ip, if_neg hin2]
    split
    · rename_i heq
      exact absurd heq (write_read_ne_none h hl _ _ _ _ _ _ _)
    · split <;> exact ⟨_, rfl, by simp⟩
  · simp only [ch9120_set_subnet_mask, if_neg hin2]
    split
    · rename_i heq
      exact absurd heq (write_check_ne_none h hl _ _ _ _ _ (by decide))
    · split <;> exact ⟨_, rfl, by simp⟩
  · simp only [ch9120_get_subnet_mask, if_neg hin2]
    split
    · rename_i heq
      exact absurd heq (write_read_ne_none h hl _ _ _ _ _ _ _)
    · split <;> exact ⟨_, rfl, by simp⟩
  · simp only [ch9120_set_gateway, if_neg hin2]
    split
    · rename_i heq
      exact absurd heq (write_check_ne_none h hl _ _ _ _ _ (by decide))
    · split <;> exact ⟨_, rfl, by simp⟩
  · simp only [ch9120_get_gateway, if_neg hin2]
    split
    · rename_i heq
      exact absurd heq (write_read_ne_none h hl _ _ _ _ _ _ _)
    · split <;> exact ⟨_, rfl, by simp⟩
  · simp only [ch9120_set_source_port, if_neg hin2]
    split
    · rename_i heq
      exact absurd heq (write_check_ne_none h hl _ _ _ _ _ (by decide))
    · split <;> exact ⟨_, rfl, by simp⟩
  · simp only [ch9120_get_source_port, if_neg hin2]
    split
    · rename_i heq
      exact absurd heq (write_read_ne_none h hl _ _ _ _ _ _ _)
    · split <;> exact ⟨_, rfl, by simp⟩
  · simp only [ch9120_set_dest_ip, if_neg hin2]
    split
    · rename_i heq
      exact absurd heq (write_check_ne_none h hl _ _ _ _ _ (by decide))
    · split <;> exact ⟨_, rfl, by simp⟩
  · simp only [ch9120_get_dest_ip, if_neg hin2]
    split
    · rename_i heq
      exact absurd heq (write_read_ne_none h hl _ _ _ _ _ _ _)
    · split <;> exact ⟨_, rfl, by simp⟩
  · simp only [ch9120_set_dest_port, if_neg hin2]
    split
    · rename_i heq
      exact absurd heq (write_check_ne_none h hl _ _ _ _ _ (by decide))
    · split <;> exact ⟨_, rfl, by simp⟩
  · simp only [ch9120_get_dest_port, if_neg hin2]
    split
    · rename_i heq
      exact absurd heq (write_read_ne_none h hl _ _ _ _ _ _ _)
    · split <;> exact ⟨_, rfl, by simp⟩
  · simp only [ch9120_set_uart_baud, if_neg hin2]
    split
    · rename_i heq
      exact absurd heq (write_check_ne_none h hl _ _ _ _ _ (by decide))
    · split <;> exact ⟨_, rfl, by simp⟩
  · simp only [ch9120_get_uart_baud, if_neg hin2]
    split
    · rename_i heq
      exact absurd heq (write_read_ne_none h hl _ _ _ _ _ _ _)
    · split <;> exact ⟨_, rfl, by simp⟩
  · simp only [ch9120_set_uart_config, if_neg hin2]
    split
    · rename_i heq
      exact absurd heq (write_check_ne_none h hl _ _ _ _ _ (by decide))
    · split <;> exact ⟨_, rfl, by simp⟩
  · simp only [ch9120_get_uart_config, if_neg hin2]
    split
    · rename_i heq
      exact absurd heq (write_read_ne_none h hl _ _ _ _ _ _ _)
    · split <;> exact ⟨_, rfl, by simp⟩
  · simp only [ch9120_set_uart_timeout, if_neg hin2]
    split
    · rename_i heq
      exact absurd heq (write_check_ne_none h hl _ _ _ _ _ (by decide))
    · split <;> exact ⟨_, rfl, by simp⟩
  · simp only [ch9120_get_uart_timeout, if_neg hin2]
    split
    · rename_i heq
      exact absurd heq (write_read_ne_none h hl _ _ _ _ _ _ _)
    · split <;> exact ⟨_, rfl, by simp⟩
  · simp only [ch9120_uart_timeout_convert_to_register, if_neg hin2]
    exact ⟨_, rfl, by simp⟩
  · simp only [ch9120_uart_timeout_convert_to_data, if_neg hin2]
    exact ⟨_, rfl, by simp⟩
  · simp only [ch9120_set_source_port_random, if_neg hin2]
    split
    · rename_i heq
      exact absurd heq (write_check_ne_none h hl _ _ _ _ _ (by decide))
    · split <;> exact ⟨_, rfl, by simp⟩
  · simp only [ch9120_set_uart_buffer_length, if_neg hin2]
    split
    · rename_i heq
      exact absurd heq (write_check_ne_none h hl _ _ _ _ _ (by decide))
    · split <;> exact ⟨_, rfl, by simp⟩
  · simp only [ch9120_get_uart_buffer_length, if_neg hin2]
    split
    · rename_i heq
      exact absurd heq (write_read_ne_none h hl _ _ _ _ _ _ _)
    · split <;> exact ⟨_, rfl, by simp⟩
  · simp only [ch9120_set_uart_flush, if_neg hin2]
    split
    · rename_i heq
      exact absurd heq (write_check_ne_none h hl _ _ _ _ _ (by decide))
    · split <;> exact ⟨_, rfl, by simp⟩
  · simp only [ch9120_get_uart_flush, if_neg hin2]
    split
    · rename_i heq
      exact absurd heq (write_read_ne_none h hl _ _ _ _ _ _ _)
    · split <;> exact ⟨_, rfl, by simp⟩
  · simp only [ch9120_set_disconnect_with_no_rj45, if_neg hin2]
    split
    · rename_i heq
      exact absurd heq (write_check_ne_none h hl _ _ _ _ _ (by decide))
    · split <;> exact ⟨_, rfl, by simp⟩
  · simp only [ch9120_get_disconnect_with_no_rj45, if_neg hin2]
    split
    · rename_i heq
      exact absurd heq (write_read_ne_none h hl _ _ _ _ _ _ _)
    · split <;> exact ⟨_, rfl, by simp⟩
  · simp only [ch9120_set_dhcp, if_neg hin2]
    split
    · rename_i heq
      exact absurd heq (write_check_ne_none h hl _ _ _ _ _ (by decide))
    · split <;> exact ⟨_, rfl, by simp⟩
  · simp only [ch9120_deinit, if_neg hin2]
    split
    · rename_i heq
      exact absurd heq (write_check_ne_none h hl _ _ _ _ _ (by decide))
    · rename_i x heq
      obtain ⟨_, _, e1, e2, e3, e4, e5⟩ := write_check_links h _ _ _ _ _ x heq
      simp only [call_delay_ms, call_uart_deinit, call_reset_gpio_deinit,
        call_cfg_gpio_deinit, call_debug_print, e1, e2, e3, e4, e5, hd, hp, hud, hrd, hcd]
      split_ifs <;> exact ⟨_, rfl, by simp⟩
  · simp only [ch9120_write, if_neg hin2, call_cfg_gpio_write, call_uart_write,
      call_debug_print, hc, hw, hp]
    split_ifs <;> exact ⟨_, rfl, by simp⟩
  · simp only [ch9120_read, if_neg hin2, call_cfg_gpio_write, call_uart_read,
      call_debug_print, hc, hr, hp]
    split_ifs <;> exact ⟨_, rfl, by simp⟩
  · simp only [ch9120_set_command, if_neg hin2]
    split
    · rename_i heq
      exact absurd heq (write_read_ne_none h hl _ _ _ _ _ _ _)
    · split <;> exact ⟨_, rfl, by simp⟩

/-! ## The claims on the life cycle and the data plane -/

/-- C14 (init success sequence).  For a handle with all thirteen functions linked whose
`uart_init`, `reset_gpio_init`, `cfg_gpio_init` and `reset_gpio_write` report success,
`ch9120_init` calls, in this order and nothing else, `uart_init`, `reset_gpio_init`,
`cfg_gpio_init`, `reset_gpio_write(0)`, `delay_ms(10)`, `reset_gpio_write(1)`,
`delay_ms(500)`; it returns 0 and the handle with `inited` set to 1. -/
theorem init_success_sequence (h : Handle W) {fui fri fci frw fd} (s : St W)
    (hl : h.linked = true)
    (hui : h.uart_init = some fui) (hri : h.reset_gpio_init = some fri)
    (hci : h.cfg_gpio_init = some fci) (hrw : h.reset_gpio_write = some frw)
    (hd : h.delay_ms = some fd)
    (sui : ∀ w, (fui w).1 = 0) (sri : ∀ w, (fri w).1 = 0) (sci : ∀ w, (fci w).1 = 0)
    (srw : ∀ level w, (frw level w).1 = 0) :
    ∃ s1, ch9120_init (some h) s = some (0, some { h with inited := 1 }, s1) ∧
      s1.trace = s.trace ++ [Event.uart_init, Event.reset_gpio_init, Event.cfg_gpio_init,
        Event.reset_gpio_write 0, Event.delay_ms 10, Event.reset_gpio_write 1,
        Event.delay_ms 500] := by
  rw [init_linked h s hl]
  simp only [init_sequence, call_uart_init, call_reset_gpio_init, call_cfg_gpio_init,
    call_reset_gpio_write, call_delay_ms, hui, hri, hci, hrw, hd, sui, sri, sci, srw, ne_eq,
    not_true_eq_false, if_false]
  exact ⟨_, rfl, by simp⟩

/-- Witness of C14 on the test double, none of whose life-cycle functions fails. -/
theorem init_success_sequence_witness :
    ∃ s1, ch9120_init (some (scripted 0 0 0)) ⟨[], []⟩ =
        some (0, some { scripted 0 0 0 with inited := 1 }, s1) ∧
      s1.trace = [] ++ [Event.uart_init, Event.reset_gpio_init, Event.cfg_gpio_init,
        Event.reset_gpio_write 0, Event.delay_ms 10, Event.reset_gpio_write 1,
        Event.delay_ms 500] :=
  init_success_sequence (scripted 0 0 0) ⟨[], []⟩ (by decide) rfl rfl rfl rfl rfl
    (fun _ => rfl) (fun _ => rfl) (fun _ => rfl) (fun _ _ => rfl)

/-- C15 (init rollback).  With all thirteen functions linked:
if `uart_init` fails, `ch9120_init` returns 1 and calls no deinit function;
if `reset_gpio_init` fails, it calls `uart_deinit` only and returns 4;
if `cfg_gpio_init` fails, it calls `uart_deinit`, then `reset_gpio_deinit`, and returns 5;
if `reset_gpio_write(0)` or `reset_gpio_write(1)` fails, it calls `uart_deinit`,
`reset_gpio_deinit` and `cfg_gpio_deinit` and returns 6.
In each case the calls listed are all the calls made, so no later step of the
initialization is run, and the handle is returned as it was. -/
theorem init_rollback_sequence (h : Handle W) {fui fud fri frd fci fcd frw fd fp} (s : St W)
    (hl : h.linked = true)
    (hui : h.uart_init = some fui) (hud : h.uart_deinit = some fud)
    (hri : h.reset_gpio_init = some fri) (hrd : h.reset_gpio_deinit = some frd)
    (hci : h.cfg_gpio_init = some fci) (hcd : h.cfg_gpio_deinit = some fcd)
    (hrw : h.reset_gpio_write = some frw) (hd : h.delay_ms = some fd)
    (hp : h.debug_print = some fp) :
    ((fui s.world).1 ≠ 0 →
      ∃ s1, ch9120_init (some h) s = some (1, some h, s1) ∧
        s1.trace = s.trace ++ [Event.uart_init,
          Event.debug_print "ch9120: uart init failed.\n"]) ∧
    ((fui s.world).1 = 0 → (fri (fui s.world).2).1 ≠ 0 →
      ∃ s1, ch9120_init (some h) s = some (4, some h, s1) ∧
        s1.trace = s.trace ++ [Event.uart_init, Event.reset_gpio_init,
          Event.debug_print "ch9120: reset gpio init failed.\n", Event.uart_deinit]) ∧
    ((fui s.world).1 = 0 → (fri (fui s.world).2).1 = 0 →
      (fci (fri (fui s.world).2).2).1 ≠ 0 →
      ∃ s1, ch9120_init (some h) s = some (5, some h, s1) ∧
        s1.trace = s.trace ++ [Event.uart_init, Event.reset_gpio_init, Event.cfg_gpio_init,
          Event.debug_print "ch9120: cfg gpio init failed.\n", Event.uart_deinit,
          Event.reset_gpio_deinit]) ∧
    ((fui s.world).1 = 0 → (fri (fui s.world).2).1 = 0 →
      (fci (fri (fui s.world).2).2).1 = 0 →
      (frw 0 (fci (fri (fui s.world).2).2).2).1 ≠ 0 →
      ∃ s1, ch9120_init (some h) s = some (6, some h, s1) ∧
        s1.trace = s.trace ++ [Event.uart_init, Event.reset_gpio_init, Event.cfg_gpio_init,
          Event.reset_gpio_write 0, Event.debug_print "ch9120: cfg gpio write failed.\n",
          Event.uart_deinit, Event.reset_gpio_deinit, Event.cfg_gpio_deinit]) ∧
    ((fui s.world).1 = 0 → (fri (fui s.world).2).1 = 0 →
      (fci (fri (fui s.world).2).2).1 = 0 →
      (frw 0 (fci (fri (fui s.world).2).2).2).1 = 0 →
      (frw 1 (fd 10 (frw 0 (fci (fri (fui s.world).2).2).2).2)).1 ≠ 0 →
      ∃ s1, ch9120_init (some h) s = some (6, some h, s1) ∧
        s1.trace = s.trace ++ [Event.uart_init, Event.reset_gpio_init, Event.cfg_gpio_init,
          Event.reset_gpio_write 0, Event.delay_ms 10, Event.reset_gpio_write 1,
          Event.debug_print "ch9120: cfg gpio write failed.\n",
          Event.uart_deinit, Event.reset_gpio_deinit, Event.cfg_gpio_deinit]) := by
  rw [init_linked h s hl]
  refine ⟨?_, ?_, ?_, ?_, ?_⟩
  · intro f1
    simp only [init_sequence, call_uart_init, call_debug_print, hui, hp, if_pos f1]
    exact ⟨_, rfl, by simp⟩
  · intro o1 f2
    have n1 : ¬ (fui s.world).1 ≠ 0 := by omega
    simp only [init_sequence, call_uart_init, call_reset_gpio_init, call_debug_print,
      call_uart_deinit, hui, hri, hud, hp, if_neg n1, if_pos f2]
    exact ⟨_, rfl, by simp⟩
  · intro o1 o2 f3
    have n1 : ¬ (fui s.world).1 ≠ 0 := by omega
    have n2 : ¬ (fri (fui s.world).2).1 ≠ 0 := by omega
    simp only [init_sequence, call_uart_init, call_reset_gpio_init, call_cfg_gpio_init,
      call_debug_print, call_uart_deinit, call_reset_gpio_deinit, hui, hri, hci, hud, hrd,
      hp, if_neg n1, if_neg n2, if_pos f3]
    exact ⟨_, rfl, by simp⟩
  · intro o1 o2 o3 f4
    have n1 : ¬ (fui s.world).1 ≠ 0 := by omega
    have n2 : ¬ (fri (fui s.world).2).1 ≠ 0 := by omega
    have n3 : ¬ (fci (fri (fui s.world).2).2).1 ≠ 0 := by omega
    simp only [init_sequence, init_rollback, call_uart_init, call_reset_gpio_init,
      call_cfg_gpio_init, call_reset_gpio_write, call_debug_print, call_uart_deinit,
      call_reset_gpio_deinit, call_cfg_gpio_deinit, hui, hri, hci, hrw, hud, hrd, hcd, hp,
      if_neg n1, if_neg n2, if_neg n3, if_pos f4]
    exact ⟨_, rfl, by simp⟩
  · intro o1 o2 o3 o4 f5
    have n1 : ¬ (fui s.world).1 ≠ 0 := by omega
    have n2 : ¬ (fri (fui s.world).2).1 ≠ 0 := by omega
    have n3 : ¬ (fci (fri (fui s.world).2).2).1 ≠ 0 := by omega
    have n4 : ¬ (frw 0 (fci (fri (fui s.world).2).2).2).1 ≠ 0 := by omega
    simp only [init_sequence, init_rollback, call_uart_init, call_reset_gpio_init,
      call_cfg_gpio_init, call_reset_gpio_write, call_delay_ms, call_debug_print,
      call_uart_deinit, call_reset_gpio_deinit, call_cfg_gpio_deinit, hui, hri, hci, hrw,
      hd, hud, hrd, hcd, hp, if_neg n1, if_neg n2, if_neg n3, if_neg n4, if_pos f5]
    exact ⟨_, rfl, by simp⟩

/-- Witness of C15: five test doubles, each failing at one step of the initialization. -/
theorem init_rollback_sequence_witness :
    (∃ s1, ch9120_init (some (staged 1 0 0 0 0 0 0 0 0)) ⟨[], []⟩ = some (1, some (staged 1 0 0 0 0 0 0 0 0), s1) ∧
      s1.trace = [] ++ [Event.uart_init,
        Event.debug_print "ch9120: uart init failed.\n"]) ∧
    (∃ s1, ch9120_init (some (staged 0 1 0 0 0 0 0 0 0)) ⟨[], []⟩ = some (4, some (staged 0 1 0 0 0 0 0 0 0), s1) ∧
      s1.trace = [] ++ [Event.uart_init,
        Event.reset_gpio_init,
        Event.debug_print "ch9120: reset gpio init failed.\n",
        Event.uart_deinit]) ∧
    (∃ s1, ch9120_init (some (staged 0 0 1 0 0 0 0 0 0)) ⟨[], []⟩ = some (5, some (staged 0 0 1 0 0 0 0 0 0), s1) ∧
      s1.trace = [] ++ [Event.uart_init,
        Event.reset_gpio_init,
        Event.cfg_gpio_init,
        Event.debug_print "ch9120: cfg gpio init failed.\n",
        Event.uart_deinit,
        Event.reset_gpio_deinit]) ∧
    (∃ s1, ch9120_init (some (staged 0 0 0 1 0 0 0 0 0)) ⟨[], []⟩ = some (6, some (staged 0 0 0 1 0 0 0 0 0), s1) ∧
      s1.trace = [] ++ [Event.uart_init,
        Event.reset_gpio_init,
        Event.cfg_gpio_init,
        Event.reset_gpio_write 0,
        Event.debug_print "ch9120: cfg gpio write failed.\n",
        Event.uart_deinit,
        Event.reset_gpio_deinit,
        Event.cfg_gpio_deinit]) ∧
    (∃ s1, ch9120_init (some (staged 0 0 0 0 1 0 0 0 0)) ⟨[], []⟩ = some (6, some (staged 0 0 0 0 1 0 0 0 0), s1) ∧
      s1.trace = [] ++ [Event.uart_init,
        Event.reset_gpio_init,
        Event.cfg_gpio_init,
        Event.reset_gpio_write 0,
        Event.delay_ms 10,
        Event.reset_gpio_write 1,
        Event.debug_print "ch9120: cfg gpio write failed.\n",
        Event.uart_deinit,
        Event.reset_gpio_deinit,
        Event.cfg_gpio_deinit]) :=
  ⟨(init_rollback_sequence (staged 1 0 0 0 0 0 0 0 0) ⟨[], []⟩ (by decide) rfl rfl rfl rfl rfl rfl rfl rfl
      rfl).1 (by decide),
    (init_rollback_sequence (staged 0 1 0 0 0 0 0 0 0) ⟨[], []⟩ (by decide) rfl rfl rfl rfl rfl rfl rfl rfl
      rfl).2.1 (by decide) (by decide),
    (init_rollback_sequence (staged 0 0 1 0 0 0 0 0 0) ⟨[], []⟩ (by decide) rfl rfl rfl rfl rfl rfl rfl rfl
      rfl).2.2.1 (by decide) (by decide) (by decide),
    (init_rollback_sequence (staged 0 0 0 1 0 0 0 0 0) ⟨[], []⟩ (by decide) rfl rfl rfl rfl rfl rfl rfl rfl
      rfl).2.2.2.1 (by decide) (by decide) (by decide) (by decide),
    (init_rollback_sequence (staged 0 0 0 0 1 0 0 0 0) ⟨[], []⟩ (by decide) rfl rfl rfl rfl rfl rfl rfl rfl
      rfl).2.2.2.2 (by decide) (by decide) (by decide) (by decide) (by decide)⟩

/-- The function `ch9120_init` returns on every non-NULL handle: the thirteen NULL checks
come before the first call through a linked function. -/
theorem init_total (h : Handle W) (s : St W) :
    ∃ r hopt s1, ch9120_init (some h) s = some (r, hopt, s1) := by
  by_cases hl : h.linked = true
  · obtain ⟨⟨fui, hui⟩, ⟨fud, hud⟩, _, _, _, ⟨fri, hri⟩, ⟨frd, hrd⟩, ⟨frw, hrw⟩, ⟨fci, hci⟩,
      ⟨fcd, hcd⟩, _, ⟨fd, hd⟩, ⟨fp, hp⟩⟩ := linked_fields h hl
    rw [init_linked h s hl]
    simp only [init_sequence, init_rollback, call_uart_init, call_uart_deinit,
      call_reset_gpio_init, call_reset_gpio_deinit, call_reset_gpio_write, call_cfg_gpio_init,
      call_cfg_gpio_deinit, call_delay_ms, call_debug_print, hui, hud, hri, hrd, hrw, hci, hcd,
      hd, hp]
    split_ifs <;> exact ⟨_, _, _, rfl⟩
  · have hl2 : h.linked = false := by simpa using hl
    obtain ⟨hnone, hsome⟩ := init_unlinked h s hl2
    cases hdp : h.debug_print with
    | none => exact ⟨_, _, _, hnone hdp⟩
    | some fp =>
      obtain ⟨msg, hmsg⟩ := hsome fp hdp
      exact ⟨_, _, _, hmsg⟩

/-- C16 (failed init leaves the handle not ready).  Let the handle be not ready on entry
(`inited ≠ 1`), as is the zero-initialised handle that the life cycle hands to
`ch9120_init`.  Then `ch9120_init` returns, and whenever it returns a non-zero status, for a
missing function or for a failed step, it hands the handle back as it was, so that the
handle is not ready afterwards: its `inited` flag is not 1. -/
theorem failed_init_not_ready (h : Handle W) (s : St W) (hentry : h.inited ≠ 1) :
    (∃ r hopt s1, ch9120_init (some h) s = some (r, hopt, s1)) ∧
    ∀ r hopt s1, ch9120_init (some h) s = some (r, hopt, s1) → r ≠ 0 →
      hopt = some h ∧ ∀ h1, hopt = some h1 → h1.inited ≠ 1 := by
  refine ⟨init_total h s, fun r hopt s1 hres hr => ?_⟩
  rcases init_result h s r hopt s1 hres with ⟨h0, _⟩ | ⟨_, hsame⟩
  · exact absurd h0 hr
  · refine ⟨hsame, fun h1 h1eq => ?_⟩
    rw [hsame] at h1eq
    cases h1eq
    exact hentry

/-- Witness of C16: a zero-initialised, fully linked handle whose `reset_gpio_init` fails,
and a zero-initialised handle without any linked function. -/
theorem failed_init_not_ready_witness :
    ((staged 0 1 0 0 0 0 0 0 0).inited ≠ 1 ∧
      ch9120_init (some (staged 0 1 0 0 0 0 0 0 0)) ⟨[], []⟩ =
        some (4, some (staged 0 1 0 0 0 0 0 0 0),
          ⟨[], [Event.uart_init, Event.reset_gpio_init,
            Event.debug_print "ch9120: reset gpio init failed.\n", Event.uart_deinit]⟩) ∧
      (4 : Nat) ≠ 0 ∧
      (some (staged 0 1 0 0 0 0 0 0 0) = some (staged 0 1 0 0 0 0 0 0 0) ∧
        ∀ h1, some (staged 0 1 0 0 0 0 0 0 0) = some h1 → h1.inited ≠ 1)) ∧
    ((⟨none, none, none, none, none, none, none, none, none, none, none, none, none, 0,
          fun _ => 0⟩ : Handle Unit).inited ≠ 1 ∧
      ch9120_init (some (⟨none, none, none, none, none, none, none, none, none, none, none,
          none, none, 0, fun _ => 0⟩ : Handle Unit)) ⟨(), []⟩ =
        some (3, some ⟨none, none, none, none, none, none, none, none, none, none, none, none,
          none, 0, fun _ => 0⟩, ⟨(), []⟩) ∧
      (3 : Nat) ≠ 0 ∧
      (some (⟨none, none, none, none, none, none, none, none, none, none, none, none, none, 0,
          fun _ => 0⟩ : Handle Unit) =
          some ⟨none, none, none, none, none, none, none, none, none, none, none, none, none,
            0, fun _ => 0⟩ ∧
        ∀ h1, some (⟨none, none, none, none, none, none, none, none, none, none, none, none,
          none, 0, fun _ => 0⟩ : Handle Unit) = some h1 → h1.inited ≠ 1)) :=
  ⟨⟨by decide, rfl, by decide,
      (failed_init_not_ready (staged 0 1 0 0 0 0 0 0 0) ⟨[], []⟩ (by decide)).2 4
        (some (staged 0 1 0 0 0 0 0 0 0))
        ⟨[], [Event.uart_init, Event.reset_gpio_init,
          Event.debug_print "ch9120: reset gpio init failed.\n", Event.uart_deinit]⟩
        rfl (by decide)⟩,
    ⟨by decide, rfl, by decide,
      (failed_init_not_ready (⟨none, none, none, none, none, none, none, none, none, none,
          none, none, none, 0, fun _ => 0⟩ : Handle Unit) ⟨(), []⟩ (by decide)).2 3
        (some ⟨none, none, none, none, none, none, none, none, none, none, none, none, none,
          0, fun _ => 0⟩)
        ⟨(), []⟩ rfl (by decide)⟩⟩

/-- C17 (init capability validation).  For a non-NULL handle on which any of the thirteen
functions is not linked, `ch9120_init` returns 3 and leaves the handle as it was.  When
`debug_print` is the missing one no function at all is called; otherwise exactly one call is
made, a `debug_print`, and no UART, GPIO or delay function is called. -/
theorem init_capability_validation (h : Handle W) (s : St W)
    (hmiss : h.debug_print = none ∨ h.uart_init = none ∨ h.uart_deinit = none ∨
      h.uart_read = none ∨ h.uart_write = none ∨ h.uart_flush = none ∨ h.delay_ms = none ∨
      h.reset_gpio_init = none ∨ h.reset_gpio_deinit = none ∨ h.reset_gpio_write = none ∨
      h.cfg_gpio_init = none ∨ h.cfg_gpio_deinit = none ∨ h.cfg_gpio_write = none) :
    (h.debug_print = none → ch9120_init (some h) s = some (3, some h, s)) ∧
    (∀ fp, h.debug_print = some fp →
      ∃ msg, ch9120_init (some h) s =
        some (3, some h, ⟨fp msg s.world, s.trace ++ [Event.debug_print msg]⟩)) := by
  have hl : h.linked = false := by
    cases hlk : h.linked with
    | false => rfl
    | true =>
      obtain ⟨h1, h2, h3, h4, h5, h6, h7, h8, h9, h10, h11, h12, h13⟩ := linked_isSome h hlk
      rcases hmiss with e | e | e | e | e | e | e | e | e | e | e | e | e <;>
        simp [e] at h1 h2 h3 h4 h5 h6 h7 h8 h9 h10 h11 h12 h13
  exact init_unlinked h s hl

/-- Witness of C17: the test double with `uart_flush` left unlinked. -/
theorem init_capability_validation_witness :
    ((({ scripted 0 0 0 with uart_flush := none } : Handle (List (List Nat))).debug_print
        = none) →
      ch9120_init (some { scripted 0 0 0 with uart_flush := none }) ⟨[], []⟩ =
        some (3, some { scripted 0 0 0 with uart_flush := none }, ⟨[], []⟩)) ∧
    (∀ fp, ({ scripted 0 0 0 with uart_flush := none } : Handle (List (List Nat))).debug_print
        = some fp →
      ∃ msg, ch9120_init (some { scripted 0 0 0 with uart_flush := none }) ⟨[], []⟩ =
        some (3, some { scripted 0 0 0 with uart_flush := none },
          ⟨fp msg [], [] ++ [Event.debug_print msg]⟩)) :=
  init_capability_validation { scripted 0 0 0 with uart_flush := none } ⟨[], []⟩
    (Or.inr (Or.inr (Or.inr (Or.inr (Or.inr (Or.inl rfl))))))

/-- C20 (data-plane write).  On a ready handle `ch9120_write(buf, len)` first calls
`cfg_gpio_write(1)`.  If that fails it returns 1 and `uart_write` is not called.  Otherwise
it calls `uart_write` once, with the caller's `len` bytes and `len` as they are (no header),
and returns 1 if that write fails and 0 if not.  The calls listed are all the calls made:
no `uart_read`, `uart_flush` or `delay_ms`. -/
theorem data_plane_write (h : Handle W) {fc fw fp}
    (hc : h.cfg_gpio_write = some fc) (hw : h.uart_write = some fw)
    (hp : h.debug_print = some fp) (hin : h.inited = 1)
    (buf : Nat → Nat) (len : Nat) (s : St W) :
    ((fc 1 s.world).1 ≠ 0 →
      ∃ s1, ch9120_write (some h) buf len s = some (1, some h, s1) ∧
        s1.trace = s.trace ++ [Event.cfg_gpio_write 1,
          Event.debug_print "ch9120: cfg gpio write failed.\n"]) ∧
    ((fc 1 s.world).1 = 0 → (fw (bytes buf len) len (fc 1 s.world).2).1 ≠ 0 →
      ∃ s1, ch9120_write (some h) buf len s = some (1, some h, s1) ∧
        s1.trace = s.trace ++ [Event.cfg_gpio_write 1, Event.uart_write (bytes buf len) len,
          Event.debug_print "ch9120:uart write failed.\n"]) ∧
    ((fc 1 s.world).1 = 0 → (fw (bytes buf len) len (fc 1 s.world).2).1 = 0 →
      ∃ s1, ch9120_write (some h) buf len s = some (0, some h, s1) ∧
        s1.trace = s.trace ++ [Event.cfg_gpio_write 1,
          Event.uart_write (bytes buf len) len]) := by
  have hin2 : ¬ h.inited ≠ 1 := by omega
  refine ⟨?_, ?_, ?_⟩
  · intro f1
    simp only [ch9120_write, if_neg hin2, call_cfg_gpio_write, call_debug_print, hc, hp,
      if_pos f1]
    exact ⟨_, rfl, by simp⟩
  · intro o1 f2
    have n1 : ¬ (fc 1 s.world).1 ≠ 0 := by omega
    simp only [ch9120_write, if_neg hin2, call_cfg_gpio_write, call_uart_write,
      call_debug_print, hc, hw, hp, if_neg n1, if_pos f2]
    exact ⟨_, rfl, by simp⟩
  · intro o1 o2
    have n1 : ¬ (fc 1 s.world).1 ≠ 0 := by omega
    have n2 : ¬ (fw (bytes buf len) len (fc 1 s.world).2).1 ≠ 0 := by omega
    simp only [ch9120_write, if_neg hin2, call_cfg_gpio_write, call_uart_write, hc, hw,
      if_neg n1, if_neg n2]
    exact ⟨_, rfl, by simp⟩

/-- Witness of C20: three bytes written on test doubles whose `cfg_gpio_write` fails, whose
`uart_write` fails, and on which both succeed. -/
theorem data_plane_write_witness :
    (∃ s1, ch9120_write (some (scripted 0 1 1)) (ofList [1, 2, 3]) 3 ⟨[], []⟩ =
        some (1, some (scripted 0 1 1), s1) ∧
      s1.trace = [] ++ [Event.cfg_gpio_write 1,
        Event.debug_print "ch9120: cfg gpio write failed.\n"]) ∧
    (∃ s1, ch9120_write (some (scripted 1 0 1)) (ofList [1, 2, 3]) 3 ⟨[], []⟩ =
        some (1, some (scripted 1 0 1), s1) ∧
      s1.trace = [] ++ [Event.cfg_gpio_write 1,
        Event.uart_write (bytes (ofList [1, 2, 3]) 3) 3,
        Event.debug_print "ch9120:uart write failed.\n"]) ∧
    (∃ s1, ch9120_write (some (scripted 0 0 1)) (ofList [1, 2, 3]) 3 ⟨[], []⟩ =
        some (0, some (scripted 0 0 1), s1) ∧
      s1.trace = [] ++ [Event.cfg_gpio_write 1,
        Event.uart_write (bytes (ofList [1, 2, 3]) 3) 3]) :=
  ⟨(data_plane_write (scripted 0 1 1) rfl rfl rfl rfl (ofList [1, 2, 3]) 3 ⟨[], []⟩).1
      (by decide),
    (data_plane_write (scripted 1 0 1) rfl rfl rfl rfl (ofList [1, 2, 3]) 3 ⟨[], []⟩).2.1
      (by decide) (by decide),
    (data_plane_write (scripted 0 0 1) rfl rfl rfl rfl (ofList [1, 2, 3]) 3 ⟨[], []⟩).2.2
      (by decide) (by decide)⟩

/-- C18 (deinit sequence and codes).  On a ready handle `ch9120_deinit` runs write-check
on the one-byte payload `0x02` with a 1000 ms timeout, which transmits the frame
`57 AB 02` and calls no deinit function.  If write-check fails, `ch9120_deinit` returns 4
having made no further call.  Otherwise it calls `delay_ms(10)`, then `uart_deinit`,
`reset_gpio_deinit`, `cfg_gpio_deinit` in that order; it returns 1, 5 or 6 at the first of
them that fails, after a `debug_print` and without calling the later ones, and 0 when all
three succeed. -/
theorem deinit_sequence (h : Handle W) {fr fc ff fw fd fp fud frd fcd}
    (hr : h.uart_read = some fr) (hc : h.cfg_gpio_write = some fc)
    (hf : h.uart_flush = some ff) (hw : h.uart_write = some fw)
    (hd : h.delay_ms = some fd) (hp : h.debug_print = some fp)
    (hud : h.uart_deinit = some fud) (hrd : h.reset_gpio_deinit = some frd)
    (hcd : h.cfg_gpio_deinit = some fcd) (hin : h.inited = 1) (s : St W) :
    ∃ r h1 s1 evs,
      a_ch9120_write_check h (ofList [0x02]) 1 CH9120_UART_PRE_DELAY 1000 s =
        some (r, h1, s1) ∧
      s1.trace = s.trace ++ [Event.cfg_gpio_write 0, Event.uart_flush,
        Event.uart_write [0x57, 0xAB, 0x02] 3] ++ evs ∧
      deinitCalls evs = [] ∧
      (r ≠ 0 → ch9120_deinit (some h) s = some (4, some h1, s1)) ∧
      (r = 0 → (fud (fd 10 s1.world)).1 ≠ 0 →
        ∃ s2, ch9120_deinit (some h) s = some (1, some h1, s2) ∧
          s2.trace = s1.trace ++ [Event.delay_ms 10, Event.uart_deinit,
            Event.debug_print "ch9120: uart deinit failed.\n"]) ∧
      (r = 0 → (fud (fd 10 s1.world)).1 = 0 →
        (frd (fud (fd 10 s1.world)).2).1 ≠ 0 →
        ∃ s2, ch9120_deinit (some h) s = some (5, some h1, s2) ∧
          s2.trace = s1.trace ++ [Event.delay_ms 10, Event.uart_deinit,
            Event.reset_gpio_deinit,
            Event.debug_print "ch9120: reset gpio deinit failed.\n"]) ∧
      (r = 0 → (fud (fd 10 s1.world)).1 = 0 →
        (frd (fud (fd 10 s1.world)).2).1 = 0 →
        (fcd (frd (fud (fd 10 s1.world)).2).2).1 ≠ 0 →
        ∃ s2, ch9120_deinit (some h) s = some (6, some h1, s2) ∧
          s2.trace = s1.trace ++ [Event.delay_ms 10, Event.uart_deinit,
            Event.reset_gpio_deinit, Event.cfg_gpio_deinit,
            Event.debug_print "ch9120: cfg gpio deinit failed.\n"]) ∧
      (r = 0 → (fud (fd 10 s1.world)).1 = 0 →
        (frd (fud (fd 10 s1.world)).2).1 = 0 →
        (fcd (frd (fud (fd 10 s1.world)).2).2).1 = 0 →
        ∃ s2, ch9120_deinit (some h) s = some (0, some h1, s2) ∧
          s2.trace = s1.trace ++ [Event.delay_ms 10, Event.uart_deinit,
            Event.reset_gpio_deinit, Event.cfg_gpio_deinit]) := by
  obtain ⟨r, s1, evs, hwc, htr, hpoll, _⟩ := write_check_returns h hr hc hf hw hd hp
    (ofList [0x02]) 1 CH9120_UART_PRE_DELAY 1000 s (by decide)
  have hin2 : ¬ h.inited ≠ 1 := by omega
  have hbytes : bytes (ofList [0x02]) 1 = [0x02] := by decide
  refine ⟨r, framed h (ofList [0x02]) 1, s1, evs, hwc, ?_, deinitCalls_polling evs hpoll,
    ?_, ?_, ?_, ?_, ?_⟩
  · rw [htr, hbytes]
  · intro f0
    simp only [ch9120_deinit, if_neg hin2, CH9120_CMD_RESET, hwc, if_pos f0]
  · intro o0 f1
    have n0 : ¬ r ≠ 0 := by omega
    simp only [ch9120_deinit, if_neg hin2, CH9120_CMD_RESET, hwc, if_neg n0, framed,
      call_delay_ms, call_uart_deinit, call_debug_print, hd, hud, hp, if_pos f1]
    exact ⟨_, rfl, by simp⟩
  · intro o0 o1 f2
    have n0 : ¬ r ≠ 0 := by omega
    have n1 : ¬ (fud (fd 10 s1.world)).1 ≠ 0 := by omega
    simp only [ch9120_deinit, if_neg hin2, CH9120_CMD_RESET, hwc, if_neg n0, framed,
      call_delay_ms, call_uart_deinit, call_reset_gpio_deinit, call_debug_print, hd, hud,
      hrd, hp, if_neg n1, if_pos f2]
    exact ⟨_, rfl, by simp⟩
  · intro o0 o1 o2 f3
    have n0 : ¬ r ≠ 0 := by omega
    have n1 : ¬ (fud (fd 10 s1.world)).1 ≠ 0 := by omega
    have n2 : ¬ (frd (fud (fd 10 s1.world)).2).1 ≠ 0 := by omega
    simp only [ch9120_deinit, if_neg hin2, CH9120_CMD_RESET, hwc, if_neg n0, framed,
      call_delay_ms, call_uart_deinit, call_reset_gpio_deinit, call_cfg_gpio_deinit,
      call_debug_print, hd, hud, hrd, hcd, hp, if_neg n1, if_neg n2, if_pos f3]
    exact ⟨_, rfl, by simp⟩
  · intro o0 o1 o2 o3
    have n0 : ¬ r ≠ 0 := by omega
    have n1 : ¬ (fud (fd 10 s1.world)).1 ≠ 0 := by omega
    have n2 : ¬ (frd (fud (fd 10 s1.world)).2).1 ≠ 0 := by omega
    have n3 : ¬ (fcd (frd (fud (fd 10 s1.world)).2).2).1 ≠ 0 := by omega
    simp only [ch9120_deinit, if_neg hin2, CH9120_CMD_RESET, hwc, if_neg n0, framed,
      call_delay_ms, call_uart_deinit, call_reset_gpio_deinit, call_cfg_gpio_deinit, hd,
      hud, hrd, hcd, if_neg n1, if_neg n2, if_neg n3]
    exact ⟨_, rfl, by simp⟩

/-- Witness of C18: a ready test double that acknowledges the reset command and whose
`reset_gpio_deinit` fails, so that `ch9120_deinit` returns 5 without calling
`cfg_gpio_deinit`. -/
theorem deinit_sequence_witness :
    ch9120_deinit (some (staged 0 0 0 0 0 0 1 0 1)) ⟨[[0xAA]], []⟩ =
      some (5, some (framed (staged 0 0 0 0 0 0 1 0 1) (ofList [0x02]) 1),
        ⟨[], [Event.cfg_gpio_write 0, Event.uart_flush, Event.uart_write [0x57, 0xAB, 0x02] 3,
          Event.delay_ms 50, Event.uart_read 0 1, Event.cfg_gpio_write 1, Event.delay_ms 10,
          Event.uart_deinit, Event.reset_gpio_deinit,
          Event.debug_print "ch9120: reset gpio deinit failed.\n"]⟩) ∧
    ∃ r h1 s1 evs,
      a_ch9120_write_check (staged 0 0 0 0 0 0 1 0 1) (ofList [0x02]) 1
        CH9120_UART_PRE_DELAY 1000 ⟨[[0xAA]], []⟩ = some (r, h1, s1) ∧
      s1.trace = [] ++ [Event.cfg_gpio_write 0, Event.uart_flush,
        Event.uart_write [0x57, 0xAB, 0x02] 3] ++ evs ∧
      deinitCalls evs = [] ∧
      (r ≠ 0 → ch9120_deinit (some (staged 0 0 0 0 0 0 1 0 1)) ⟨[[0xAA]], []⟩ =
        some (4, some h1, s1)) := by
  refine ⟨rfl, ?_⟩
  obtain ⟨r, h1, s1, evs, e1, e2, e3, e4, _⟩ :=
    deinit_sequence (staged 0 0 0 0 0 0 1 0 1) rfl rfl rfl rfl rfl rfl rfl rfl rfl rfl
      ⟨[[0xAA]], []⟩
  exact ⟨r, h1, s1, evs, e1, e2, e3, e4⟩

/-- C19 (deinit does not clear the initialized flag).  On every path on which
`ch9120_deinit` returns, the handle it leaves has the `inited` flag it had before.  So after
a deinit that returned 0 the flag is still 1, and on that handle (its functions linked as
`ch9120_init` requires) every public function other than `ch9120_init` and `ch9120_info`
returns with a status other than 3: it passes the initialized check. -/
theorem deinit_keeps_flag (h : Handle W) (s : St W) (r : Nat) (hopt : Option (Handle W))
    (s1 : St W) (hres : ch9120_deinit (some h) s = some (r, hopt, s1)) :
    ∃ h1, hopt = some h1 ∧ h1.inited = h.inited ∧
      (r = 0 → h1.inited = 1 ∧
        (h.linked = true → ∀ (s : St W) (m o : Nat → Nat) (a b c d : Nat),
          (∃ x, ch9120_get_version (some h1) m s = some x ∧ x.1 ≠ 3) ∧
          (∃ x, ch9120_reset (some h1) s = some x ∧ x.1 ≠ 3) ∧
          (∃ x, ch9120_get_status (some h1) a s = some x ∧ x.1 ≠ 3) ∧
          (∃ x, ch9120_save_to_eeprom (some h1) s = some x ∧ x.1 ≠ 3) ∧
          (∃ x, ch9120_config_and_reset (some h1) s = some x ∧ x.1 ≠ 3) ∧
          (∃ x, ch9120_exit (some h1) s = some x ∧ x.1 ≠ 3) ∧
          (∃ x, ch9120_set_mode (some h1) a s = some x ∧ x.1 ≠ 3) ∧
          (∃ x, ch9120_get_mode (some h1) a s = some x ∧ x.1 ≠ 3) ∧
          (∃ x, ch9120_set_ip (some h1) m s = some x ∧ x.1 ≠ 3) ∧
          (∃ x, ch9120_get_ip (some h1) m s = some x ∧ x.1 ≠ 3) ∧
          (∃ x, ch9120_set_subnet_mask (some h1) m s = some x ∧ x.1 ≠ 3) ∧
          (∃ x, ch9120_get_subnet_mask (some h1) m s = some x ∧ x.1 ≠ 3) ∧
          (∃ x, ch9120_set_gateway (some h1) m s = some x ∧ x.1 ≠ 3) ∧
          (∃ x, ch9120_get_gateway (some h1) m s = some x ∧ x.1 ≠ 3) ∧
          (∃ x, ch9120_set_source_port (some h1) a s = some x ∧ x.1 ≠ 3) ∧
          (∃ x, ch9120_get_source_port (some h1) a s = some x ∧ x.1 ≠ 3) ∧
          (∃ x, ch9120_set_dest_ip (some h1) m s = some x ∧ x.1 ≠ 3) ∧
          (∃ x, ch9120_get_dest_ip (some h1) m s = some x ∧ x.1 ≠ 3) ∧
          (∃ x, ch9120_set_dest_port (some h1) a s = some x ∧ x.1 ≠ 3) ∧
          (∃ x, ch9120_get_dest_port (some h1) a s = some x ∧ x.1 ≠ 3) ∧
          (∃ x, ch9120_set_uart_baud (some h1) a s = some x ∧ x.1 ≠ 3) ∧
          (∃ x, ch9120_get_uart_baud (some h1) a s = some x ∧ x.1 ≠ 3) ∧
          (∃ x, ch9120_set_uart_config (some h1) a b c s = some x ∧ x.1 ≠ 3) ∧
          (∃ x, ch9120_get_uart_config (some h1) a b c s = some x ∧ x.1 ≠ 3) ∧
          (∃ x, ch9120_set_uart_timeout (some h1) a s = some x ∧ x.1 ≠ 3) ∧
          (∃ x, ch9120_get_uart_timeout (some h1) m s = some x ∧ x.1 ≠ 3) ∧
          (∃ x, ch9120_uart_timeout_convert_to_register (some h1) a b s = some x ∧ x.1 ≠ 3) ∧
          (∃ x, ch9120_uart_timeout_convert_to_data (some h1) a b s = some x ∧ x.1 ≠ 3) ∧
          (∃ x, ch9120_set_source_port_random (some h1) a s = some x ∧ x.1 ≠ 3) ∧
          (∃ x, ch9120_set_uart_buffer_length (some h1) a s = some x ∧ x.1 ≠ 3) ∧
          (∃ x, ch9120_get_uart_buffer_length (some h1) a s = some x ∧ x.1 ≠ 3) ∧
          (∃ x, ch9120_set_uart_flush (some h1) a s = some x ∧ x.1 ≠ 3) ∧
          (∃ x, ch9120_get_uart_flush (some h1) a s = some x ∧ x.1 ≠ 3) ∧
          (∃ x, ch9120_set_disconnect_with_no_rj45 (some h1) a s = some x ∧ x.1 ≠ 3) ∧
          (∃ x, ch9120_get_disconnect_with_no_rj45 (some h1) a s = some x ∧ x.1 ≠ 3) ∧
          (∃ x, ch9120_set_dhcp (some h1) a s = some x ∧ x.1 ≠ 3) ∧
          (∃ x, ch9120_deinit (some h1) s = some x ∧ x.1 ≠ 3) ∧
          (∃ x, ch9120_write (some h1) m a s = some x ∧ x.1 ≠ 3) ∧
          (∃ x, ch9120_read (some h1) m a s = some x ∧ x.1 ≠ 3) ∧
          (∃ x, ch9120_set_command (some h1) m a o b c d s = some x ∧ x.1 ≠ 3))) := by
  simp only [ch9120_deinit] at hres
  split at hres
  · cases hres
    exact ⟨h, rfl, rfl, fun h0 => absurd h0 (by decide)⟩
  · rename_i hin2
    have hin : h.inited = 1 := by omega
    split at hres
    · cases hres
    · rename_i x heq
      obtain ⟨hx, hxin, _⟩ := write_check_links h _ _ _ _ _ x heq
      have hh : hopt = some x.2.1 := by
        repeat' split at hres
        all_goals (cases hres <;> rfl)
      refine ⟨x.2.1, hh, hxin, fun _ => ⟨by rw [hxin, hin], fun hl s2 m o a b c d => ?_⟩⟩
      have hl1 : x.2.1.linked = true := by
        rw [hx]
        exact hl
      exact ready_accessors_pass x.2.1 hl1 (by rw [hxin, hin]) s2 m o a b c d

/-- Witness of C19: a ready test double on which the whole of `ch9120_deinit` succeeds. -/
theorem deinit_keeps_flag_witness :
    ch9120_deinit (some (staged 0 0 0 0 0 0 0 0 1)) ⟨[[0xAA]], []⟩ =
      some (0, some (framed (staged 0 0 0 0 0 0 0 0 1) (ofList [0x02]) 1),
        ⟨[], [Event.cfg_gpio_write 0, Event.uart_flush, Event.uart_write [0x57, 0xAB, 0x02] 3,
          Event.delay_ms 50, Event.uart_read 0 1, Event.cfg_gpio_write 1, Event.delay_ms 10,
          Event.uart_deinit, Event.reset_gpio_deinit, Event.cfg_gpio_deinit]⟩) ∧
    ∃ h1, some (framed (staged 0 0 0 0 0 0 0 0 1) (ofList [0x02]) 1) = some h1 ∧
      h1.inited = (staged 0 0 0 0 0 0 0 0 1).inited ∧
      ((0 : Nat) = 0 → h1.inited = 1 ∧
        ((staged 0 0 0 0 0 0 0 0 1).linked = true →
          ∀ (s : St (List (List Nat))) (m o : Nat → Nat) (a b c d : Nat),
          (∃ x, ch9120_get_version (some h1) m s = some x ∧ x.1 ≠ 3) ∧
          (∃ x, ch9120_reset (some h1) s = some x ∧ x.1 ≠ 3) ∧
          (∃ x, ch9120_get_status (some h1) a s = some x ∧ x.1 ≠ 3) ∧
          (∃ x, ch9120_save_to_eeprom (some h1) s = some x ∧ x.1 ≠ 3) ∧
          (∃ x, ch9120_config_and_reset (some h1) s = some x ∧ x.1 ≠ 3) ∧
          (∃ x, ch9120_exit (some h1) s = some x ∧ x.1 ≠ 3) ∧
          (∃ x, ch9120_set_mode (some h1) a s = some x ∧ x.1 ≠ 3) ∧
          (∃ x, ch9120_get_mode (some h1) a s = some x ∧ x.1 ≠ 3) ∧
          (∃ x, ch9120_set_ip (some h1) m s = some x ∧ x.1 ≠ 3) ∧
          (∃ x, ch9120_get_ip (some h1) m s = some x ∧ x.1 ≠ 3) ∧
          (∃ x, ch9120_set_subnet_mask (some h1) m s = some x ∧ x.1 ≠ 3) ∧
          (∃ x, ch9120_get_subnet_mask (some h1) m s = some x ∧ x.1 ≠ 3) ∧
          (∃ x, ch9120_set_gateway (some h1) m s = some x ∧ x.1 ≠ 3) ∧
          (∃ x, ch9120_get_gateway (some h1) m s = some x ∧ x.1 ≠ 3) ∧
          (∃ x, ch9120_set_source_port (some h1) a s = some x ∧ x.1 ≠ 3) ∧
          (∃ x, ch9120_get_source_port (some h1) a s = some x ∧ x.1 ≠ 3) ∧
          (∃ x, ch9120_set_dest_ip (some h1) m s = some x ∧ x.1 ≠ 3) ∧
          (∃ x, ch9120_get_dest_ip (some h1) m s = some x ∧ x.1 ≠ 3) ∧
          (∃ x, ch9120_set_dest_port (some h1) a s = some x ∧ x.1 ≠ 3) ∧
          (∃ x, ch9120_get_dest_port (some h1) a s = some x ∧ x.1 ≠ 3) ∧
          (∃ x, ch9120_set_uart_baud (some h1) a s = some x ∧ x.1 ≠ 3) ∧
          (∃ x, ch9120_get_uart_baud (some h1) a s = some x ∧ x.1 ≠ 3) ∧
          (∃ x, ch9120_set_uart_config (some h1) a b c s = some x ∧ x.1 ≠ 3) ∧
          (∃ x, ch9120_get_uart_config (some h1) a b c s = some x ∧ x.1 ≠ 3) ∧
          (∃ x, ch9120_set_uart_timeout (some h1) a s = some x ∧ x.1 ≠ 3) ∧
          (∃ x, ch9120_get_uart_timeout (some h1) m s = some x ∧ x.1 ≠ 3) ∧
          (∃ x, ch9120_uart_timeout_convert_to_register (some h1) a b s = some x ∧ x.1 ≠ 3) ∧
          (∃ x, ch9120_uart_timeout_convert_to_data (some h1) a b s = some x ∧ x.1 ≠ 3) ∧
          (∃ x, ch9120_set_source_port_random (some h1) a s = some x ∧ x.1 ≠ 3) ∧
          (∃ x, ch9120_set_uart_buffer_length (some h1) a s = some x ∧ x.1 ≠ 3) ∧
          (∃ x, ch9120_get_uart_buffer_length (some h1) a s = some x ∧ x.1 ≠ 3) ∧
          (∃ x, ch9120_set_uart_flush (some h1) a s = some x ∧ x.1 ≠ 3) ∧
          (∃ x, ch9120_get_uart_flush (some h1) a s = some x ∧ x.1 ≠ 3) ∧
          (∃ x, ch9120_set_disconnect_with_no_rj45 (some h1) a s = some x ∧ x.1 ≠ 3) ∧
          (∃ x, ch9120_get_disconnect_with_no_rj45 (some h1) a s = some x ∧ x.1 ≠ 3) ∧
          (∃ x, ch9120_set_dhcp (some h1) a s = some x ∧ x.1 ≠ 3) ∧
          (∃ x, ch9120_deinit (some h1) s = some x ∧ x.1 ≠ 3) ∧
          (∃ x, ch9120_write (some h1) m a s = some x ∧ x.1 ≠ 3) ∧
          (∃ x, ch9120_read (some h1) m a s = some x ∧ x.1 ≠ 3) ∧
          (∃ x, ch9120_set_command (some h1) m a o b c d s = some x ∧ x.1 ≠ 3))) :=
  ⟨rfl, deinit_keeps_flag (staged 0 0 0 0 0 0 0 0 1) ⟨[[0xAA]], []⟩ 0
    (some (framed (staged 0 0 0 0 0 0 0 0 1) (ofList [0x02]) 1))
    ⟨[], [Event.cfg_gpio_write 0, Event.uart_flush, Event.uart_write [0x57, 0xAB, 0x02] 3,
      Event.delay_ms 50, Event.uart_read 0 1, Event.cfg_gpio_write 1, Event.delay_ms 10,
      Event.uart_deinit, Event.reset_gpio_deinit, Event.cfg_gpio_deinit]⟩
    rfl⟩

/-! ## The claims on the register accessors -/

/-- C11 (little-endian numeric round trip).  On a ready handle, for every value `v`:
`ch9120_set_source_port` and `ch9120_set_dest_port` transmit the opcode followed by the two
bytes of `v`, least significant first; `ch9120_set_uart_baud` and
`ch9120_set_uart_buffer_length` transmit the opcode followed by the four bytes of `v`, least
significant first.  And when the platform answers the matching get command with exactly
those payload bytes, the get function returns status 0 and the value `v` (`v` a 16-bit value
for the ports, a 32-bit value for baud and buffer length). -/
theorem little_endian_round_trip (h : Handle W) {fr fc ff fw fd fp}
    (hr : h.uart_read = some fr) (hc : h.cfg_gpio_write = some fc)
    (hf : h.uart_flush = some ff) (hw : h.uart_write = some fw)
    (hd : h.delay_ms = some fd) (hp : h.debug_print = some fp)
    (hin : h.inited = 1) (s : St W) (v : Nat) :
    (∃ r h1 s1 rest, ch9120_set_source_port (some h) v s = some (r, some h1, s1) ∧
      s1.trace = s.trace ++ [Event.cfg_gpio_write 0, Event.uart_flush,
        Event.uart_write (0x57 :: 0xAB :: 0x14 :: le16 v) 5] ++ rest) ∧
    (v < 65536 → ∀ v0,
      answers fr fc ff fw fd h (ofList [0x64]) 1 2 CH9120_UART_PRE_DELAY 1000 s (le16 v) →
      ∃ h1 s1, ch9120_get_source_port (some h) v0 s = some (0, some h1, v, s1)) ∧
    (∃ r h1 s1 rest, ch9120_set_dest_port (some h) v s = some (r, some h1, s1) ∧
      s1.trace = s.trace ++ [Event.cfg_gpio_write 0, Event.uart_flush,
        Event.uart_write (0x57 :: 0xAB :: 0x16 :: le16 v) 5] ++ rest) ∧
    (v < 65536 → ∀ v0,
      answers fr fc ff fw fd h (ofList [0x66]) 1 2 CH9120_UART_PRE_DELAY 1000 s (le16 v) →
      ∃ h1 s1, ch9120_get_dest_port (some h) v0 s = some (0, some h1, v, s1)) ∧
    (∃ r h1 s1 rest, ch9120_set_uart_baud (some h) v s = some (r, some h1, s1) ∧
      s1.trace = s.trace ++ [Event.cfg_gpio_write 0, Event.uart_flush,
        Event.uart_write (0x57 :: 0xAB :: 0x21 :: le32 v) 7] ++ rest) ∧
    (v < 4294967296 → ∀ v0,
      answers fr fc ff fw fd h (ofList [0x71]) 1 4 CH9120_UART_PRE_DELAY 1000 s (le32 v) →
      ∃ h1 s1, ch9120_get_uart_baud (some h) v0 s = some (0, some h1, v, s1)) ∧
    (∃ r h1 s1 rest, ch9120_set_uart_buffer_length (some h) v s = some (r, some h1, s1) ∧
      s1.trace = s.trace ++ [Event.cfg_gpio_write 0, Event.uart_flush,
        Event.uart_write (0x57 :: 0xAB :: 0x25 :: le32 v) 7] ++ rest) ∧
    (v < 4294967296 → ∀ v0,
      answers fr fc ff fw fd h (ofList [0x75]) 1 4 CH9120_UART_PRE_DELAY 1000 s (le32 v) →
      ∃ h1 s1, ch9120_get_uart_buffer_length (some h) v0 s = some (0, some h1, v, s1)) := by
  have hin2 : ¬ h.inited ≠ 1 := by omega
  refine ⟨?_, ?_, ?_, ?_, ?_, ?_, ?_, ?_⟩
  · obtain ⟨r, s1, evs, hwc, htr, _, _⟩ := write_check_returns h hr hc hf hw hd hp
      (ofList [0x14, (v >>> 0) &&& 0xFF, (v >>> 8) &&& 0xFF]) 3 CH9120_UART_PRE_DELAY 1000 s (by decide)
    have hb : bytes (ofList [0x14, (v >>> 0) &&& 0xFF, (v >>> 8) &&& 0xFF]) 3 = 0x14 :: le16 v := by
      simp only [byte_at, le16]
      norm_num
      rfl
    rw [hb] at htr
    simp only [ch9120_set_source_port, if_neg hin2, CH9120_CMD_SET_PORT, hwc]
    split <;> exact ⟨_, _, _, evs, rfl, htr⟩
  · intro hv16 v0 hans
    obtain ⟨o, s1, hwr, hb⟩ := write_read_answer h hr hc hf hw hd (ofList [0x64]) 1
      (fun _ => 0) 2 CH9120_UART_PRE_DELAY 1000 s (le16 v) (by decide) (by decide) hans
    have e0 : o 0 = v % 256 := by
      have := congrArg (fun l => l.getD 0 0) hb
      simpa [bytes, le16, List.range_succ] using this
    have e1 : o 1 = v / 256 % 256 := by
      have := congrArg (fun l => l.getD 1 0) hb
      simpa [bytes, le16, List.range_succ] using this
    have hv : ((o 1 <<< 8) ||| o 0) % 65536 = v := by
      rw [decode16 _ _ (by omega) (by omega), e0, e1]
      omega
    simp only [ch9120_get_source_port, if_neg hin2, CH9120_CMD_GET_PORT, hwr, ne_eq, not_true_eq_false, if_false, hv]
    exact ⟨_, _, rfl⟩
  · obtain ⟨r, s1, evs, hwc, htr, _, _⟩ := write_check_returns h hr hc hf hw hd hp
      (ofList [0x16, (v >>> 0) &&& 0xFF, (v >>> 8) &&& 0xFF]) 3 CH9120_UART_PRE_DELAY 1000 s (by decide)
    have hb : bytes (ofList [0x16, (v >>> 0) &&& 0xFF, (v >>> 8) &&& 0xFF]) 3 = 0x16 :: le16 v := by
      simp only [byte_at, le16]
      norm_num
      rfl
    rw [hb] at htr
    simp only [ch9120_set_dest_port, if_neg hin2, CH9120_CMD_SET_DST_PORT, hwc]
    split <;> exact ⟨_, _, _, evs, rfl, htr⟩
  · intro hv16 v0 hans
    obtain ⟨o, s1, hwr, hb⟩ := write_read_answer h hr hc hf hw hd (ofList [0x66]) 1
      (fun _ => 0) 2 CH9120_UART_PRE_DELAY 1000 s (le16 v) (by decide) (by decide) hans
    have e0 : o 0 = v % 256 := by
      have := congrArg (fun l => l.getD 0 0) hb
      simpa [bytes, le16, List.range_succ] using this
    have e1 : o 1 = v / 256 % 256 := by
      have := congrArg (fun l => l.getD 1 0) hb
      simpa [bytes, le16, List.range_succ] using this
    have hv : ((o 1 <<< 8) ||| o 0) % 65536 = v := by
      rw [decode16 _ _ (by omega) (by omega), e0, e1]
      omega
    simp only [ch9120_get_dest_port, if_neg hin2, CH9120_CMD_GET_DST_PORT, hwr, ne_eq, not_true_eq_false, if_false, hv]
    exact ⟨_, _, rfl⟩
  · obtain ⟨r, s1, evs, hwc, htr, _, _⟩ := write_check_returns h hr hc hf hw hd hp
      (ofList [0x21, (v >>> 0) &&& 0xFF, (v >>> 8) &&& 0xFF, (v >>> 16) &&& 0xFF,
        (v >>> 24) &&& 0xFF]) 5 CH9120_UART_PRE_DELAY 1000 s (by decide)
    have hb : bytes (ofList [0x21, (v >>> 0) &&& 0xFF, (v >>> 8) &&& 0xFF, (v >>> 16) &&& 0xFF,
        (v >>> 24) &&& 0xFF]) 5 = 0x21 :: le32 v := by
      simp only [byte_at, le32]
      norm_num
      rfl
    rw [hb] at htr
    simp only [ch9120_set_uart_baud, if_neg hin2, CH9120_CMD_SET_BAUD, hwc]
    split <;> exact ⟨_, _, _, evs, rfl, htr⟩
  · intro hv16 v0 hans
    obtain ⟨o, s1, hwr, hb⟩ := write_read_answer h hr hc hf hw hd (ofList [0x71]) 1
      (fun _ => 0) 4 CH9120_UART_PRE_DELAY 1000 s (le32 v) (by decide) (by decide) hans
    have e0 : o 0 = v % 256 := by
      have := congrArg (fun l => l.getD 0 0) hb
      simpa [bytes, le32, List.range_succ] using this
    have e1 : o 1 = v / 256 % 256 := by
      have := congrArg (fun l => l.getD 1 0) hb
      simpa [bytes, le32, List.range_succ] using this
    have e2 : o 2 = v / 65536 % 256 := by
      have := congrArg (fun l => l.getD 2 0) hb
      simpa [bytes, le32, List.range_succ] using this
    have e3 : o 3 = v / 16777216 % 256 := by
      have := congrArg (fun l => l.getD 3 0) hb
      simpa [bytes, le32, List.range_succ] using this
    have hv : ((o 0 <<< 0) % 4294967296 ||| (o 1 <<< 8) % 4294967296 |||
        (o 2 <<< 16) % 4294967296 ||| (o 3 <<< 24) % 4294967296) % 4294967296 = v := by
      rw [decode32 _ _ _ _ (by omega) (by omega) (by omega) (by omega), e0, e1, e2, e3]
      omega
    simp only [ch9120_get_uart_baud, if_neg hin2, CH9120_CMD_GET_BAUD, hwr, ne_eq, not_true_eq_false, if_false, hv]
    exact ⟨_, _, rfl⟩
  · obtain ⟨r, s1, evs, hwc, htr, _, _⟩ := write_check_returns h hr hc hf hw hd hp
      (ofList [0x25, (v >>> 0) &&& 0xFF, (v >>> 8) &&& 0xFF, (v >>> 16) &&& 0xFF,
        (v >>> 24) &&& 0xFF]) 5 CH9120_UART_PRE_DELAY 1000 s (by decide)
    have hb : bytes (ofList [0x25, (v >>> 0) &&& 0xFF, (v >>> 8) &&& 0xFF, (v >>> 16) &&& 0xFF,
        (v >>> 24) &&& 0xFF]) 5 = 0x25 :: le32 v := by
      simp only [byte_at, le32]
      norm_num
      rfl
    rw [hb] at htr
    simp only [ch9120_set_uart_buffer_length, if_neg hin2, CH9120_CMD_SET_LEN, hwc]
    split <;> exact ⟨_, _, _, evs, rfl, htr⟩
  · intro hv16 v0 hans
    obtain ⟨o, s1, hwr, hb⟩ := write_read_answer h hr hc hf hw hd (ofList [0x75]) 1
      (fun _ => 0) 4 CH9120_UART_PRE_DELAY 1000 s (le32 v) (by decide) (by decide) hans
    have e0 : o 0 = v % 256 := by
      have := congrArg (fun l => l.getD 0 0) hb
      simpa [bytes, le32, List.range_succ] using this
    have e1 : o 1 = v / 256 % 256 := by
      have := congrArg (fun l => l.getD 1 0) hb
      simpa [bytes, le32, List.range_succ] using this
    have e2 : o 2 = v / 65536 % 256 := by
      have := congrArg (fun l => l.getD 2 0) hb
      simpa [bytes, le32, List.range_succ] using this
    have e3 : o 3 = v / 16777216 % 256 := by
      have := congrArg (fun l => l.getD 3 0) hb
      simpa [bytes, le32, List.range_succ] using this
    have hv : ((o 0 <<< 0) % 4294967296 ||| (o 1 <<< 8) % 4294967296 |||
        (o 2 <<< 16) % 4294967296 ||| (o 3 <<< 24) % 4294967296) % 4294967296 = v := by
      rw [decode32 _ _ _ _ (by omega) (by omega) (by omega) (by omega), e0, e1, e2, e3]
      omega
    simp only [ch9120_get_uart_buffer_length, if_neg hin2, CH9120_CMD_GET_LEN, hwr, ne_eq, not_true_eq_false, if_false, hv]
    exact ⟨_, _, rfl⟩

/-- Witness of C11: port 0x1234 and baud rate 115200 on the test double, whose script
holds the response of the get command. -/
theorem little_endian_round_trip_witness :
    (∃ r h1 s1 rest, ch9120_set_source_port (some (scripted 0 0 1)) 0x1234 ⟨[[0xAA]], []⟩ =
        some (r, some h1, s1) ∧
      s1.trace = [] ++ [Event.cfg_gpio_write 0, Event.uart_flush,
        Event.uart_write (0x57 :: 0xAB :: 0x14 :: le16 0x1234) 5] ++ rest) ∧
    (∃ h1 s1, ch9120_get_source_port (some (scripted 0 0 1)) 0 ⟨[[0x34, 0x12]], []⟩ =
        some (0, some h1, 0x1234, s1)) ∧
    (∃ r h1 s1 rest, ch9120_set_uart_baud (some (scripted 0 0 1)) 115200 ⟨[[0xAA]], []⟩ =
        some (r, some h1, s1) ∧
      s1.trace = [] ++ [Event.cfg_gpio_write 0, Event.uart_flush,
        Event.uart_write (0x57 :: 0xAB :: 0x21 :: le32 115200) 7] ++ rest) ∧
    (∃ h1 s1, ch9120_get_uart_baud (some (scripted 0 0 1)) 0 ⟨[[0x00, 0xC2], [0x01, 0x00]], []⟩ =
        some (0, some h1, 115200, s1)) :=
  ⟨(little_endian_round_trip (scripted 0 0 1) rfl rfl rfl rfl rfl rfl rfl ⟨[[0xAA]], []⟩
      0x1234).1,
    (little_endian_round_trip (scripted 0 0 1) rfl rfl rfl rfl rfl rfl rfl
      ⟨[[0x34, 0x12]], []⟩ 0x1234).2.1 (by decide) 0
      ⟨by decide, by decide, 0, by decide, by decide, by decide⟩,
    (little_endian_round_trip (scripted 0 0 1) rfl rfl rfl rfl rfl rfl rfl ⟨[[0xAA]], []⟩
      115200).2.2.2.2.1,
    (little_endian_round_trip (scripted 0 0 1) rfl rfl rfl rfl rfl rfl rfl
      ⟨[[0x00, 0xC2], [0x01, 0x00]], []⟩ 115200).2.2.2.2.2.1 (by decide) 0
      ⟨by decide, by decide, 1, by decide, by decide, by decide⟩⟩

/-- C12 (UART-config triplet order).  On a ready handle, for all `data_bit`, `stop_bit`
and every parity value (an enumeration constant, stored in one byte),
`ch9120_set_uart_config` transmits the payload `[0x22, stop_bit, parity, data_bit]`.
`ch9120_get_uart_config` maps a three-byte response `(b0, b1, b2)` to `stop_bit = b0`,
`parity = b1`, `data_bit = b2`; so a platform that answers with the three bytes it was sent
gives back the `(data_bit, parity, stop_bit)` that was set. -/
theorem uart_config_order (h : Handle W) {fr fc ff fw fd fp}
    (hr : h.uart_read = some fr) (hc : h.cfg_gpio_write = some fc)
    (hf : h.uart_flush = some ff) (hw : h.uart_write = some fw)
    (hd : h.delay_ms = some fd) (hp : h.debug_print = some fp)
    (hin : h.inited = 1) (s : St W) (data_bit parity stop_bit : Nat) (hpar : parity < 256) :
    (∃ r h1 s1 rest,
      ch9120_set_uart_config (some h) data_bit parity stop_bit s = some (r, some h1, s1) ∧
      s1.trace = s.trace ++ [Event.cfg_gpio_write 0, Event.uart_flush,
        Event.uart_write [0x57, 0xAB, 0x22, stop_bit, parity, data_bit] 6] ++ rest) ∧
    (∀ b0 b1 b2 d0 p0 s0,
      answers fr fc ff fw fd h (ofList [0x72]) 1 3 CH9120_UART_PRE_DELAY 1000 s [b0, b1, b2] →
      ∃ h1 s1, ch9120_get_uart_config (some h) d0 p0 s0 s = some (0, some h1, b2, b1, b0, s1)) ∧
    (∀ d0 p0 s0,
      answers fr fc ff fw fd h (ofList [0x72]) 1 3 CH9120_UART_PRE_DELAY 1000 s
        [stop_bit, parity, data_bit] →
      ∃ h1 s1, ch9120_get_uart_config (some h) d0 p0 s0 s =
        some (0, some h1, data_bit, parity, stop_bit, s1)) := by
  have hin2 : ¬ h.inited ≠ 1 := by omega
  have hget : ∀ b0 b1 b2 d0 p0 s0,
      answers fr fc ff fw fd h (ofList [0x72]) 1 3 CH9120_UART_PRE_DELAY 1000 s [b0, b1, b2] →
      ∃ h1 s1, ch9120_get_uart_config (some h) d0 p0 s0 s =
        some (0, some h1, b2, b1, b0, s1) := by
    intro b0 b1 b2 d0 p0 s0 hans
    obtain ⟨o, s1, hwr, hb⟩ := write_read_answer h hr hc hf hw hd (ofList [0x72]) 1
      (fun _ => 0) 3 CH9120_UART_PRE_DELAY 1000 s [b0, b1, b2] (by decide) (by decide) hans
    have e0 : o 0 = b0 := by
      have := congrArg (fun l => l.getD 0 0) hb
      simpa [bytes, List.range_succ] using this
    have e1 : o 1 = b1 := by
      have := congrArg (fun l => l.getD 1 0) hb
      simpa [bytes, List.range_succ] using this
    have e2 : o 2 = b2 := by
      have := congrArg (fun l => l.getD 2 0) hb
      simpa [bytes, List.range_succ] using this
    simp only [ch9120_get_uart_config, if_neg hin2, CH9120_CMD_GET_CONFIG, hwr, ne_eq,
      not_true_eq_false, if_false, e0, e1, e2]
    exact ⟨_, _, rfl⟩
  refine ⟨?_, hget, fun d0 p0 s0 hans => hget stop_bit parity data_bit d0 p0 s0 hans⟩
  obtain ⟨r, s1, evs, hwc, htr, _, _⟩ := write_check_returns h hr hc hf hw hd hp
    (ofList [0x22, stop_bit, parity % 256, data_bit]) 4 CH9120_UART_PRE_DELAY 1000 s
    (by decide)
  have hb : bytes (ofList [0x22, stop_bit, parity % 256, data_bit]) 4 =
      [0x22, stop_bit, parity, data_bit] := by
    rw [Nat.mod_eq_of_lt hpar]
    rfl
  rw [hb] at htr
  simp only [ch9120_set_uart_config, if_neg hin2, CH9120_CMD_SET_CONFIG, hwc]
  split <;> exact ⟨_, _, _, evs, rfl, htr⟩

/-- Witness of C12: 8 data bits, no parity (enumeration value 4), 1 stop bit. -/
theorem uart_config_order_witness :
    (4 : Nat) < 256 ∧
    (∃ r h1 s1 rest,
      ch9120_set_uart_config (some (scripted 0 0 1)) 8 4 1 ⟨[[1, 4, 8]], []⟩ =
        some (r, some h1, s1) ∧
      s1.trace = [] ++ [Event.cfg_gpio_write 0, Event.uart_flush,
        Event.uart_write [0x57, 0xAB, 0x22, 1, 4, 8] 6] ++ rest) ∧
    (∃ h1 s1, ch9120_get_uart_config (some (scripted 0 0 1)) 0 0 0 ⟨[[1, 4, 8]], []⟩ =
      some (0, some h1, 8, 4, 1, s1)) :=
  ⟨by decide,
    (uart_config_order (scripted 0 0 1) rfl rfl rfl rfl rfl rfl rfl ⟨[[1, 4, 8]], []⟩ 8 4 1
      (by decide)).1,
    (uart_config_order (scripted 0 0 1) rfl rfl rfl rfl rfl rfl rfl ⟨[[1, 4, 8]], []⟩ 8 4 1
      (by decide)).2.2 0 0 0 ⟨by decide, by decide, 0, by decide, by decide, by decide⟩⟩

/-- C13 (IP persistence scenario).  Against the simulated chip, in any state, and for
every address `ip`, the sequence `ch9120_set_ip(ip)`, `ch9120_save_to_eeprom`,
`ch9120_config_and_reset`, `ch9120_get_ip` returns status 0 at every step and
`ch9120_get_ip` leaves `ip[0], ip[1], ip[2], ip[3]` in its output buffer, in that order.
The frames transmitted are `57 AB 11 ip[0..4)`, `57 AB 0D`, `57 AB 0E` and `57 AB 61`, and
the chip still holds the address at the end. -/
theorem ip_persistence (ip out : Nat → Nat) (c : Chip) (tr : List Event) :
    ∃ h1 s1 h2 s2 h3 s3 h4 o s4,
      ch9120_set_ip (some (sim_chip 1)) ip ⟨c, tr⟩ = some (0, some h1, s1) ∧
      ch9120_save_to_eeprom (some h1) s1 = some (0, some h2, s2) ∧
      ch9120_config_and_reset (some h2) s2 = some (0, some h3, s3) ∧
      ch9120_get_ip (some h3) out s3 = some (0, some h4, o, s4) ∧
      bytes o 4 = [ip 0, ip 1, ip 2, ip 3] ∧
      s4.world.ip = [ip 0, ip 1, ip 2, ip 3] ∧
      uartWrites (s4.trace.drop tr.length) =
        [([0x57, 0xAB, 0x11, ip 0, ip 1, ip 2, ip 3], 7), ([0x57, 0xAB, 0x0D], 3),
          ([0x57, 0xAB, 0x0E], 3), ([0x57, 0xAB, 0x61], 3)] := by
  refine ⟨_, _, _, _, _, _, _, _, _, rfl, rfl, rfl, rfl, rfl, rfl, ?_⟩
  simp only [List.append_assoc, List.drop_left]
  rfl

/-! ## The claims on the data-plane read, on timing and on error codes -/

/-- C21 (data-plane read).  On a ready handle `ch9120_read` first calls
`cfg_gpio_write(1)`.  If that succeeds it makes exactly one `uart_read` call, asking for the
caller's capacity `*len`; it stores the bytes received in `buf`, their count in `*len`, and
returns 0 whatever the count, zero included, with no further call (no retry, no delay).
If `cfg_gpio_write(1)` fails it returns 1, `uart_read` is not called, and `buf` and `*len`
are unchanged; that is the only way for it to return 1. -/
theorem data_plane_read (h : Handle W) {fc fr fp}
    (hc : h.cfg_gpio_write = some fc) (hr : h.uart_read = some fr)
    (hp : h.debug_print = some fp) (hin : h.inited = 1)
    (buf : Nat → Nat) (len : Nat) (s : St W) :
    ((fc 1 s.world).1 = 0 →
      ∃ s1, ch9120_read (some h) buf len s =
          some (0, some h,
            memcpy buf 0 (ofList (fr len (fc 1 s.world).2).1) (fr len (fc 1 s.world).2).1.length,
            (fr len (fc 1 s.world).2).1.length, s1) ∧
        s1.trace = s.trace ++ [Event.cfg_gpio_write 1, Event.uart_read 0 len]) ∧
    ((fc 1 s.world).1 ≠ 0 →
      ∃ s1, ch9120_read (some h) buf len s = some (1, some h, buf, len, s1) ∧
        s1.trace = s.trace ++ [Event.cfg_gpio_write 1,
          Event.debug_print "ch9120: cfg gpio write failed.\n"]) ∧
    (∀ x, ch9120_read (some h) buf len s = some x → (x.1 = 1 ↔ (fc 1 s.world).1 ≠ 0)) := by
  have hin2 : ¬ h.inited ≠ 1 := by omega
  refine ⟨?_, ?_, ?_⟩
  · intro o1
    have n1 : ¬ (fc 1 s.world).1 ≠ 0 := by omega
    simp only [ch9120_read, if_neg hin2, call_cfg_gpio_write, call_uart_read, hc, hr,
      if_neg n1]
    exact ⟨_, rfl, by simp⟩
  · intro f1
    simp only [ch9120_read, if_neg hin2, call_cfg_gpio_write, call_debug_print, hc, hp,
      if_pos f1]
    exact ⟨_, rfl, by simp⟩
  · intro x hx
    by_cases f1 : (fc 1 s.world).1 ≠ 0
    · simp only [ch9120_read, if_neg hin2, call_cfg_gpio_write, call_debug_print, hc, hp,
        if_pos f1] at hx
      cases hx
      simp [f1]
    · simp only [ch9120_read, if_neg hin2, call_cfg_gpio_write, call_uart_read, hc, hr,
        if_neg f1] at hx
      cases hx
      simp [f1]

/-- Witness of C21: a capacity of 16 bytes with nothing to read, and the same call on a
test double whose `cfg_gpio_write` fails. -/
theorem data_plane_read_witness :
    (∃ s1, ch9120_read (some (scripted 0 0 1)) (fun _ => 7) 16 ⟨[], []⟩ =
        some (0, some (scripted 0 0 1), memcpy (fun _ => 7) 0 (ofList []) 0, 0, s1) ∧
      s1.trace = [] ++ [Event.cfg_gpio_write 1, Event.uart_read 0 16]) ∧
    (∃ s1, ch9120_read (some (scripted 0 1 1)) (fun _ => 7) 16 ⟨[[1, 2]], []⟩ =
        some (1, some (scripted 0 1 1), fun _ => 7, 16, s1) ∧
      s1.trace = [] ++ [Event.cfg_gpio_write 1,
        Event.debug_print "ch9120: cfg gpio write failed.\n"]) :=
  ⟨(data_plane_read (scripted 0 0 1) rfl rfl rfl rfl (fun _ => 7) 16 ⟨[], []⟩).1 (by decide),
    (data_plane_read (scripted 0 1 1) rfl rfl rfl rfl (fun _ => 7) 16 ⟨[[1, 2]], []⟩).2.1
      (by decide)⟩

/-- C28 (timeout register wrap-around).  On an initialized handle, for every `ms` from 1280
to 65535, `ch9120_uart_timeout_convert_to_register` returns status 0, no range error, with
the register set to `(ms / 5) % 256`; converting that register back with
`ch9120_uart_timeout_convert_to_data` returns status 0 and `5 * ((ms / 5) % 256)`, which is
not `5 * (ms / 5)`. -/
theorem timeout_register_wraps (h : Handle W) (s : St W) (ms reg0 ms0 : Nat)
    (hin : h.inited = 1) (hlo : 1280 ≤ ms) (hhi : ms ≤ 65535) :
    ch9120_uart_timeout_convert_to_register (some h) ms reg0 s =
        some (0, some h, (ms / 5) % 256, s) ∧
      ch9120_uart_timeout_convert_to_data (some h) ((ms / 5) % 256) ms0 s =
        some (0, some h, 5 * ((ms / 5) % 256), s) ∧
      5 * ((ms / 5) % 256) ≠ 5 * (ms / 5) := by
  refine ⟨?_, ?_, by omega⟩
  · simp [ch9120_uart_timeout_convert_to_register, hin]
  · have hval : ms / 5 % 256 * 5 % 65536 = 5 * (ms / 5 % 256) := by omega
    simp [ch9120_uart_timeout_convert_to_data, hin, hval]

/-- Witness of C28: 1280 ms gives register 0, which converts back to 0 ms. -/
theorem timeout_register_wraps_witness :
    ch9120_uart_timeout_convert_to_register (some (scripted 0 0 1)) 1280 7 ⟨[], []⟩ =
        some (0, some (scripted 0 0 1), 0, ⟨[], []⟩) ∧
      ch9120_uart_timeout_convert_to_data (some (scripted 0 0 1)) 0 7 ⟨[], []⟩ =
        some (0, some (scripted 0 0 1), 0, ⟨[], []⟩) ∧
      0 ≠ 5 * (1280 / 5) :=
  timeout_register_wraps (scripted 0 0 1) ⟨[], []⟩ 1280 7 7 rfl (by decide) (by decide)

/-- With `out_len = 0` and a `uart_read` that delivers nothing when asked for nothing, no
poll of write-read receives anything. -/
theorem arrivals_zero (fr : Nat → W → List Nat × W) (fd : Nat → W → W)
    (hz : ∀ w, (fr 0 w).1 = []) (t : Nat) (w : W) :
    ∀ d, d ∈ arrivals fr fd 0 t 0 w → d = [] := by
  induction t generalizing w with
  | zero =>
    intro d hd
    simp [arrivals] at hd
  | succ t ih =>
    intro d hd
    have hs : sub16 0 0 = 0 := by decide
    simp only [arrivals, hs, hz, List.length_nil, ne_eq, not_true_eq_false, if_false,
      List.mem_cons] at hd
    rcases hd with rfl | hd
    · rfl
    · exact ih _ d hd

/-- C26 (sub-10 ms timeouts never poll).  For every `timeout` below 10, once the frame is
written, write-check and write-read make no `uart_read` call whatever the platform holds
ready: after the optional pre-delay they print the timeout message, release config-enable
with `cfg_gpio_write(1)` and return the timeout status, 4 and 3 respectively, so that
`ch9120_set_command` returns 1. -/
theorem short_timeout_no_poll (h : Handle W) {fc ff fw fd fp}
    (hc : h.cfg_gpio_write = some fc) (hf : h.uart_flush = some ff)
    (hw : h.uart_write = some fw) (hd : h.delay_ms = some fd)
    (hp : h.debug_print = some fp) (hin : h.inited = 1)
    (param : Nat → Nat) (len : Nat) (out : Nat → Nat) (out_len pre_delay timeout : Nat)
    (s : St W) (hlen : len ≤ 126)
    (hok : (fw (0x57 :: 0xAB :: bytes param len) (2 + len) (ff (fc 0 s.world).2).2).1 = 0)
    (hto : timeout < 10) :
    (∃ s1, a_ch9120_write_check h param len pre_delay timeout s =
        some (4, framed h param len, s1) ∧
      s1.trace = s.trace ++ [Event.cfg_gpio_write 0, Event.uart_flush,
          Event.uart_write (0x57 :: 0xAB :: bytes param len) (2 + len)] ++
        (if pre_delay ≠ 0 then [Event.delay_ms pre_delay] else []) ++
        [Event.debug_print "ch9120: timeout.\n", Event.cfg_gpio_write 1]) ∧
    (∃ s1, a_ch9120_write_read h param len out out_len pre_delay timeout s =
        some (3, framed h param len, out, s1) ∧
      s1.trace = s.trace ++ [Event.cfg_gpio_write 0, Event.uart_flush,
          Event.uart_write (0x57 :: 0xAB :: bytes param len) (2 + len)] ++
        (if pre_delay ≠ 0 then [Event.delay_ms pre_delay] else []) ++
        [Event.debug_print "ch9120: timeout.\n", Event.cfg_gpio_write 1]) ∧
    (∃ s1, ch9120_set_command (some h) param len out out_len pre_delay timeout s =
        some (1, some (framed h param len), out, s1) ∧
      s1.trace = s.trace ++ [Event.cfg_gpio_write 0, Event.uart_flush,
          Event.uart_write (0x57 :: 0xAB :: bytes param len) (2 + len)] ++
        (if pre_delay ≠ 0 then [Event.delay_ms pre_delay] else []) ++
        [Event.debug_print "ch9120: timeout.\n", Event.cfg_gpio_write 1]) := by
  have hst : (sent fc ff fw h param len s).1 = 0 := by rw [sent_status]; exact hok
  have ht : timeout / 10 = 0 := by omega
  have hcf : (framed h param len).cfg_gpio_write = some fc := hc
  have hpf : (framed h param len).debug_print = some fp := hp
  have hin2 : ¬ h.inited ≠ 1 := by omega
  have hread : ∃ s1, a_ch9120_write_read h param len out out_len pre_delay timeout s =
        some (3, framed h param len, out, s1) ∧
      s1.trace = s.trace ++ [Event.cfg_gpio_write 0, Event.uart_flush,
          Event.uart_write (0x57 :: 0xAB :: bytes param len) (2 + len)] ++
        (if pre_delay ≠ 0 then [Event.delay_ms pre_delay] else []) ++
        [Event.debug_print "ch9120: timeout.\n", Event.cfg_gpio_write 1] := by
    rw [write_read_write_ok h hc hf hw hd param len out out_len pre_delay timeout s hlen hst,
      ht]
    simp only [write_read_poll, call_debug_print, call_cfg_gpio_write, hcf, hpf]
    refine ⟨_, rfl, ?_⟩
    simp only [settled_trace, sent_trace, List.append_assoc, List.cons_append,
      List.nil_append]
  refine ⟨?_, hread, ?_⟩
  · rw [write_check_write_ok h hc hf hw hd param len pre_delay timeout s hlen hst, ht]
    simp only [write_check_poll, call_debug_print, call_cfg_gpio_write, hcf, hpf]
    refine ⟨_, rfl, ?_⟩
    simp only [settled_trace, sent_trace, List.append_assoc, List.cons_append,
      List.nil_append]
  · obtain ⟨s1, h1, h2⟩ := hread
    simp only [ch9120_set_command, if_neg hin2, h1]
    exact ⟨s1, by simp, h2⟩

/-- Witness of C26: a 9 ms timeout with the acknowledgement `0xAA` already waiting to be
read. -/
theorem short_timeout_no_poll_witness :
    (∃ s1, a_ch9120_write_check (scripted 0 0 1) (ofList [0x02]) 1 50 9 ⟨[[0xAA]], []⟩ =
        some (4, framed (scripted 0 0 1) (ofList [0x02]) 1, s1) ∧
      s1.trace = [] ++ [Event.cfg_gpio_write 0, Event.uart_flush,
          Event.uart_write (0x57 :: 0xAB :: bytes (ofList [0x02]) 1) (2 + 1)] ++
        (if 50 ≠ 0 then [Event.delay_ms 50] else []) ++
        [Event.debug_print "ch9120: timeout.\n", Event.cfg_gpio_write 1]) ∧
    (∃ s1, a_ch9120_write_read (scripted 0 0 1) (ofList [0x02]) 1 (fun _ => 7) 1 50 9
          ⟨[[0xAA]], []⟩ =
        some (3, framed (scripted 0 0 1) (ofList [0x02]) 1, fun _ => 7, s1) ∧
      s1.trace = [] ++ [Event.cfg_gpio_write 0, Event.uart_flush,
          Event.uart_write (0x57 :: 0xAB :: bytes (ofList [0x02]) 1) (2 + 1)] ++
        (if 50 ≠ 0 then [Event.delay_ms 50] else []) ++
        [Event.debug_print "ch9120: timeout.\n", Event.cfg_gpio_write 1]) ∧
    (∃ s1, ch9120_set_command (some (scripted 0 0 1)) (ofList [0x02]) 1 (fun _ => 7) 1 50 9
          ⟨[[0xAA]], []⟩ =
        some (1, some (framed (scripted 0 0 1) (ofList [0x02]) 1), fun _ => 7, s1) ∧
      s1.trace = [] ++ [Event.cfg_gpio_write 0, Event.uart_flush,
          Event.uart_write (0x57 :: 0xAB :: bytes (ofList [0x02]) 1) (2 + 1)] ++
        (if 50 ≠ 0 then [Event.delay_ms 50] else []) ++
        [Event.debug_print "ch9120: timeout.\n", Event.cfg_gpio_write 1]) :=
  short_timeout_no_poll (scripted 0 0 1) rfl rfl rfl rfl rfl rfl (ofList [0x02]) 1
    (fun _ => 7) 1 50 9 ⟨[[0xAA]], []⟩ (by decide) rfl (by decide)

/-- C27 (zero-length response never succeeds).  Write-read called with `out_len = 0`, on a
platform whose `uart_write` succeeds and whose `uart_read` delivers nothing when asked for
nothing, makes `timeout / 10` polls, each `uart_read(out, 0)` followed by `delay_ms(10)`,
and returns the timeout status 3 with `out` untouched; `ch9120_set_command` then returns
1.  This holds for every `timeout`, so the call never returns 0. -/
theorem zero_length_response_times_out (h : Handle W) {fr fc ff fw fd fp}
    (hr : h.uart_read = some fr) (hc : h.cfg_gpio_write = some fc)
    (hf : h.uart_flush = some ff) (hw : h.uart_write = some fw)
    (hd : h.delay_ms = some fd) (hp : h.debug_print = some fp) (hin : h.inited = 1)
    (param : Nat → Nat) (len : Nat) (out : Nat → Nat) (pre_delay timeout : Nat)
    (s : St W) (hlen : len ≤ 126)
    (hok : (fw (0x57 :: 0xAB :: bytes param len) (2 + len) (ff (fc 0 s.world).2).2).1 = 0)
    (hz : ∀ w, (fr 0 w).1 = []) :
    (∃ s1, a_ch9120_write_read h param len out 0 pre_delay timeout s =
        some (3, framed h param len, out, s1) ∧
      s1.trace = s.trace ++ [Event.cfg_gpio_write 0, Event.uart_flush,
          Event.uart_write (0x57 :: 0xAB :: bytes param len) (2 + len)] ++
        (if pre_delay ≠ 0 then [Event.delay_ms pre_delay] else []) ++
        idle_polls (Event.uart_read 0 0) (timeout / 10) ++
        [Event.debug_print "ch9120: timeout.\n", Event.cfg_gpio_write 1]) ∧
    (∃ s1, ch9120_set_command (some h) param len out 0 pre_delay timeout s =
        some (1, some (framed h param len), out, s1) ∧
      s1.trace = s.trace ++ [Event.cfg_gpio_write 0, Event.uart_flush,
          Event.uart_write (0x57 :: 0xAB :: bytes param len) (2 + len)] ++
        (if pre_delay ≠ 0 then [Event.delay_ms pre_delay] else []) ++
        idle_polls (Event.uart_read 0 0) (timeout / 10) ++
        [Event.debug_print "ch9120: timeout.\n", Event.cfg_gpio_write 1]) := by
  have hst : (sent fc ff fw h param len s).1 = 0 := by rw [sent_status]; exact hok
  have hin2 : ¬ h.inited ≠ 1 := by omega
  have hread : ∃ s1, a_ch9120_write_read h param len out 0 pre_delay timeout s =
        some (3, framed h param len, out, s1) ∧
      s1.trace = s.trace ++ [Event.cfg_gpio_write 0, Event.uart_flush,
          Event.uart_write (0x57 :: 0xAB :: bytes param len) (2 + len)] ++
        (if pre_delay ≠ 0 then [Event.delay_ms pre_delay] else []) ++
        idle_polls (Event.uart_read 0 0) (timeout / 10) ++
        [Event.debug_print "ch9120: timeout.\n", Event.cfg_gpio_write 1] := by
    rw [write_read_write_ok h hc hf hw hd param len out 0 pre_delay timeout s hlen hst]
    obtain ⟨s1, h1, h2⟩ := write_read_poll_idle (framed h param len) hr hc hd hp 0
      (timeout / 10) 0 out (settled fd pre_delay (sent fc ff fw h param len s).2)
      (arrivals_zero fr fd hz _ _)
    rw [h1]
    refine ⟨_, rfl, ?_⟩
    have hs : sub16 0 0 = 0 := by decide
    simp only [h2, hs, settled_trace, sent_trace, List.append_assoc, List.cons_append,
      List.nil_append]
  refine ⟨hread, ?_⟩
  obtain ⟨s1, h1, h2⟩ := hread
  simp only [ch9120_set_command, if_neg hin2, h1]
  exact ⟨s1, by simp, h2⟩

/-- Witness of C27: a command with no response expected, a 30 ms timeout and no
pre-delay. -/
theorem zero_length_response_times_out_witness :
    (∃ s1, a_ch9120_write_read (scripted 0 0 1) (ofList [0x02]) 1 (fun _ => 7) 0 0 30
          ⟨[[0xAA]], []⟩ =
        some (3, framed (scripted 0 0 1) (ofList [0x02]) 1, fun _ => 7, s1) ∧
      s1.trace = [] ++ [Event.cfg_gpio_write 0, Event.uart_flush,
          Event.uart_write (0x57 :: 0xAB :: bytes (ofList [0x02]) 1) (2 + 1)] ++
        (if 0 ≠ 0 then [Event.delay_ms 0] else []) ++
        idle_polls (Event.uart_read 0 0) (30 / 10) ++
        [Event.debug_print "ch9120: timeout.\n", Event.cfg_gpio_write 1]) ∧
    (∃ s1, ch9120_set_command (some (scripted 0 0 1)) (ofList [0x02]) 1 (fun _ => 7) 0 0 30
          ⟨[[0xAA]], []⟩ =
        some (1, some (framed (scripted 0 0 1) (ofList [0x02]) 1), fun _ => 7, s1) ∧
      s1.trace = [] ++ [Event.cfg_gpio_write 0, Event.uart_flush,
          Event.uart_write (0x57 :: 0xAB :: bytes (ofList [0x02]) 1) (2 + 1)] ++
        (if 0 ≠ 0 then [Event.delay_ms 0] else []) ++
        idle_polls (Event.uart_read 0 0) (30 / 10) ++
        [Event.debug_print "ch9120: timeout.\n", Event.cfg_gpio_write 1]) :=
  zero_length_response_times_out (scripted 0 0 1) rfl rfl rfl rfl rfl rfl rfl (ofList [0x02]) 1
    (fun _ => 7) 0 30 ⟨[[0xAA]], []⟩ (by decide) rfl (fun w => by simp)

/-- C29 (getter atomicity).  The getters that decode through a local buffer, namely
`ch9120_get_status`, `ch9120_get_mode`, `ch9120_get_source_port`, `ch9120_get_dest_port`,
`ch9120_get_uart_baud`, `ch9120_get_uart_buffer_length`, `ch9120_get_uart_flush`,
`ch9120_get_disconnect_with_no_rj45` and `ch9120_get_uart_config`, leave the caller's
output variable(s) as they were whenever they return a non-zero status, whatever the
handle and whatever the platform delivered before the failure. -/
theorem getter_atomicity (handle : Option (Handle W)) (s : St W) (v a b c : Nat) :
    (∀ x, ch9120_get_status handle v s = some x → x.1 ≠ 0 → x.2.2.1 = v) ∧
    (∀ x, ch9120_get_mode handle v s = some x → x.1 ≠ 0 → x.2.2.1 = v) ∧
    (∀ x, ch9120_get_source_port handle v s = some x → x.1 ≠ 0 → x.2.2.1 = v) ∧
    (∀ x, ch9120_get_dest_port handle v s = some x → x.1 ≠ 0 → x.2.2.1 = v) ∧
    (∀ x, ch9120_get_uart_baud handle v s = some x → x.1 ≠ 0 → x.2.2.1 = v) ∧
    (∀ x, ch9120_get_uart_buffer_length handle v s = some x → x.1 ≠ 0 → x.2.2.1 = v) ∧
    (∀ x, ch9120_get_uart_flush handle v s = some x → x.1 ≠ 0 → x.2.2.1 = v) ∧
    (∀ x, ch9120_get_disconnect_with_no_rj45 handle v s = some x → x.1 ≠ 0 → x.2.2.1 = v) ∧
    (∀ x, ch9120_get_uart_config handle a b c s = some x → x.1 ≠ 0 →
      x.2.2.1 = a ∧ x.2.2.2.1 = b ∧ x.2.2.2.2.1 = c) := by
  refine ⟨?_, ?_, ?_, ?_, ?_, ?_, ?_, ?_, ?_⟩
  · intro x hx hne
    simp only [ch9120_get_status] at hx
    repeat' split at hx
    all_goals (cases hx <;> first | rfl | exact absurd rfl hne)
  · intro x hx hne
    simp only [ch9120_get_mode] at hx
    repeat' split at hx
    all_goals (cases hx <;> first | rfl | exact absurd rfl hne)
  · intro x hx hne
    simp only [ch9120_get_source_port] at hx
    repeat' split at hx
    all_goals (cases hx <;> first | rfl | exact absurd rfl hne)
  · intro x hx hne
    simp only [ch9120_get_dest_port] at hx
    repeat' split at hx
    all_goals (cases hx <;> first | rfl | exact absurd rfl hne)
  · intro x hx hne
    simp only [ch9120_get_uart_baud] at hx
    repeat' split at hx
    all_goals (cases hx <;> first | rfl | exact absurd rfl hne)
  · intro x hx hne
    simp only [ch9120_get_uart_buffer_length] at hx
    repeat' split at hx
    all_goals (cases hx <;> first | rfl | exact absurd rfl hne)
  · intro x hx hne
    simp only [ch9120_get_uart_flush] at hx
    repeat' split at hx
    all_goals (cases hx <;> first | rfl | exact absurd rfl hne)
  · intro x hx hne
    simp only [ch9120_get_disconnect_with_no_rj45] at hx
    repeat' split at hx
    all_goals (cases hx <;> first | rfl | exact absurd rfl hne)
  · intro x hx hne
    simp only [ch9120_get_uart_config] at hx
    repeat' split at hx
    all_goals (cases hx <;> first | exact ⟨rfl, rfl, rfl⟩ | exact absurd rfl hne)

/-- Witness of C29: `ch9120_get_source_port` when one byte of the two-byte response
arrives and nothing after it; the call times out with status 1 and the caller's variable
keeps its value 7. -/
theorem getter_atomicity_witness :
    ∃ x, ch9120_get_source_port (some (scripted 0 0 1)) 7 ⟨[[0x34]], []⟩ = some x ∧
      x.1 = 1 ∧ x.2.2.1 = 7 :=
  ⟨_, rfl, by decide,
    (getter_atomicity (some (scripted 0 0 1)) ⟨[[0x34]], []⟩ 7 0 0 0).2.2.1 _ rfl (by decide)⟩

/-! ## Lemmas on the catalog -/

/-- The poll loop of write-read returns with status 0 or 3 and calls nothing but
`uart_read`, `delay_ms`, `debug_print` and `cfg_gpio_write`. -/
theorem write_read_poll_calls (h : Handle W) {fr fc fd fp}
    (hr : h.uart_read = some fr) (hc : h.cfg_gpio_write = some fc)
    (hd : h.delay_ms = some fd) (hp : h.debug_print = some fp) (out_len t point : Nat)
    (out : Nat → Nat) (s : St W) :
    ∃ r o s1 evs, write_read_poll h out_len t point out s = some (r, o, s1) ∧
      s1.trace = s.trace ++ evs ∧ (∀ e, e ∈ evs → e.polling = true) ∧ (r = 0 ∨ r = 3) := by
  induction t generalizing s point out with
  | zero =>
    simp only [write_read_poll, call_debug_print, call_cfg_gpio_write, hc, hp]
    exact ⟨_, _, _, [Event.debug_print "ch9120: timeout.\n", Event.cfg_gpio_write 1], rfl,
      by simp, by simp [Event.polling], by simp⟩
  | succ t ih =>
    simp only [write_read_poll, call_uart_read, hr]
    by_cases hdone : (fr (sub16 out_len point) s.world).1.length ≠ 0 ∧
        (if (fr (sub16 out_len point) s.world).1.length ≠ 0 then
          (point + (fr (sub16 out_len point) s.world).1.length) % 65536 else point) ≥ out_len
    · rw [if_pos hdone]
      simp only [call_cfg_gpio_write, hc]
      exact ⟨_, _, _, [Event.uart_read point (sub16 out_len point), Event.cfg_gpio_write 1],
        rfl, by simp, by simp [Event.polling], by simp⟩
    · rw [if_neg hdone]
      simp only [call_delay_ms, hd]
      obtain ⟨r, o, s1, evs, h1, h2, h3, h4⟩ := ih _ _
        ⟨fd 10 (fr (sub16 out_len point) s.world).2,
          s.trace ++ [Event.uart_read point (sub16 out_len point)] ++ [Event.delay_ms 10]⟩
      refine ⟨r, o, s1, [Event.uart_read point (sub16 out_len point), Event.delay_ms 10] ++ evs,
        h1, by simp [h2], ?_, h4⟩
      intro e he
      simp only [List.cons_append, List.nil_append, List.mem_cons] at he
      rcases he with rfl | rfl | he
      · rfl
      · rfl
      · exact h3 e he

/-- For `len ≤ 126` write-read returns, with status 0, 1 or 3 and the frame in the inner
buffer; its calls are `cfg_gpio_write(0)`, `uart_flush`, the `uart_write` of the frame, and
after them nothing but `uart_read`, `delay_ms`, `debug_print` and `cfg_gpio_write`. -/
theorem write_read_returns (h : Handle W) {fr fc ff fw fd fp}
    (hr : h.uart_read = some fr) (hc : h.cfg_gpio_write = some fc)
    (hf : h.uart_flush = some ff) (hw : h.uart_write = some fw)
    (hd : h.delay_ms = some fd) (hp : h.debug_print = some fp)
    (param : Nat → Nat) (len : Nat) (out : Nat → Nat) (out_len pre_delay timeout : Nat)
    (s : St W) (hlen : len ≤ 126) :
    ∃ r o s1 evs, a_ch9120_write_read h param len out out_len pre_delay timeout s =
        some (r, framed h param len, o, s1) ∧
      s1.trace = s.trace ++ [Event.cfg_gpio_write 0, Event.uart_flush,
        Event.uart_write (0x57 :: 0xAB :: bytes param len) (2 + len)] ++ evs ∧
      (∀ e, e ∈ evs → e.polling = true) ∧ (r = 0 ∨ r = 1 ∨ r = 3) := by
  by_cases hst : (sent fc ff fw h param len s).1 ≠ 0
  · rw [write_read_write_failed h hc hf hw hp param len out out_len pre_delay timeout s hlen
      hst]
    refine ⟨_, _, _, [Event.debug_print "ch9120: write failed.\n", Event.cfg_gpio_write 1],
      rfl, ?_, by simp [Event.polling], by simp⟩
    simp only [sent_trace, List.append_assoc, List.cons_append, List.nil_append]
  · have hok : (sent fc ff fw h param len s).1 = 0 := by omega
    rw [write_read_write_ok h hc hf hw hd param len out out_len pre_delay timeout s hlen hok]
    obtain ⟨r, o, s1, evs, h1, h2, h3, h4⟩ :=
      write_read_poll_calls (framed h param len) hr hc hd hp out_len (timeout / 10) 0 out
        (settled fd pre_delay (sent fc ff fw h param len s).2)
    rw [h1]
    refine ⟨_, _, _, (if pre_delay ≠ 0 then [Event.delay_ms pre_delay] else []) ++ evs, rfl,
      ?_, ?_, by omega⟩
    · simp only [h2, settled_trace, sent_trace, List.append_assoc]
    · intro e he
      rw [List.mem_append] at he
      rcases he with he | he
      · by_cases hpd : pre_delay ≠ 0
        · rw [if_pos hpd, List.mem_singleton] at he
          rw [he]
          rfl
        · rw [if_neg hpd] at he
          cases he
      · exact h3 e he

theorem write_check_some (h : Handle W) {fr fc ff fw fd fp}
    (hr : h.uart_read = some fr) (hc : h.cfg_gpio_write = some fc)
    (hf : h.uart_flush = some ff) (hw : h.uart_write = some fw)
    (hd : h.delay_ms = some fd) (hp : h.debug_print = some fp)
    (param : Nat → Nat) (len pre_delay timeout : Nat) (s : St W) (hlen : len ≤ 126) :
    a_ch9120_write_check h param len pre_delay timeout s ≠ none := by
  obtain ⟨r, s1, evs, hwc, _⟩ := write_check_returns h hr hc hf hw hd hp param len pre_delay
    timeout s hlen
  rw [hwc]
  exact Option.some_ne_none _

theorem write_read_some (h : Handle W) {fr fc ff fw fd fp}
    (hr : h.uart_read = some fr) (hc : h.cfg_gpio_write = some fc)
    (hf : h.uart_flush = some ff) (hw : h.uart_write = some fw)
    (hd : h.delay_ms = some fd) (hp : h.debug_print = some fp)
    (param : Nat → Nat) (len : Nat) (out : Nat → Nat) (out_len pre_delay timeout : Nat)
    (s : St W) (hlen : len ≤ 126) :
    a_ch9120_write_read h param len out out_len pre_delay timeout s ≠ none := by
  obtain ⟨r, o, s1, evs, hwr, _⟩ := write_read_returns h hr hc hf hw hd hp param len out
    out_len pre_delay timeout s hlen
  rw [hwr]
  exact Option.some_ne_none _

/-- What write-check hands back for `len ≤ 126`, whatever the platform does. -/
theorem write_check_frames (h : Handle W) {fr fc ff fw fd fp}
    (hr : h.uart_read = some fr) (hc : h.cfg_gpio_write = some fc)
    (hf : h.uart_flush = some ff) (hw : h.uart_write = some fw)
    (hd : h.delay_ms = some fd) (hp : h.debug_print = some fp)
    (param : Nat → Nat) (len pre_delay timeout : Nat) (s : St W) (hlen : len ≤ 126)
    (x : Nat × Handle W × St W)
    (hx : a_ch9120_write_check h param len pre_delay timeout s = some x) :
    x.2.1 = framed h param len ∧ (x.1 = 0 ∨ x.1 = 1 ∨ x.1 = 3 ∨ x.1 = 4) ∧
    ∃ evs, x.2.2.trace = s.trace ++ [Event.cfg_gpio_write 0, Event.uart_flush,
        Event.uart_write (0x57 :: 0xAB :: bytes param len) (2 + len)] ++ evs ∧
      ∀ e, e ∈ evs → e.polling = true := by
  obtain ⟨r, s1, evs, hwc, h2, h3, h4⟩ := write_check_returns h hr hc hf hw hd hp param len
    pre_delay timeout s hlen
  rw [hwc] at hx
  cases hx
  exact ⟨rfl, h4, evs, h2, h3⟩

/-- What write-read hands back for `len ≤ 126`, whatever the platform does. -/
theorem write_read_frames (h : Handle W) {fr fc ff fw fd fp}
    (hr : h.uart_read = some fr) (hc : h.cfg_gpio_write = some fc)
    (hf : h.uart_flush = some ff) (hw : h.uart_write = some fw)
    (hd : h.delay_ms = some fd) (hp : h.debug_print = some fp)
    (param : Nat → Nat) (len : Nat) (out : Nat → Nat) (out_len pre_delay timeout : Nat)
    (s : St W) (hlen : len ≤ 126) (x : Nat × Handle W × (Nat → Nat) × St W)
    (hx : a_ch9120_write_read h param len out out_len pre_delay timeout s = some x) :
    x.2.1 = framed h param len ∧ (x.1 = 0 ∨ x.1 = 1 ∨ x.1 = 3) ∧
    ∃ evs, x.2.2.2.trace = s.trace ++ [Event.cfg_gpio_write 0, Event.uart_flush,
        Event.uart_write (0x57 :: 0xAB :: bytes param len) (2 + len)] ++ evs ∧
      ∀ e, e ∈ evs → e.polling = true := by
  obtain ⟨r, o, s1, evs, hwr, h2, h3, h4⟩ := write_read_returns h hr hc hf hw hd hp param len
    out out_len pre_delay timeout s hlen
  rw [hwr] at hx
  cases hx
  exact ⟨rfl, h4, evs, h2, h3⟩

theorem uartWrites_polling (evs : List Event) (hpoll : ∀ e, e ∈ evs → e.polling = true) :
    uartWrites evs = [] := by
  simp only [uartWrites, List.filterMap_eq_nil_iff]
  intro e he
  have := hpoll e he
  cases e <;> simp_all [Event.polling]

/-- With a `uart_read` that never delivers a byte, no poll of write-read receives
anything. -/
theorem arrivals_silent (fr : Nat → W → List Nat × W) (fd : Nat → W → W)
    (hr0 : ∀ n w, (fr n w).1 = []) (out_len t point : Nat) (w : W) :
    ∀ d, d ∈ arrivals fr fd out_len t point w → d = [] := by
  induction t generalizing point w with
  | zero =>
    intro d hd
    simp [arrivals] at hd
  | succ t ih =>
    intro d hd
    simp only [arrivals, hr0, List.length_nil, ne_eq, not_true_eq_false, if_false,
      List.mem_cons] at hd
    rcases hd with rfl | hd
    · rfl
    · exact ih _ _ d hd

/-- Write-check against a chip that never answers: 4 after `timeout / 10` idle polls. -/
theorem write_check_silent (h : Handle W) {fr fc ff fw fd fp}
    (hr : h.uart_read = some fr) (hc : h.cfg_gpio_write = some fc)
    (hf : h.uart_flush = some ff) (hw : h.uart_write = some fw)
    (hd : h.delay_ms = some fd) (hp : h.debug_print = some fp)
    (hw0 : ∀ b n w, (fw b n w).1 = 0) (hr0 : ∀ n w, (fr n w).1 = [])
    (param : Nat → Nat) (len pre_delay timeout : Nat) (s : St W) (hlen : len ≤ 126)
    (x : Nat × Handle W × St W)
    (hx : a_ch9120_write_check h param len pre_delay timeout s = some x) :
    x.1 = 4 ∧
    x.2.2.trace = s.trace ++ [Event.cfg_gpio_write 0, Event.uart_flush,
        Event.uart_write (0x57 :: 0xAB :: bytes param len) (2 + len)] ++
      (if pre_delay ≠ 0 then [Event.delay_ms pre_delay] else []) ++
      idle_polls (Event.uart_read 0 1) (timeout / 10) ++
      [Event.debug_print "ch9120: timeout.\n", Event.cfg_gpio_write 1] := by
  have hst : (sent fc ff fw h param len s).1 = 0 := by rw [sent_status]; exact hw0 _ _ _
  rw [write_check_write_ok h hc hf hw hd param len pre_delay timeout s hlen hst] at hx
  obtain ⟨s1, h1, h2⟩ := write_check_poll_idle (framed h param len) hr hc hd hp
    (timeout / 10) (settled fd pre_delay (sent fc ff fw h param len s).2)
    (fun i _ => hr0 _ _)
  rw [h1] at hx
  cases hx
  refine ⟨rfl, ?_⟩
  simp only [h2, settled_trace, sent_trace, List.append_assoc]

/-- Write-read against a chip that never answers: 3 after `timeout / 10` idle polls, the
destination untouched. -/
theorem write_read_silent (h : Handle W) {fr fc ff fw fd fp}
    (hr : h.uart_read = some fr) (hc : h.cfg_gpio_write = some fc)
    (hf : h.uart_flush = some ff) (hw : h.uart_write = some fw)
    (hd : h.delay_ms = some fd) (hp : h.debug_print = some fp)
    (hw0 : ∀ b n w, (fw b n w).1 = 0) (hr0 : ∀ n w, (fr n w).1 = [])
    (param : Nat → Nat) (len : Nat) (out : Nat → Nat) (out_len pre_delay timeout : Nat)
    (s : St W) (hlen : len ≤ 126) (x : Nat × Handle W × (Nat → Nat) × St W)
    (hx : a_ch9120_write_read h param len out out_len pre_delay timeout s = some x) :
    x.1 = 3 ∧ x.2.2.1 = out ∧
    x.2.2.2.trace = s.trace ++ [Event.cfg_gpio_write 0, Event.uart_flush,
        Event.uart_write (0x57 :: 0xAB :: bytes param len) (2 + len)] ++
      (if pre_delay ≠ 0 then [Event.delay_ms pre_delay] else []) ++
      idle_polls (Event.uart_read 0 (sub16 out_len 0)) (timeout / 10) ++
      [Event.debug_print "ch9120: timeout.\n", Event.cfg_gpio_write 1] := by
  have hst : (sent fc ff fw h param len s).1 = 0 := by rw [sent_status]; exact hw0 _ _ _
  rw [write_read_write_ok h hc hf hw hd param len out out_len pre_delay timeout s hlen hst]
    at hx
  obtain ⟨s1, h1, h2⟩ := write_read_poll_idle (framed h param len) hr hc hd hp out_len
    (timeout / 10) 0 out (settled fd pre_delay (sent fc ff fw h param len s).2)
    (arrivals_silent fr fd hr0 _ _ _ _)
  rw [h1] at hx
  cases hx
  refine ⟨rfl, rfl, ?_⟩
  simp only [h2, settled_trace, sent_trace, List.append_assoc]

/-- Write-check when the platform replies to the command with the single byte `b`. -/
theorem write_check_reply (h : Handle W) {fr fc ff fw fd fp}
    (hr : h.uart_read = some fr) (hc : h.cfg_gpio_write = some fc)
    (hf : h.uart_flush = some ff) (hw : h.uart_write = some fw)
    (hd : h.delay_ms = some fd) (hp : h.debug_print = some fp)
    (param : Nat → Nat) (len pre_delay timeout : Nat) (s : St W) (hlen : len ≤ 126)
    (b : Nat) (hrep : replies fr fc ff fw fd h param len pre_delay timeout s b)
    (x : Nat × Handle W × St W)
    (hx : a_ch9120_write_check h param len pre_delay timeout s = some x) :
    x.1 = (if b = 0xAA then 0 else 3) ∧ x.2.1 = framed h param len := by
  obtain ⟨hok, k, hk, hidle, hbyte⟩ := hrep
  have hst : (sent fc ff fw h param len s).1 = 0 := by rw [sent_status]; exact hok
  rw [write_check_write_ok h hc hf hw hd param len pre_delay timeout s hlen hst] at hx
  obtain ⟨s1, h1, _⟩ := write_check_poll_ack (framed h param len) hr hc hd hp b k
    (timeout / 10) (settled fd pre_delay (sent fc ff fw h param len s).2) hk hidle hbyte
  rw [h1] at hx
  cases hx
  exact ⟨rfl, rfl⟩

/-- The calls of a catalog function against a chip that never answers, with the default
pre-delay and the fixed timeout of 1000 ms written out. -/
theorem accessor_trace (t0 : List Event) (frame : List Nat) (n k : Nat) (e1 e2 : Event) :
    t0 ++ [Event.cfg_gpio_write 0, Event.uart_flush, Event.uart_write frame n] ++
      (if CH9120_UART_PRE_DELAY ≠ 0 then [Event.delay_ms CH9120_UART_PRE_DELAY] else []) ++
      idle_polls (Event.uart_read 0 k) (1000 / 10) ++ [e1, e2] =
    t0 ++ [Event.cfg_gpio_write 0, Event.uart_flush, Event.uart_write frame n,
      Event.delay_ms 50] ++ idle_polls (Event.uart_read 0 k) 100 ++ [e1, e2] := by
  simp [CH9120_UART_PRE_DELAY]

/-! ## The claims on the catalog -/

/-- C24 (fixed accessor timing).  Every function of the catalog calls the transport with
the pre-delay `CH9120_UART_PRE_DELAY` (50 ms by default) and the timeout 1000 ms: on a ready
handle, against a chip that never answers (every `uart_write` succeeds, no `uart_read`
delivers a byte), each of them writes its frame, calls `delay_ms(50)`, then makes exactly 100
`uart_read` polls each followed by `delay_ms(10)`, prints the timeout message, releases
config-enable and returns 1.  This covers the register accessors and the six fixed
commands. -/
theorem accessor_timing (h : Handle W) {fr fc ff fw fd fp}
    (hr : h.uart_read = some fr) (hc : h.cfg_gpio_write = some fc)
    (hf : h.uart_flush = some ff) (hw : h.uart_write = some fw)
    (hd : h.delay_ms = some fd) (hp : h.debug_print = some fp) (hin : h.inited = 1)
    (hw0 : ∀ b n w, (fw b n w).1 = 0) (hr0 : ∀ n w, (fr n w).1 = [])
    (s : St W) (m : Nat → Nat) (a b c : Nat) :
    (∃ x frame n k, ch9120_get_version (some h) m s = some x ∧ x.1 = 1 ∧
      x.2.2.2.trace = s.trace ++ [Event.cfg_gpio_write 0, Event.uart_flush,
          Event.uart_write frame n, Event.delay_ms 50] ++
        idle_polls (Event.uart_read 0 k) 100 ++
        [Event.debug_print "ch9120: timeout.\n", Event.cfg_gpio_write 1]) ∧
    (∃ x frame n k, ch9120_reset (some h) s = some x ∧ x.1 = 1 ∧
      x.2.2.trace = s.trace ++ [Event.cfg_gpio_write 0, Event.uart_flush,
          Event.uart_write frame n, Event.delay_ms 50] ++
        idle_polls (Event.uart_read 0 k) 100 ++
        [Event.debug_print "ch9120: timeout.\n", Event.cfg_gpio_write 1]) ∧
    (∃ x frame n k, ch9120_get_status (some h) a s = some x ∧ x.1 = 1 ∧
      x.2.2.2.trace = s.trace ++ [Event.cfg_gpio_write 0, Event.uart_flush,
          Event.uart_write frame n, Event.delay_ms 50] ++
        idle_polls (Event.uart_read 0 k) 100 ++
        [Event.debug_print "ch9120: timeout.\n", Event.cfg_gpio_write 1]) ∧
    (∃ x frame n k, ch9120_save_to_eeprom (some h) s = some x ∧ x.1 = 1 ∧
      x.2.2.trace = s.trace ++ [Event.cfg_gpio_write 0, Event.uart_flush,
          Event.uart_write frame n, Event.delay_ms 50] ++
        idle_polls (Event.uart_read 0 k) 100 ++
        [Event.debug_print "ch9120: timeout.\n", Event.cfg_gpio_write 1]) ∧
    (∃ x frame n k, ch9120_config_and_reset (some h) s = some x ∧ x.1 = 1 ∧
      x.2.2.trace = s.trace ++ [Event.cfg_gpio_write 0, Event.uart_flush,
          Event.uart_write frame n, Event.delay_ms 50] ++
        idle_polls (Event.uart_read 0 k) 100 ++
        [Event.debug_print "ch9120: timeout.\n", Event.cfg_gpio_write 1]) ∧
    (∃ x frame n k, ch9120_exit (some h) s = some x ∧ x.1 = 1 ∧
      x.2.2.trace = s.trace ++ [Event.cfg_gpio_write 0, Event.uart_flush,
          Event.uart_write frame n, Event.delay_ms 50] ++
        idle_polls (Event.uart_read 0 k) 100 ++
        [Event.debug_print "ch9120: timeout.\n", Event.cfg_gpio_write 1]) ∧
    (∃ x frame n k, ch9120_set_mode (some h) a s = some x ∧ x.1 = 1 ∧
      x.2.2.trace = s.trace ++ [Event.cfg_gpio_write 0, Event.uart_flush,
          Event.uart_write frame n, Event.delay_ms 50] ++
        idle_polls (Event.uart_read 0 k) 100 ++
        [Event.debug_print "ch9120: timeout.\n", Event.cfg_gpio_write 1]) ∧
    (∃ x frame n k, ch9120_get_mode (some h) a s = some x ∧ x.1 = 1 ∧
      x.2.2.2.trace = s.trace ++ [Event.cfg_gpio_write 0, Event.uart_flush,
          Event.uart_write frame n, Event.delay_ms 50] ++
        idle_polls (Event.uart_read 0 k) 100 ++
        [Event.debug_print "ch9120: timeout.\n", Event.cfg_gpio_write 1]) ∧
    (∃ x frame n k, ch9120_set_ip (some h) m s = some x ∧ x.1 = 1 ∧
      x.2.2.trace = s.trace ++ [Event.cfg_gpio_write 0, Event.uart_flush,
          Event.uart_write frame n, Event.delay_ms 50] ++
        idle_polls (Event.uart_read 0 k) 100 ++
        [Event.debug_print "ch9120: timeout.\n", Event.cfg_gpio_write 1]) ∧
    (∃ x frame n k, ch9120_get_ip (some h) m s = some x ∧ x.1 = 1 ∧
      x.2.2.2.trace = s.trace ++ [Event.cfg_gpio_write 0, Event.uart_flush,
          Event.uart_write frame n, Event.delay_ms 50] ++
        idle_polls (Event.uart_read 0 k) 100 ++
        [Event.debug_print "ch9120: timeout.\n", Event.cfg_gpio_write 1]) ∧
    (∃ x frame n k, ch9120_set_subnet_mask (some h) m s = some x ∧ x.1 = 1 ∧
      x.2.2.trace = s.trace ++ [Event.cfg_gpio_write 0, Event.uart_flush,
          Event.uart_write frame n, Event.delay_ms 50] ++
        idle_polls (Event.uart_read 0 k) 100 ++
        [Event.debug_print "ch9120: timeout.\n", Event.cfg_gpio_write 1]) ∧
    (∃ x frame n k, ch9120_get_subnet_mask (some h) m s = some x ∧ x.1 = 1 ∧
      x.2.2.2.trace = s.trace ++ [Event.cfg_gpio_write 0, Event.uart_flush,
          Event.uart_write frame n, Event.delay_ms 50] ++
        idle_polls (Event.uart_read 0 k) 100 ++
        [Event.debug_print "ch9120: timeout.\n", Event.cfg_gpio_write 1]) ∧
    (∃ x frame n k, ch9120_set_gateway (some h) m s = some x ∧ x.1 = 1 ∧
      x.2.2.trace = s.trace ++ [Event.cfg_gpio_write 0, Event.uart_flush,
          Event.uart_write frame n, Event.delay_ms 50] ++
        idle_polls (Event.uart_read 0 k) 100 ++
        [Event.debug_print "ch9120: timeout.\n", Event.cfg_gpio_write 1]) ∧
    (∃ x frame n k, ch9120_get_gateway (some h) m s = some x ∧ x.1 = 1 ∧
      x.2.2.2.trace = s.trace ++ [Event.cfg_gpio_write 0, Event.uart_flush,
          Event.uart_write frame n, Event.delay_ms 50] ++
        idle_polls (Event.uart_read 0 k) 100 ++
        [Event.debug_print "ch9120: timeout.\n", Event.cfg_gpio_write 1]) ∧
    (∃ x frame n k, ch9120_set_source_port (some h) a s = some x ∧ x.1 = 1 ∧
      x.2.2.trace = s.trace ++ [Event.cfg_gpio_write 0, Event.uart_flush,
          Event.uart_write frame n, Event.delay_ms 50] ++
        idle_polls (Event.uart_read 0 k) 100 ++
        [Event.debug_print "ch9120: timeout.\n", Event.cfg_gpio_write 1]) ∧
    (∃ x frame n k, ch9120_get_source_port (some h) a s = some x ∧ x.1 = 1 ∧
      x.2.2.2.trace = s.trace ++ [Event.cfg_gpio_write 0, Event.uart_flush,
          Event.uart_write frame n, Event.delay_ms 50] ++
        idle_polls (Event.uart_read 0 k) 100 ++
        [Event.debug_print "ch9120: timeout.\n", Event.cfg_gpio_write 1]) ∧
    (∃ x frame n k, ch9120_set_dest_ip (some h) m s = some x ∧ x.1 = 1 ∧
      x.2.2.trace = s.trace ++ [Event.cfg_gpio_write 0, Event.uart_flush,
          Event.uart_write frame n, Event.delay_ms 50] ++
        idle_polls (Event.uart_read 0 k) 100 ++
        [Event.debug_print "ch9120: timeout.\n", Event.cfg_gpio_write 1]) ∧
    (∃ x frame n k, ch9120_get_dest_ip (some h) m s = some x ∧ x.1 = 1 ∧
      x.2.2.2.trace = s.trace ++ [Event.cfg_gpio_write 0, Event.uart_flush,
          Event.uart_write frame n, Event.delay_ms 50] ++
        idle_polls (Event.uart_read 0 k) 100 ++
        [Event.debug_print "ch9120: timeout.\n", Event.cfg_gpio_write 1]) ∧
    (∃ x frame n k, ch9120_set_dest_port (some h) a s = some x ∧ x.1 = 1 ∧
      x.2.2.trace = s.trace ++ [Event.cfg_gpio_write 0, Event.uart_flush,
          Event.uart_write frame n, Event.delay_ms 50] ++
        idle_polls (Event.uart_read 0 k) 100 ++
        [Event.debug_print "ch9120: timeout.\n", Event.cfg_gpio_write 1]) ∧
    (∃ x frame n k, ch9120_get_dest_port (some h) a s = some x ∧ x.1 = 1 ∧
      x.2.2.2.trace = s.trace ++ [Event.cfg_gpio_write 0, Event.uart_flush,
          Event.uart_write frame n, Event.delay_ms 50] ++
        idle_polls (Event.uart_read 0 k) 100 ++
        [Event.debug_print "ch9120: timeout.\n", Event.cfg_gpio_write 1]) ∧
    (∃ x frame n k, ch9120_set_uart_baud (some h) a s = some x ∧ x.1 = 1 ∧
      x.2.2.trace = s.trace ++ [Event.cfg_gpio_write 0, Event.uart_flush,
          Event.uart_write frame n, Event.delay_ms 50] ++
        idle_polls (Event.uart_read 0 k) 100 ++
        [Event.debug_print "ch9120: timeout.\n", Event.cfg_gpio_write 1]) ∧
    (∃ x frame n k, ch9120_get_uart_baud (some h) a s = some x ∧ x.1 = 1 ∧
      x.2.2.2.trace = s.trace ++ [Event.cfg_gpio_write 0, Event.uart_flush,
          Event.uart_write frame n, Event.delay_ms 50] ++
        idle_polls (Event.uart_read 0 k) 100 ++
        [Event.debug_print "ch9120: timeout.\n", Event.cfg_gpio_write 1]) ∧
    (∃ x frame n k, ch9120_set_uart_config (some h) a b c s = some x ∧ x.1 = 1 ∧
      x.2.2.trace = s.trace ++ [Event.cfg_gpio_write 0, Event.uart_flush,
          Event.uart_write frame n, Event.delay_ms 50] ++
        idle_polls (Event.uart_read 0 k) 100 ++
        [Event.debug_print "ch9120: timeout.\n", Event.cfg_gpio_write 1]) ∧
    (∃ x frame n k, ch9120_get_uart_config (some h) a b c s = some x ∧ x.1 = 1 ∧
      x.2.2.2.2.2.trace = s.trace ++ [Event.cfg_gpio_write 0, Event.uart_flush,
          Event.uart_write frame n, Event.delay_ms 50] ++
        idle_polls (Event.uart_read 0 k) 100 ++
        [Event.debug_print "ch9120: timeout.\n", Event.cfg_gpio_write 1]) ∧
    (∃ x frame n k, ch9120_set_uart_timeout (some h) a s = some x ∧ x.1 = 1 ∧
      x.2.2.trace = s.trace ++ [Event.cfg_gpio_write 0, Event.uart_flush,
          Event.uart_write frame n, Event.delay_ms 50] ++
        idle_polls (Event.uart_read 0 k) 100 ++
        [Event.debug_print "ch9120: timeout.\n", Event.cfg_gpio_write 1]) ∧
    (∃ x frame n k, ch9120_get_uart_timeout (some h) m s = some x ∧ x.1 = 1 ∧
      x.2.2.2.trace = s.trace ++ [Event.cfg_gpio_write 0, Event.uart_flush,
          Event.uart_write frame n, Event.delay_ms 50] ++
        idle_polls (Event.uart_read 0 k) 100 ++
        [Event.debug_print "ch9120: timeout.\n", Event.cfg_gpio_write 1]) ∧
    (∃ x frame n k, ch9120_set_source_port_random (some h) a s = some x ∧ x.1 = 1 ∧
      x.2.2.trace = s.trace ++ [Event.cfg_gpio_write 0, Event.uart_flush,
          Event.uart_write frame n, Event.delay_ms 50] ++
        idle_polls (Event.uart_read 0 k) 100 ++
        [Event.debug_print "ch9120: timeout.\n", Event.cfg_gpio_write 1]) ∧
    (∃ x frame n k, ch9120_set_uart_buffer_length (some h) a s = some x ∧ x.1 = 1 ∧
      x.2.2.trace = s.trace ++ [Event.cfg_gpio_write 0, Event.uart_flush,
          Event.uart_write frame n, Event.delay_ms 50] ++
        idle_polls (Event.uart_read 0 k) 100 ++
        [Event.debug_print "ch9120: timeout.\n", Event.cfg_gpio_write 1]) ∧
    (∃ x frame n k, ch9120_get_uart_buffer_length (some h) a s = some x ∧ x.1 = 1 ∧
      x.2.2.2.trace = s.trace ++ [Event.cfg_gpio_write 0, Event.uart_flush,
          Event.uart_write frame n, Event.delay_ms 50] ++
        idle_polls (Event.uart_read 0 k) 100 ++
        [Event.debug_print "ch9120: timeout.\n", Event.cfg_gpio_write 1]) ∧
    (∃ x frame n k, ch9120_set_uart_flush (some h) a s = some x ∧ x.1 = 1 ∧
      x.2.2.trace = s.trace ++ [Event.cfg_gpio_write 0, Event.uart_flush,
          Event.uart_write frame n, Event.delay_ms 50] ++
        idle_polls (Event.uart_read 0 k) 100 ++
        [Event.debug_print "ch9120: timeout.\n", Event.cfg_gpio_write 1]) ∧
    (∃ x frame n k, ch9120_get_uart_flush (some h) a s = some x ∧ x.1 = 1 ∧
      x.2.2.2.trace = s.trace ++ [Event.cfg_gpio_write 0, Event.uart_flush,
          Event.uart_write frame n, Event.delay_ms 50] ++
        idle_polls (Event.uart_read 0 k) 100 ++
        [Event.debug_print "ch9120: timeout.\n", Event.cfg_gpio_write 1]) ∧
    (∃ x frame n k, ch9120_set_disconnect_with_no_rj45 (some h) a s = some x ∧ x.1 = 1 ∧
      x.2.2.trace = s.trace ++ [Event.cfg_gpio_write 0, Event.uart_flush,
          Event.uart_write frame n, Event.delay_ms 50] ++
        idle_polls (Event.uart_read 0 k) 100 ++
        [Event.debug_print "ch9120: timeout.\n", Event.cfg_gpio_write 1]) ∧
    (∃ x frame n k, ch9120_get_disconnect_with_no_rj45 (some h) a s = some x ∧ x.1 = 1 ∧
      x.2.2.2.trace = s.trace ++ [Event.cfg_gpio_write 0, Event.uart_flush,
          Event.uart_write frame n, Event.delay_ms 50] ++
        idle_polls (Event.uart_read 0 k) 100 ++
        [Event.debug_print "ch9120: timeout.\n", Event.cfg_gpio_write 1]) ∧
    (∃ x frame n k, ch9120_set_dhcp (some h) a s = some x ∧ x.1 = 1 ∧
      x.2.2.trace = s.trace ++ [Event.cfg_gpio_write 0, Event.uart_flush,
          Event.uart_write frame n, Event.delay_ms 50] ++
        idle_polls (Event.uart_read 0 k) 100 ++
        [Event.debug_print "ch9120: timeout.\n", Event.cfg_gpio_write 1]) := by
  have hin2 : ¬ h.inited ≠ 1 := by omega
  refine ⟨?_, ?_, ?_, ?_, ?_, ?_, ?_, ?_, ?_, ?_, ?_, ?_, ?_, ?_, ?_, ?_, ?_, ?_, ?_, ?_,
    ?_, ?_, ?_, ?_, ?_, ?_, ?_, ?_, ?_, ?_, ?_, ?_, ?_, ?_⟩
  · simp only [ch9120_get_version, if_neg hin2]
    split
    · rename_i heq
      exact absurd heq (write_read_some h hr hc hf hw hd hp _ _ _ _ _ _ _ (by decide))
    · rename_i x heq
      obtain ⟨h3, _, htr⟩ := write_read_silent h hr hc hf hw hd hp hw0 hr0 _ _ _ _ _ _ _
        (by decide) x heq
      have hne : x.1 ≠ 0 := by omega
      rw [if_pos hne]
      exact ⟨_, _, _, _, rfl, rfl, htr.trans (accessor_trace _ _ _ _ _ _)⟩
  · simp only [ch9120_reset, if_neg hin2]
    split
    · rename_i heq
      exact absurd heq (write_check_some h hr hc hf hw hd hp _ _ _ _ _ (by decide))
    · rename_i x heq
      obtain ⟨h4, htr⟩ := write_check_silent h hr hc hf hw hd hp hw0 hr0 _ _ _ _ _
        (by decide) x heq
      have hne : x.1 ≠ 0 := by omega
      rw [if_pos hne]
      exact ⟨_, _, _, _, rfl, rfl, htr.trans (accessor_trace _ _ _ _ _ _)⟩
  · simp only [ch9120_get_status, if_neg hin2]
    split
    · rename_i heq
      exact absurd heq (write_read_some h hr hc hf hw hd hp _ _ _ _ _ _ _ (by decide))
    · rename_i x heq
      obtain ⟨h3, _, htr⟩ := write_read_silent h hr hc hf hw hd hp hw0 hr0 _ _ _ _ _ _ _
        (by decide) x heq
      have hne : x.1 ≠ 0 := by omega
      rw [if_pos hne]
      exact ⟨_, _, _, _, rfl, rfl, htr.trans (accessor_trace _ _ _ _ _ _)⟩
  · simp only [ch9120_save_to_eeprom, if_neg hin2]
    split
    · rename_i heq
      exact absurd heq (write_check_some h hr hc hf hw hd hp _ _ _ _ _ (by decide))
    · rename_i x heq
      obtain ⟨h4, htr⟩ := write_check_silent h hr hc hf hw hd hp hw0 hr0 _ _ _ _ _
        (by decide) x heq
      have hne : x.1 ≠ 0 := by omega
      rw [if_pos hne]
      exact ⟨_, _, _, _, rfl, rfl, htr.trans (accessor_trace _ _ _ _ _ _)⟩
  · simp only [ch9120_config_and_reset, if_neg hin2]
    split
    · rename_i heq
      exact absurd heq (write_check_some h hr hc hf hw hd hp _ _ _ _ _ (by decide))
    · rename_i x heq
      obtain ⟨h4, htr⟩ := write_check_silent h hr hc hf hw hd hp hw0 hr0 _ _ _ _ _
        (by decide) x heq
      have hne : x.1 ≠ 0 := by omega
      rw [if_pos hne]
      exact ⟨_, _, _, _, rfl, rfl, htr.trans (accessor_trace _ _ _ _ _ _)⟩
  · simp only [ch9120_exit, if_neg hin2]
    split
    · rename_i heq
      exact absurd heq (write_check_some h hr hc hf hw hd hp _ _ _ _ _ (by decide))
    · rename_i x heq
      obtain ⟨h4, htr⟩ := write_check_silent h hr hc hf hw hd hp hw0 hr0 _ _ _ _ _
        (by decide) x heq
      have hne : x.1 ≠ 0 := by omega
      rw [if_pos hne]
      exact ⟨_, _, _, _, rfl, rfl, htr.trans (accessor_trace _ _ _ _ _ _)⟩
  · simp only [ch9120_set_mode, if_neg hin2]
    split
    · rename_i heq
      exact absurd heq (write_check_some h hr hc hf hw hd hp _ _ _ _ _ (by decide))
    · rename_i x heq
      obtain ⟨h4, htr⟩ := write_check_silent h hr hc hf hw hd hp hw0 hr0 _ _ _ _ _
        (by decide) x heq
      have hne : x.1 ≠ 0 := by omega
      rw [if_pos hne]
      exact ⟨_, _, _, _, rfl, rfl, htr.trans (accessor_trace _ _ _ _ _ _)⟩
  · simp only [ch9120_get_mode, if_neg hin2]
    split
    · rename_i heq
      exact absurd heq (write_read_some h hr hc hf hw hd hp _ _ _ _ _ _ _ (by decide))
    · rename_i x heq
      obtain ⟨h3, _, htr⟩ := write_read_silent h hr hc hf hw hd hp hw0 hr0 _ _ _ _ _ _ _
        (by decide) x heq
      have hne : x.1 ≠ 0 := by omega
      rw [if_pos hne]
      exact ⟨_, _, _, _, rfl, rfl, htr.trans (accessor_trace _ _ _ _ _ _)⟩
  · simp only [ch9120_set_ip, if_neg hin2]
    split
    · rename_i heq
      exact absurd heq (write_check_some h hr hc hf hw hd hp _ _ _ _ _ (by decide))
    · rename_i x heq
      obtain ⟨h4, htr⟩ := write_check_silent h hr hc hf hw hd hp hw0 hr0 _ _ _ _ _
        (by decide) x heq
      have hne : x.1 ≠ 0 := by omega
      rw [if_pos hne]
      exact ⟨_, _, _, _, rfl, rfl, htr.trans (accessor_trace _ _ _ _ _ _)⟩
  · simp only [ch9120_get_ip, if_neg hin2]
    split
    · rename_i heq
      exact absurd heq (write_read_some h hr hc hf hw hd hp _ _ _ _ _ _ _ (by decide))
    · rename_i x heq
      obtain ⟨h3, _, htr⟩ := write_read_silent h hr hc hf hw hd hp hw0 hr0 _ _ _ _ _ _ _
        (by decide) x heq
      have hne : x.1 ≠ 0 := by omega
      rw [if_pos hne]
      exact ⟨_, _, _, _, rfl, rfl, htr.trans (accessor_trace _ _ _ _ _ _)⟩
  · simp only [ch9120_set_subnet_mask, if_neg hin2]
    split
    · rename_i heq
      exact absurd heq (write_check_some h hr hc hf hw hd hp _ _ _ _ _ (by decide))
    · rename_i x heq
      obtain ⟨h4, htr⟩ := write_check_silent h hr hc hf hw hd hp hw0 hr0 _ _ _ _ _
        (by decide) x heq
      have hne : x.1 ≠ 0 := by omega
      rw [if_pos hne]
      exact ⟨_, _, _, _, rfl, rfl, htr.trans (accessor_trace _ _ _ _ _ _)⟩
  · simp only [ch9120_get_subnet_mask, if_neg hin2]
    split
    · rename_i heq
      exact absurd heq (write_read_some h hr hc hf hw hd hp _ _ _ _ _ _ _ (by decide))
    · rename_i x heq
      obtain ⟨h3, _, htr⟩ := write_read_silent h hr hc hf hw hd hp hw0 hr0 _ _ _ _ _ _ _
        (by decide) x heq
      have hne : x.1 ≠ 0 := by omega
      rw [if_pos hne]
      exact ⟨_, _, _, _, rfl, rfl, htr.trans (accessor_trace _ _ _ _ _ _)⟩
  · simp only [ch9120_set_gateway, if_neg hin2]
    split
    · rename_i heq
      exact absurd heq (write_check_some h hr hc hf hw hd hp _ _ _ _ _ (by decide))
    · rename_i x heq
      obtain ⟨h4, htr⟩ := write_check_silent h hr hc hf hw hd hp hw0 hr0 _ _ _ _ _
        (by decide) x heq
      have hne : x.1 ≠ 0 := by omega
      rw [if_pos hne]
      exact ⟨_, _, _, _, rfl, rfl, htr.trans (accessor_trace _ _ _ _ _ _)⟩
  · simp only [ch9120_get_gateway, if_neg hin2]
    split
    · rename_i heq
      exact absurd heq (write_read_some h hr hc hf hw hd hp _ _ _ _ _ _ _ (by decide))
    · rename_i x heq
      obtain ⟨h3, _, htr⟩ := write_read_silent h hr hc hf hw hd hp hw0 hr0 _ _ _ _ _ _ _
        (by decide) x heq
      have hne : x.1 ≠ 0 := by omega
      rw [if_pos hne]
      exact ⟨_, _, _, _, rfl, rfl, htr.trans (accessor_trace _ _ _ _ _ _)⟩
  · simp only [ch9120_set_source_port, if_neg hin2]
    split
    · rename_i heq
      exact absurd heq (write_check_some h hr hc hf hw hd hp _ _ _ _ _ (by decide))
    · rename_i x heq
      obtain ⟨h4, htr⟩ := write_check_silent h hr hc hf hw hd hp hw0 hr0 _ _ _ _ _
        (by decide) x heq
      have hne : x.1 ≠ 0 := by omega
      rw [if_pos hne]
      exact ⟨_, _, _, _, rfl, rfl, htr.trans (accessor_trace _ _ _ _ _ _)⟩
  · simp only [ch9120_get_source_port, if_neg hin2]
    split
    · rename_i heq
      exact absurd heq (write_read_some h hr hc hf hw hd hp _ _ _ _ _ _ _ (by decide))
    · rename_i x heq
      obtain ⟨h3, _, htr⟩ := write_read_silent h hr hc hf hw hd hp hw0 hr0 _ _ _ _ _ _ _
        (by decide) x heq
      have hne : x.1 ≠ 0 := by omega
      rw [if_pos hne]
      exact ⟨_, _, _, _, rfl, rfl, htr.trans (accessor_trace _ _ _ _ _ _)⟩
  · simp only [ch9120_set_dest_ip, if_neg hin2]
    split
    · rename_i heq
      exact absurd heq (write_check_some h hr hc hf hw hd hp _ _ _ _ _ (by decide))
    · rename_i x heq
      obtain ⟨h4, htr⟩ := write_check_silent h hr hc hf hw hd hp hw0 hr0 _ _ _ _ _
        (by decide) x heq
      have hne : x.1 ≠ 0 := by omega
      rw [if_pos hne]
      exact ⟨_, _, _, _, rfl, rfl, htr.trans (accessor_trace _ _ _ _ _ _)⟩
  · simp only [ch9120_get_dest_ip, if_neg hin2]
    split
    · rename_i heq
      exact absurd heq (write_read_some h hr hc hf hw hd hp _ _ _ _ _ _ _ (by decide))
    · rename_i x heq
      obtain ⟨h3, _, htr⟩ := write_read_silent h hr hc hf hw hd hp hw0 hr0 _ _ _ _ _ _ _
        (by decide) x heq
      have hne : x.1 ≠ 0 := by omega
      rw [if_pos hne]
      exact ⟨_, _, _, _, rfl, rfl, htr.trans (accessor_trace _ _ _ _ _ _)⟩
  · simp only [ch9120_set_dest_port, if_neg hin2]
    split
    · rename_i heq
      exact absurd heq (write_check_some h hr hc hf hw hd hp _ _ _ _ _ (by decide))
    · rename_i x heq
      obtain ⟨h4, htr⟩ := write_check_silent h hr hc hf hw hd hp hw0 hr0 _ _ _ _ _
        (by decide) x heq
      have hne : x.1 ≠ 0 := by omega
      rw [if_pos hne]
      exact ⟨_, _, _, _, rfl, rfl, htr.trans (accessor_trace _ _ _ _ _ _)⟩
  · simp only [ch9120_get_dest_port, if_neg hin2]
    split
    · rename_i heq
      exact absurd heq (write_read_some h hr hc hf hw hd hp _ _ _ _ _ _ _ (by decide))
    · rename_i x heq
      obtain ⟨h3, _, htr⟩ := write_read_silent h hr hc hf hw hd hp hw0 hr0 _ _ _ _ _ _ _
        (by decide) x heq
      have hne : x.1 ≠ 0 := by omega
      rw [if_pos hne]
      exact ⟨_, _, _, _, rfl, rfl, htr.trans (accessor_trace _ _ _ _ _ _)⟩
  · simp only [ch9120_set_uart_baud, if_neg hin2]
    split
    · rename_i heq
      exact absurd heq (write_check_some h hr hc hf hw hd hp _ _ _ _ _ (by decide))
    · rename_i x heq
      obtain ⟨h4, htr⟩ := write_check_silent h hr hc hf hw hd hp hw0 hr0 _ _ _ _ _
        (by decide) x heq
      have hne : x.1 ≠ 0 := by omega
      rw [if_pos hne]
      exact ⟨_, _, _, _, rfl, rfl, htr.trans (accessor_trace _ _ _ _ _ _)⟩
  · simp only [ch9120_get_uart_baud, if_neg hin2]
    split
    · rename_i heq
      exact absurd heq (write_read_some h hr hc hf hw hd hp _ _ _ _ _ _ _ (by decide))
    · rename_i x heq
      obtain ⟨h3, _, htr⟩ := write_read_silent h hr hc hf hw hd hp hw0 hr0 _ _ _ _ _ _ _
        (by decide) x heq
      have hne : x.1 ≠ 0 := by omega
      rw [if_pos hne]
      exact ⟨_, _, _, _, rfl, rfl, htr.trans (accessor_trace _ _ _ _ _ _)⟩
  · simp only [ch9120_set_uart_config, if_neg hin2]
    split
    · rename_i heq
      exact absurd heq (write_check_some h hr hc hf hw hd hp _ _ _ _ _ (by decide))
    · rename_i x heq
      obtain ⟨h4, htr⟩ := write_check_silent h hr hc hf hw hd hp hw0 hr0 _ _ _ _ _
        (by decide) x heq
      have hne : x.1 ≠ 0 := by omega
      rw [if_pos hne]
      exact ⟨_, _, _, _, rfl, rfl, htr.trans (accessor_trace _ _ _ _ _ _)⟩
  · simp only [ch9120_get_uart_config, if_neg hin2]
    split
    · rename_i heq
      exact absurd heq (write_read_some h hr hc hf hw hd hp _ _ _ _ _ _ _ (by decide))
    · rename_i x heq
      obtain ⟨h3, _, htr⟩ := write_read_silent h hr hc hf hw hd hp hw0 hr0 _ _ _ _ _ _ _
        (by decide) x heq
      have hne : x.1 ≠ 0 := by omega
      rw [if_pos hne]
      exact ⟨_, _, _, _, rfl, rfl, htr.trans (accessor_trace _ _ _ _ _ _)⟩
  · simp only [ch9120_set_uart_timeout, if_neg hin2]
    split
    · rename_i heq
      exact absurd heq (write_check_some h hr hc hf hw hd hp _ _ _ _ _ (by decide))
    · rename_i x heq
      obtain ⟨h4, htr⟩ := write_check_silent h hr hc hf hw hd hp hw0 hr0 _ _ _ _ _
        (by decide) x heq
      have hne : x.1 ≠ 0 := by omega
      rw [if_pos hne]
      exact ⟨_, _, _, _, rfl, rfl, htr.trans (accessor_trace _ _ _ _ _ _)⟩
  · simp only [ch9120_get_uart_timeout, if_neg hin2]
    split
    · rename_i heq
      exact absurd heq (write_read_some h hr hc hf hw hd hp _ _ _ _ _ _ _ (by decide))
    · rename_i x heq
      obtain ⟨h3, _, htr⟩ := write_read_silent h hr hc hf hw hd hp hw0 hr0 _ _ _ _ _ _ _
        (by decide) x heq
      have hne : x.1 ≠ 0 := by omega
      rw [if_pos hne]
      exact ⟨_, _, _, _, rfl, rfl, htr.trans (accessor_trace _ _ _ _ _ _)⟩
  · simp only [ch9120_set_source_port_random, if_neg hin2]
    split
    · rename_i heq
      exact absurd heq (write_check_some h hr hc hf hw hd hp _ _ _ _ _ (by decide))
    · rename_i x heq
      obtain ⟨h4, htr⟩ := write_check_silent h hr hc hf hw hd hp hw0 hr0 _ _ _ _ _
        (by decide) x heq
      have hne : x.1 ≠ 0 := by omega
      rw [if_pos hne]
      exact ⟨_, _, _, _, rfl, rfl, htr.trans (accessor_trace _ _ _ _ _ _)⟩
  · simp only [ch9120_set_uart_buffer_length, if_neg hin2]
    split
    · rename_i heq
      exact absurd heq (write_check_some h hr hc hf hw hd hp _ _ _ _ _ (by decide))
    · rename_i x heq
      obtain ⟨h4, htr⟩ := write_check_silent h hr hc hf hw hd hp hw0 hr0 _ _ _ _ _
        (by decide) x heq
      have hne : x.1 ≠ 0 := by omega
      rw [if_pos hne]
      exact ⟨_, _, _, _, rfl, rfl, htr.trans (accessor_trace _ _ _ _ _ _)⟩
  · simp only [ch9120_get_uart_buffer_length, if_neg hin2]
    split
    · rename_i heq
      exact absurd heq (write_read_some h hr hc hf hw hd hp _ _ _ _ _ _ _ (by decide))
    · rename_i x heq
      obtain ⟨h3, _, htr⟩ := write_read_silent h hr hc hf hw hd hp hw0 hr0 _ _ _ _ _ _ _
        (by decide) x heq
      have hne : x.1 ≠ 0 := by omega
      rw [if_pos hne]
      exact ⟨_, _, _, _, rfl, rfl, htr.trans (accessor_trace _ _ _ _ _ _)⟩
  · simp only [ch9120_set_uart_flush, if_neg hin2]
    split
    · rename_i heq
      exact absurd heq (write_check_some h hr hc hf hw hd hp _ _ _ _ _ (by decide))
    · rename_i x heq
      obtain ⟨h4, htr⟩ := write_check_silent h hr hc hf hw hd hp hw0 hr0 _ _ _ _ _
        (by decide) x heq
      have hne : x.1 ≠ 0 := by omega
      rw [if_pos hne]
      exact ⟨_, _, _, _, rfl, rfl, htr.trans (accessor_trace _ _ _ _ _ _)⟩
  · simp only [ch9120_get_uart_flush, if_neg hin2]
    split
    · rename_i heq
      exact absurd heq (write_read_some h hr hc hf hw hd hp _ _ _ _ _ _ _ (by decide))
    · rename_i x heq
      obtain ⟨h3, _, htr⟩ := write_read_silent h hr hc hf hw hd hp hw0 hr0 _ _ _ _ _ _ _
        (by decide) x heq
      have hne : x.1 ≠ 0 := by omega
      rw [if_pos hne]
      exact ⟨_, _, _, _, rfl, rfl, htr.trans (accessor_trace _ _ _ _ _ _)⟩
  · simp only [ch9120_set_disconnect_with_no_rj45, if_neg hin2]
    split
    · rename_i heq
      exact absurd heq (write_check_some h hr hc hf hw hd hp _ _ _ _ _ (by decide))
    · rename_i x heq
      obtain ⟨h4, htr⟩ := write_check_silent h hr hc hf hw hd hp hw0 hr0 _ _ _ _ _
        (by decide) x heq
      have hne : x.1 ≠ 0 := by omega
      rw [if_pos hne]
      exact ⟨_, _, _, _, rfl, rfl, htr.trans (accessor_trace _ _ _ _ _ _)⟩
  · simp only [ch9120_get_disconnect_with_no_rj45, if_neg hin2]
    split
    · rename_i heq
      exact absurd heq (write_read_some h hr hc hf hw hd hp _ _ _ _ _ _ _ (by decide))
    · rename_i x heq
      obtain ⟨h3, _, htr⟩ := write_read_silent h hr hc hf hw hd hp hw0 hr0 _ _ _ _ _ _ _
        (by decide) x heq
      have hne : x.1 ≠ 0 := by omega
      rw [if_pos hne]
      exact ⟨_, _, _, _, rfl, rfl, htr.trans (accessor_trace _ _ _ _ _ _)⟩
  · simp only [ch9120_set_dhcp, if_neg hin2]
    split
    · rename_i heq
      exact absurd heq (write_check_some h hr hc hf hw hd hp _ _ _ _ _ (by decide))
    · rename_i x heq
      obtain ⟨h4, htr⟩ := write_check_silent h hr hc hf hw hd hp hw0 hr0 _ _ _ _ _
        (by decide) x heq
      have hne : x.1 ≠ 0 := by omega
      rw [if_pos hne]
      exact ⟨_, _, _, _, rfl, rfl, htr.trans (accessor_trace _ _ _ _ _ _)⟩

/-- Witness of C24: `ch9120_set_ip` and `ch9120_get_ip` on the test double that never
answers. -/
theorem accessor_timing_witness :
    (∃ x frame n k, ch9120_set_ip (some (mute 1)) (fun _ => 0) ⟨(), []⟩ = some x ∧ x.1 = 1 ∧
      x.2.2.trace = [] ++ [Event.cfg_gpio_write 0, Event.uart_flush,
          Event.uart_write frame n, Event.delay_ms 50] ++
        idle_polls (Event.uart_read 0 k) 100 ++
        [Event.debug_print "ch9120: timeout.\n", Event.cfg_gpio_write 1]) ∧
    (∃ x frame n k, ch9120_get_ip (some (mute 1)) (fun _ => 0) ⟨(), []⟩ = some x ∧ x.1 = 1 ∧
      x.2.2.2.trace = [] ++ [Event.cfg_gpio_write 0, Event.uart_flush,
          Event.uart_write frame n, Event.delay_ms 50] ++
        idle_polls (Event.uart_read 0 k) 100 ++
        [Event.debug_print "ch9120: timeout.\n", Event.cfg_gpio_write 1]) :=
  ⟨(accessor_timing (mute 1) rfl rfl rfl rfl rfl rfl rfl (fun _ _ _ => rfl) (fun _ _ => rfl)
      ⟨(), []⟩ (fun _ => 0) 0 0 0).2.2.2.2.2.2.2.2.1,
    (accessor_timing (mute 1) rfl rfl rfl rfl rfl rfl rfl (fun _ _ _ => rfl) (fun _ _ => rfl)
      ⟨(), []⟩ (fun _ => 0) 0 0 0).2.2.2.2.2.2.2.2.2.1⟩

/-- C23 (the length check is unreachable from the catalog).  On a ready handle with all
functions linked, every function of the catalog (the register accessors, `ch9120_reset`,
`ch9120_save_to_eeprom`, `ch9120_config_and_reset`, `ch9120_exit`, `ch9120_get_version`,
`ch9120_get_status`) and `ch9120_deinit` returns after passing the transport a payload of 1
to 5 bytes: its first calls are `cfg_gpio_write(0)`, `uart_flush` and the `uart_write` of
the two header bytes followed by that payload, which lie behind the length check.  For every
payload length up to 126 write-check and write-read return with a status other than 2.
Only `ch9120_set_command` forwards a length chosen by the caller: for a length above 126
write-read takes the length-check branch, printing its message and returning 2 without any
other call, and `ch9120_set_command` returns 1. -/
theorem catalog_lengths_valid (h : Handle W) (hl : h.linked = true) (hin : h.inited = 1)
    (s : St W) (m : Nat → Nat) (a b c : Nat) :
    (∃ x n payload, ch9120_get_version (some h) m s = some x ∧
      payload.length = n ∧ 1 ≤ n ∧ n ≤ 5 ∧
      ∃ rest, x.2.2.2.trace = s.trace ++ [Event.cfg_gpio_write 0, Event.uart_flush,
        Event.uart_write (0x57 :: 0xAB :: payload) (2 + n)] ++ rest) ∧
    (∃ x n payload, ch9120_reset (some h) s = some x ∧
      payload.length = n ∧ 1 ≤ n ∧ n ≤ 5 ∧
      ∃ rest, x.2.2.trace = s.trace ++ [Event.cfg_gpio_write 0, Event.uart_flush,
        Event.uart_write (0x57 :: 0xAB :: payload) (2 + n)] ++ rest) ∧
    (∃ x n payload, ch9120_get_status (some h) a s = some x ∧
      payload.length = n ∧ 1 ≤ n ∧ n ≤ 5 ∧
      ∃ rest, x.2.2.2.trace = s.trace ++ [Event.cfg_gpio_write 0, Event.uart_flush,
        Event.uart_write (0x57 :: 0xAB :: payload) (2 + n)] ++ rest) ∧
    (∃ x n payload, ch9120_save_to_eeprom (some h) s = some x ∧
      payload.length = n ∧ 1 ≤ n ∧ n ≤ 5 ∧
      ∃ rest, x.2.2.trace = s.trace ++ [Event.cfg_gpio_write 0, Event.uart_flush,
        Event.uart_write (0x57 :: 0xAB :: payload) (2 + n)] ++ rest) ∧
    (∃ x n payload, ch9120_config_and_reset (some h) s = some x ∧
      payload.length = n ∧ 1 ≤ n ∧ n ≤ 5 ∧
      ∃ rest, x.2.2.trace = s.trace ++ [Event.cfg_gpio_write 0, Event.uart_flush,
        Event.uart_write (0x57 :: 0xAB :: payload) (2 + n)] ++ rest) ∧
    (∃ x n payload, ch9120_exit (some h) s = some x ∧
      payload.length = n ∧ 1 ≤ n ∧ n ≤ 5 ∧
      ∃ rest, x.2.2.trace = s.trace ++ [Event.cfg_gpio_write 0, Event.uart_flush,
        Event.uart_write (0x57 :: 0xAB :: payload) (2 + n)] ++ rest) ∧
    (∃ x n payload, ch9120_set_mode (some h) a s = some x ∧
      payload.length = n ∧ 1 ≤ n ∧ n ≤ 5 ∧
      ∃ rest, x.2.2.trace = s.trace ++ [Event.cfg_gpio_write 0, Event.uart_flush,
        Event.uart_write (0x57 :: 0xAB :: payload) (2 + n)] ++ rest) ∧
    (∃ x n payload, ch9120_get_mode (some h) a s = some x ∧
      payload.length = n ∧ 1 ≤ n ∧ n ≤ 5 ∧
      ∃ rest, x.2.2.2.trace = s.trace ++ [Event.cfg_gpio_write 0, Event.uart_flush,
        Event.uart_write (0x57 :: 0xAB :: payload) (2 + n)] ++ rest) ∧
    (∃ x n payload, ch9120_set_ip (some h) m s = some x ∧
      payload.length = n ∧ 1 ≤ n ∧ n ≤ 5 ∧
      ∃ rest, x.2.2.trace = s.trace ++ [Event.cfg_gpio_write 0, Event.uart_flush,
        Event.uart_write (0x57 :: 0xAB :: payload) (2 + n)] ++ rest) ∧
    (∃ x n payload, ch9120_get_ip (some h) m s = some x ∧
      payload.length = n ∧ 1 ≤ n ∧ n ≤ 5 ∧
      ∃ rest, x.2.2.2.trace = s.trace ++ [Event.cfg_gpio_write 0, Event.uart_flush,
        Event.uart_write (0x57 :: 0xAB :: payload) (2 + n)] ++ rest) ∧
    (∃ x n payload, ch9120_set_subnet_mask (some h) m s = some x ∧
      payload.length = n ∧ 1 ≤ n ∧ n ≤ 5 ∧
      ∃ rest, x.2.2.trace = s.trace ++ [Event.cfg_gpio_write 0, Event.uart_flush,
        Event.uart_write (0x57 :: 0xAB :: payload) (2 + n)] ++ rest) ∧
    (∃ x n payload, ch9120_get_subnet_mask (some h) m s = some x ∧
      payload.length = n ∧ 1 ≤ n ∧ n ≤ 5 ∧
      ∃ rest, x.2.2.2.trace = s.trace ++ [Event.cfg_gpio_write 0, Event.uart_flush,
        Event.uart_write (0x57 :: 0xAB :: payload) (2 + n)] ++ rest) ∧
    (∃ x n payload, ch9120_set_gateway (some h) m s = some x ∧
      payload.length = n ∧ 1 ≤ n ∧ n ≤ 5 ∧
      ∃ rest, x.2.2.trace = s.trace ++ [Event.cfg_gpio_write 0, Event.uart_flush,
        Event.uart_write (0x57 :: 0xAB :: payload) (2 + n)] ++ rest) ∧
    (∃ x n payload, ch9120_get_gateway (some h) m s = some x ∧
      payload.length = n ∧ 1 ≤ n ∧ n ≤ 5 ∧
      ∃ rest, x.2.2.2.trace = s.trace ++ [Event.cfg_gpio_write 0, Event.uart_flush,
        Event.uart_write (0x57 :: 0xAB :: payload) (2 + n)] ++ rest) ∧
    (∃ x n payload, ch9120_set_source_port (some h) a s = some x ∧
      payload.length = n ∧ 1 ≤ n ∧ n ≤ 5 ∧
      ∃ rest, x.2.2.trace = s.trace ++ [Event.cfg_gpio_write 0, Event.uart_flush,
        Event.uart_write (0x57 :: 0xAB :: payload) (2 + n)] ++ rest) ∧
    (∃ x n payload, ch9120_get_source_port (some h) a s = some x ∧
      payload.length = n ∧ 1 ≤ n ∧ n ≤ 5 ∧
      ∃ rest, x.2.2.2.trace = s.trace ++ [Event.cfg_gpio_write 0, Event.uart_flush,
        Event.uart_write (0x57 :: 0xAB :: payload) (2 + n)] ++ rest) ∧
    (∃ x n payload, ch9120_set_dest_ip (some h) m s = some x ∧
      payload.length = n ∧ 1 ≤ n ∧ n ≤ 5 ∧
      ∃ rest, x.2.2.trace = s.trace ++ [Event.cfg_gpio_write 0, Event.uart_flush,
        Event.uart_write (0x57 :: 0xAB :: payload) (2 + n)] ++ rest) ∧
    (∃ x n payload, ch9120_get_dest_ip (some h) m s = some x ∧
      payload.length = n ∧ 1 ≤ n ∧ n ≤ 5 ∧
      ∃ rest, x.2.2.2.trace = s.trace ++ [Event.cfg_gpio_write 0, Event.uart_flush,
        Event.uart_write (0x57 :: 0xAB :: payload) (2 + n)] ++ rest) ∧
    (∃ x n payload, ch9120_set_dest_port (some h) a s = some x ∧
      payload.length = n ∧ 1 ≤ n ∧ n ≤ 5 ∧
      ∃ rest, x.2.2.trace = s.trace ++ [Event.cfg_gpio_write 0, Event.uart_flush,
        Event.uart_write (0x57 :: 0xAB :: payload) (2 + n)] ++ rest) ∧
    (∃ x n payload, ch9120_get_dest_port (some h) a s = some x ∧
      payload.length = n ∧ 1 ≤ n ∧ n ≤ 5 ∧
      ∃ rest, x.2.2.2.trace = s.trace ++ [Event.cfg_gpio_write 0, Event.uart_flush,
        Event.uart_write (0x57 :: 0xAB :: payload) (2 + n)] ++ rest) ∧
    (∃ x n payload, ch9120_set_uart_baud (some h) a s = some x ∧
      payload.length = n ∧ 1 ≤ n ∧ n ≤ 5 ∧
      ∃ rest, x.2.2.trace = s.trace ++ [Event.cfg_gpio_write 0, Event.uart_flush,
        Event.uart_write (0x57 :: 0xAB :: payload) (2 + n)] ++ rest) ∧
    (∃ x n payload, ch9120_get_uart_baud (some h) a s = some x ∧
      payload.length = n ∧ 1 ≤ n ∧ n ≤ 5 ∧
      ∃ rest, x.2.2.2.trace = s.trace ++ [Event.cfg_gpio_write 0, Event.uart_flush,
        Event.uart_write (0x57 :: 0xAB :: payload) (2 + n)] ++ rest) ∧
    (∃ x n payload, ch9120_set_uart_config (some h) a b c s = some x ∧
      payload.length = n ∧ 1 ≤ n ∧ n ≤ 5 ∧
      ∃ rest, x.2.2.trace = s.trace ++ [Event.cfg_gpio_write 0, Event.uart_flush,
        Event.uart_write (0x57 :: 0xAB :: payload) (2 + n)] ++ rest) ∧
    (∃ x n payload, ch9120_get_uart_config (some h) a b c s = some x ∧
      payload.length = n ∧ 1 ≤ n ∧ n ≤ 5 ∧
      ∃ rest, x.2.2.2.2.2.trace = s.trace ++ [Event.cfg_gpio_write 0, Event.uart_flush,
        Event.uart_write (0x57 :: 0xAB :: payload) (2 + n)] ++ rest) ∧
    (∃ x n payload, ch9120_set_uart_timeout (some h) a s = some x ∧
      payload.length = n ∧ 1 ≤ n ∧ n ≤ 5 ∧
      ∃ rest, x.2.2.trace = s.trace ++ [Event.cfg_gpio_write 0, Event.uart_flush,
        Event.uart_write (0x57 :: 0xAB :: payload) (2 + n)] ++ rest) ∧
    (∃ x n payload, ch9120_get_uart_timeout (some h) m s = some x ∧
      payload.length = n ∧ 1 ≤ n ∧ n ≤ 5 ∧
      ∃ rest, x.2.2.2.trace = s.trace ++ [Event.cfg_gpio_write 0, Event.uart_flush,
        Event.uart_write (0x57 :: 0xAB :: payload) (2 + n)] ++ rest) ∧
    (∃ x n payload, ch9120_set_source_port_random (some h) a s = some x ∧
      payload.length = n ∧ 1 ≤ n ∧ n ≤ 5 ∧
      ∃ rest, x.2.2.trace = s.trace ++ [Event.cfg_gpio_write 0, Event.uart_flush,
        Event.uart_write (0x57 :: 0xAB :: payload) (2 + n)] ++ rest) ∧
    (∃ x n payload, ch9120_set_uart_buffer_length (some h) a s = some x ∧
      payload.length = n ∧ 1 ≤ n ∧ n ≤ 5 ∧
      ∃ rest, x.2.2.trace = s.trace ++ [Event.cfg_gpio_write 0, Event.uart_flush,
        Event.uart_write (0x57 :: 0xAB :: payload) (2 + n)] ++ rest) ∧
    (∃ x n payload, ch9120_get_uart_buffer_length (some h) a s = some x ∧
      payload.length = n ∧ 1 ≤ n ∧ n ≤ 5 ∧
      ∃ rest, x.2.2.2.trace = s.trace ++ [Event.cfg_gpio_write 0, Event.uart_flush,
        Event.uart_write (0x57 :: 0xAB :: payload) (2 + n)] ++ rest) ∧
    (∃ x n payload, ch9120_set_uart_flush (some h) a s = some x ∧
      payload.length = n ∧ 1 ≤ n ∧ n ≤ 5 ∧
      ∃ rest, x.2.2.trace = s.trace ++ [Event.cfg_gpio_write 0, Event.uart_flush,
        Event.uart_write (0x57 :: 0xAB :: payload) (2 + n)] ++ rest) ∧
    (∃ x n payload, ch9120_get_uart_flush (some h) a s = some x ∧
      payload.length = n ∧ 1 ≤ n ∧ n ≤ 5 ∧
      ∃ rest, x.2.2.2.trace = s.trace ++ [Event.cfg_gpio_write 0, Event.uart_flush,
        Event.uart_write (0x57 :: 0xAB :: payload) (2 + n)] ++ rest) ∧
    (∃ x n payload, ch9120_set_disconnect_with_no_rj45 (some h) a s = some x ∧
      payload.length = n ∧ 1 ≤ n ∧ n ≤ 5 ∧
      ∃ rest, x.2.2.trace = s.trace ++ [Event.cfg_gpio_write 0, Event.uart_flush,
        Event.uart_write (0x57 :: 0xAB :: payload) (2 + n)] ++ rest) ∧
    (∃ x n payload, ch9120_get_disconnect_with_no_rj45 (some h) a s = some x ∧
      payload.length = n ∧ 1 ≤ n ∧ n ≤ 5 ∧
      ∃ rest, x.2.2.2.trace = s.trace ++ [Event.cfg_gpio_write 0, Event.uart_flush,
        Event.uart_write (0x57 :: 0xAB :: payload) (2 + n)] ++ rest) ∧
    (∃ x n payload, ch9120_set_dhcp (some h) a s = some x ∧
      payload.length = n ∧ 1 ≤ n ∧ n ≤ 5 ∧
      ∃ rest, x.2.2.trace = s.trace ++ [Event.cfg_gpio_write 0, Event.uart_flush,
        Event.uart_write (0x57 :: 0xAB :: payload) (2 + n)] ++ rest) ∧
    (∃ x n payload, ch9120_deinit (some h) s = some x ∧
      payload.length = n ∧ 1 ≤ n ∧ n ≤ 5 ∧
      ∃ rest, x.2.2.trace = s.trace ++ [Event.cfg_gpio_write 0, Event.uart_flush,
        Event.uart_write (0x57 :: 0xAB :: payload) (2 + n)] ++ rest) ∧
    (∀ param len pre_delay timeout, len ≤ 126 →
      ∃ x, a_ch9120_write_check h param len pre_delay timeout s = some x ∧ x.1 ≠ 2) ∧
    (∀ param len out out_len pre_delay timeout, len ≤ 126 →
      ∃ x, a_ch9120_write_read h param len out out_len pre_delay timeout s = some x ∧
        x.1 ≠ 2) ∧
    (∀ param len out out_len pre_delay timeout, 126 < len →
      ∃ s1, a_ch9120_write_read h param len out out_len pre_delay timeout s =
          some (2, h, out, s1) ∧
        ch9120_set_command (some h) param len out out_len pre_delay timeout s =
          some (1, some h, out, s1) ∧
        s1.trace = s.trace ++ [Event.debug_print "ch9120: len is invalid.\n"]) := by
  have hin2 : ¬ h.inited ≠ 1 := by omega
  obtain ⟨_, ⟨fud, hud⟩, ⟨fr, hr⟩, ⟨ff, hf⟩, ⟨fw, hw⟩, _, ⟨frd, hrd⟩, _, _, ⟨fcd, hcd⟩,
    ⟨fc, hc⟩, ⟨fd, hd⟩, ⟨fp, hp⟩⟩ := linked_fields h hl
  refine ⟨?_, ?_, ?_, ?_, ?_, ?_, ?_, ?_, ?_, ?_, ?_, ?_, ?_, ?_, ?_, ?_, ?_, ?_, ?_, ?_,
    ?_, ?_, ?_, ?_, ?_, ?_, ?_, ?_, ?_, ?_, ?_, ?_, ?_, ?_, ?_, ?_, ?_, ?_⟩
  · simp only [ch9120_get_version, if_neg hin2]
    split
    · rename_i heq
      exact absurd heq (write_read_some h hr hc hf hw hd hp _ _ _ _ _ _ _ (by decide))
    · rename_i x heq
      obtain ⟨_, _, evs, htr, _⟩ := write_read_frames h hr hc hf hw hd hp _ _ _ _ _ _ _
        (by decide) x heq
      split <;> exact ⟨_, _, _, rfl, bytes_length _ _, by decide, by decide, evs, htr⟩
  · simp only [ch9120_reset, if_neg hin2]
    split
    · rename_i heq
      exact absurd heq (write_check_some h hr hc hf hw hd hp _ _ _ _ _ (by decide))
    · rename_i x heq
      obtain ⟨hfx, _, evs, htr, _⟩ := write_check_frames h hr hc hf hw hd hp _ _ _ _ _
        (by decide) x heq
      have hdx : x.2.1.delay_ms = some fd := by rw [hfx]; exact hd
      simp only [call_delay_ms, hdx]
      split
      · exact ⟨_, _, _, rfl, bytes_length _ _, by decide, by decide, evs, htr⟩
      · exact ⟨_, 1, bytes (ofList [CH9120_CMD_RESET]) 1, rfl, bytes_length _ _, by decide,
          by decide, evs ++ [Event.delay_ms 1000], by simp only [htr, List.append_assoc]⟩
  · simp only [ch9120_get_status, if_neg hin2]
    split
    · rename_i heq
      exact absurd heq (write_read_some h hr hc hf hw hd hp _ _ _ _ _ _ _ (by decide))
    · rename_i x heq
      obtain ⟨_, _, evs, htr, _⟩ := write_read_frames h hr hc hf hw hd hp _ _ _ _ _ _ _
        (by decide) x heq
      split <;> exact ⟨_, _, _, rfl, bytes_length _ _, by decide, by decide, evs, htr⟩
  · simp only [ch9120_save_to_eeprom, if_neg hin2]
    split
    · rename_i heq
      exact absurd heq (write_check_some h hr hc hf hw hd hp _ _ _ _ _ (by decide))
    · rename_i x heq
      obtain ⟨_, _, evs, htr, _⟩ := write_check_frames h hr hc hf hw hd hp _ _ _ _ _
        (by decide) x heq
      split <;> exact ⟨_, _, _, rfl, bytes_length _ _, by decide, by decide, evs, htr⟩
  · simp only [ch9120_config_and_reset, if_neg hin2]
    split
    · rename_i heq
      exact absurd heq (write_check_some h hr hc hf hw hd hp _ _ _ _ _ (by decide))
    · rename_i x heq
      obtain ⟨hfx, _, evs, htr, _⟩ := write_check_frames h hr hc hf hw hd hp _ _ _ _ _
        (by decide) x heq
      have hdx : x.2.1.delay_ms = some fd := by rw [hfx]; exact hd
      simp only [call_delay_ms, hdx]
      split
      · exact ⟨_, _, _, rfl, bytes_length _ _, by decide, by decide, evs, htr⟩
      · exact ⟨_, 1, bytes (ofList [CH9120_CMD_RUN_AND_RESET]) 1, rfl, bytes_length _ _, by decide,
          by decide, evs ++ [Event.delay_ms 1000], by simp only [htr, List.append_assoc]⟩
  · simp only [ch9120_exit, if_neg hin2]
    split
    · rename_i heq
      exact absurd heq (write_check_some h hr hc hf hw hd hp _ _ _ _ _ (by decide))
    · rename_i x heq
      obtain ⟨_, _, evs, htr, _⟩ := write_check_frames h hr hc hf hw hd hp _ _ _ _ _
        (by decide) x heq
      split <;> exact ⟨_, _, _, rfl, bytes_length _ _, by decide, by decide, evs, htr⟩
  · simp only [ch9120_set_mode, if_neg hin2]
    split
    · rename_i heq
      exact absurd heq (write_check_some h hr hc hf hw hd hp _ _ _ _ _ (by decide))
    · rename_i x heq
      obtain ⟨_, _, evs, htr, _⟩ := write_check_frames h hr hc hf hw hd hp _ _ _ _ _
        (by decide) x heq
      split <;> exact ⟨_, _, _, rfl, bytes_length _ _, by decide, by decide, evs, htr⟩
  · simp only [ch9120_get_mode, if_neg hin2]
    split
    · rename_i heq
      exact absurd heq (write_read_some h hr hc hf hw hd hp _ _ _ _ _ _ _ (by decide))
    · rename_i x heq
      obtain ⟨_, _, evs, htr, _⟩ := write_read_frames h hr hc hf hw hd hp _ _ _ _ _ _ _
        (by decide) x heq
      split <;> exact ⟨_, _, _, rfl, bytes_length _ _, by decide, by decide, evs, htr⟩
  · simp only [ch9120_set_ip, if_neg hin2]
    split
    · rename_i heq
      exact absurd heq (write_check_some h hr hc hf hw hd hp _ _ _ _ _ (by decide))
    · rename_i x heq
      obtain ⟨_, _, evs, htr, _⟩ := write_check_frames h hr hc hf hw hd hp _ _ _ _ _
        (by decide) x heq
      split <;> exact ⟨_, _, _, rfl, bytes_length _ _, by decide, by decide, evs, htr⟩
  · simp only [ch9120_get_ip, if_neg hin2]
    split
    · rename_i heq
      exact absurd heq (write_read_some h hr hc hf hw hd hp _ _ _ _ _ _ _ (by decide))
    · rename_i x heq
      obtain ⟨_, _, evs, htr, _⟩ := write_read_frames h hr hc hf hw hd hp _ _ _ _ _ _ _
        (by decide) x heq
      split <;> exact ⟨_, _, _, rfl, bytes_length _ _, by decide, by decide, evs, htr⟩
  · simp only [ch9120_set_subnet_mask, if_neg hin2]
    split
    · rename_i heq
      exact absurd heq (write_check_some h hr hc hf hw hd hp _ _ _ _ _ (by decide))
    · rename_i x heq
      obtain ⟨_, _, evs, htr, _⟩ := write_check_frames h hr hc hf hw hd hp _ _ _ _ _
        (by decide) x heq
      split <;> exact ⟨_, _, _, rfl, bytes_length _ _, by decide, by decide, evs, htr⟩
  · simp only [ch9120_get_subnet_mask, if_neg hin2]
    split
    · rename_i heq
      exact absurd heq (write_read_some h hr hc hf hw hd hp _ _ _ _ _ _ _ (by decide))
    · rename_i x heq
      obtain ⟨_, _, evs, htr, _⟩ := write_read_frames h hr hc hf hw hd hp _ _ _ _ _ _ _
        (by decide) x heq
      split <;> exact ⟨_, _, _, rfl, bytes_length _ _, by decide, by decide, evs, htr⟩
  · simp only [ch9120_set_gateway, if_neg hin2]
    split
    · rename_i heq
      exact absurd heq (write_check_some h hr hc hf hw hd hp _ _ _ _ _ (by decide))
    · rename_i x heq
      obtain ⟨_, _, evs, htr, _⟩ := write_check_frames h hr hc hf hw hd hp _ _ _ _ _
        (by decide) x heq
      split <;> exact ⟨_, _, _, rfl, bytes_length _ _, by decide, by decide, evs, htr⟩
  · simp only [ch9120_get_gateway, if_neg hin2]
    split
    · rename_i heq
      exact absurd heq (write_read_some h hr hc hf hw hd hp _ _ _ _ _ _ _ (by decide))
    · rename_i x heq
      obtain ⟨_, _, evs, htr, _⟩ := write_read_frames h hr hc hf hw hd hp _ _ _ _ _ _ _
        (by decide) x heq
      split <;> exact ⟨_, _, _, rfl, bytes_length _ _, by decide, by decide, evs, htr⟩
  · simp only [ch9120_set_source_port, if_neg hin2]
    split
    · rename_i heq
      exact absurd heq (write_check_some h hr hc hf hw hd hp _ _ _ _ _ (by decide))
    · rename_i x heq
      obtain ⟨_, _, evs, htr, _⟩ := write_check_frames h hr hc hf hw hd hp _ _ _ _ _
        (by decide) x heq
      split <;> exact ⟨_, _, _, rfl, bytes_length _ _, by decide, by decide, evs, htr⟩
  · simp only [ch9120_get_source_port, if_neg hin2]
    split
    · rename_i heq
      exact absurd heq (write_read_some h hr hc hf hw hd hp _ _ _ _ _ _ _ (by decide))
    · rename_i x heq
      obtain ⟨_, _, evs, htr, _⟩ := write_read_frames h hr hc hf hw hd hp _ _ _ _ _ _ _
        (by decide) x heq
      split <;> exact ⟨_, _, _, rfl, bytes_length _ _, by decide, by decide, evs, htr⟩
  · simp only [ch9120_set_dest_ip, if_neg hin2]
    split
    · rename_i heq
      exact absurd heq (write_check_some h hr hc hf hw hd hp _ _ _ _ _ (by decide))
    · rename_i x heq
      obtain ⟨_, _, evs, htr, _⟩ := write_check_frames h hr hc hf hw hd hp _ _ _ _ _
        (by decide) x heq
      split <;> exact ⟨_, _, _, rfl, bytes_length _ _, by decide, by decide, evs, htr⟩
  · simp only [ch9120_get_dest_ip, if_neg hin2]
    split
    · rename_i heq
      exact absurd heq (write_read_some h hr hc hf hw hd hp _ _ _ _ _ _ _ (by decide))
    · rename_i x heq
      obtain ⟨_, _, evs, htr, _⟩ := write_read_frames h hr hc hf hw hd hp _ _ _ _ _ _ _
        (by decide) x heq
      split <;> exact ⟨_, _, _, rfl, bytes_length _ _, by decide, by decide, evs, htr⟩
  · simp only [ch9120_set_dest_port, if_neg hin2]
    split
    · rename_i heq
      exact absurd heq (write_check_some h hr hc hf hw hd hp _ _ _ _ _ (by decide))
    · rename_i x heq
      obtain ⟨_, _, evs, htr, _⟩ := write_check_frames h hr hc hf hw hd hp _ _ _ _ _
        (by decide) x heq
      split <;> exact ⟨_, _, _, rfl, bytes_length _ _, by decide, by decide, evs, htr⟩
  · simp only [ch9120_get_dest_port, if_neg hin2]
    split
    · rename_i heq
      exact absurd heq (write_read_some h hr hc hf hw hd hp _ _ _ _ _ _ _ (by decide))
    · rename_i x heq
      obtain ⟨_, _, evs, htr, _⟩ := write_read_frames h hr hc hf hw hd hp _ _ _ _ _ _ _
        (by decide) x heq
      split <;> exact ⟨_, _, _, rfl, bytes_length _ _, by decide, by decide, evs, htr⟩
  · simp only [ch9120_set_uart_baud, if_neg hin2]
    split
    · rename_i heq
      exact absurd heq (write_check_some h hr hc hf hw hd hp _ _ _ _ _ (by decide))
    · rename_i x heq
      obtain ⟨_, _, evs, htr, _⟩ := write_check_frames h hr hc hf hw hd hp _ _ _ _ _
        (by decide) x heq
      split <;> exact ⟨_, _, _, rfl, bytes_length _ _, by decide, by decide, evs, htr⟩
  · simp only [ch9120_get_uart_baud, if_neg hin2]
    split
    · rename_i heq
      exact absurd heq (write_read_some h hr hc hf hw hd hp _ _ _ _ _ _ _ (by decide))
    · rename_i x heq
      obtain ⟨_, _, evs, htr, _⟩ := write_read_frames h hr hc hf hw hd hp _ _ _ _ _ _ _
        (by decide) x heq
      split <;> exact ⟨_, _, _, rfl, bytes_length _ _, by decide, by decide, evs, htr⟩
  · simp only [ch9120_set_uart_config, if_neg hin2]
    split
    · rename_i heq
      exact absurd heq (write_check_some h hr hc hf hw hd hp _ _ _ _ _ (by decide))
    · rename_i x heq
      obtain ⟨_, _, evs, htr, _⟩ := write_check_frames h hr hc hf hw hd hp _ _ _ _ _
        (by decide) x heq
      split <;> exact ⟨_, _, _, rfl, bytes_length _ _, by decide, by decide, evs, htr⟩
  · simp only [ch9120_get_uart_config, if_neg hin2]
    split
    · rename_i heq
      exact absurd heq (write_read_some h hr hc hf hw hd hp _ _ _ _ _ _ _ (by decide))
    · rename_i x heq
      obtain ⟨_, _, evs, htr, _⟩ := write_read_frames h hr hc hf hw hd hp _ _ _ _ _ _ _
        (by decide) x heq
      split <;> exact ⟨_, _, _, rfl, bytes_length _ _, by decide, by decide, evs, htr⟩
  · simp only [ch9120_set_uart_timeout, if_neg hin2]
    split
    · rename_i heq
      exact absurd heq (write_check_some h hr hc hf hw hd hp _ _ _ _ _ (by decide))
    · rename_i x heq
      obtain ⟨_, _, evs, htr, _⟩ := write_check_frames h hr hc hf hw hd hp _ _ _ _ _
        (by decide) x heq
      split <;> exact ⟨_, _, _, rfl, bytes_length _ _, by decide, by decide, evs, htr⟩
  · simp only [ch9120_get_uart_timeout, if_neg hin2]
    split
    · rename_i heq
      exact absurd heq (write_read_some h hr hc hf hw hd hp _ _ _ _ _ _ _ (by decide))
    · rename_i x heq
      obtain ⟨_, _, evs, htr, _⟩ := write_read_frames h hr hc hf hw hd hp _ _ _ _ _ _ _
        (by decide) x heq
      split <;> exact ⟨_, _, _, rfl, bytes_length _ _, by decide, by decide, evs, htr⟩
  · simp only [ch9120_set_source_port_random, if_neg hin2]
    split
    · rename_i heq
      exact absurd heq (write_check_some h hr hc hf hw hd hp _ _ _ _ _ (by decide))
    · rename_i x heq
      obtain ⟨_, _, evs, htr, _⟩ := write_check_frames h hr hc hf hw hd hp _ _ _ _ _
        (by decide) x heq
      split <;> exact ⟨_, _, _, rfl, bytes_length _ _, by decide, by decide, evs, htr⟩
  · simp only [ch9120_set_uart_buffer_length, if_neg hin2]
    split
    · rename_i heq
      exact absurd heq (write_check_some h hr hc hf hw hd hp _ _ _ _ _ (by decide))
    · rename_i x heq
      obtain ⟨_, _, evs, htr, _⟩ := write_check_frames h hr hc hf hw hd hp _ _ _ _ _
        (by decide) x heq
      split <;> exact ⟨_, _, _, rfl, bytes_length _ _, by decide, by decide, evs, htr⟩
  · simp only [ch9120_get_uart_buffer_length, if_neg hin2]
    split
    · rename_i heq
      exact absurd heq (write_read_some h hr hc hf hw hd hp _ _ _ _ _ _ _ (by decide))
    · rename_i x heq
      obtain ⟨_, _, evs, htr, _⟩ := write_read_frames h hr hc hf hw hd hp _ _ _ _ _ _ _
        (by decide) x heq
      split <;> exact ⟨_, _, _, rfl, bytes_length _ _, by decide, by decide, evs, htr⟩
  · simp only [ch9120_set_uart_flush, if_neg hin2]
    split
    · rename_i heq
      exact absurd heq (write_check_some h hr hc hf hw hd hp _ _ _ _ _ (by decide))
    · rename_i x heq
      obtain ⟨_, _, evs, htr, _⟩ := write_check_frames h hr hc hf hw hd hp _ _ _ _ _
        (by decide) x heq
      split <;> exact ⟨_, _, _, rfl, bytes_length _ _, by decide, by decide, evs, htr⟩
  · simp only [ch9120_get_uart_flush, if_neg hin2]
    split
    · rename_i heq
      exact absurd heq (write_read_some h hr hc hf hw hd hp _ _ _ _ _ _ _ (by decide))
    · rename_i x heq
      obtain ⟨_, _, evs, htr, _⟩ := write_read_frames h hr hc hf hw hd hp _ _ _ _ _ _ _
        (by decide) x heq
      split <;> exact ⟨_, _, _, rfl, bytes_length _ _, by decide, by decide, evs, htr⟩
  · simp only [ch9120_set_disconnect_with_no_rj45, if_neg hin2]
    split
    · rename_i heq
      exact absurd heq (write_check_some h hr hc hf hw hd hp _ _ _ _ _ (by decide))
    · rename_i x heq
      obtain ⟨_, _, evs, htr, _⟩ := write_check_frames h hr hc hf hw hd hp _ _ _ _ _
        (by decide) x heq
      split <;> exact ⟨_, _, _, rfl, bytes_length _ _, by decide, by decide, evs, htr⟩
  · simp only [ch9120_get_disconnect_with_no_rj45, if_neg hin2]
    split
    · rename_i heq
      exact absurd heq (write_read_some h hr hc hf hw hd hp _ _ _ _ _ _ _ (by decide))
    · rename_i x heq
      obtain ⟨_, _, evs, htr, _⟩ := write_read_frames h hr hc hf hw hd hp _ _ _ _ _ _ _
        (by decide) x heq
      split <;> exact ⟨_, _, _, rfl, bytes_length _ _, by decide, by decide, evs, htr⟩
  · simp only [ch9120_set_dhcp, if_neg hin2]
    split
    · rename_i heq
      exact absurd heq (write_check_some h hr hc hf hw hd hp _ _ _ _ _ (by decide))
    · rename_i x heq
      obtain ⟨_, _, evs, htr, _⟩ := write_check_frames h hr hc hf hw hd hp _ _ _ _ _
        (by decide) x heq
      split <;> exact ⟨_, _, _, rfl, bytes_length _ _, by decide, by decide, evs, htr⟩
  · simp only [ch9120_deinit, if_neg hin2]
    split
    · rename_i heq
      exact absurd heq (write_check_some h hr hc hf hw hd hp _ _ _ _ _ (by decide))
    · rename_i x heq
      obtain ⟨hfx, _, evs, htr, _⟩ := write_check_frames h hr hc hf hw hd hp _ _ _ _ _
        (by decide) x heq
      have e1 : x.2.1.delay_ms = some fd := by rw [hfx]; exact hd
      have e2 : x.2.1.debug_print = some fp := by rw [hfx]; exact hp
      have e3 : x.2.1.uart_deinit = some fud := by rw [hfx]; exact hud
      have e4 : x.2.1.reset_gpio_deinit = some frd := by rw [hfx]; exact hrd
      have e5 : x.2.1.cfg_gpio_deinit = some fcd := by rw [hfx]; exact hcd
      simp only [call_delay_ms, call_uart_deinit, call_reset_gpio_deinit,
        call_cfg_gpio_deinit, call_debug_print, e1, e2, e3, e4, e5]
      split_ifs <;>
        refine ⟨_, 1, bytes (ofList [CH9120_CMD_RESET]) 1, rfl, bytes_length _ _, by decide,
          by decide, ?_⟩ <;>
        simp only [htr, List.append_assoc] <;> exact ⟨_, rfl⟩
  · intro param len pre_delay timeout hlen
    obtain ⟨r, s1, evs, hwc, _, _, h4⟩ := write_check_returns h hr hc hf hw hd hp param len
      pre_delay timeout s hlen
    exact ⟨_, hwc, by simp only; omega⟩
  · intro param len out out_len pre_delay timeout hlen
    obtain ⟨r, o, s1, evs, hwr, _, _, h4⟩ := write_read_returns h hr hc hf hw hd hp param len
      out out_len pre_delay timeout s hlen
    exact ⟨_, hwr, by simp only; omega⟩
  · intro param len out out_len pre_delay timeout hlen
    have hwr : a_ch9120_write_read h param len out out_len pre_delay timeout s =
        some (2, h, out, ⟨fp "ch9120: len is invalid.\n" s.world,
          s.trace ++ [Event.debug_print "ch9120: len is invalid.\n"]⟩) := by
      simp only [a_ch9120_write_read, if_pos hlen, call_debug_print, hp]
    refine ⟨_, hwr, ?_, rfl⟩
    simp only [ch9120_set_command, if_neg hin2, hwr]
    simp

/-- Witness of C23: `ch9120_set_uart_timeout` on the test double, with a payload of five
bytes, and `ch9120_set_command` with a payload of 127 bytes. -/
theorem catalog_lengths_valid_witness :
    (∃ x n payload,
      ch9120_set_uart_timeout (some (scripted 0 0 1)) 20 ⟨[[0xAA]], []⟩ = some x ∧
      payload.length = n ∧ 1 ≤ n ∧ n ≤ 5 ∧
      ∃ rest, x.2.2.trace = [] ++ [Event.cfg_gpio_write 0, Event.uart_flush,
        Event.uart_write (0x57 :: 0xAB :: payload) (2 + n)] ++ rest) ∧
    (∃ s1, a_ch9120_write_read (scripted 0 0 1) (fun _ => 0) 127 (fun _ => 0) 1 50 1000
          ⟨[[0xAA]], []⟩ = some (2, scripted 0 0 1, fun _ => 0, s1) ∧
      ch9120_set_command (some (scripted 0 0 1)) (fun _ => 0) 127 (fun _ => 0) 1 50 1000
          ⟨[[0xAA]], []⟩ = some (1, some (scripted 0 0 1), fun _ => 0, s1) ∧
      s1.trace = [] ++ [Event.debug_print "ch9120: len is invalid.\n"]) :=
  ⟨(catalog_lengths_valid (scripted 0 0 1) rfl rfl ⟨[[0xAA]], []⟩ (fun _ => 0) 20 0 0).2.2.2.2.2.2.2.2.2.2.2.2.2.2.2.2.2.2.2.2.2.2.2.2.1,
    (catalog_lengths_valid (scripted 0 0 1) rfl rfl ⟨[[0xAA]], []⟩ (fun _ => 0) 20 0 0).2.2.2.2.2.2.2.2.2.2.2.2.2.2.2.2.2.2.2.2.2.2.2.2.2.2.2.2.2.2.2.2.2.2.2.2.2
      (fun _ => 0) 127 (fun _ => 0) 1 50 1000 (by decide)⟩

/-- C22 (fixed-command opcodes).  On a ready handle `ch9120_get_version`, `ch9120_reset`,
`ch9120_get_status`, `ch9120_save_to_eeprom`, `ch9120_config_and_reset` and `ch9120_exit`
each return after transmitting the 3-byte frame `57 AB op`, with `op` = `0x01`, `0x02`,
`0x03`, `0x0D`, `0x0E` and `0x5E` respectively, and make no other `uart_write` call.
`ch9120_get_version` and `ch9120_get_status` take a 1-byte response: when the platform
answers the command with one byte `v`, whatever its value, they return 0 and hand `v` to the
caller.  The other four take the acknowledgement: when the platform replies with one byte
`v` they return 0 if `v = 0xAA` and 1 otherwise. -/
theorem fixed_command_opcodes (h : Handle W) {fr fc ff fw fd fp}
    (hr : h.uart_read = some fr) (hc : h.cfg_gpio_write = some fc)
    (hf : h.uart_flush = some ff) (hw : h.uart_write = some fw)
    (hd : h.delay_ms = some fd) (hp : h.debug_print = some fp) (hin : h.inited = 1)
    (s : St W) (m : Nat → Nat) (a : Nat) :
    (∃ x rest, ch9120_get_version (some h) m s = some x ∧
      x.2.2.2.trace = s.trace ++ [Event.cfg_gpio_write 0, Event.uart_flush,
        Event.uart_write [0x57, 0xAB, 0x01] 3] ++ rest ∧ uartWrites rest = []) ∧
    (∀ v, answers fr fc ff fw fd h (ofList [0x01]) 1 1 CH9120_UART_PRE_DELAY 1000 s [v] →
      ∃ h1 o s1, ch9120_get_version (some h) m s = some (0, some h1, o, s1) ∧ o 0 = v) ∧
    (∃ x rest, ch9120_reset (some h) s = some x ∧
      x.2.2.trace = s.trace ++ [Event.cfg_gpio_write 0, Event.uart_flush,
        Event.uart_write [0x57, 0xAB, 0x02] 3] ++ rest ∧ uartWrites rest = []) ∧
    (∀ v, replies fr fc ff fw fd h (ofList [0x02]) 1 CH9120_UART_PRE_DELAY 1000 s v →
      ∃ h1 s1, ch9120_reset (some h) s = some (if v = 0xAA then 0 else 1, some h1, s1)) ∧
    (∃ x rest, ch9120_get_status (some h) a s = some x ∧
      x.2.2.2.trace = s.trace ++ [Event.cfg_gpio_write 0, Event.uart_flush,
        Event.uart_write [0x57, 0xAB, 0x03] 3] ++ rest ∧ uartWrites rest = []) ∧
    (∀ v, answers fr fc ff fw fd h (ofList [0x03]) 1 1 CH9120_UART_PRE_DELAY 1000 s [v] →
      ∃ h1 s1, ch9120_get_status (some h) a s = some (0, some h1, v, s1)) ∧
    (∃ x rest, ch9120_save_to_eeprom (some h) s = some x ∧
      x.2.2.trace = s.trace ++ [Event.cfg_gpio_write 0, Event.uart_flush,
        Event.uart_write [0x57, 0xAB, 0x0D] 3] ++ rest ∧ uartWrites rest = []) ∧
    (∀ v, replies fr fc ff fw fd h (ofList [0x0D]) 1 CH9120_UART_PRE_DELAY 1000 s v →
      ∃ h1 s1, ch9120_save_to_eeprom (some h) s = some (if v = 0xAA then 0 else 1, some h1, s1)) ∧
    (∃ x rest, ch9120_config_and_reset (some h) s = some x ∧
      x.2.2.trace = s.trace ++ [Event.cfg_gpio_write 0, Event.uart_flush,
        Event.uart_write [0x57, 0xAB, 0x0E] 3] ++ rest ∧ uartWrites rest = []) ∧
    (∀ v, replies fr fc ff fw fd h (ofList [0x0E]) 1 CH9120_UART_PRE_DELAY 1000 s v →
      ∃ h1 s1, ch9120_config_and_reset (some h) s = some (if v = 0xAA then 0 else 1, some h1, s1)) ∧
    (∃ x rest, ch9120_exit (some h) s = some x ∧
      x.2.2.trace = s.trace ++ [Event.cfg_gpio_write 0, Event.uart_flush,
        Event.uart_write [0x57, 0xAB, 0x5E] 3] ++ rest ∧ uartWrites rest = []) ∧
    (∀ v, replies fr fc ff fw fd h (ofList [0x5E]) 1 CH9120_UART_PRE_DELAY 1000 s v →
      ∃ h1 s1, ch9120_exit (some h) s = some (if v = 0xAA then 0 else 1, some h1, s1)) := by
  have hin2 : ¬ h.inited ≠ 1 := by omega
  refine ⟨?_, ?_, ?_, ?_, ?_, ?_, ?_, ?_, ?_, ?_, ?_, ?_⟩
  · simp only [ch9120_get_version, if_neg hin2]
    split
    · rename_i heq
      exact absurd heq (write_read_some h hr hc hf hw hd hp _ _ _ _ _ _ _ (by decide))
    · rename_i x heq
      obtain ⟨_, _, evs, htr, hpoll⟩ := write_read_frames h hr hc hf hw hd hp _ _ _ _ _ _ _
        (by decide) x heq
      split <;> exact ⟨_, evs, rfl, htr, uartWrites_polling evs hpoll⟩
  · intro v hans
    obtain ⟨o, s1, hwr, hb⟩ := write_read_answer h hr hc hf hw hd (ofList [0x01]) 1
      m 1 CH9120_UART_PRE_DELAY 1000 s [v] (by decide) (by decide) hans
    have e0 : o 0 = v := by
      have := congrArg (fun l => l.getD 0 0) hb
      simpa [bytes, List.range_succ] using this
    simp only [ch9120_get_version, if_neg hin2, CH9120_CMD_CHIP_VERSION, hwr, ne_eq, not_true_eq_false, if_false]
    exact ⟨_, _, _, rfl, e0⟩
  · simp only [ch9120_reset, if_neg hin2]
    split
    · rename_i heq
      exact absurd heq (write_check_some h hr hc hf hw hd hp _ _ _ _ _ (by decide))
    · rename_i x heq
      obtain ⟨hfx, _, evs, htr, hpoll⟩ := write_check_frames h hr hc hf hw hd hp _ _ _ _ _
        (by decide) x heq
      have htr2 : x.2.2.trace = s.trace ++ [Event.cfg_gpio_write 0, Event.uart_flush,
        Event.uart_write [0x57, 0xAB, 0x02] 3] ++ evs := htr
      have hdx : x.2.1.delay_ms = some fd := by rw [hfx]; exact hd
      simp only [call_delay_ms, hdx]
      split
      · exact ⟨_, evs, rfl, htr2, uartWrites_polling evs hpoll⟩
      · refine ⟨_, evs ++ [Event.delay_ms 1000], rfl, by simp only [htr2, List.append_assoc],
          uartWrites_polling _ ?_⟩
        intro e he
        rw [List.mem_append, List.mem_singleton] at he
        rcases he with he | rfl
        · exact hpoll e he
        · rfl
  · intro v hrep
    simp only [ch9120_reset, if_neg hin2]
    split
    · rename_i heq
      exact absurd heq (write_check_some h hr hc hf hw hd hp _ _ _ _ _ (by decide))
    · rename_i x heq
      obtain ⟨hst, hfx⟩ := write_check_reply h hr hc hf hw hd hp _ _ _ _ _ (by decide) v hrep
        x heq
      have hdx : x.2.1.delay_ms = some fd := by rw [hfx]; exact hd
      by_cases hv : v = 0xAA
      · have h0 : ¬ x.1 ≠ 0 := by rw [hst, if_pos hv]; simp
        rw [if_neg h0, if_pos hv]
        simp only [call_delay_ms, hdx]
        exact ⟨_, _, rfl⟩
      · have h1 : x.1 ≠ 0 := by rw [hst, if_neg hv]; simp
        rw [if_pos h1, if_neg hv]
        exact ⟨_, _, rfl⟩
  · simp only [ch9120_get_status, if_neg hin2]
    split
    · rename_i heq
      exact absurd heq (write_read_some h hr hc hf hw hd hp _ _ _ _ _ _ _ (by decide))
    · rename_i x heq
      obtain ⟨_, _, evs, htr, hpoll⟩ := write_read_frames h hr hc hf hw hd hp _ _ _ _ _ _ _
        (by decide) x heq
      split <;> exact ⟨_, evs, rfl, htr, uartWrites_polling evs hpoll⟩
  · intro v hans
    obtain ⟨o, s1, hwr, hb⟩ := write_read_answer h hr hc hf hw hd (ofList [0x03]) 1
      (fun _ => 0) 1 CH9120_UART_PRE_DELAY 1000 s [v] (by decide) (by decide) hans
    have e0 : o 0 = v := by
      have := congrArg (fun l => l.getD 0 0) hb
      simpa [bytes, List.range_succ] using this
    simp only [ch9120_get_status, if_neg hin2, CH9120_CMD_GET_STATUS, hwr, ne_eq, not_true_eq_false, if_false, e0]
    exact ⟨_, _, rfl⟩
  · simp only [ch9120_save_to_eeprom, if_neg hin2]
    split
    · rename_i heq
      exact absurd heq (write_check_some h hr hc hf hw hd hp _ _ _ _ _ (by decide))
    · rename_i x heq
      obtain ⟨_, _, evs, htr, hpoll⟩ := write_check_frames h hr hc hf hw hd hp _ _ _ _ _
        (by decide) x heq
      split <;> exact ⟨_, evs, rfl, htr, uartWrites_polling evs hpoll⟩
  · intro v hrep
    simp only [ch9120_save_to_eeprom, if_neg hin2]
    split
    · rename_i heq
      exact absurd heq (write_check_some h hr hc hf hw hd hp _ _ _ _ _ (by decide))
    · rename_i x heq
      obtain ⟨hst, hfx⟩ := write_check_reply h hr hc hf hw hd hp _ _ _ _ _ (by decide) v hrep
        x heq
      have hdx : x.2.1.delay_ms = some fd := by rw [hfx]; exact hd
      by_cases hv : v = 0xAA
      · have h0 : ¬ x.1 ≠ 0 := by rw [hst, if_pos hv]; simp
        rw [if_neg h0, if_pos hv]
        exact ⟨_, _, rfl⟩
      · have h1 : x.1 ≠ 0 := by rw [hst, if_neg hv]; simp
        rw [if_pos h1, if_neg hv]
        exact ⟨_, _, rfl⟩
  · simp only [ch9120_config_and_reset, if_neg hin2]
    split
    · rename_i heq
      exact absurd heq (write_check_some h hr hc hf hw hd hp _ _ _ _ _ (by decide))
    · rename_i x heq
      obtain ⟨hfx, _, evs, htr, hpoll⟩ := write_check_frames h hr hc hf hw hd hp _ _ _ _ _
        (by decide) x heq
      have htr2 : x.2.2.trace = s.trace ++ [Event.cfg_gpio_write 0, Event.uart_flush,
        Event.uart_write [0x57, 0xAB, 0x0E] 3] ++ evs := htr
      have hdx : x.2.1.delay_ms = some fd := by rw [hfx]; exact hd
      simp only [call_delay_ms, hdx]
      split
      · exact ⟨_, evs, rfl, htr2, uartWrites_polling evs hpoll⟩
      · refine ⟨_, evs ++ [Event.delay_ms 1000], rfl, by simp only [htr2, List.append_assoc],
          uartWrites_polling _ ?_⟩
        intro e he
        rw [List.mem_append, List.mem_singleton] at he
        rcases he with he | rfl
        · exact hpoll e he
        · rfl
  · intro v hrep
    simp only [ch9120_config_and_reset, if_neg hin2]
    split
    · rename_i heq
      exact absurd heq (write_check_some h hr hc hf hw hd hp _ _ _ _ _ (by decide))
    · rename_i x heq
      obtain ⟨hst, hfx⟩ := write_check_reply h hr hc hf hw hd hp _ _ _ _ _ (by decide) v hrep
        x heq
      have hdx : x.2.1.delay_ms = some fd := by rw [hfx]; exact hd
      by_cases hv : v = 0xAA
      · have h0 : ¬ x.1 ≠ 0 := by rw [hst, if_pos hv]; simp
        rw [if_neg h0, if_pos hv]
        simp only [call_delay_ms, hdx]
        exact ⟨_, _, rfl⟩
      · have h1 : x.1 ≠ 0 := by rw [hst, if_neg hv]; simp
        rw [if_pos h1, if_neg hv]
        exact ⟨_, _, rfl⟩
  · simp only [ch9120_exit, if_neg hin2]
    split
    · rename_i heq
      exact absurd heq (write_check_some h hr hc hf hw hd hp _ _ _ _ _ (by decide))
    · rename_i x heq
      obtain ⟨_, _, evs, htr, hpoll⟩ := write_check_frames h hr hc hf hw hd hp _ _ _ _ _
        (by decide) x heq
      split <;> exact ⟨_, evs, rfl, htr, uartWrites_polling evs hpoll⟩
  · intro v hrep
    simp only [ch9120_exit, if_neg hin2]
    split
    · rename_i heq
      exact absurd heq (write_check_some h hr hc hf hw hd hp _ _ _ _ _ (by decide))
    · rename_i x heq
      obtain ⟨hst, hfx⟩ := write_check_reply h hr hc hf hw hd hp _ _ _ _ _ (by decide) v hrep
        x heq
      have hdx : x.2.1.delay_ms = some fd := by rw [hfx]; exact hd
      by_cases hv : v = 0xAA
      · have h0 : ¬ x.1 ≠ 0 := by rw [hst, if_pos hv]; simp
        rw [if_neg h0, if_pos hv]
        exact ⟨_, _, rfl⟩
      · have h1 : x.1 ≠ 0 := by rw [hst, if_neg hv]; simp
        rw [if_pos h1, if_neg hv]
        exact ⟨_, _, rfl⟩

/-- Witness of C22: `ch9120_get_status` answered with the byte `0x01` on the second poll,
and `ch9120_save_to_eeprom` answered first with `0xAA`, then with `0x00`. -/
theorem fixed_command_opcodes_witness :
    (∃ h1 s1, ch9120_get_status (some (scripted 0 0 1)) 7 ⟨[[], [0x01]], []⟩ =
      some (0, some h1, 0x01, s1)) ∧
    (∃ h1 s1, ch9120_save_to_eeprom (some (scripted 0 0 1)) ⟨[[0xAA]], []⟩ =
      some (if 0xAA = 0xAA then 0 else 1, some h1, s1)) ∧
    (∃ h1 s1, ch9120_save_to_eeprom (some (scripted 0 0 1)) ⟨[[0x00]], []⟩ =
      some (if 0x00 = 0xAA then 0 else 1, some h1, s1)) :=
  ⟨(fixed_command_opcodes (scripted 0 0 1) rfl rfl rfl rfl rfl rfl rfl ⟨[[], [0x01]], []⟩
      (fun _ => 0) 7).2.2.2.2.2.1 0x01
      ⟨by decide, by decide, 1, by decide, by decide, by decide⟩,
    (fixed_command_opcodes (scripted 0 0 1) rfl rfl rfl rfl rfl rfl rfl ⟨[[0xAA]], []⟩
      (fun _ => 0) 7).2.2.2.2.2.2.2.1 0xAA
      ⟨by decide, 0, by decide, fun i hi => absurd hi (by omega), by decide⟩,
    (fixed_command_opcodes (scripted 0 0 1) rfl rfl rfl rfl rfl rfl rfl ⟨[[0x00]], []⟩
      (fun _ => 0) 7).2.2.2.2.2.2.2.1 0x00
      ⟨by decide, 0, by decide, fun i hi => absurd hi (by omega), by decide⟩⟩

/-- C25 (transport errors collapsed to 1).  Every function of the catalog and
`ch9120_set_command` returns only 0, 1, 2 or 3, whatever the handle.  On a ready handle,
whenever the transport call they make returns a non-zero status (2 for an invalid length, 1
for a failed write, 3 for a chip error or a write-read timeout, 4 for a write-check
timeout), they return 1, so a chip error and a timeout give the same result.  In
particular `ch9120_set_command` with a payload of more than 126 bytes, such as 127, returns
1 while write-read returns 2. -/
theorem transport_errors_collapse (handle : Option (Handle W)) (h : Handle W)
    (hin : h.inited = 1) (s : St W) (m : Nat → Nat) (a b c : Nat)
    (param out : Nat → Nat) (len out_len pre_delay timeout : Nat) :
    (∀ x, ch9120_get_version handle m s = some x →
      x.1 = 0 ∨ x.1 = 1 ∨ x.1 = 2 ∨ x.1 = 3) ∧
    (∀ x, ch9120_reset handle s = some x →
      x.1 = 0 ∨ x.1 = 1 ∨ x.1 = 2 ∨ x.1 = 3) ∧
    (∀ x, ch9120_get_status handle a s = some x →
      x.1 = 0 ∨ x.1 = 1 ∨ x.1 = 2 ∨ x.1 = 3) ∧
    (∀ x, ch9120_save_to_eeprom handle s = some x →
      x.1 = 0 ∨ x.1 = 1 ∨ x.1 = 2 ∨ x.1 = 3) ∧
    (∀ x, ch9120_config_and_reset handle s = some x →
      x.1 = 0 ∨ x.1 = 1 ∨ x.1 = 2 ∨ x.1 = 3) ∧
    (∀ x, ch9120_exit handle s = some x →
      x.1 = 0 ∨ x.1 = 1 ∨ x.1 = 2 ∨ x.1 = 3) ∧
    (∀ x, ch9120_set_mode handle a s = some x →
      x.1 = 0 ∨ x.1 = 1 ∨ x.1 = 2 ∨ x.1 = 3) ∧
    (∀ x, ch9120_get_mode handle a s = some x →
      x.1 = 0 ∨ x.1 = 1 ∨ x.1 = 2 ∨ x.1 = 3) ∧
    (∀ x, ch9120_set_ip handle m s = some x →
      x.1 = 0 ∨ x.1 = 1 ∨ x.1 = 2 ∨ x.1 = 3) ∧
    (∀ x, ch9120_get_ip handle m s = some x →
      x.1 = 0 ∨ x.1 = 1 ∨ x.1 = 2 ∨ x.1 = 3) ∧
    (∀ x, ch9120_set_subnet_mask handle m s = some x →
      x.1 = 0 ∨ x.1 = 1 ∨ x.1 = 2 ∨ x.1 = 3) ∧
    (∀ x, ch9120_get_subnet_mask handle m s = some x →
      x.1 = 0 ∨ x.1 = 1 ∨ x.1 = 2 ∨ x.1 = 3) ∧
    (∀ x, ch9120_set_gateway handle m s = some x →
      x.1 = 0 ∨ x.1 = 1 ∨ x.1 = 2 ∨ x.1 = 3) ∧
    (∀ x, ch9120_get_gateway handle m s = some x →
      x.1 = 0 ∨ x.1 = 1 ∨ x.1 = 2 ∨ x.1 = 3) ∧
    (∀ x, ch9120_set_source_port handle a s = some x →
      x.1 = 0 ∨ x.1 = 1 ∨ x.1 = 2 ∨ x.1 = 3) ∧
    (∀ x, ch9120_get_source_port handle a s = some x →
      x.1 = 0 ∨ x.1 = 1 ∨ x.1 = 2 ∨ x.1 = 3) ∧
    (∀ x, ch9120_set_dest_ip handle m s = some x →
      x.1 = 0 ∨ x.1 = 1 ∨ x.1 = 2 ∨ x.1 = 3) ∧
    (∀ x, ch9120_get_dest_ip handle m s = some x →
      x.1 = 0 ∨ x.1 = 1 ∨ x.1 = 2 ∨ x.1 = 3) ∧
    (∀ x, ch9120_set_dest_port handle a s = some x →
      x.1 = 0 ∨ x.1 = 1 ∨ x.1 = 2 ∨ x.1 = 3) ∧
    (∀ x, ch9120_get_dest_port handle a s = some x →
      x.1 = 0 ∨ x.1 = 1 ∨ x.1 = 2 ∨ x.1 = 3) ∧
    (∀ x, ch9120_set_uart_baud handle a s = some x →
      x.1 = 0 ∨ x.1 = 1 ∨ x.1 = 2 ∨ x.1 = 3) ∧
    (∀ x, ch9120_get_uart_baud handle a s = some x →
      x.1 = 0 ∨ x.1 = 1 ∨ x.1 = 2 ∨ x.1 = 3) ∧
    (∀ x, ch9120_set_uart_config handle a b c s = some x →
      x.1 = 0 ∨ x.1 = 1 ∨ x.1 = 2 ∨ x.1 = 3) ∧
    (∀ x, ch9120_get_uart_config handle a b c s = some x →
      x.1 = 0 ∨ x.1 = 1 ∨ x.1 = 2 ∨ x.1 = 3) ∧
    (∀ x, ch9120_set_uart_timeout handle a s = some x →
      x.1 = 0 ∨ x.1 = 1 ∨ x.1 = 2 ∨ x.1 = 3) ∧
    (∀ x, ch9120_get_uart_timeout handle m s = some x →
      x.1 = 0 ∨ x.1 = 1 ∨ x.1 = 2 ∨ x.1 = 3) ∧
    (∀ x, ch9120_set_source_port_random handle a s = some x →
      x.1 = 0 ∨ x.1 = 1 ∨ x.1 = 2 ∨ x.1 = 3) ∧
    (∀ x, ch9120_set_uart_buffer_length handle a s = some x →
      x.1 = 0 ∨ x.1 = 1 ∨ x.1 = 2 ∨ x.1 = 3) ∧
    (∀ x, ch9120_get_uart_buffer_length handle a s = some x →
      x.1 = 0 ∨ x.1 = 1 ∨ x.1 = 2 ∨ x.1 = 3) ∧
    (∀ x, ch9120_set_uart_flush handle a s = some x →
      x.1 = 0 ∨ x.1 = 1 ∨ x.1 = 2 ∨ x.1 = 3) ∧
    (∀ x, ch9120_get_uart_flush handle a s = some x →
      x.1 = 0 ∨ x.1 = 1 ∨ x.1 = 2 ∨ x.1 = 3) ∧
    (∀ x, ch9120_set_disconnect_with_no_rj45 handle a s = some x →
      x.1 = 0 ∨ x.1 = 1 ∨ x.1 = 2 ∨ x.1 = 3) ∧
    (∀ x, ch9120_get_disconnect_with_no_rj45 handle a s = some x →
      x.1 = 0 ∨ x.1 = 1 ∨ x.1 = 2 ∨ x.1 = 3) ∧
    (∀ x, ch9120_set_dhcp handle a s = some x →
      x.1 = 0 ∨ x.1 = 1 ∨ x.1 = 2 ∨ x.1 = 3) ∧
    (∀ x, ch9120_set_command handle param len out out_len pre_delay timeout s = some x →
      x.1 = 0 ∨ x.1 = 1 ∨ x.1 = 2 ∨ x.1 = 3) ∧
    (∀ y, a_ch9120_write_read h (ofList [CH9120_CMD_CHIP_VERSION]) 1 m 1 CH9120_UART_PRE_DELAY
        1000 s = some y →
      y.1 ≠ 0 → ∃ x, ch9120_get_version (some h) m s = some x ∧ x.1 = 1) ∧
    (∀ y, a_ch9120_write_check h (ofList [CH9120_CMD_RESET]) 1 CH9120_UART_PRE_DELAY 1000 s = some
        y →
      y.1 ≠ 0 → ∃ x, ch9120_reset (some h) s = some x ∧ x.1 = 1) ∧
    (∀ y, a_ch9120_write_read h (ofList [CH9120_CMD_GET_STATUS]) 1 (fun _ => 0) 1
        CH9120_UART_PRE_DELAY 1000 s = some y →
      y.1 ≠ 0 → ∃ x, ch9120_get_status (some h) a s = some x ∧ x.1 = 1) ∧
    (∀ y, a_ch9120_write_check h (ofList [CH9120_CMD_SAVE_TO_EEPROM]) 1 CH9120_UART_PRE_DELAY 1000
        s = some y →
      y.1 ≠ 0 → ∃ x, ch9120_save_to_eeprom (some h) s = some x ∧ x.1 = 1) ∧
    (∀ y, a_ch9120_write_check h (ofList [CH9120_CMD_RUN_AND_RESET]) 1 CH9120_UART_PRE_DELAY 1000
        s = some y →
      y.1 ≠ 0 → ∃ x, ch9120_config_and_reset (some h) s = some x ∧ x.1 = 1) ∧
    (∀ y, a_ch9120_write_check h (ofList [CH9120_CMD_EXIT]) 1 CH9120_UART_PRE_DELAY 1000 s = some
        y →
      y.1 ≠ 0 → ∃ x, ch9120_exit (some h) s = some x ∧ x.1 = 1) ∧
    (∀ y, a_ch9120_write_check h (ofList [CH9120_CMD_SET_MODE, a % 256]) 2 CH9120_UART_PRE_DELAY
        1000 s = some y →
      y.1 ≠ 0 → ∃ x, ch9120_set_mode (some h) a s = some x ∧ x.1 = 1) ∧
    (∀ y, a_ch9120_write_read h (ofList [CH9120_CMD_GET_MODE]) 1 (fun _ => 0) 1
        CH9120_UART_PRE_DELAY 1000 s = some y →
      y.1 ≠ 0 → ∃ x, ch9120_get_mode (some h) a s = some x ∧ x.1 = 1) ∧
    (∀ y, a_ch9120_write_check h (ofList [CH9120_CMD_SET_IP, m 0, m 1, m 2, m 3]) 5
        CH9120_UART_PRE_DELAY 1000 s = some y →
      y.1 ≠ 0 → ∃ x, ch9120_set_ip (some h) m s = some x ∧ x.1 = 1) ∧
    (∀ y, a_ch9120_write_read h (ofList [CH9120_CMD_GET_IP]) 1 m 4 CH9120_UART_PRE_DELAY 1000 s =
        some y →
      y.1 ≠ 0 → ∃ x, ch9120_get_ip (some h) m s = some x ∧ x.1 = 1) ∧
    (∀ y, a_ch9120_write_check h (ofList [CH9120_CMD_SET_NETMASK, m 0, m 1, m 2, m 3]) 5
        CH9120_UART_PRE_DELAY 1000 s = some y →
      y.1 ≠ 0 → ∃ x, ch9120_set_subnet_mask (some h) m s = some x ∧ x.1 = 1) ∧
    (∀ y, a_ch9120_write_read h (ofList [CH9120_CMD_GET_NETMASK]) 1 m 4 CH9120_UART_PRE_DELAY 1000
        s = some y →
      y.1 ≠ 0 → ∃ x, ch9120_get_subnet_mask (some h) m s = some x ∧ x.1 = 1) ∧
    (∀ y, a_ch9120_write_check h (ofList [CH9120_CMD_SET_GATEWAY, m 0, m 1, m 2, m 3]) 5
        CH9120_UART_PRE_DELAY 1000 s = some y →
      y.1 ≠ 0 → ∃ x, ch9120_set_gateway (some h) m s = some x ∧ x.1 = 1) ∧
    (∀ y, a_ch9120_write_read h (ofList [CH9120_CMD_GET_GATEWAY]) 1 m 4 CH9120_UART_PRE_DELAY 1000
        s = some y →
      y.1 ≠ 0 → ∃ x, ch9120_get_gateway (some h) m s = some x ∧ x.1 = 1) ∧
    (∀ y, a_ch9120_write_check h (ofList [CH9120_CMD_SET_PORT, (a >>> 0) &&& 0xFF, (a >>> 8) &&&
        0xFF]) 3 CH9120_UART_PRE_DELAY 1000 s = some y →
      y.1 ≠ 0 → ∃ x, ch9120_set_source_port (some h) a s = some x ∧ x.1 = 1) ∧
    (∀ y, a_ch9120_write_read h (ofList [CH9120_CMD_GET_PORT]) 1 (fun _ => 0) 2
        CH9120_UART_PRE_DELAY 1000 s = some y →
      y.1 ≠ 0 → ∃ x, ch9120_get_source_port (some h) a s = some x ∧ x.1 = 1) ∧
    (∀ y, a_ch9120_write_check h (ofList [CH9120_CMD_SET_DST_IP, m 0, m 1, m 2, m 3]) 5
        CH9120_UART_PRE_DELAY 1000 s = some y →
      y.1 ≠ 0 → ∃ x, ch9120_set_dest_ip (some h) m s = some x ∧ x.1 = 1) ∧
    (∀ y, a_ch9120_write_read h (ofList [CH9120_CMD_GET_DST_IP]) 1 m 4 CH9120_UART_PRE_DELAY 1000
        s = some y →
      y.1 ≠ 0 → ∃ x, ch9120_get_dest_ip (some h) m s = some x ∧ x.1 = 1) ∧
    (∀ y, a_ch9120_write_check h (ofList [CH9120_CMD_SET_DST_PORT, (a >>> 0) &&& 0xFF, (a >>> 8)
        &&& 0xFF]) 3 CH9120_UART_PRE_DELAY 1000 s = some y →
      y.1 ≠ 0 → ∃ x, ch9120_set_dest_port (some h) a s = some x ∧ x.1 = 1) ∧
    (∀ y, a_ch9120_write_read h (ofList [CH9120_CMD_GET_DST_PORT]) 1 (fun _ => 0) 2
        CH9120_UART_PRE_DELAY 1000 s = some y →
      y.1 ≠ 0 → ∃ x, ch9120_get_dest_port (some h) a s = some x ∧ x.1 = 1) ∧
    (∀ y, a_ch9120_write_check h (ofList [CH9120_CMD_SET_BAUD, (a >>> 0) &&& 0xFF, (a >>> 8) &&&
        0xFF, (a >>> 16) &&& 0xFF, (a >>> 24) &&& 0xFF]) 5 CH9120_UART_PRE_DELAY 1000 s = some y
        →
      y.1 ≠ 0 → ∃ x, ch9120_set_uart_baud (some h) a s = some x ∧ x.1 = 1) ∧
    (∀ y, a_ch9120_write_read h (ofList [CH9120_CMD_GET_BAUD]) 1 (fun _ => 0) 4
        CH9120_UART_PRE_DELAY 1000 s = some y →
      y.1 ≠ 0 → ∃ x, ch9120_get_uart_baud (some h) a s = some x ∧ x.1 = 1) ∧
    (∀ y, a_ch9120_write_check h (ofList [CH9120_CMD_SET_CONFIG, c, b % 256, a]) 4
        CH9120_UART_PRE_DELAY 1000 s = some y →
      y.1 ≠ 0 → ∃ x, ch9120_set_uart_config (some h) a b c s = some x ∧ x.1 = 1) ∧
    (∀ y, a_ch9120_write_read h (ofList [CH9120_CMD_GET_CONFIG]) 1 (fun _ => 0) 3
        CH9120_UART_PRE_DELAY 1000 s = some y →
      y.1 ≠ 0 → ∃ x, ch9120_get_uart_config (some h) a b c s = some x ∧ x.1 = 1) ∧
    (∀ y, a_ch9120_write_check h (ofList [CH9120_CMD_SET_TIMEOUT, a, 0x00, 0x00, 0x00]) 5
        CH9120_UART_PRE_DELAY 1000 s = some y →
      y.1 ≠ 0 → ∃ x, ch9120_set_uart_timeout (some h) a s = some x ∧ x.1 = 1) ∧
    (∀ y, a_ch9120_write_read h (ofList [CH9120_CMD_GET_TIMEOUT]) 1 m 1 CH9120_UART_PRE_DELAY 1000
        s = some y →
      y.1 ≠ 0 → ∃ x, ch9120_get_uart_timeout (some h) m s = some x ∧ x.1 = 1) ∧
    (∀ y, a_ch9120_write_check h (ofList [CH9120_CMD_RANDOM_PORT, a % 256]) 2
        CH9120_UART_PRE_DELAY 1000 s = some y →
      y.1 ≠ 0 → ∃ x, ch9120_set_source_port_random (some h) a s = some x ∧ x.1 = 1) ∧
    (∀ y, a_ch9120_write_check h (ofList [CH9120_CMD_SET_LEN, (a >>> 0) &&& 0xFF, (a >>> 8) &&&
        0xFF, (a >>> 16) &&& 0xFF, (a >>> 24) &&& 0xFF]) 5 CH9120_UART_PRE_DELAY 1000 s = some y
        →
      y.1 ≠ 0 → ∃ x, ch9120_set_uart_buffer_length (some h) a s = some x ∧ x.1 = 1) ∧
    (∀ y, a_ch9120_write_read h (ofList [CH9120_CMD_GET_LEN]) 1 (fun _ => 0) 4
        CH9120_UART_PRE_DELAY 1000 s = some y →
      y.1 ≠ 0 → ∃ x, ch9120_get_uart_buffer_length (some h) a s = some x ∧ x.1 = 1) ∧
    (∀ y, a_ch9120_write_check h (ofList [CH9120_CMD_SET_FLUSH, a % 256]) 2 CH9120_UART_PRE_DELAY
        1000 s = some y →
      y.1 ≠ 0 → ∃ x, ch9120_set_uart_flush (some h) a s = some x ∧ x.1 = 1) ∧
    (∀ y, a_ch9120_write_read h (ofList [CH9120_CMD_GET_FLUSH]) 1 (fun _ => 0) 1
        CH9120_UART_PRE_DELAY 1000 s = some y →
      y.1 ≠ 0 → ∃ x, ch9120_get_uart_flush (some h) a s = some x ∧ x.1 = 1) ∧
    (∀ y, a_ch9120_write_check h (ofList [CH9120_CMD_SET_DISCONNECT, a % 256]) 2
        CH9120_UART_PRE_DELAY 1000 s = some y →
      y.1 ≠ 0 → ∃ x, ch9120_set_disconnect_with_no_rj45 (some h) a s = some x ∧ x.1 = 1) ∧
    (∀ y, a_ch9120_write_read h (ofList [CH9120_CMD_GET_DISCONNECT]) 1 (fun _ => 0) 1
        CH9120_UART_PRE_DELAY 1000 s = some y →
      y.1 ≠ 0 → ∃ x, ch9120_get_disconnect_with_no_rj45 (some h) a s = some x ∧ x.1 = 1) ∧
    (∀ y, a_ch9120_write_check h (ofList [CH9120_CMD_DHCP, a % 256]) 2 CH9120_UART_PRE_DELAY 1000
        s = some y →
      y.1 ≠ 0 → ∃ x, ch9120_set_dhcp (some h) a s = some x ∧ x.1 = 1) ∧
    (∀ y, a_ch9120_write_read h param len out out_len pre_delay timeout s = some y →
      y.1 ≠ 0 →
      ∃ x, ch9120_set_command (some h) param len out out_len pre_delay timeout s = some x ∧
        x.1 = 1) ∧
    (∀ fp, h.debug_print = some fp → 126 < len →
      ∃ s1, a_ch9120_write_read h param len out out_len pre_delay timeout s =
          some (2, h, out, s1) ∧
        ch9120_set_command (some h) param len out out_len pre_delay timeout s =
          some (1, some h, out, s1)) := by
  have hin2 : ¬ h.inited ≠ 1 := by omega
  refine ⟨?_, ?_, ?_, ?_, ?_, ?_, ?_, ?_, ?_, ?_, ?_, ?_, ?_, ?_, ?_, ?_, ?_, ?_, ?_, ?_,
    ?_, ?_, ?_, ?_, ?_, ?_, ?_, ?_, ?_, ?_, ?_, ?_, ?_, ?_, ?_, ?_, ?_, ?_, ?_, ?_,
    ?_, ?_, ?_, ?_, ?_, ?_, ?_, ?_, ?_, ?_, ?_, ?_, ?_, ?_, ?_, ?_, ?_, ?_, ?_, ?_,
    ?_, ?_, ?_, ?_, ?_, ?_, ?_, ?_, ?_, ?_, ?_⟩
  · intro x hx
    simp only [ch9120_get_version] at hx
    repeat' split at hx
    all_goals (cases hx <;> simp)
  · intro x hx
    simp only [ch9120_reset] at hx
    repeat' split at hx
    all_goals (cases hx <;> simp)
  · intro x hx
    simp only [ch9120_get_status] at hx
    repeat' split at hx
    all_goals (cases hx <;> simp)
  · intro x hx
    simp only [ch9120_save_to_eeprom] at hx
    repeat' split at hx
    all_goals (cases hx <;> simp)
  · intro x hx
    simp only [ch9120_config_and_reset] at hx
    repeat' split at hx
    all_goals (cases hx <;> simp)
  · intro x hx
    simp only [ch9120_exit] at hx
    repeat' split at hx
    all_goals (cases hx <;> simp)
  · intro x hx
    simp only [ch9120_set_mode] at hx
    repeat' split at hx
    all_goals (cases hx <;> simp)
  · intro x hx
    simp only [ch9120_get_mode] at hx
    repeat' split at hx
    all_goals (cases hx <;> simp)
  · intro x hx
    simp only [ch9120_set_ip] at hx
    repeat' split at hx
    all_goals (cases hx <;> simp)
  · intro x hx
    simp only [ch9120_get_ip] at hx
    repeat' split at hx
    all_goals (cases hx <;> simp)
  · intro x hx
    simp only [ch9120_set_subnet_mask] at hx
    repeat' split at hx
    all_goals (cases hx <;> simp)
  · intro x hx
    simp only [ch9120_get_subnet_mask] at hx
    repeat' split at hx
    all_goals (cases hx <;> simp)
  · intro x hx
    simp only [ch9120_set_gateway] at hx
    repeat' split at hx
    all_goals (cases hx <;> simp)
  · intro x hx
    simp only [ch9120_get_gateway] at hx
    repeat' split at hx
    all_goals (cases hx <;> simp)
  · intro x hx
    simp only [ch9120_set_source_port] at hx
    repeat' split at hx
    all_goals (cases hx <;> simp)
  · intro x hx
    simp only [ch9120_get_source_port] at hx
    repeat' split at hx
    all_goals (cases hx <;> simp)
  · intro x hx
    simp only [ch9120_set_dest_ip] at hx
    repeat' split at hx
    all_goals (cases hx <;> simp)
  · intro x hx
    simp only [ch9120_get_dest_ip] at hx
    repeat' split at hx
    all_goals (cases hx <;> simp)
  · intro x hx
    simp only [ch9120_set_dest_port] at hx
    repeat' split at hx
    all_goals (cases hx <;> simp)
  · intro x hx
    simp only [ch9120_get_dest_port] at hx
    repeat' split at hx
    all_goals (cases hx <;> simp)
  · intro x hx
    simp only [ch9120_set_uart_baud] at hx
    repeat' split at hx
    all_goals (cases hx <;> simp)
  · intro x hx
    simp only [ch9120_get_uart_baud] at hx
    repeat' split at hx
    all_goals (cases hx <;> simp)
  · intro x hx
    simp only [ch9120_set_uart_config] at hx
    repeat' split at hx
    all_goals (cases hx <;> simp)
  · intro x hx
    simp only [ch9120_get_uart_config] at hx
    repeat' split at hx
    all_goals (cases hx <;> simp)
  · intro x hx
    simp only [ch9120_set_uart_timeout] at hx
    repeat' split at hx
    all_goals (cases hx <;> simp)
  · intro x hx
    simp only [ch9120_get_uart_timeout] at hx
    repeat' split at hx
    all_goals (cases hx <;> simp)
  · intro x hx
    simp only [ch9120_set_source_port_random] at hx
    repeat' split at hx
    all_goals (cases hx <;> simp)
  · intro x hx
    simp only [ch9120_set_uart_buffer_length] at hx
    repeat' split at hx
    all_goals (cases hx <;> simp)
  · intro x hx
    simp only [ch9120_get_uart_buffer_length] at hx
    repeat' split at hx
    all_goals (cases hx <;> simp)
  · intro x hx
    simp only [ch9120_set_uart_flush] at hx
    repeat' split at hx
    all_goals (cases hx <;> simp)
  · intro x hx
    simp only [ch9120_get_uart_flush] at hx
    repeat' split at hx
    all_goals (cases hx <;> simp)
  · intro x hx
    simp only [ch9120_set_disconnect_with_no_rj45] at hx
    repeat' split at hx
    all_goals (cases hx <;> simp)
  · intro x hx
    simp only [ch9120_get_disconnect_with_no_rj45] at hx
    repeat' split at hx
    all_goals (cases hx <;> simp)
  · intro x hx
    simp only [ch9120_set_dhcp] at hx
    repeat' split at hx
    all_goals (cases hx <;> simp)
  · intro x hx
    simp only [ch9120_set_command] at hx
    repeat' split at hx
    all_goals (cases hx <;> simp)
  · intro y hy hne
    simp only [ch9120_get_version, if_neg hin2, hy, if_pos hne]
    exact ⟨_, rfl, rfl⟩
  · intro y hy hne
    simp only [ch9120_reset, if_neg hin2, hy, if_pos hne]
    exact ⟨_, rfl, rfl⟩
  · intro y hy hne
    simp only [ch9120_get_status, if_neg hin2, hy, if_pos hne]
    exact ⟨_, rfl, rfl⟩
  · intro y hy hne
    simp only [ch9120_save_to_eeprom, if_neg hin2, hy, if_pos hne]
    exact ⟨_, rfl, rfl⟩
  · intro y hy hne
    simp only [ch9120_config_and_reset, if_neg hin2, hy, if_pos hne]
    exact ⟨_, rfl, rfl⟩
  · intro y hy hne
    simp only [ch9120_exit, if_neg hin2, hy, if_pos hne]
    exact ⟨_, rfl, rfl⟩
  · intro y hy hne
    simp only [ch9120_set_mode, if_neg hin2, hy, if_pos hne]
    exact ⟨_, rfl, rfl⟩
  · intro y hy hne
    simp only [ch9120_get_mode, if_neg hin2, hy, if_pos hne]
    exact ⟨_, rfl, rfl⟩
  · intro y hy hne
    simp only [ch9120_set_ip, if_neg hin2, hy, if_pos hne]
    exact ⟨_, rfl, rfl⟩
  · intro y hy hne
    simp only [ch9120_get_ip, if_neg hin2, hy, if_pos hne]
    exact ⟨_, rfl, rfl⟩
  · intro y hy hne
    simp only [ch9120_set_subnet_mask, if_neg hin2, hy, if_pos hne]
    exact ⟨_, rfl, rfl⟩
  · intro y hy hne
    simp only [ch9120_get_subnet_mask, if_neg hin2, hy, if_pos hne]
    exact ⟨_, rfl, rfl⟩
  · intro y hy hne
    simp only [ch9120_set_gateway, if_neg hin2, hy, if_pos hne]
    exact ⟨_, rfl, rfl⟩
  · intro y hy hne
    simp only [ch9120_get_gateway, if_neg hin2, hy, if_pos hne]
    exact ⟨_, rfl, rfl⟩
  · intro y hy hne
    simp only [ch9120_set_source_port, if_neg hin2, hy, if_pos hne]
    exact ⟨_, rfl, rfl⟩
  · intro y hy hne
    simp only [ch9120_get_source_port, if_neg hin2, hy, if_pos hne]
    exact ⟨_, rfl, rfl⟩
  · intro y hy hne
    simp only [ch9120_set_dest_ip, if_neg hin2, hy, if_pos hne]
    exact ⟨_, rfl, rfl⟩
  · intro y hy hne
    simp only [ch9120_get_dest_ip, if_neg hin2, hy, if_pos hne]
    exact ⟨_, rfl, rfl⟩
  · intro y hy hne
    simp only [ch9120_set_dest_port, if_neg hin2, hy, if_pos hne]
    exact ⟨_, rfl, rfl⟩
  · intro y hy hne
    simp only [ch9120_get_dest_port, if_neg hin2, hy, if_pos hne]
    exact ⟨_, rfl, rfl⟩
  · intro y hy hne
    simp only [ch9120_set_uart_baud, if_neg hin2, hy, if_pos hne]
    exact ⟨_, rfl, rfl⟩
  · intro y hy hne
    simp only [ch9120_get_uart_baud, if_neg hin2, hy, if_pos hne]
    exact ⟨_, rfl, rfl⟩
  · intro y hy hne
    simp only [ch9120_set_uart_config, if_neg hin2, hy, if_pos hne]
    exact ⟨_, rfl, rfl⟩
  · intro y hy hne
    simp only [ch9120_get_uart_config, if_neg hin2, hy, if_pos hne]
    exact ⟨_, rfl, rfl⟩
  · intro y hy hne
    simp only [ch9120_set_uart_timeout, if_neg hin2, hy, if_pos hne]
    exact ⟨_, rfl, rfl⟩
  · intro y hy hne
    simp only [ch9120_get_uart_timeout, if_neg hin2, hy, if_pos hne]
    exact ⟨_, rfl, rfl⟩
  · intro y hy hne
    simp only [ch9120_set_source_port_random, if_neg hin2, hy, if_pos hne]
    exact ⟨_, rfl, rfl⟩
  · intro y hy hne
    simp only [ch9120_set_uart_buffer_length, if_neg hin2, hy, if_pos hne]
    exact ⟨_, rfl, rfl⟩
  · intro y hy hne
    simp only [ch9120_get_uart_buffer_length, if_neg hin2, hy, if_pos hne]
    exact ⟨_, rfl, rfl⟩
  · intro y hy hne
    simp only [ch9120_set_uart_flush, if_neg hin2, hy, if_pos hne]
    exact ⟨_, rfl, rfl⟩
  · intro y hy hne
    simp only [ch9120_get_uart_flush, if_neg hin2, hy, if_pos hne]
    exact ⟨_, rfl, rfl⟩
  · intro y hy hne
    simp only [ch9120_set_disconnect_with_no_rj45, if_neg hin2, hy, if_pos hne]
    exact ⟨_, rfl, rfl⟩
  · intro y hy hne
    simp only [ch9120_get_disconnect_with_no_rj45, if_neg hin2, hy, if_pos hne]
    exact ⟨_, rfl, rfl⟩
  · intro y hy hne
    simp only [ch9120_set_dhcp, if_neg hin2, hy, if_pos hne]
    exact ⟨_, rfl, rfl⟩
  · intro y hy hne
    simp only [ch9120_set_command, if_neg hin2, hy, if_pos hne]
    exact ⟨_, rfl, rfl⟩
  · intro fp hp hlen
    have hwr : a_ch9120_write_read h param len out out_len pre_delay timeout s =
        some (2, h, out, ⟨fp "ch9120: len is invalid.\n" s.world,
          s.trace ++ [Event.debug_print "ch9120: len is invalid.\n"]⟩) := by
      simp only [a_ch9120_write_read, if_pos hlen, call_debug_print, hp]
    refine ⟨_, hwr, ?_⟩
    simp only [ch9120_set_command, if_neg hin2, hwr]
    simp

/-- Witness of C25: `ch9120_set_ip` when the chip replies `0x00` (transport status 3) and
when it never replies (transport status 4), and `ch9120_set_command` with a payload of 127
bytes. -/
theorem transport_errors_collapse_witness :
    (∃ x, ch9120_set_ip (some (scripted 0 0 1)) (fun _ => 1) ⟨[[0x00]], []⟩ = some x ∧
      x.1 = 1) ∧
    (∃ x, ch9120_set_ip (some (scripted 0 0 1)) (fun _ => 1) ⟨[], []⟩ = some x ∧ x.1 = 1) ∧
    (∃ s1, a_ch9120_write_read (scripted 0 0 1) (fun _ => 0) 127 (fun _ => 0) 1 50 1000
          ⟨[], []⟩ = some (2, scripted 0 0 1, fun _ => 0, s1) ∧
      ch9120_set_command (some (scripted 0 0 1)) (fun _ => 0) 127 (fun _ => 0) 1 50 1000
          ⟨[], []⟩ = some (1, some (scripted 0 0 1), fun _ => 0, s1)) :=
  ⟨(transport_errors_collapse none (scripted 0 0 1) rfl ⟨[[0x00]], []⟩ (fun _ => 1) 0 0 0
      (fun _ => 0) (fun _ => 0) 127 1 50 1000).2.2.2.2.2.2.2.2.2.2.2.2.2.2.2.2.2.2.2.2.2.2.2.2.2.2.2.2.2.2.2.2.2.2.2.2.2.2.2.2.2.2.2.1 _ rfl (by decide),
    (transport_errors_collapse none (scripted 0 0 1) rfl ⟨[], []⟩ (fun _ => 1) 0 0 0
      (fun _ => 0) (fun _ => 0) 127 1 50 1000).2.2.2.2.2.2.2.2.2.2.2.2.2.2.2.2.2.2.2.2.2.2.2.2.2.2.2.2.2.2.2.2.2.2.2.2.2.2.2.2.2.2.2.1 _ rfl (by decide),
    (transport_errors_collapse none (scripted 0 0 1) rfl ⟨[], []⟩ (fun _ => 0) 0 0 0
      (fun _ => 0) (fun _ => 0) 127 1 50 1000).2.2.2.2.2.2.2.2.2.2.2.2.2.2.2.2.2.2.2.2.2.2.2.2.2.2.2.2.2.2.2.2.2.2.2.2.2.2.2.2.2.2.2.2.2.2.2.2.2.2.2.2.2.2.2.2.2.2.2.2.2.2.2.2.2.2.2.2.2.2 _ rfl (by decide)⟩

/-! ## Lemmas on the statuses of `cfg_gpio_write` and `uart_flush` -/

theorem reporting_buf (rc : Nat → W → Nat) (rf : W → Nat) (h : Handle W) (b : Nat → Nat) :
    ({ reporting rc rf h with buf := b } : Handle W) = reporting rc rf { h with buf := b } :=
  rfl

theorem reporting_read (rc : Nat → W → Nat) (rf : W → Nat) (h : Handle W) (off len : Nat)
    (s : St W) : call_uart_read (reporting rc rf h) off len s = call_uart_read h off len s :=
  rfl

theorem reporting_write (rc : Nat → W → Nat) (rf : W → Nat) (h : Handle W) (b : Nat → Nat)
    (len : Nat) (s : St W) :
    call_uart_write (reporting rc rf h) b len s = call_uart_write h b len s :=
  rfl

theorem reporting_delay (rc : Nat → W → Nat) (rf : W → Nat) (h : Handle W) (ms : Nat)
    (s : St W) : call_delay_ms (reporting rc rf h) ms s = call_delay_ms h ms s :=
  rfl

theorem reporting_print (rc : Nat → W → Nat) (rf : W → Nat) (h : Handle W) (msg : String)
    (s : St W) : call_debug_print (reporting rc rf h) msg s = call_debug_print h msg s :=
  rfl

theorem reporting_cfg (rc : Nat → W → Nat) (rf : W → Nat) (h : Handle W) (level : Nat)
    (s : St W) :
    call_cfg_gpio_write (reporting rc rf h) level s =
      (call_cfg_gpio_write h level s).map fun r => (rc level s.world, r.2) := by
  simp only [call_cfg_gpio_write, reporting]
  cases h.cfg_gpio_write <;> rfl

theorem reporting_flush (rc : Nat → W → Nat) (rf : W → Nat) (h : Handle W) (s : St W) :
    call_uart_flush (reporting rc rf h) s =
      (call_uart_flush h s).map fun r => (rf s.world, r.2) := by
  simp only [call_uart_flush, reporting]
  cases h.uart_flush <;> rfl

/-- The poll loop of write-check does not depend on what `cfg_gpio_write` reports. -/
theorem write_check_poll_reporting (rc : Nat → W → Nat) (rf : W → Nat) (h : Handle W)
    (t : Nat) (s : St W) :
    write_check_poll (reporting rc rf h) t s = write_check_poll h t s := by
  induction t generalizing s with
  | zero =>
    simp only [write_check_poll, reporting_print, reporting_cfg]
    cases call_debug_print h "ch9120: timeout.\n" s with
    | none => rfl
    | some s1 =>
      simp only
      cases call_cfg_gpio_write h 1 s1 <;> rfl
  | succ t ih =>
    simp only [write_check_poll, reporting_read, reporting_print, reporting_cfg,
      reporting_delay, ih]
    cases call_uart_read h 0 1 s with
    | none => rfl
    | some rd =>
      simp only
      split
      · split
        · cases call_cfg_gpio_write h 1 rd.2 <;> rfl
        · cases call_debug_print h "ch9120: error.\n" rd.2 with
          | none => rfl
          | some s1 =>
            simp only
            cases call_cfg_gpio_write h 1 s1 <;> rfl
      · rfl

/-- The poll loop of write-read does not depend on what `cfg_gpio_write` reports. -/
theorem write_read_poll_reporting (rc : Nat → W → Nat) (rf : W → Nat) (h : Handle W)
    (out_len t point : Nat) (out : Nat → Nat) (s : St W) :
    write_read_poll (reporting rc rf h) out_len t point out s =
      write_read_poll h out_len t point out s := by
  induction t generalizing s point out with
  | zero =>
    simp only [write_read_poll, reporting_print, reporting_cfg]
    cases call_debug_print h "ch9120: timeout.\n" s with
    | none => rfl
    | some s1 =>
      simp only
      cases call_cfg_gpio_write h 1 s1 <;> rfl
  | succ t ih =>
    simp only [write_read_poll, reporting_read, reporting_cfg, reporting_delay, ih]
    cases call_uart_read h point (sub16 out_len point) s with
    | none => rfl
    | some rd =>
      simp only
      cases call_cfg_gpio_write h 1 rd.2 <;> rfl

theorem reporting_inner (rc : Nat → W → Nat) (rf : W → Nat) (h : Handle W) :
    (reporting rc rf h).buf = h.buf :=
  rfl

theorem frame_buf_eq (buf param : Nat → Nat) (len : Nat) :
    memcpy (store (store buf 0 0x57) 1 0xAB) 2 param len = frame_buf buf param len :=
  rfl

theorem framed_eq (h : Handle W) (param : Nat → Nat) (len : Nat) :
    ({ h with buf := frame_buf h.buf param len } : Handle W) = framed h param len :=
  rfl

/-- Write-check on a handle whose `cfg_gpio_write` and `uart_flush` report other statuses:
same status, same state, and the handle it was given. -/
theorem write_check_reporting (rc : Nat → W → Nat) (rf : W → Nat) (h : Handle W)
    (param : Nat → Nat) (len pre_delay timeout : Nat) (s : St W) :
    a_ch9120_write_check (reporting rc rf h) param len pre_delay timeout s =
      (a_ch9120_write_check h param len pre_delay timeout s).map
        fun x => (x.1, reporting rc rf x.2.1, x.2.2) := by
  simp only [a_ch9120_write_check, reporting_buf, reporting_read, reporting_write,
    reporting_print, reporting_cfg, reporting_flush, reporting_delay,
    write_check_poll_reporting, reporting_inner, frame_buf_eq, framed_eq]
  generalize framed h param len = h1
  generalize frame_buf h.buf param len = fb
  split
  · cases call_debug_print h "ch9120: len is invalid.\n" s <;> rfl
  · cases call_cfg_gpio_write h1 0 s with
    | none => rfl
    | some r1 =>
      simp only [Option.map_some']
      cases call_uart_flush h1 r1.2 with
      | none => rfl
      | some r2 =>
        simp only [Option.map_some']
        cases call_uart_write h1 fb (2 + len) r2.2 with
        | none => rfl
        | some r3 =>
          simp only
          by_cases hst : r3.1 ≠ 0
          · simp only [if_pos hst]
            cases call_debug_print h1 "ch9120: write failed.\n" r3.2 with
            | none => rfl
            | some s4 =>
              simp only
              cases call_cfg_gpio_write h1 1 s4 <;> rfl
          · simp only [if_neg hst]
            cases (if pre_delay ≠ 0 then call_delay_ms h1 pre_delay r3.2 else some r3.2) with
            | none => rfl
            | some s4 =>
              simp only
              cases write_check_poll h1 (timeout / 10) s4 <;> rfl

/-- Write-read on a handle whose `cfg_gpio_write` and `uart_flush` report other statuses:
same status, same destination memory, same state, and the handle it was given. -/
theorem write_read_reporting (rc : Nat → W → Nat) (rf : W → Nat) (h : Handle W)
    (param : Nat → Nat) (len : Nat) (out : Nat → Nat) (out_len pre_delay timeout : Nat)
    (s : St W) :
    a_ch9120_write_read (reporting rc rf h) param len out out_len pre_delay timeout s =
      (a_ch9120_write_read h param len out out_len pre_delay timeout s).map
        fun x => (x.1, reporting rc rf x.2.1, x.2.2.1, x.2.2.2) := by
  simp only [a_ch9120_write_read, reporting_buf, reporting_read, reporting_write,
    reporting_print, reporting_cfg, reporting_flush, reporting_delay,
    write_read_poll_reporting, reporting_inner, frame_buf_eq, framed_eq]
  generalize framed h param len = h1
  generalize frame_buf h.buf param len = fb
  split
  · cases call_debug_print h "ch9120: len is invalid.\n" s <;> rfl
  · cases call_cfg_gpio_write h1 0 s with
    | none => rfl
    | some r1 =>
      simp only [Option.map_some']
      cases call_uart_flush h1 r1.2 with
      | none => rfl
      | some r2 =>
        simp only [Option.map_some']
        cases call_uart_write h1 fb (2 + len) r2.2 with
        | none => rfl
        | some r3 =>
          simp only
          by_cases hst : r3.1 ≠ 0
          · simp only [if_pos hst]
            cases call_debug_print h1 "ch9120: write failed.\n" r3.2 with
            | none => rfl
            | some s4 =>
              simp only
              cases call_cfg_gpio_write h1 1 s4 <;> rfl
          · simp only [if_neg hst]
            cases (if pre_delay ≠ 0 then call_delay_ms h1 pre_delay r3.2 else some r3.2) with
            | none => rfl
            | some s4 =>
              simp only
              cases write_read_poll h1 out_len (timeout / 10) 0 out s4 <;> rfl

/-- A poll loop of write-check that is entered with a non-zero counter starts with a
one-byte `uart_read`. -/
theorem write_check_poll_first (h : Handle W) {fr fc fd fp}
    (hr : h.uart_read = some fr) (hc : h.cfg_gpio_write = some fc)
    (hd : h.delay_ms = some fd) (hp : h.debug_print = some fp) (t : Nat) (s : St W) :
    ∃ r s1 rest, write_check_poll h (t + 1) s = some (r, s1) ∧
      s1.trace = s.trace ++ Event.uart_read 0 1 :: rest := by
  simp only [write_check_poll, call_uart_read, hr]
  split
  · split
    · simp only [call_cfg_gpio_write, hc]
      exact ⟨_, _, [Event.cfg_gpio_write 1], rfl, by simp⟩
    · simp only [call_debug_print, call_cfg_gpio_write, hc, hp]
      exact ⟨_, _, [Event.debug_print "ch9120: error.\n", Event.cfg_gpio_write 1], rfl,
        by simp⟩
  · simp only [call_delay_ms, hd]
    obtain ⟨r, s1, evs, h1, h2, _, _⟩ := write_check_poll_calls h hr hc hd hp t
      ⟨fd 10 (fr 1 s.world).2, s.trace ++ [Event.uart_read 0 1] ++ [Event.delay_ms 10]⟩
    exact ⟨r, s1, Event.delay_ms 10 :: evs, h1, by simp [h2]⟩

/-- A poll loop of write-read that is entered with a non-zero counter starts with a
`uart_read` for what is left of the response. -/
theorem write_read_poll_first (h : Handle W) {fr fc fd fp}
    (hr : h.uart_read = some fr) (hc : h.cfg_gpio_write = some fc)
    (hd : h.delay_ms = some fd) (hp : h.debug_print = some fp) (out_len t point : Nat)
    (out : Nat → Nat) (s : St W) :
    ∃ r o s1 rest, write_read_poll h out_len (t + 1) point out s = some (r, o, s1) ∧
      s1.trace = s.trace ++ Event.uart_read point (sub16 out_len point) :: rest := by
  simp only [write_read_poll, call_uart_read, hr]
  by_cases hdone : (fr (sub16 out_len point) s.world).1.length ≠ 0 ∧
      (if (fr (sub16 out_len point) s.world).1.length ≠ 0 then
        (point + (fr (sub16 out_len point) s.world).1.length) % 65536 else point) ≥ out_len
  · rw [if_pos hdone]
    simp only [call_cfg_gpio_write, hc]
    exact ⟨_, _, _, [Event.cfg_gpio_write 1], rfl, by simp⟩
  · rw [if_neg hdone]
    simp only [call_delay_ms, hd]
    obtain ⟨r, o, s1, evs, h1, h2, _, _⟩ := write_read_poll_calls h hr hc hd hp out_len t _ _
      ⟨fd 10 (fr (sub16 out_len point) s.world).2,
        s.trace ++ [Event.uart_read point (sub16 out_len point)] ++ [Event.delay_ms 10]⟩
    exact ⟨r, o, s1, Event.delay_ms 10 :: evs, h1, by simp [h2]⟩

/-! ## The claim on the statuses of `cfg_gpio_write` and `uart_flush` -/

/-- C30 (the transport ignores GPIO and flush failures).  Let `cfg_gpio_write` and
`uart_flush` act on the platform as they do but report arbitrary statuses `rc` and `rf`,
failure included.  Write-check and write-read then return the same status and leave the
same state, hence make the same calls with the same frame, as when every such call reports
success.  On a linked handle with `len ≤ 126`, when `uart_write` succeeds and
`timeout ≥ 10`, the frame is written and the first poll is made whatever
`cfg_gpio_write(0)` reported.  The data plane differs: when `cfg_gpio_write(1)` reports a
failure on a ready handle, `ch9120_write` and `ch9120_read` return 1 after printing a
message, without any `uart_write` or `uart_read`. -/
theorem transport_ignores_gpio_status (h : Handle W) (rc : Nat → W → Nat) (rf : W → Nat)
    (param : Nat → Nat) (len : Nat) (out : Nat → Nat) (out_len pre_delay timeout : Nat)
    (buf : Nat → Nat) (n : Nat) (s : St W) :
    ((a_ch9120_write_check (reporting rc rf h) param len pre_delay timeout s).map
        (fun x => (x.1, x.2.2)) =
      (a_ch9120_write_check h param len pre_delay timeout s).map (fun x => (x.1, x.2.2))) ∧
    ((a_ch9120_write_read (reporting rc rf h) param len out out_len pre_delay timeout s).map
        (fun x => (x.1, x.2.2.1, x.2.2.2)) =
      (a_ch9120_write_read h param len out out_len pre_delay timeout s).map
        (fun x => (x.1, x.2.2.1, x.2.2.2))) ∧
    (∀ fr fc ff fw fd fp, h.uart_read = some fr → h.cfg_gpio_write = some fc →
      h.uart_flush = some ff → h.uart_write = some fw → h.delay_ms = some fd →
      h.debug_print = some fp → len ≤ 126 →
      (fw (0x57 :: 0xAB :: bytes param len) (2 + len) (ff (fc 0 s.world).2).2).1 = 0 →
      10 ≤ timeout →
      (∃ x rest, a_ch9120_write_check (reporting rc rf h) param len pre_delay timeout s =
          some x ∧
        x.2.2.trace = s.trace ++ [Event.cfg_gpio_write 0, Event.uart_flush,
            Event.uart_write (0x57 :: 0xAB :: bytes param len) (2 + len)] ++
          (if pre_delay ≠ 0 then [Event.delay_ms pre_delay] else []) ++
          Event.uart_read 0 1 :: rest) ∧
      (∃ x rest,
        a_ch9120_write_read (reporting rc rf h) param len out out_len pre_delay timeout s =
          some x ∧
        x.2.2.2.trace = s.trace ++ [Event.cfg_gpio_write 0, Event.uart_flush,
            Event.uart_write (0x57 :: 0xAB :: bytes param len) (2 + len)] ++
          (if pre_delay ≠ 0 then [Event.delay_ms pre_delay] else []) ++
          Event.uart_read 0 (sub16 out_len 0) :: rest)) ∧
    (∀ fc fp, h.cfg_gpio_write = some fc → h.debug_print = some fp → h.inited = 1 →
      rc 1 s.world ≠ 0 →
      (∃ s1, ch9120_write (some (reporting rc rf h)) buf n s =
          some (1, some (reporting rc rf h), s1) ∧
        s1.trace = s.trace ++ [Event.cfg_gpio_write 1,
          Event.debug_print "ch9120: cfg gpio write failed.\n"]) ∧
      (∃ s1, ch9120_read (some (reporting rc rf h)) buf n s =
          some (1, some (reporting rc rf h), buf, n, s1) ∧
        s1.trace = s.trace ++ [Event.cfg_gpio_write 1,
          Event.debug_print "ch9120: cfg gpio write failed.\n"])) := by
  refine ⟨?_, ?_, ?_, ?_⟩
  · rw [write_check_reporting, Option.map_map]
    rfl
  · rw [write_read_reporting, Option.map_map]
    rfl
  · intro fr fc ff fw fd fp hr hc hf hw hd hp hlen hok hto
    have hst : (sent fc ff fw h param len s).1 = 0 := by rw [sent_status]; exact hok
    obtain ⟨t, ht⟩ : ∃ t, timeout / 10 = t + 1 := ⟨timeout / 10 - 1, by omega⟩
    constructor
    · rw [write_check_reporting,
        write_check_write_ok h hc hf hw hd param len pre_delay timeout s hlen hst, ht]
      obtain ⟨r, s1, rest, h1, h2⟩ := write_check_poll_first (framed h param len) hr hc hd hp
        t (settled fd pre_delay (sent fc ff fw h param len s).2)
      rw [h1]
      refine ⟨_, rest, rfl, ?_⟩
      simp only [h2, settled_trace, sent_trace, List.append_assoc]
    · rw [write_read_reporting,
        write_read_write_ok h hc hf hw hd param len out out_len pre_delay timeout s hlen hst,
        ht]
      obtain ⟨r, o, s1, rest, h1, h2⟩ := write_read_poll_first (framed h param len) hr hc hd
        hp out_len t 0 out (settled fd pre_delay (sent fc ff fw h param len s).2)
      rw [h1]
      refine ⟨_, rest, rfl, ?_⟩
      simp only [h2, settled_trace, sent_trace, List.append_assoc]
  · intro fc fp hc hp hin hfail
    have hin2 : ¬ (reporting rc rf h).inited ≠ 1 := by
      show ¬ h.inited ≠ 1
      omega
    have hc2 : (reporting rc rf h).cfg_gpio_write =
        some (fun level w => (rc level w, (fc level w).2)) := by
      simp [reporting, hc]
    have hp2 : (reporting rc rf h).debug_print = some fp := hp
    constructor
    · simp only [ch9120_write, if_neg hin2, call_cfg_gpio_write, call_debug_print, hc2, hp2,
        if_pos hfail]
      exact ⟨_, rfl, by simp⟩
    · simp only [ch9120_read, if_neg hin2, call_cfg_gpio_write, call_debug_print, hc2, hp2,
        if_pos hfail]
      exact ⟨_, rfl, by simp⟩

/-- Witness of C30: the test double with every `cfg_gpio_write` and `uart_flush` reporting 1.
The reset command is still written and acknowledged, while `ch9120_write` and `ch9120_read`
give up with status 1. -/
theorem transport_ignores_gpio_status_witness :
    ((∃ x rest, a_ch9120_write_check (reporting (fun _ _ => 1) (fun _ => 1) (scripted 0 0 1))
          (ofList [0x02]) 1 50 1000 ⟨[[0xAA]], []⟩ = some x ∧
        x.2.2.trace = [] ++ [Event.cfg_gpio_write 0, Event.uart_flush,
            Event.uart_write (0x57 :: 0xAB :: bytes (ofList [0x02]) 1) (2 + 1)] ++
          (if 50 ≠ 0 then [Event.delay_ms 50] else []) ++
          Event.uart_read 0 1 :: rest) ∧
      (∃ x rest, a_ch9120_write_read (reporting (fun _ _ => 1) (fun _ => 1) (scripted 0 0 1))
          (ofList [0x02]) 1 (fun _ => 0) 1 50 1000 ⟨[[0xAA]], []⟩ = some x ∧
        x.2.2.2.trace = [] ++ [Event.cfg_gpio_write 0, Event.uart_flush,
            Event.uart_write (0x57 :: 0xAB :: bytes (ofList [0x02]) 1) (2 + 1)] ++
          (if 50 ≠ 0 then [Event.delay_ms 50] else []) ++
          Event.uart_read 0 (sub16 1 0) :: rest)) ∧
    ((∃ s1, ch9120_write (some (reporting (fun _ _ => 1) (fun _ => 1) (scripted 0 0 1)))
          (fun _ => 7) 4 ⟨[[0xAA]], []⟩ =
        some (1, some (reporting (fun _ _ => 1) (fun _ => 1) (scripted 0 0 1)), s1) ∧
        s1.trace = [] ++ [Event.cfg_gpio_write 1,
          Event.debug_print "ch9120: cfg gpio write failed.\n"]) ∧
      (∃ s1, ch9120_read (some (reporting (fun _ _ => 1) (fun _ => 1) (scripted 0 0 1)))
          (fun _ => 7) 4 ⟨[[0xAA]], []⟩ =
        some (1, some (reporting (fun _ _ => 1) (fun _ => 1) (scripted 0 0 1)), fun _ => 7, 4,
          s1) ∧
        s1.trace = [] ++ [Event.cfg_gpio_write 1,
          Event.debug_print "ch9120: cfg gpio write failed.\n"])) :=
  ⟨(transport_ignores_gpio_status (scripted 0 0 1) (fun _ _ => 1) (fun _ => 1) (ofList [0x02])
      1 (fun _ => 0) 1 50 1000 (fun _ => 7) 4 ⟨[[0xAA]], []⟩).2.2.1 _ _ _ _ _ _ rfl rfl rfl rfl
      rfl rfl (by decide) rfl (by decide),
    (transport_ignores_gpio_status (scripted 0 0 1) (fun _ _ => 1) (fun _ => 1) (ofList [0x02])
      1 (fun _ => 0) 1 50 1000 (fun _ => 7) 4 ⟨[[0xAA]], []⟩).2.2.2 _ _ rfl rfl rfl
      (by decide)⟩

end CH9120
